import Mathlib

/-!
# Closed-form surface kernels of `MathCwfs.cc`

A shallow embedding of the five operations of `src/src/MathCwfs.cc`
(`zernikeAnnularEval`, `zernikeAnnularJacobian`, `zernikeAnnularGrad`, `poly10_2D`,
`poly10Grad`) and statements about them.

Conventions of the embedding.

* `double` is idealised: every formula is written over an arbitrary type `α` with the
  arithmetic operations, and the functions of `<cmath>` that the code calls are passed as a
  record `CMath α`, so the definitions are executable (for instance over `ℚ`).  The theorems
  are stated at `α = ℝ` with `realMath` (exact real arithmetic).  Division by zero and the
  square root of a negative number follow Mathlib (`x / 0 = 0`, `Real.sqrt x = 0` for
  `x < 0`); statements that depend on a denominator being non-zero carry the range of `e`.
  Where the rounding or the overflow of `double` matters the same definitions are run in
  `Dbl`, a model of IEEE 754 binary64, and to follow the reads of a coefficient pointer they
  are run in `Checked α`, where a read outside the buffer leaves a mark.
* A function of the source is split the way the source text is: the block of constants that
  depend on the obscuration only, and the body of each per-sample loop.  The array-level
  function threads the buffers through these.
* A coefficient pointer (`double *Z`, `double *c`) is a function `ℕ → α`; at array level a
  read outside the buffer is reported as `CwfsError.outOfBounds`.
-/

set_option linter.unusedVariables false
set_option maxRecDepth 100000

namespace MathCwfs

/-- The functions of `<cmath>` called by the source. `atan2` takes `y` first. -/
structure CMath (α : Type) where
  sqrt : α → α
  sin : α → α
  cos : α → α
  atan2 : α → α → α

/-- The `<cmath>` functions in exact real arithmetic: `atan2 y x` is the argument of
`x + y i` in `(-π, π]`, with `atan2 0 0 = 0`. -/
noncomputable def realMath : CMath ℝ where
  sqrt := Real.sqrt
  sin := Real.sin
  cos := Real.cos
  atan2 := fun y x => Complex.arg ⟨x, y⟩

/-- A NumPy array as seen through `py::array::request()`: the number of dimensions and the
flat buffer of elements. -/
structure PyArray (α : Type) where
  ndim : ℕ
  data : List α

/-- The `struct ArrayNpInfo` of the source: element count and the buffer. -/
structure ArrayNpInfo (α : Type) where
  size : ℕ
  buf : List α

/-- Ways in which a call can fail to produce an array. -/
inductive CwfsError where
  /-- The `std::runtime_error` thrown by `getNpArrayInfo`. -/
  | runtimeError (msg : String)
  /-- An access outside a buffer (undefined behaviour in the source). -/
  | outOfBounds
  deriving DecidableEq

/-- The function `getNpArrayInfo`: rejects arrays whose number of dimensions is not one. -/
def getNpArrayInfo {α : Type} (arrayNp : PyArray α) : Except CwfsError (ArrayNpInfo α) :=
  if arrayNp.ndim ≠ 1 then
    .error (.runtimeError "Number of dimensions must be one.")
  else
    .ok { size := arrayNp.data.length, buf := arrayNp.data }

/-- The read `buf[ii]` of a sample buffer. -/
def readBuf {α : Type} (info : ArrayNpInfo α) (ii : ℕ) : Except CwfsError α :=
  match info.buf[ii]? with
  | some v => .ok v
  | none => .error .outOfBounds

/-- The coefficient pointer of a loop body that reads the indices `0 .. cnt - 1`. -/
def coeffView {α : Type} [Zero α] (info : ArrayNpInfo α) (cnt : ℕ) :
    Except CwfsError (ℕ → α) :=
  if cnt ≤ info.size then .ok (fun k => info.buf.getD k 0) else .error .outOfBounds

/-- The loop `for (size_t ii = 0; ii < n; ii++)` with `n = infoX.size`: reads `x[ii]` and
`y[ii]`, runs the body and stores its value in slot `ii` of the result. -/
def pointLoop {α : Type} (infoX infoY : ArrayNpInfo α)
    (body : α → α → Except CwfsError α) : Except CwfsError (List α) :=
  (List.range infoX.size).mapM (fun ii => do
    let x_c ← readBuf infoX ii
    let y_c ← readBuf infoY ii
    body x_c y_c)

/-! The arithmetic of `double` used by the formulas: the four operations, negation, integer
literals and powers with a natural exponent. -/
variable {α : Type} [Add α] [Sub α] [Mul α] [Div α] [Neg α] [Zero α] [One α] [NatCast α]
  [Pow α ℕ]

/-- Constants of `zernikeAnnularEval` that depend on the obscuration only (computed once per
call). -/
structure EvalConst (α : Type) where
  e2 : α
  e4 : α
  e6 : α
  e8 : α
  e10 : α
  e12 : α
  e14 : α
  sqrt_3 : α
  sqrt_5 : α
  sqrt_6 : α
  sqrt_7 : α
  sqrt_8 : α
  sqrt_10 : α
  sqrt_12 : α
  sqrt_14 : α
  den1 : α
  den2 : α
  den3 : α
  den4 : α
  den5 : α
  den6 : α
  den7 : α
  num7 : α
  den8 : α
  den9 : α
  num9E : α
  den10 : α
  num10E : α
  den11 : α
  den12 : α
  num11a : α
  num11b : α
  num11c : α
  den13 : α
  num12 : α
  den14 : α
  num13 : α

/-- The block "Parameters of constant" of `zernikeAnnularEval`. -/
def zernikeAnnularEvalConst (m : CMath α) (e : α) : EvalConst α :=
  let e2 := e ^ (2 : ℕ)
  let e4 := e2 * e2
  let e6 := e4 * e2
  let e8 := e6 * e2
  let e10 := e8 * e2
  let e12 := e10 * e2
  let e14 := e12 * e2
  let sqrt_3 := m.sqrt (3)
  let sqrt_5 := m.sqrt (5)
  let sqrt_6 := m.sqrt (6)
  let sqrt_7 := m.sqrt (7)
  let sqrt_8 := m.sqrt (8)
  let sqrt_10 := m.sqrt (10)
  let sqrt_12 := m.sqrt (12)
  let sqrt_14 := m.sqrt (14)
  let den1 := m.sqrt (1 + e2)
  let den2 := 1 - e2
  let den3 := m.sqrt (1 + e2 + e4)
  let den4 := m.sqrt ((1 - e2) ^ (2 : ℕ) * (1 + e2) * (1 + 4 * e2 + e4))
  let den5 := m.sqrt (1 + e2 + e4 + e6)
  let den6 := (1 - e2) ^ (2 : ℕ)
  let den7 := (1 - e2) ^ (3 : ℕ) * (1 + e2 + e4)
  let num7 := m.sqrt ((1 - e2) ^ (4 : ℕ) * (1 + e2 + e4) / (1 + 4 * e2 + 10 * e4 + 4 * e6 + e8))
  let den8 := m.sqrt (1 + e2 + e4 + e6 + e8)
  let den9 := (1 - e2) ^ (3 : ℕ) * (1 + 4 * e2 + e4)
  let num9E := m.sqrt ((1 - e2) ^ (2 : ℕ) * (1 + 4 * e2 + e4) / (1 + 9 * e2 + 9 * e4 + e6))
  let den10 := (1 - e2) ^ (4 : ℕ) * (1 + e2) * (1 + e4)
  let num10E := m.sqrt ((1 - e2) ^ (6 : ℕ) * (1 + e2) * (1 + e4) / (1 + 4 * e2 + 10 * e4 + 20 *
      e6 + 10 * e8 + 4 * e10 + e12))
  let den11 := m.sqrt (1 + e2 + e4 + e6 + e8 + e10)
  let den12 := (1 - e2) ^ (3 : ℕ)
  let num11a := 15 * (1 + 4 * e2 + 10 * e4 + 4 * e6 + e8)
  let num11b := -20 * (1 + 4 * e2 + 10 * e4 + 10 * e6 + 4 * e8 + e10)
  let num11c := 6 * (1 + 4 * e2 + 10 * e4 + 20 * e6 + 10 * e8 + 4 * e10 + e12)
  let den13 := (1 - e2) ^ (2 : ℕ) * m.sqrt ((1 + 4 * e2 + 10 * e4 + 4 * e6 + e8) * (1 + 9 * e2 +
      45 * e4 + 65 * e6 + 45 * e8 + 9 * e10 + e12))
  let num12 := -5 * (1 - e12) / (1 - e10)
  let den14 := m.sqrt (1 / (1 - e2) * (36 * (1 - e14) - (35 * (1 - e12) ^ (2 : ℕ)) / (1 - e10)))
  let num13 := m.sqrt ((1 - e2) / (1 - e14))
  { e2 := e2, e4 := e4, e6 := e6, e8 := e8, e10 := e10, e12 := e12, e14 := e14, sqrt_3 :=
      sqrt_3, sqrt_5 := sqrt_5, sqrt_6 := sqrt_6, sqrt_7 := sqrt_7, sqrt_8 := sqrt_8, sqrt_10 :=
      sqrt_10, sqrt_12 := sqrt_12, sqrt_14 := sqrt_14, den1 := den1, den2 := den2, den3 := den3,
      den4 := den4, den5 := den5, den6 := den6, den7 := den7, num7 := num7, den8 := den8, den9
      := den9, num9E := num9E, den10 := den10, num10E := num10E, den11 := den11, den12 := den12,
      num11a := num11a, num11b := num11b, num11c := num11c, den13 := den13, num12 := num12,
      den14 := den14, num13 := num13 }

/-- One iteration of the loop of `zernikeAnnularEval`: the value written to `S[ii]` for the
sample `(x_c, y_c)`. -/
def zernikeAnnularEvalPoint (m : CMath α) (k : EvalConst α) (Z : ℕ → α) (x_c y_c : α) : α :=
  let r2 := x_c ^ (2 : ℕ) + y_c ^ (2 : ℕ)
  let r := m.sqrt (r2)
  let r3 := r2 * r
  let r4 := r2 * r2
  let r5 := r3 * r2
  let r6 := r3 * r3
  let t := m.atan2 y_c x_c
  let s := m.sin (t)
  let c := m.cos (t)
  let t2 := 2 * t
  let t3 := 3 * t
  let t4 := 4 * t
  let t5 := 5 * t
  let t6 := 6 * t
  let s2 := m.sin (t2)
  let c2 := m.cos (t2)
  let s3 := m.sin (t3)
  let c3 := m.cos (t3)
  let s4 := m.sin (t4)
  let c4 := m.cos (t4)
  let s5 := m.sin (t5)
  let c5 := m.cos (t5)
  let s6 := m.sin (t6)
  let c6 := m.cos (t6)
  let temp := Z 0 * (1 + 0 * x_c)
  let Rnl := 2 * r / k.den1
  let temp := temp + Z 1 * Rnl * c
  let temp := temp + Z 2 * Rnl * s
  let temp := temp + Z 3 * k.sqrt_3 * (2 * r2 - 1 - k.e2) / k.den2
  let Rnl := k.sqrt_6 * r2 / k.den3
  let temp := temp + Z 4 * Rnl * s2
  let temp := temp + Z 5 * Rnl * c2
  let Rnl := k.sqrt_8 * (3 * r3 - 2 * r - 2 * k.e4 * r + k.e2 * r * (3 * r2 - 2)) / k.den4
  let temp := temp + Z 6 * Rnl * s
  let temp := temp + Z 7 * Rnl * c
  let Rnl := k.sqrt_8 * r3 / k.den5
  let temp := temp + Z 8 * Rnl * s3
  let temp := temp + Z 9 * Rnl * c3
  let temp := temp + Z 10 * k.sqrt_5 * (6 * r4 - 6 * r2 + 1 + k.e4 + k.e2 * (4 - 6 * r2)) /
      k.den6
  let Rnl := k.sqrt_10 * (4 * r4 - 3 * r2 - 3 * k.e6 * r2 - k.e2 * r2 * (3 - 4 * r2) - k.e4 * r2
      * (3 - 4 * r2)) * k.num7 / k.den7
  let temp := temp + Z 11 * Rnl * c2
  let temp := temp + Z 12 * Rnl * s2
  let Rnl := k.sqrt_10 * r4 / k.den8
  let temp := temp + Z 13 * Rnl * c4
  let temp := temp + Z 14 * Rnl * s4
  let numQ := 10 * r5 - 12 * r3 + 3 * r + 3 * k.e8 * r - 12 * k.e6 * r * (r2 - 1) + 2 * k.e4 * r
      * (15 - 24 * r2 + 5 * r4) + 4 * k.e2 * r * (3 - 12 * r2 + 10 * r4)
  let Rnl := k.sqrt_12 * k.num9E * numQ / k.den9
  let temp := temp + Z 15 * Rnl * c
  let temp := temp + Z 16 * Rnl * s
  let numQ := r3 * (5 * r2 - 4 - 4 * k.e8 - k.e2 * (4 - 5 * r2) - k.e4 * (4 - 5 * r2) - k.e6 *
      (4 - 5 * r2))
  let Rnl := k.sqrt_12 * k.num10E * numQ / k.den10
  let temp := temp + Z 17 * Rnl * c3
  let temp := temp + Z 18 * Rnl * s3
  let Rnl := k.sqrt_12 * r5 / k.den11
  let temp := temp + Z 19 * Rnl * c5
  let temp := temp + Z 20 * Rnl * s5
  let temp := temp + Z 21 * k.sqrt_7 * (20 * r6 - 30 * r4 + 12 * r2 - 1 - k.e6 + 3 * k.e4 * (-3
      + 4 * r2) - 3 * k.e2 * (3 - 12 * r2 + 10 * r4)) / k.den12
  let Rnl := k.sqrt_14 * (k.num11a * r6 + k.num11b * r4 + k.num11c * r2) / k.den13
  let temp := temp + Z 22 * Rnl * s2
  let temp := temp + Z 23 * Rnl * c2
  let Rnl := k.sqrt_14 * (6 * r6 + k.num12 * r4) / k.den14
  let temp := temp + Z 24 * Rnl * s4
  let temp := temp + Z 25 * Rnl * c4
  let Rnl := k.sqrt_14 * k.num13 * r6
  let temp := temp + Z 26 * Rnl * s6
  let temp := temp + Z 27 * Rnl * c6
  temp

/-- Constants of `zernikeAnnularJacobian` that depend on the obscuration only. -/
structure JacobianConst (α : Type) where
  e2 : α
  e4 : α
  e6 : α
  e8 : α
  e10 : α
  e12 : α
  e14 : α
  e16 : α
  sqrt_3 : α
  sqrt_5 : α
  sqrt_6 : α
  sqrt_7 : α
  sqrt_8 : α
  sqrt_10 : α
  sqrt_12 : α
  den1 : α
  den2 : α
  den3 : α
  den4 : α
  num4 : α
  den5 : α
  num5 : α
  den6 : α
  num6 : α
  den7 : α
  den2_2 : α
  den2_3 : α
  den2_4 : α
  den2_5 : α
  den2_6 : α
  num2_6 : α
  den2_7 : α
  den2_8 : α
  num2_8 : α
  den2_9 : α
  num2_9 : α
  den2_10 : α
  den2_11 : α

/-- The block "Parameters of constant" of `zernikeAnnularJacobian` (first and second order). -/
def zernikeAnnularJacobianConst (m : CMath α) (e : α) : JacobianConst α :=
  let e2 := e ^ (2 : ℕ)
  let e4 := e2 * e2
  let e6 := e4 * e2
  let e8 := e6 * e2
  let e10 := e8 * e2
  let e12 := e10 * e2
  let e14 := e12 * e2
  let e16 := e14 * e2
  let sqrt_3 := m.sqrt (3)
  let sqrt_5 := m.sqrt (5)
  let sqrt_6 := m.sqrt (6)
  let sqrt_7 := m.sqrt (7)
  let sqrt_8 := m.sqrt (8)
  let sqrt_10 := m.sqrt (10)
  let sqrt_12 := m.sqrt (12)
  let den1 := 1 - e2
  let den2 := m.sqrt ((1 - e2) ^ (2 : ℕ) * (1 + e2) * (1 + 4 * e2 + e4))
  let den3 := (1 - e2) ^ (2 : ℕ)
  let den4 := (1 - e2) ^ (3 : ℕ) * (1 + e2 + e4)
  let num4 := m.sqrt ((1 - e2) ^ (4 : ℕ) * (1 + e2 + e4) / (1 + 4 * e2 + 10 * e4 + 4 * e6 + e8))
  let den5 := (1 - e2) ^ (3 : ℕ) * (1 + 4 * e2 + e4)
  let num5 := m.sqrt ((1 - e2) ^ (2 : ℕ) * (1 + 4 * e2 + e4) / (1 + 9 * e2 + 9 * e4 + e6))
  let den6 := (1 - e2) ^ (4 : ℕ) * (1 + e2) * (1 + e4)
  let num6 := m.sqrt ((1 - e2) ^ (6 : ℕ) * (1 + e2) * (1 + e4) / (1 + 4 * e2 + 10 * e4 + 20 * e6
      + 10 * e8 + 4 * e10 + e12))
  let den7 := (1 - e2) ^ (3 : ℕ)
  let den2_2 := (1 + e2 + e4)
  let den2_3 := (1 - e2) ^ (2 : ℕ) * (1 + e2) * (1 + 4 * e2 + e4)
  let den2_4 := (1 + e2 + e4 + e6)
  let den2_5 := (1 - e2) ^ (4 : ℕ)
  let den2_6 := (1 - e2) ^ (6 : ℕ) * (1 + e2 + e4) ^ (2 : ℕ)
  let num2_6 := ((1 - e2) ^ (4 : ℕ) * (1 + e2 + e4) / (1 + 4 * e2 + 10 * e4 + 4 * e6 + e8))
  let den2_7 := (1 + e2 + e4 + e6 + e8)
  let den2_8 := (1 - e2) ^ (6 : ℕ) * (1 + 4 * e2 + e4) ^ (2 : ℕ)
  let num2_8 := (1 - e2) ^ (2 : ℕ) * (1 + 4 * e2 + e4) / (1 + 9 * e2 + 9 * e4 + e6)
  let den2_9 := (1 - e2) ^ (8 : ℕ) * (1 + e2) ^ (2 : ℕ) * (1 + e4) ^ (2 : ℕ)
  let num2_9 := (1 - e2) ^ (6 : ℕ) * (1 + e2) * (1 + e4) / (1 + 4 * e2 + 10 * e4 + 20 * e6 + 10
      * e8 + 4 * e10 + e12)
  let den2_10 := (1 + e2 + e4 + e6 + e8 + e10)
  let den2_11 := (1 - e2) ^ (6 : ℕ)
  { e2 := e2, e4 := e4, e6 := e6, e8 := e8, e10 := e10, e12 := e12, e14 := e14, e16 := e16,
      sqrt_3 := sqrt_3, sqrt_5 := sqrt_5, sqrt_6 := sqrt_6, sqrt_7 := sqrt_7, sqrt_8 := sqrt_8,
      sqrt_10 := sqrt_10, sqrt_12 := sqrt_12, den1 := den1, den2 := den2, den3 := den3, den4 :=
      den4, num4 := num4, den5 := den5, num5 := num5, den6 := den6, num6 := num6, den7 := den7,
      den2_2 := den2_2, den2_3 := den2_3, den2_4 := den2_4, den2_5 := den2_5, den2_6 := den2_6,
      num2_6 := num2_6, den2_7 := den2_7, den2_8 := den2_8, num2_8 := num2_8, den2_9 := den2_9,
      num2_9 := num2_9, den2_10 := den2_10, den2_11 := den2_11 }

/-- One iteration of the loop of `zernikeAnnularJacobian` in the branch `atype == "1st"`. -/
def zernikeAnnularJacobian_1st (k : JacobianConst α) (Z : ℕ → α) (x_c y_c : α) : α :=
  let x2 := x_c * x_c
  let y2 := y_c * y_c
  let xy := x_c * y_c
  let r2 := x2 + y2
  let x4 := x2 * x2
  let y4 := y2 * y2
  let temp := Z 0 * 0 * x_c
  let temp := temp + Z 1 * 0
  let temp := temp + Z 2 * 0
  let temp := temp + Z 3 * k.sqrt_3 * 8 / k.den1
  let temp := temp + Z 4 * k.sqrt_6 * 0
  let temp := temp + Z 5 * k.sqrt_6 * 0
  let temp := temp + Z 6 * k.sqrt_8 * 24 * y_c * (1 + k.e2) / k.den2
  let temp := temp + Z 7 * k.sqrt_8 * 24 * x_c * (1 + k.e2) / k.den2
  let temp := temp + Z 8 * k.sqrt_8 * 0
  let temp := temp + Z 9 * k.sqrt_8 * 0
  let temp := temp + Z 10 * k.sqrt_5 * (96 * r2 - 24 * (1 + k.e2)) / k.den3
  let temp := temp + Z 11 * k.sqrt_10 * 48 * (x2 - y2) * (1 + k.e2 + k.e4) * k.num4 / k.den4
  let temp := temp + Z 12 * k.sqrt_10 * 96 * xy * (1 + k.e2 + k.e4) * k.num4 / k.den4
  let temp := temp + Z 13 * k.sqrt_10 * 0
  let temp := temp + Z 14 * k.sqrt_10 * 0
  let temp := temp + Z 15 * k.sqrt_12 * 48 * x_c * (5 * r2 * (1 + 4 * k.e2 + k.e4) - 2 * (1 + 4
      * k.e2 + 4 * k.e4 + k.e6)) * k.num5 / k.den5
  let temp := temp + Z 16 * k.sqrt_12 * 48 * y_c * (5 * r2 * (1 + 4 * k.e2 + k.e4) - 2 * (1 + 4
      * k.e2 + 4 * k.e4 + k.e6)) * k.num5 / k.den5
  let temp := temp + Z 17 * k.sqrt_12 * 80 * x_c * (x2 - 3 * y2) * (1 + k.e2) * (1 + k.e4) *
      k.num6 / k.den6
  let temp := temp + Z 18 * k.sqrt_12 * 80 * y_c * (3 * x2 - y2) * (1 + k.e2) * (1 + k.e4) *
      k.num6 / k.den6
  let temp := temp + Z 19 * k.sqrt_12 * 0
  let temp := temp + Z 20 * k.sqrt_12 * 0
  let temp := temp + Z 21 * k.sqrt_7 * 48 * (k.e4 - 10 * k.e2 * x2 - 10 * k.e2 * y2 + 3 * k.e2 +
      15 * x4 + 30 * x2 * y2 - 10 * x2 + 15 * y4 - 10 * y2 + 1) / k.den7
  temp

/-- One iteration of the loop of `zernikeAnnularJacobian` in the branch `atype == "2nd"`. -/
def zernikeAnnularJacobian_2nd (k : JacobianConst α) (Z : ℕ → α) (x_c y_c : α) : α :=
  let x2 := x_c * x_c
  let y2 := y_c * y_c
  let xy := x_c * y_c
  let r2 := x2 + y2
  let x4 := x2 * x2
  let x6 := x4 * x2
  let y4 := y2 * y2
  let y6 := y4 * y2
  let temp := Z 0 ^ (2 : ℕ) * 0 * x_c
  let temp := temp + Z 1 ^ (2 : ℕ) * 0
  let temp := temp + Z 2 ^ (2 : ℕ) * 0
  let temp := temp + Z 3 ^ (2 : ℕ) * (3) * 16 / k.den1 / k.den1
  let temp := temp + Z 4 ^ (2 : ℕ) * (6) * (-4) / k.den2_2
  let temp := temp + Z 5 ^ (2 : ℕ) * (6) * (-4) / k.den2_2
  let temp := temp + Z 6 ^ (2 : ℕ) * (8) * (108 * y2 - 36 * x2) * (1 + k.e2) / k.den2_3
  let temp := temp + Z 7 ^ (2 : ℕ) * (8) * (108 * x2 - 36 * y2) * (1 + k.e2) / k.den2_3
  let temp := temp + Z 8 ^ (2 : ℕ) * (8) * (-36 * r2) / k.den2_4
  let temp := temp + Z 9 ^ (2 : ℕ) * (8) * (-36 * r2) / k.den2_4
  let temp := temp + Z 10 ^ (2 : ℕ) * (5) * 144 * (1 + k.e2 - 2 * r2) * (1 + k.e2 - 6 * r2) /
      k.den2_5
  let temp := temp + Z 11 ^ (2 : ℕ) * (10) * 36 * (8 * (1 + k.e2 + k.e4) * x2 - 1 - k.e2 - k.e4
      - k.e6) * (1 + k.e2 + k.e4 + k.e6 - 8 * (1 + k.e2 + k.e4) * y2) * k.num2_6 / k.den2_6
  let temp := temp + Z 12 ^ (2 : ℕ) * (10) * 36 * (-4 * (x_c - y_c) ^ (2 : ℕ) * (k.e4 + k.e2 +
      1) + 1 + k.e2 + k.e4 + k.e6) * (4 * (x_c + y_c) ^ (2 : ℕ) * (k.e4 + k.e2 + 1) - 1 - k.e2 -
      k.e4 - k.e6) * k.num2_6 / k.den2_6
  let temp := temp + Z 13 ^ (2 : ℕ) * (10) * (-144) * r2 ^ (2 : ℕ) / k.den2_7
  let temp := temp + Z 14 ^ (2 : ℕ) * (10) * (-144) * r2 ^ (2 : ℕ) / k.den2_7
  let temp := temp + Z 15 ^ (2 : ℕ) * (12) * 64 * ((3 * k.e6 - 5 * k.e4 * r2 + 12 * k.e4 - 20 *
      k.e2 * r2 + 12 * k.e2 - 5 * r2 + 3) * (9 * k.e6 * x2 - 3 * k.e6 * y2 - 25 * k.e4 * x4 - 20
      * k.e4 * x2 * y2 + 36 * k.e4 * x2 + 5 * k.e4 * y4 - 12 * k.e4 * y2 - 100 * k.e2 * x4 - 80
      * k.e2 * x2 * y2 + 36 * k.e2 * x2 + 20 * k.e2 * y4 - 12 * k.e2 * y2 - 25 * x4 - 20 * x2 *
      y2 + 9 * x2 + 5 * y4 - 3 * y2)) * k.num2_8 / k.den2_8
  let temp := temp + Z 16 ^ (2 : ℕ) * (12) * 64 * (-(3 * k.e6 - 5 * k.e4 * r2 + 12 * k.e4 - 20 *
      k.e2 * r2 + 12 * k.e2 - 5 * r2 + 3) * (3 * k.e6 * x2 - 9 * k.e6 * y2 - 5 * k.e4 * x4 + 20
      * k.e4 * x2 * y2 + 12 * k.e4 * x2 + 25 * k.e4 * y4 - 36 * k.e4 * y2 - 20 * k.e2 * x4 + 80
      * k.e2 * x2 * y2 + 12 * k.e2 * x2 + 100 * k.e2 * y4 - 36 * k.e2 * y2 - 5 * x4 + 20 * x2 *
      y2 + 3 * x2 + 25 * y4 - 9 * y2)) * k.num2_8 / k.den2_8
  let temp := temp + Z 17 ^ (2 : ℕ) * (12) * 16 * (-36 * k.e16 * x2 - 36 * k.e16 * y2 + 180 *
      k.e14 * x4 + 360 * k.e14 * x2 * y2 - 72 * k.e14 * x2 + 180 * k.e14 * y4 - 72 * k.e14 * y2
      - 125 * k.e12 * x6 - 1275 * k.e12 * x4 * y2 + 360 * k.e12 * x4 + 225 * k.e12 * x2 * y4 +
      720 * k.e12 * x2 * y2 - 108 * k.e12 * x2 - 225 * k.e12 * y6 + 360 * k.e12 * y4 - 108 *
      k.e12 * y2 - 250 * k.e10 * x6 - 2550 * k.e10 * x4 * y2 + 540 * k.e10 * x4 + 450 * k.e10 *
      x2 * y4 + 1080 * k.e10 * x2 * y2 - 144 * k.e10 * x2 - 450 * k.e10 * y6 + 540 * k.e10 * y4
      - 144 * k.e10 * y2 - 375 * k.e8 * x6 - 3825 * k.e8 * x4 * y2 + 720 * k.e8 * x4 + 675 *
      k.e8 * x2 * y4 + 1440 * k.e8 * x2 * y2 - 180 * k.e8 * x2 - 675 * k.e8 * y6 + 720 * k.e8 *
      y4 - 180 * k.e8 * y2 - 500 * k.e6 * x6 - 5100 * k.e6 * x4 * y2 + 720 * k.e6 * x4 + 900 *
      k.e6 * x2 * y4 + 1440 * k.e6 * x2 * y2 - 144 * k.e6 * x2 - 900 * k.e6 * y6 + 720 * k.e6 *
      y4 - 144 * k.e6 * y2 - 375 * k.e4 * x6 - 3825 * k.e4 * x4 * y2 + 540 * k.e4 * x4 + 675 *
      k.e4 * x2 * y4 + 1080 * k.e4 * x2 * y2 - 108 * k.e4 * x2 - 675 * k.e4 * y6 + 540 * k.e4 *
      y4 - 108 * k.e4 * y2 - 250 * k.e2 * x6 - 2550 * k.e2 * x4 * y2 + 360 * k.e2 * x4 + 450 *
      k.e2 * x2 * y4 + 720 * k.e2 * x2 * y2 - 72 * k.e2 * x2 - 450 * k.e2 * y6 + 360 * k.e2 * y4
      - 72 * k.e2 * y2 - 125 * x6 - 1275 * x4 * y2 + 180 * x4 + 225 * x2 * y4 + 360 * x2 * y2 -
      36 * x2 - 225 * y6 + 180 * y4 - 36 * y2) * k.num2_9 / k.den2_9
  let temp := temp + Z 18 ^ (2 : ℕ) * (12) * 16 * ((-225 * k.e12 - 450 * k.e10 - 675 * k.e8 -
      900 * k.e6 - 675 * k.e4 - 450 * k.e2 - 225) * x6 + (180 * k.e14 + 225 * k.e12 * y2 + 360 *
      k.e12 + 450 * k.e10 * y2 + 540 * k.e10 + 675 * k.e8 * y2 + 720 * k.e8 + 900 * k.e6 * y2 +
      720 * k.e6 + 675 * k.e4 * y2 + 540 * k.e4 + 450 * k.e2 * y2 + 360 * k.e2 + 225 * y2 + 180)
      * x4 + (-36 * k.e16 + 360 * k.e14 * y2 - 72 * k.e14 - 1275 * k.e12 * y4 + 720 * k.e12 * y2
      - 108 * k.e12 - 2550 * k.e10 * y4 + 1080 * k.e10 * y2 - 144 * k.e10 - 3825 * k.e8 * y4 +
      1440 * k.e8 * y2 - 180 * k.e8 - 5100 * k.e6 * y4 + 1440 * k.e6 * y2 - 144 * k.e6 - 3825 *
      k.e4 * y4 + 1080 * k.e4 * y2 - 108 * k.e4 - 2550 * k.e2 * y4 + 720 * k.e2 * y2 - 72 * k.e2
      - 1275 * y4 + 360 * y2 - 36) * x2 - 36 * k.e16 * y2 + 180 * k.e14 * y4 - 72 * k.e14 * y2 -
      125 * k.e12 * y6 + 360 * k.e12 * y4 - 108 * k.e12 * y2 - 250 * k.e10 * y6 + 540 * k.e10 *
      y4 - 144 * k.e10 * y2 - 375 * k.e8 * y6 + 720 * k.e8 * y4 - 180 * k.e8 * y2 - 500 * k.e6 *
      y6 + 720 * k.e6 * y4 - 144 * k.e6 * y2 - 375 * k.e4 * y6 + 540 * k.e4 * y4 - 108 * k.e4 *
      y2 - 250 * k.e2 * y6 + 360 * k.e2 * y4 - 72 * k.e2 * y2 - 125 * y6 + 180 * y4 - 36 * y2) *
      k.num2_9 / k.den2_9
  let temp := temp + Z 19 ^ (2 : ℕ) * (12) * (-400) * r2 ^ (3 : ℕ) / k.den2_10
  let temp := temp + Z 20 ^ (2 : ℕ) * (12) * (-400) * r2 ^ (3 : ℕ) / k.den2_10
  let temp := temp + Z 21 ^ (2 : ℕ) * (7) * 576 * ((k.e4 - 5 * k.e2 * x2 - 5 * k.e2 * y2 + 3 *
      k.e2 + 5 * x4 + 10 * x2 * y2 - 5 * x2 + 5 * y4 - 5 * y2 + 1) * (k.e4 - 15 * k.e2 * x2 - 15
      * k.e2 * y2 + 3 * k.e2 + 25 * x4 + 50 * x2 * y2 - 15 * x2 + 25 * y4 - 15 * y2 + 1)) /
      k.den2_11
  temp

/-- Constants of `zernikeAnnularGrad` that depend on the obscuration only. -/
structure GradConst (α : Type) where
  e2 : α
  e4 : α
  e6 : α
  e8 : α
  e10 : α
  e12 : α
  sqrt_3 : α
  sqrt_5 : α
  sqrt_6 : α
  sqrt_7 : α
  sqrt_8 : α
  sqrt_10 : α
  sqrt_12 : α
  den1 : α
  den2 : α
  den3 : α
  den4 : α
  den5 : α
  den6 : α
  den7 : α
  num7 : α
  den8 : α
  den9 : α
  num9 : α
  den10 : α
  num10 : α
  den11 : α
  den12 : α

/-- The block "Parameters of constant" of `zernikeAnnularGrad`. -/
def zernikeAnnularGradConst (m : CMath α) (e : α) : GradConst α :=
  let e2 := e ^ (2 : ℕ)
  let e4 := e2 * e2
  let e6 := e4 * e2
  let e8 := e6 * e2
  let e10 := e8 * e2
  let e12 := e10 * e2
  let sqrt_3 := m.sqrt (3)
  let sqrt_5 := m.sqrt (5)
  let sqrt_6 := m.sqrt (6)
  let sqrt_7 := m.sqrt (7)
  let sqrt_8 := m.sqrt (8)
  let sqrt_10 := m.sqrt (10)
  let sqrt_12 := m.sqrt (12)
  let den1 := m.sqrt (1 + e2)
  let den2 := 1 - e2
  let den3 := m.sqrt (1 + e2 + e4)
  let den4 := m.sqrt ((1 - e2) ^ (2 : ℕ) * (1 + e2) * (1 + 4 * e2 + e4))
  let den5 := m.sqrt (1 + e2 + e4 + e6)
  let den6 := (1 - e2) ^ (2 : ℕ)
  let den7 := (1 - e2) ^ (3 : ℕ) * (1 + e2 + e4)
  let num7 := m.sqrt ((1 - e2) ^ (4 : ℕ) * (1 + e2 + e4) / (1 + 4 * e2 + 10 * e4 + 4 * e6 + e8))
  let den8 := m.sqrt (1 + e2 + e4 + e6 + e8)
  let den9 := (1 - e2) ^ (3 : ℕ) * (1 + 4 * e2 + e4)
  let num9 := m.sqrt ((1 - e2) ^ (2 : ℕ) * (1 + 4 * e2 + e4) / (1 + 9 * e2 + 9 * e4 + e6))
  let den10 := (1 - e2) ^ (4 : ℕ) * (1 + e2) * (1 + e4)
  let num10 := m.sqrt ((1 - e2) ^ (6 : ℕ) * (1 + e2) * (1 + e4) / (1 + 4 * e2 + 10 * e4 + 20 *
      e6 + 10 * e8 + 4 * e10 + e12))
  let den11 := m.sqrt (1 + e2 + e4 + e6 + e8 + e10)
  let den12 := (1 - e2) ^ (3 : ℕ)
  { e2 := e2, e4 := e4, e6 := e6, e8 := e8, e10 := e10, e12 := e12, sqrt_3 := sqrt_3, sqrt_5 :=
      sqrt_5, sqrt_6 := sqrt_6, sqrt_7 := sqrt_7, sqrt_8 := sqrt_8, sqrt_10 := sqrt_10, sqrt_12
      := sqrt_12, den1 := den1, den2 := den2, den3 := den3, den4 := den4, den5 := den5, den6 :=
      den6, den7 := den7, num7 := num7, den8 := den8, den9 := den9, num9 := num9, den10 :=
      den10, num10 := num10, den11 := den11, den12 := den12 }

/-- One iteration of the loop of `zernikeAnnularGrad` in the branch `axis == "dx"`. -/
def zernikeAnnularGrad_dx (k : GradConst α) (Z : ℕ → α) (x_c y_c : α) : α :=
  let x2 := x_c * x_c
  let y2 := y_c * y_c
  let x4 := x2 * x2
  let y4 := y2 * y2
  let xy := x_c * y_c
  let r2 := x2 + y2
  let temp := Z 0 * 0 * x_c
  let temp := temp + Z 1 * 2 * 1 / k.den1
  let temp := temp + Z 2 * 2 * 0
  let temp := temp + Z 3 * k.sqrt_3 * 4 * x_c / k.den2
  let temp := temp + Z 4 * k.sqrt_6 * 2 * y_c / k.den3
  let temp := temp + Z 5 * k.sqrt_6 * 2 * x_c / k.den3
  let temp := temp + Z 6 * k.sqrt_8 * 6 * xy * (1 + k.e2) / k.den4
  let temp := temp + Z 7 * k.sqrt_8 * ((9 * x2 + 3 * y2 - 2) * (1 + k.e2) - 2 * k.e4) / k.den4
  let temp := temp + Z 8 * k.sqrt_8 * 6 * xy / k.den5
  let temp := temp + Z 9 * k.sqrt_8 * (3 * x2 - 3 * y2) / k.den5
  let temp := temp + Z 10 * k.sqrt_5 * 12 * x_c * (2 * r2 - 1 - k.e2) / k.den6
  let temp := temp + Z 11 * k.sqrt_10 * (x_c * (16 * x2 - 6) * (1 + k.e2 + k.e4) - 6 * x_c *
      k.e6) * k.num7 / k.den7
  let temp := temp + Z 12 * k.sqrt_10 * (y_c * (24 * x2 + 8 * y2 - 6) * (1 + k.e2 + k.e4) - 6 *
      y_c * k.e6) * k.num7 / k.den7
  let temp := temp + Z 13 * k.sqrt_10 * 4 * x_c * (x2 - 3 * y2) / k.den8
  let temp := temp + Z 14 * k.sqrt_10 * 4 * y_c * (3 * x2 - y2) / k.den8
  let temp := temp + Z 15 * k.sqrt_12 * (3 * k.e8 - 36 * k.e6 * x2 - 12 * k.e6 * y2 + 12 * k.e6
      + 50 * k.e4 * x4 + 60 * k.e4 * x2 * y2 - 144 * k.e4 * x2 + 10 * k.e4 * y4 - 48 * k.e4 * y2
      + 30 * k.e4 + 200 * k.e2 * x4 + 240 * k.e2 * x2 * y2 - 144 * k.e2 * x2 + 40 * k.e2 * y4 -
      48 * k.e2 * y2 + 12 * k.e2 + 50 * x4 + 60 * x2 * y2 - 36 * x2 + 10 * y4 - 12 * y2 + 3) *
      k.num9 / k.den9
  let temp := temp + Z 16 * k.sqrt_12 * (8 * xy * (5 * r2 * (1 + 4 * k.e2 + k.e4) - (3 + 12 *
      k.e2 + 12 * k.e4 + 3 * k.e6))) * k.num9 / k.den9
  let temp := temp + Z 17 * k.sqrt_12 * (25 * (k.e6 + k.e4 + k.e2 + 1) * x4 + (-12 * k.e8 - 30 *
      k.e6 * y2 - 12 * k.e6 - 30 * k.e4 * y2 - 12 * k.e4 - 30 * k.e2 * y2 - 12 * k.e2 - 30 * y2
      - 12) * x2 + 12 * k.e8 * y2 - 15 * k.e6 * y4 + 12 * k.e6 * y2 - 15 * k.e4 * y4 + 12 * k.e4
      * y2 - 15 * k.e2 * y4 + 12 * k.e2 * y2 - 15 * y4 + 12 * y2) * k.num10 / k.den10
  let temp := temp + Z 18 * k.sqrt_12 * (4 * xy * (15 * (k.e6 + k.e4 + k.e2 + 1) * x2 - 6 * k.e8
      + 5 * k.e6 * y2 - 6 * k.e6 + 5 * k.e4 * y2 - 6 * k.e4 + 5 * k.e2 * y2 - 6 * k.e2 + 5 * y2
      - 6)) * k.num10 / k.den10
  let temp := temp + Z 19 * k.sqrt_12 * 5 * (x2 * (x2 - 6 * y2) + y4) / k.den11
  let temp := temp + Z 20 * k.sqrt_12 * 20 * xy * (x2 - y2) / k.den11
  let temp := temp + Z 21 * k.sqrt_7 * 24 * x_c * (k.e4 - k.e2 * (5 * y2 - 3) + 5 * x4 - 5 * y2
      + 5 * y4 - x2 * (5 * k.e2 - 10 * y2 + 5) + 1) / k.den12
  temp

/-- One iteration of the loop of `zernikeAnnularGrad` in the branch `axis == "dy"`. -/
def zernikeAnnularGrad_dy (k : GradConst α) (Z : ℕ → α) (x_c y_c : α) : α :=
  let x2 := x_c * x_c
  let y2 := y_c * y_c
  let x4 := x2 * x2
  let y4 := y2 * y2
  let xy := x_c * y_c
  let r2 := x2 + y2
  let temp := Z 0 * 0 * x_c
  let temp := temp + Z 1 * 2 * 0
  let temp := temp + Z 2 * 2 * 1 / k.den1
  let temp := temp + Z 3 * k.sqrt_3 * 4 * y_c / k.den2
  let temp := temp + Z 4 * k.sqrt_6 * 2 * x_c / k.den3
  let temp := temp + Z 5 * k.sqrt_6 * (-2) * y_c / k.den3
  let temp := temp + Z 6 * k.sqrt_8 * ((1 + k.e2) * (3 * x2 + 9 * y2 - 2) - 2 * k.e4) / k.den4
  let temp := temp + Z 7 * k.sqrt_8 * 6 * xy * (1 + k.e2) / k.den4
  let temp := temp + Z 8 * k.sqrt_8 * (3 * x2 - 3 * y2) / k.den5
  let temp := temp + Z 9 * k.sqrt_8 * (-6) * xy / k.den5
  let temp := temp + Z 10 * k.sqrt_5 * 12 * y_c * (2 * r2 - 1 - k.e2) / k.den6
  let temp := temp + Z 11 * k.sqrt_10 * (y_c * (6 - 16 * y2) * (1 + k.e2 + k.e4) + 6 * y_c *
      k.e6) * k.num7 / k.den7
  let temp := temp + Z 12 * k.sqrt_10 * (x_c * (8 * x2 + 24 * y2 - 6) * (1 + k.e2 + k.e4) - 6 *
      x_c * k.e6) * k.num7 / k.den7
  let temp := temp + Z 13 * k.sqrt_10 * 4 * y_c * (y2 - 3 * x2) / k.den8
  let temp := temp + Z 14 * k.sqrt_10 * 4 * x_c * (x2 - 3 * y2) / k.den8
  let temp := temp + Z 15 * k.sqrt_12 * (-x_c * (24 * y_c + 4 * k.e2 * (24 * y_c - 40 * y_c *
      r2) + 2 * k.e4 * (48 * y_c - 20 * y_c * r2) + 24 * k.e6 * y_c - 40 * y_c * r2)) * k.num9 /
      k.den9
  let temp := temp + Z 16 * k.sqrt_12 * (3 * k.e8 - 12 * k.e6 * x2 - 36 * k.e6 * y2 + 12 * k.e6
      + 10 * k.e4 * x4 + 60 * k.e4 * x2 * y2 - 48 * k.e4 * x2 + 50 * k.e4 * y4 - 144 * k.e4 * y2
      + 30 * k.e4 + 40 * k.e2 * x4 + 240 * k.e2 * x2 * y2 - 48 * k.e2 * x2 + 200 * k.e2 * y4 -
      144 * k.e2 * y2 + 12 * k.e2 + 10 * x4 + 60 * x2 * y2 - 12 * x2 + 50 * y4 - 36 * y2 + 3) *
      k.num9 / k.den9
  let temp := temp + Z 17 * k.sqrt_12 * (4 * xy * ((-5) * (k.e6 + k.e4 + k.e2 + 1) * x2 + 6 *
      k.e8 - 15 * k.e6 * y2 + 6 * k.e6 - 15 * k.e4 * y2 + 6 * k.e4 - 15 * k.e2 * y2 + 6 * k.e2 -
      15 * y2 + 6)) * k.num10 / k.den10
  let temp := temp + Z 18 * k.sqrt_12 * (-12 * k.e8 * x2 + 12 * k.e8 * y2 + 15 * k.e6 * x4 + 30
      * k.e6 * x2 * y2 - 12 * k.e6 * x2 - 25 * k.e6 * y4 + 12 * k.e6 * y2 + 15 * k.e4 * x4 + 30
      * k.e4 * x2 * y2 - 12 * k.e4 * x2 - 25 * k.e4 * y4 + 12 * k.e4 * y2 + 15 * k.e2 * x4 + 30
      * k.e2 * x2 * y2 - 12 * k.e2 * x2 - 25 * k.e2 * y4 + 12 * k.e2 * y2 + 15 * x4 + 30 * x2 *
      y2 - 12 * x2 - 25 * y4 + 12 * y2) * k.num10 / k.den10
  let temp := temp + Z 19 * k.sqrt_12 * 20 * xy * (y2 - x2) / k.den11
  let temp := temp + Z 20 * k.sqrt_12 * 5 * (x2 * (x2 - 6 * y2) + y4) / k.den11
  let temp := temp + Z 21 * k.sqrt_7 * 24 * y_c * (k.e4 - k.e2 * (5 * x2 - 3) - 5 * x2 + 5 * x4
      + 5 * y4 - y2 * (5 * k.e2 - 10 * x2 + 5) + 1) / k.den12
  temp

/-- One iteration of the loop of `zernikeAnnularGrad` in the branch `axis == "dx2"`. -/
def zernikeAnnularGrad_dx2 (k : GradConst α) (Z : ℕ → α) (x_c y_c : α) : α :=
  let x2 := x_c * x_c
  let y2 := y_c * y_c
  let x4 := x2 * x2
  let y4 := y2 * y2
  let xy := x_c * y_c
  let r2 := x2 + y2
  let r4 := r2 * r2
  let temp := Z 0 * 0 * x_c
  let temp := temp + Z 1 * 0
  let temp := temp + Z 2 * 0
  let temp := temp + Z 3 * k.sqrt_3 * 4 / k.den2
  let temp := temp + Z 4 * 0
  let temp := temp + Z 5 * k.sqrt_6 * 2 / k.den3
  let temp := temp + Z 6 * k.sqrt_8 * 6 * y_c * (1 + k.e2) / k.den4
  let temp := temp + Z 7 * k.sqrt_8 * 18 * x_c * (1 + k.e2) / k.den4
  let temp := temp + Z 8 * k.sqrt_8 * 6 * y_c / k.den5
  let temp := temp + Z 9 * k.sqrt_8 * 6 * x_c / k.den5
  let temp := temp + Z 10 * k.sqrt_5 * 12 * (6 * x2 + 2 * y2 - k.e2 - 1) / k.den6
  let temp := temp + Z 11 * k.sqrt_10 * ((48 * x2 - 6) * (1 + k.e2 + k.e4) - 6 * k.e6) * k.num7
      / k.den7
  let temp := temp + Z 12 * k.sqrt_10 * 48 * xy * (1 + k.e2 + k.e4) * k.num7 / k.den7
  let temp := temp + Z 13 * k.sqrt_10 * 12 * (x2 - y2) / k.den8
  let temp := temp + Z 14 * k.sqrt_10 * 24 * xy / k.den8
  let temp := temp + Z 15 * k.sqrt_12 * (-8 * x_c * (9 * k.e6 - 25 * k.e4 * x2 - 15 * k.e4 * y2
      + 36 * k.e4 - 100 * k.e2 * x2 - 60 * k.e2 * y2 + 36 * k.e2 - 25 * x2 - 15 * y2 + 9)) *
      k.num9 / k.den9
  let temp := temp + Z 16 * k.sqrt_12 * (-8 * y_c * (3 * k.e6 - 15 * k.e4 * x2 - 5 * k.e4 * y2 +
      12 * k.e4 - 60 * k.e2 * x2 - 20 * k.e2 * y2 + 12 * k.e2 - 15 * x2 - 5 * y2 + 3)) * k.num9
      / k.den9
  let temp := temp + Z 17 * k.sqrt_12 * (-4 * x_c * (6 * k.e8 - 25 * k.e6 * x2 + 15 * k.e6 * y2
      + 6 * k.e6 - 25 * k.e4 * x2 + 15 * k.e4 * y2 + 6 * k.e4 - 25 * k.e2 * x2 + 15 * k.e2 * y2
      + 6 * k.e2 - 25 * x2 + 15 * y2 + 6)) * k.num10 / k.den10
  let temp := temp + Z 18 * k.sqrt_12 * (-4 * y_c * (6 * k.e8 - 45 * k.e6 * x2 - 5 * k.e6 * y2 +
      6 * k.e6 - 45 * k.e4 * x2 - 5 * k.e4 * y2 + 6 * k.e4 - 45 * k.e2 * x2 - 5 * k.e2 * y2 + 6
      * k.e2 - 45 * x2 - 5 * y2 + 6)) * k.num10 / k.den10
  let temp := temp + Z 19 * k.sqrt_12 * 20 * x_c * (x2 - 3 * y2) / k.den11
  let temp := temp + Z 20 * k.sqrt_12 * 20 * y_c * (3 * x2 - y2) / k.den11
  let temp := temp + Z 21 * k.sqrt_7 * (480 * x2 * r2 + 120 * r4 + 24 * k.e4 - 360 * x2 - 120 *
      y2 - 3 * k.e2 * (120 * x2 + 40 * y2 - 24) + 24) / k.den12
  temp

/-- One iteration of the loop of `zernikeAnnularGrad` in the branch `axis == "dy2"`. -/
def zernikeAnnularGrad_dy2 (k : GradConst α) (Z : ℕ → α) (x_c y_c : α) : α :=
  let x2 := x_c * x_c
  let y2 := y_c * y_c
  let x4 := x2 * x2
  let y4 := y2 * y2
  let xy := x_c * y_c
  let r2 := x2 + y2
  let r4 := r2 * r2
  let temp := Z 0 * 0 * x_c
  let temp := temp + Z 1 * 0
  let temp := temp + Z 2 * 0
  let temp := temp + Z 3 * k.sqrt_3 * 4 / k.den2
  let temp := temp + Z 4 * 0
  let temp := temp + Z 5 * k.sqrt_6 * (-2) / k.den3
  let temp := temp + Z 6 * k.sqrt_8 * (1 + k.e2) * 18 * y_c / k.den4
  let temp := temp + Z 7 * k.sqrt_8 * 6 * x_c * (1 + k.e2) / k.den4
  let temp := temp + Z 8 * k.sqrt_8 * (-6) * y_c / k.den5
  let temp := temp + Z 9 * k.sqrt_8 * (-6) * x_c / k.den5
  let temp := temp + Z 10 * k.sqrt_5 * 12 * (2 * x2 + 6 * y2 - k.e2 - 1) / k.den6
  let temp := temp + Z 11 * k.sqrt_10 * ((6 - 48 * y2) * (1 + k.e2 + k.e4) + 6 * k.e6) * k.num7
      / k.den7
  let temp := temp + Z 12 * k.sqrt_10 * 48 * xy * (1 + k.e2 + k.e4) * k.num7 / k.den7
  let temp := temp + Z 13 * k.sqrt_10 * 12 * (y2 - x2) / k.den8
  let temp := temp + Z 14 * k.sqrt_10 * (-24) * xy / k.den8
  let temp := temp + Z 15 * k.sqrt_12 * (-8 * x_c * (3 * k.e6 - 5 * k.e4 * x2 - 15 * k.e4 * y2 +
      12 * k.e4 - 20 * k.e2 * x2 - 60 * k.e2 * y2 + 12 * k.e2 - 5 * x2 - 15 * y2 + 3)) * k.num9
      / k.den9
  let temp := temp + Z 16 * k.sqrt_12 * (-8 * y_c * (9 * k.e6 - 15 * k.e4 * x2 - 25 * k.e4 * y2
      + 36 * k.e4 - 60 * k.e2 * x2 - 100 * k.e2 * y2 + 36 * k.e2 - 15 * x2 - 25 * y2 + 9)) *
      k.num9 / k.den9
  let temp := temp + Z 17 * k.sqrt_12 * (4 * x_c * (6 * k.e8 - 5 * k.e6 * x2 - 45 * k.e6 * y2 +
      6 * k.e6 - 5 * k.e4 * x2 - 45 * k.e4 * y2 + 6 * k.e4 - 5 * k.e2 * x2 - 45 * k.e2 * y2 + 6
      * k.e2 - 5 * x2 - 45 * y2 + 6)) * k.num10 / k.den10
  let temp := temp + Z 18 * k.sqrt_12 * (4 * y_c * (6 * k.e8 + 15 * k.e6 * x2 - 25 * k.e6 * y2 +
      6 * k.e6 + 15 * k.e4 * x2 - 25 * k.e4 * y2 + 6 * k.e4 + 15 * k.e2 * x2 - 25 * k.e2 * y2 +
      6 * k.e2 + 15 * x2 - 25 * y2 + 6)) * k.num10 / k.den10
  let temp := temp + Z 19 * k.sqrt_12 * 20 * x_c * (3 * y2 - x2) / k.den11
  let temp := temp + Z 20 * k.sqrt_12 * 20 * y_c * (y2 - 3 * x2) / k.den11
  let temp := temp + Z 21 * k.sqrt_7 * (480 * y2 * r2 + 120 * r4 + 24 * k.e4 - 120 * x2 - 360 *
      y2 - 3 * k.e2 * (40 * x2 + 120 * y2 - 24) + 24) / k.den12
  temp

/-- One iteration of the loop of `zernikeAnnularGrad` in the branch `axis == "dxy"`. -/
def zernikeAnnularGrad_dxy (k : GradConst α) (Z : ℕ → α) (x_c y_c : α) : α :=
  let x2 := x_c * x_c
  let y2 := y_c * y_c
  let x4 := x2 * x2
  let y4 := y2 * y2
  let xy := x_c * y_c
  let r2 := x2 + y2
  let r4 := r2 * r2
  let temp := Z 0 * 0 * x_c
  let temp := temp + Z 1 * 0
  let temp := temp + Z 2 * 0
  let temp := temp + Z 3 * 0
  let temp := temp + Z 4 * k.sqrt_6 * 2 / k.den3
  let temp := temp + Z 5 * 0
  let temp := temp + Z 6 * k.sqrt_8 * (1 + k.e2) * (6 * x_c) / k.den4
  let temp := temp + Z 7 * k.sqrt_8 * 6 * y_c * (1 + k.e2) / k.den4
  let temp := temp + Z 8 * k.sqrt_8 * 6 * x_c / k.den5
  let temp := temp + Z 9 * k.sqrt_8 * (-6) * y_c / k.den5
  let temp := temp + Z 10 * k.sqrt_5 * 48 * xy / k.den6
  let temp := temp + Z 11 * k.sqrt_10 * 0
  let temp := temp + Z 12 * k.sqrt_10 * ((24 * x2 + 24 * y2 - 6) * (1 + k.e2 + k.e4) - 6 * k.e6)
      * k.num7 / k.den7
  let temp := temp + Z 13 * k.sqrt_10 * (-24) * xy / k.den8
  let temp := temp + Z 14 * k.sqrt_10 * 12 * (x2 - y2) / k.den8
  let temp := temp + Z 15 * k.sqrt_12 * (-8 * y_c * (3 * k.e6 - 15 * k.e4 * x2 - 5 * k.e4 * y2 +
      12 * k.e4 - 60 * k.e2 * x2 - 20 * k.e2 * y2 + 12 * k.e2 - 15 * x2 - 5 * y2 + 3)) * k.num9
      / k.den9
  let temp := temp + Z 16 * k.sqrt_12 * (-8 * x_c * (3 * k.e6 - 5 * k.e4 * x2 - 15 * k.e4 * y2 +
      12 * k.e4 - 20 * k.e2 * x2 - 60 * k.e2 * y2 + 12 * k.e2 - 5 * x2 - 15 * y2 + 3)) * k.num9
      / k.den9
  let temp := temp + Z 17 * k.sqrt_12 * (12 * y_c * (2 * k.e8 - 5 * k.e6 * r2 + 2 * k.e6 - 5 *
      k.e4 * r2 + 2 * k.e4 - 5 * k.e2 * r2 + 2 * k.e2 - 5 * r2 + 2)) * k.num10 / k.den10
  let temp := temp + Z 18 * k.sqrt_12 * (-12 * x_c * (2 * k.e8 - 5 * k.e6 * r2 + 2 * k.e6 - 5 *
      k.e4 * r2 + 2 * k.e4 - 5 * k.e2 * r2 + 2 * k.e2 - 5 * r2 + 2)) * k.num10 / k.den10
  let temp := temp + Z 19 * k.sqrt_12 * 20 * y_c * (y2 - 3 * x2) / k.den11
  let temp := temp + Z 20 * k.sqrt_12 * 20 * x_c * (x2 - 3 * y2) / k.den11
  let temp := temp + Z 21 * k.sqrt_7 * 240 * xy * (2 * r2 - 1 - k.e2) / k.den12
  temp

/-- One iteration of the loop of `poly10_2D`: the value written to `cyOut[ii]`. -/
def poly10_2DPoint (c : ℕ → α) (x_c y_c : α) : α :=
  c 0 + c 1 * x_c + c 2 * y_c + c 3 * x_c * x_c + c 4 * x_c * y_c + c 5 * y_c * y_c + c 6 * x_c
      ^ (3 : ℕ) + c 7 * x_c ^ (2 : ℕ) * y_c + c 8 * x_c * y_c ^ (2 : ℕ) + c 9 * y_c ^ (3 : ℕ) +
      c 10 * x_c ^ (4 : ℕ) + c 11 * x_c ^ (3 : ℕ) * y_c + c 12 * x_c ^ (2 : ℕ) * y_c ^ (2 : ℕ) +
      c 13 * x_c * y_c ^ (3 : ℕ) + c 14 * y_c ^ (4 : ℕ) + c 15 * x_c ^ (5 : ℕ) + c 16 * x_c ^
      (4 : ℕ) * y_c + c 17 * x_c ^ (3 : ℕ) * y_c ^ (2 : ℕ) + c 18 * x_c ^ (2 : ℕ) * y_c ^
      (3 : ℕ) + c 19 * x_c * y_c ^ (4 : ℕ) + c 20 * y_c ^ (5 : ℕ) + c 21 * x_c ^ (6 : ℕ) + c 22
      * x_c ^ (5 : ℕ) * y_c + c 23 * x_c ^ (4 : ℕ) * y_c ^ (2 : ℕ) + c 24 * x_c ^ (3 : ℕ) * y_c
      ^ (3 : ℕ) + c 25 * x_c ^ (2 : ℕ) * y_c ^ (4 : ℕ) + c 26 * x_c * y_c ^ (5 : ℕ) + c 27 * y_c
      ^ (6 : ℕ) + c 28 * x_c ^ (7 : ℕ) + c 29 * x_c ^ (6 : ℕ) * y_c + c 30 * x_c ^ (5 : ℕ) * y_c
      ^ (2 : ℕ) + c 31 * x_c ^ (4 : ℕ) * y_c ^ (3 : ℕ) + c 32 * x_c ^ (3 : ℕ) * y_c ^ (4 : ℕ) +
      c 33 * x_c ^ (2 : ℕ) * y_c ^ (5 : ℕ) + c 34 * x_c * y_c ^ (6 : ℕ) + c 35 * y_c ^ (7 : ℕ) +
      c 36 * x_c ^ (8 : ℕ) + c 37 * x_c ^ (7 : ℕ) * y_c + c 38 * x_c ^ (6 : ℕ) * y_c ^ (2 : ℕ) +
      c 39 * x_c ^ (5 : ℕ) * y_c ^ (3 : ℕ) + c 40 * x_c ^ (4 : ℕ) * y_c ^ (4 : ℕ) + c 41 * x_c ^
      (3 : ℕ) * y_c ^ (5 : ℕ) + c 42 * x_c ^ (2 : ℕ) * y_c ^ (6 : ℕ) + c 43 * x_c * y_c ^
      (7 : ℕ) + c 44 * y_c ^ (8 : ℕ) + c 45 * x_c ^ (9 : ℕ) + c 46 * x_c ^ (8 : ℕ) * y_c + c 47
      * x_c ^ (7 : ℕ) * y_c ^ (2 : ℕ) + c 48 * x_c ^ (6 : ℕ) * y_c ^ (3 : ℕ) + c 49 * x_c ^
      (5 : ℕ) * y_c ^ (4 : ℕ) + c 50 * x_c ^ (4 : ℕ) * y_c ^ (5 : ℕ) + c 51 * x_c ^ (3 : ℕ) *
      y_c ^ (6 : ℕ) + c 52 * x_c ^ (2 : ℕ) * y_c ^ (7 : ℕ) + c 53 * x_c * y_c ^ (8 : ℕ) + c 54 *
      y_c ^ (9 : ℕ) + c 55 * x_c ^ (10 : ℕ) + c 56 * x_c ^ (9 : ℕ) * y_c + c 57 * x_c ^ (8 : ℕ)
      * y_c ^ (2 : ℕ) + c 58 * x_c ^ (7 : ℕ) * y_c ^ (3 : ℕ) + c 59 * x_c ^ (6 : ℕ) * y_c ^
      (4 : ℕ) + c 60 * x_c ^ (5 : ℕ) * y_c ^ (5 : ℕ) + c 61 * x_c ^ (4 : ℕ) * y_c ^ (6 : ℕ) + c
      62 * x_c ^ (3 : ℕ) * y_c ^ (7 : ℕ) + c 63 * x_c ^ (2 : ℕ) * y_c ^ (8 : ℕ) + c 64 * x_c *
      y_c ^ (9 : ℕ) + c 65 * y_c ^ (10 : ℕ)

/-- One iteration of the loop of `poly10Grad` in the branch `axis == "dx"`. -/
def poly10Grad_dx (c : ℕ → α) (x_c y_c : α) : α :=
  c 1 + c 3 * 2 * x_c + c 4 * y_c + c 6 * 3 * x_c ^ (2 : ℕ) + c 7 * 2 * x_c * y_c + c 8 * y_c ^
      (2 : ℕ) + c 10 * 4 * x_c ^ (3 : ℕ) + c 11 * 3 * x_c ^ (2 : ℕ) * y_c + c 12 * 2 * x_c * y_c
      ^ (2 : ℕ) + c 13 * y_c ^ (3 : ℕ) + c 15 * 5 * x_c ^ (4 : ℕ) + c 16 * 4 * x_c ^ (3 : ℕ) *
      y_c + c 17 * 3 * x_c ^ (2 : ℕ) * y_c ^ (2 : ℕ) + c 18 * 2 * x_c * y_c ^ (3 : ℕ) + c 19 *
      y_c ^ (4 : ℕ) + c 21 * 6 * x_c ^ (5 : ℕ) + c 22 * 5 * x_c ^ (4 : ℕ) * y_c + c 23 * 4 * x_c
      ^ (3 : ℕ) * y_c ^ (2 : ℕ) + c 24 * 3 * x_c ^ (2 : ℕ) * y_c ^ (3 : ℕ) + c 25 * 2 * x_c *
      y_c ^ (4 : ℕ) + c 26 * y_c ^ (5 : ℕ) + c 28 * 7 * x_c ^ (6 : ℕ) + c 29 * 6 * x_c ^ (5 : ℕ)
      * y_c + c 30 * 5 * x_c ^ (4 : ℕ) * y_c ^ (2 : ℕ) + c 31 * 4 * x_c ^ (3 : ℕ) * y_c ^
      (3 : ℕ) + c 32 * 3 * x_c ^ (2 : ℕ) * y_c ^ (4 : ℕ) + c 33 * 2 * x_c * y_c ^ (5 : ℕ) + c 34
      * y_c ^ (6 : ℕ) + c 36 * 8 * x_c ^ (7 : ℕ) + c 37 * 7 * x_c ^ (6 : ℕ) * y_c + c 38 * 6 *
      x_c ^ (5 : ℕ) * y_c ^ (2 : ℕ) + c 39 * 5 * x_c ^ (4 : ℕ) * y_c ^ (3 : ℕ) + c 40 * 4 * x_c
      ^ (3 : ℕ) * y_c ^ (4 : ℕ) + c 41 * 3 * x_c ^ (2 : ℕ) * y_c ^ (5 : ℕ) + c 42 * 2 * x_c *
      y_c ^ (6 : ℕ) + c 43 * y_c ^ (7 : ℕ) + c 45 * 9 * x_c ^ (8 : ℕ) + c 46 * 8 * x_c ^ (7 : ℕ)
      * y_c + c 47 * 7 * x_c ^ (6 : ℕ) * y_c ^ (2 : ℕ) + c 48 * 6 * x_c ^ (5 : ℕ) * y_c ^
      (3 : ℕ) + c 49 * 5 * x_c ^ (4 : ℕ) * y_c ^ (4 : ℕ) + c 50 * 4 * x_c ^ (3 : ℕ) * y_c ^
      (5 : ℕ) + c 51 * 3 * x_c ^ (2 : ℕ) * y_c ^ (6 : ℕ) + c 52 * 2 * x_c * y_c ^ (7 : ℕ) + c 53
      * y_c ^ (8 : ℕ) + c 55 * 10 * x_c ^ (9 : ℕ) + c 56 * 9 * x_c ^ (8 : ℕ) * y_c + c 57 * 8 *
      x_c ^ (7 : ℕ) * y_c ^ (2 : ℕ) + c 58 * 7 * x_c ^ (6 : ℕ) * y_c ^ (3 : ℕ) + c 59 * 6 * x_c
      ^ (5 : ℕ) * y_c ^ (4 : ℕ) + c 60 * 5 * x_c ^ (4 : ℕ) * y_c ^ (5 : ℕ) + c 61 * 4 * x_c ^
      (3 : ℕ) * y_c ^ (6 : ℕ) + c 62 * 3 * x_c ^ (2 : ℕ) * y_c ^ (7 : ℕ) + c 63 * 2 * x_c * y_c
      ^ (8 : ℕ) + c 64 * y_c ^ (9 : ℕ)

/-- One iteration of the loop of `poly10Grad` in the branch `axis == "dy"`. -/
def poly10Grad_dy (c : ℕ → α) (x_c y_c : α) : α :=
  c 2 + c 4 * x_c + c 5 * 2 * y_c + c 7 * x_c ^ (2 : ℕ) + c 8 * x_c * 2 * y_c + c 9 * 3 * y_c ^
      (2 : ℕ) + c 11 * x_c ^ (3 : ℕ) + c 12 * x_c ^ (2 : ℕ) * 2 * y_c + c 13 * x_c * 3 * y_c ^
      (2 : ℕ) + c 14 * 4 * y_c ^ (3 : ℕ) + c 16 * x_c ^ (4 : ℕ) + c 17 * x_c ^ (3 : ℕ) * 2 * y_c
      + c 18 * x_c ^ (2 : ℕ) * 3 * y_c ^ (2 : ℕ) + c 19 * x_c * 4 * y_c ^ (3 : ℕ) + c 20 * 5 *
      y_c ^ (4 : ℕ) + c 22 * x_c ^ (5 : ℕ) + c 23 * x_c ^ (4 : ℕ) * 2 * y_c + c 24 * x_c ^
      (3 : ℕ) * 3 * y_c ^ (2 : ℕ) + c 25 * x_c ^ (2 : ℕ) * 4 * y_c ^ (3 : ℕ) + c 26 * x_c * 5 *
      y_c ^ (4 : ℕ) + c 27 * 6 * y_c ^ (5 : ℕ) + c 29 * x_c ^ (6 : ℕ) + c 30 * x_c ^ (5 : ℕ) * 2
      * y_c + c 31 * x_c ^ (4 : ℕ) * 3 * y_c ^ (2 : ℕ) + c 32 * x_c ^ (3 : ℕ) * 4 * y_c ^
      (3 : ℕ) + c 33 * x_c ^ (2 : ℕ) * 5 * y_c ^ (4 : ℕ) + c 34 * x_c * 6 * y_c ^ (5 : ℕ) + c 35
      * 7 * y_c ^ (6 : ℕ) + c 37 * x_c ^ (7 : ℕ) + c 38 * x_c ^ (6 : ℕ) * 2 * y_c + c 39 * x_c ^
      (5 : ℕ) * 3 * y_c ^ (2 : ℕ) + c 40 * x_c ^ (4 : ℕ) * 4 * y_c ^ (3 : ℕ) + c 41 * x_c ^
      (3 : ℕ) * 5 * y_c ^ (4 : ℕ) + c 42 * x_c ^ (2 : ℕ) * 6 * y_c ^ (5 : ℕ) + c 43 * x_c * 7 *
      y_c ^ (6 : ℕ) + c 44 * 8 * y_c ^ (7 : ℕ) + c 46 * x_c ^ (8 : ℕ) + c 47 * x_c ^ (7 : ℕ) * 2
      * y_c + c 48 * x_c ^ (6 : ℕ) * 3 * y_c ^ (2 : ℕ) + c 49 * x_c ^ (5 : ℕ) * 4 * y_c ^
      (3 : ℕ) + c 50 * x_c ^ (4 : ℕ) * 5 * y_c ^ (4 : ℕ) + c 51 * x_c ^ (3 : ℕ) * 6 * y_c ^
      (5 : ℕ) + c 52 * x_c ^ (2 : ℕ) * 7 * y_c ^ (6 : ℕ) + c 53 * x_c * 8 * y_c ^ (7 : ℕ) + c 54
      * 9 * y_c ^ (8 : ℕ) + c 56 * x_c ^ (9 : ℕ) + c 57 * x_c ^ (8 : ℕ) * 2 * y_c + c 58 * x_c ^
      (7 : ℕ) * 3 * y_c ^ (2 : ℕ) + c 59 * x_c ^ (6 : ℕ) * 4 * y_c ^ (3 : ℕ) + c 60 * x_c ^
      (5 : ℕ) * 5 * y_c ^ (4 : ℕ) + c 61 * x_c ^ (4 : ℕ) * 6 * y_c ^ (5 : ℕ) + c 62 * x_c ^
      (3 : ℕ) * 7 * y_c ^ (6 : ℕ) + c 63 * x_c ^ (2 : ℕ) * 8 * y_c ^ (7 : ℕ) + c 64 * x_c * 9 *
      y_c ^ (8 : ℕ) + c 65 * 10 * y_c ^ (9 : ℕ)

/-- The surface of `zernikeAnnularEvalPoint` written in Cartesian coordinates: every product
`r ^ m * cos (m t)`, `r ^ m * sin (m t)` of the source is replaced by the harmonic polynomial
in `x_c`, `y_c` it equals, the remaining radial factor being a polynomial in
`r2 = x_c ^ (2 : ℕ) + y_c ^ (2 : ℕ)`.  It is an auxiliary closed form: `zernikeAnnularEvalPoint_eq_cartesian`
proves that the source formula computes it. -/
def zernikeAnnularCartesian (k : EvalConst α) (Z : ℕ → α)
    (x_c y_c : α) : α :=
  let r2 := x_c ^ (2 : ℕ) + y_c ^ (2 : ℕ)
  let h2s := 2 * y_c * x_c
  let h2c := x_c ^ (2 : ℕ) - y_c ^ (2 : ℕ)
  let h3s := 3 * x_c ^ (2 : ℕ) * y_c - y_c ^ (3 : ℕ)
  let h3c := x_c ^ (3 : ℕ) - 3 * x_c * y_c ^ (2 : ℕ)
  let h4s := 4 * x_c ^ (3 : ℕ) * y_c - 4 * x_c * y_c ^ (3 : ℕ)
  let h4c := x_c ^ (4 : ℕ) - 6 * x_c ^ (2 : ℕ) * y_c ^ (2 : ℕ) + y_c ^ (4 : ℕ)
  let h5s := 5 * x_c ^ (4 : ℕ) * y_c - 10 * x_c ^ (2 : ℕ) * y_c ^ (3 : ℕ) + y_c ^ (5 : ℕ)
  let h5c := x_c ^ (5 : ℕ) - 10 * x_c ^ (3 : ℕ) * y_c ^ (2 : ℕ) + 5 * x_c * y_c ^ (4 : ℕ)
  let h6s := 6 * x_c ^ (5 : ℕ) * y_c - 20 * x_c ^ (3 : ℕ) * y_c ^ (3 : ℕ) + 6 * x_c * y_c ^ (5 : ℕ)
  let h6c := x_c ^ (6 : ℕ) - 15 * x_c ^ (4 : ℕ) * y_c ^ (2 : ℕ) + 15 * x_c ^ (2 : ℕ) * y_c ^ (4 : ℕ) - y_c ^ (6 : ℕ)
  let temp := Z 0
  let q := 2 / k.den1
  let temp := temp + Z 1 * q * x_c
  let temp := temp + Z 2 * q * y_c
  let temp := temp + Z 3 * k.sqrt_3 * (2 * r2 - 1 - k.e2) / k.den2
  let q := k.sqrt_6 / k.den3
  let temp := temp + Z 4 * q * h2s
  let temp := temp + Z 5 * q * h2c
  let q := k.sqrt_8 * (3 * r2 - 2 - 2 * k.e4 + k.e2 * (3 * r2 - 2)) / k.den4
  let temp := temp + Z 6 * q * y_c
  let temp := temp + Z 7 * q * x_c
  let q := k.sqrt_8 / k.den5
  let temp := temp + Z 8 * q * h3s
  let temp := temp + Z 9 * q * h3c
  let temp := temp + Z 10 * k.sqrt_5 *
      (6 * r2 ^ (2 : ℕ) - 6 * r2 + 1 + k.e4 + k.e2 * (4 - 6 * r2)) / k.den6
  let q := k.sqrt_10 *
      (4 * r2 - 3 - 3 * k.e6 - k.e2 * (3 - 4 * r2) - k.e4 * (3 - 4 * r2)) * k.num7 / k.den7
  let temp := temp + Z 11 * q * h2c
  let temp := temp + Z 12 * q * h2s
  let q := k.sqrt_10 / k.den8
  let temp := temp + Z 13 * q * h4c
  let temp := temp + Z 14 * q * h4s
  let q := k.sqrt_12 * k.num9E *
      (10 * r2 ^ (2 : ℕ) - 12 * r2 + 3 + 3 * k.e8 - 12 * k.e6 * (r2 - 1)
        + 2 * k.e4 * (15 - 24 * r2 + 5 * r2 ^ (2 : ℕ)) + 4 * k.e2 * (3 - 12 * r2 + 10 * r2 ^ (2 : ℕ)))
      / k.den9
  let temp := temp + Z 15 * q * x_c
  let temp := temp + Z 16 * q * y_c
  let q := k.sqrt_12 * k.num10E *
      (5 * r2 - 4 - 4 * k.e8 - k.e2 * (4 - 5 * r2) - k.e4 * (4 - 5 * r2) - k.e6 * (4 - 5 * r2))
      / k.den10
  let temp := temp + Z 17 * q * h3c
  let temp := temp + Z 18 * q * h3s
  let q := k.sqrt_12 / k.den11
  let temp := temp + Z 19 * q * h5c
  let temp := temp + Z 20 * q * h5s
  let temp := temp + Z 21 * k.sqrt_7 *
      (20 * r2 ^ (3 : ℕ) - 30 * r2 ^ (2 : ℕ) + 12 * r2 - 1 - k.e6 + 3 * k.e4 * (-3 + 4 * r2)
        - 3 * k.e2 * (3 - 12 * r2 + 10 * r2 ^ (2 : ℕ))) / k.den12
  let q := k.sqrt_14 * (k.num11a * r2 ^ (2 : ℕ) + k.num11b * r2 + k.num11c) / k.den13
  let temp := temp + Z 22 * q * h2s
  let temp := temp + Z 23 * q * h2c
  let q := k.sqrt_14 * (6 * r2 + k.num12) / k.den14
  let temp := temp + Z 24 * q * h4s
  let temp := temp + Z 25 * q * h4c
  let q := k.sqrt_14 * k.num13
  let temp := temp + Z 26 * q * h6s
  let temp := temp + Z 27 * q * h6c
  temp

/-- The constants of `zernikeAnnularGrad` picked out of those of `zernikeAnnularEval`: the two
blocks define the constants they share by the same expressions (`num9`, `num10` of the gradient
are `num9E`, `num10E` of the surface). -/
def gradConstOfEval (k : EvalConst α) : GradConst α :=
  { e2 := k.e2, e4 := k.e4, e6 := k.e6, e8 := k.e8, e10 := k.e10, e12 := k.e12,
    sqrt_3 := k.sqrt_3, sqrt_5 := k.sqrt_5, sqrt_6 := k.sqrt_6, sqrt_7 := k.sqrt_7,
    sqrt_8 := k.sqrt_8, sqrt_10 := k.sqrt_10, sqrt_12 := k.sqrt_12, den1 := k.den1,
    den2 := k.den2, den3 := k.den3, den4 := k.den4, den5 := k.den5, den6 := k.den6,
    den7 := k.den7, num7 := k.num7, den8 := k.den8, den9 := k.den9, num9 := k.num9E,
    den10 := k.den10, num10 := k.num10E, den11 := k.den11, den12 := k.den12 }

/-- The radial factor of basis mode `j` in `zernikeAnnularEvalPoint`, normalisation included,
as a function of `r` (the expressions `Rnl` of the source and the factors of the modes without
angular dependence). -/
def zernikeRadial (k : EvalConst α) (j : ℕ) (r : α) : α :=
  let r2 := r ^ (2 : ℕ)
  let r3 := r2 * r
  let r4 := r2 * r2
  let r5 := r3 * r2
  let r6 := r3 * r3
  if j = 0 then 1
  else if j = 1 then 2 * r / k.den1
  else if j = 2 then 2 * r / k.den1
  else if j = 3 then k.sqrt_3 * (2 * r2 - 1 - k.e2) / k.den2
  else if j = 4 then k.sqrt_6 * r2 / k.den3
  else if j = 5 then k.sqrt_6 * r2 / k.den3
  else if j = 6 then k.sqrt_8 * (3 * r3 - 2 * r - 2 * k.e4 * r + k.e2 * r * (3 * r2 - 2)) / k.den4
  else if j = 7 then k.sqrt_8 * (3 * r3 - 2 * r - 2 * k.e4 * r + k.e2 * r * (3 * r2 - 2)) / k.den4
  else if j = 8 then k.sqrt_8 * r3 / k.den5
  else if j = 9 then k.sqrt_8 * r3 / k.den5
  else if j = 10 then k.sqrt_5 * (6 * r4 - 6 * r2 + 1 + k.e4 + k.e2 * (4 - 6 * r2)) / k.den6
  else if j = 11 then k.sqrt_10 * (4 * r4 - 3 * r2 - 3 * k.e6 * r2 - k.e2 * r2 * (3 - 4 * r2)
      - k.e4 * r2 * (3 - 4 * r2)) * k.num7 / k.den7
  else if j = 12 then k.sqrt_10 * (4 * r4 - 3 * r2 - 3 * k.e6 * r2 - k.e2 * r2 * (3 - 4 * r2)
      - k.e4 * r2 * (3 - 4 * r2)) * k.num7 / k.den7
  else if j = 13 then k.sqrt_10 * r4 / k.den8
  else if j = 14 then k.sqrt_10 * r4 / k.den8
  else if j = 15 then k.sqrt_12 * k.num9E * (10 * r5 - 12 * r3 + 3 * r + 3 * k.e8 * r
      - 12 * k.e6 * r * (r2 - 1) + 2 * k.e4 * r * (15 - 24 * r2 + 5 * r4)
      + 4 * k.e2 * r * (3 - 12 * r2 + 10 * r4)) / k.den9
  else if j = 16 then k.sqrt_12 * k.num9E * (10 * r5 - 12 * r3 + 3 * r + 3 * k.e8 * r
      - 12 * k.e6 * r * (r2 - 1) + 2 * k.e4 * r * (15 - 24 * r2 + 5 * r4)
      + 4 * k.e2 * r * (3 - 12 * r2 + 10 * r4)) / k.den9
  else if j = 17 then k.sqrt_12 * k.num10E * (r3 * (5 * r2 - 4 - 4 * k.e8 - k.e2 * (4 - 5 * r2)
      - k.e4 * (4 - 5 * r2) - k.e6 * (4 - 5 * r2))) / k.den10
  else if j = 18 then k.sqrt_12 * k.num10E * (r3 * (5 * r2 - 4 - 4 * k.e8 - k.e2 * (4 - 5 * r2)
      - k.e4 * (4 - 5 * r2) - k.e6 * (4 - 5 * r2))) / k.den10
  else if j = 19 then k.sqrt_12 * r5 / k.den11
  else if j = 20 then k.sqrt_12 * r5 / k.den11
  else if j = 21 then k.sqrt_7 * (20 * r6 - 30 * r4 + 12 * r2 - 1 - k.e6 + 3 * k.e4 * (-3 + 4 * r2)
      - 3 * k.e2 * (3 - 12 * r2 + 10 * r4)) / k.den12
  else if j = 22 then k.sqrt_14 * (k.num11a * r6 + k.num11b * r4 + k.num11c * r2) / k.den13
  else if j = 23 then k.sqrt_14 * (k.num11a * r6 + k.num11b * r4 + k.num11c * r2) / k.den13
  else if j = 24 then k.sqrt_14 * (6 * r6 + k.num12 * r4) / k.den14
  else if j = 25 then k.sqrt_14 * (6 * r6 + k.num12 * r4) / k.den14
  else if j = 26 then k.sqrt_14 * k.num13 * r6
  else if j = 27 then k.sqrt_14 * k.num13 * r6
  else 0

/-- The angular factor of basis mode `j` in `zernikeAnnularEvalPoint`, as a function of the
polar angle `t`. -/
def zernikeAngular (m : CMath α) (j : ℕ) (t : α) : α :=
  if j = 0 then 1
  else if j = 1 then m.cos t
  else if j = 2 then m.sin t
  else if j = 3 then 1
  else if j = 4 then m.sin (2 * t)
  else if j = 5 then m.cos (2 * t)
  else if j = 6 then m.sin t
  else if j = 7 then m.cos t
  else if j = 8 then m.sin (3 * t)
  else if j = 9 then m.cos (3 * t)
  else if j = 10 then 1
  else if j = 11 then m.cos (2 * t)
  else if j = 12 then m.sin (2 * t)
  else if j = 13 then m.cos (4 * t)
  else if j = 14 then m.sin (4 * t)
  else if j = 15 then m.cos t
  else if j = 16 then m.sin t
  else if j = 17 then m.cos (3 * t)
  else if j = 18 then m.sin (3 * t)
  else if j = 19 then m.cos (5 * t)
  else if j = 20 then m.sin (5 * t)
  else if j = 21 then 1
  else if j = 22 then m.sin (2 * t)
  else if j = 23 then m.cos (2 * t)
  else if j = 24 then m.sin (4 * t)
  else if j = 25 then m.cos (4 * t)
  else if j = 26 then m.sin (6 * t)
  else if j = 27 then m.cos (6 * t)
  else 0

/-- The annular pupil of obscuration `e`: the points with `e^2 ≤ x^2 + y^2 ≤ 1`. -/
def annulus (e : ℝ) : Set (ℝ × ℝ) :=
  {p | e ^ (2 : ℕ) ≤ p.1 ^ (2 : ℕ) + p.2 ^ (2 : ℕ) ∧ p.1 ^ (2 : ℕ) + p.2 ^ (2 : ℕ) ≤ 1}

/-- A primitive of `r * (a0 + a1 r + ... + a6 r^6)^2`. -/
def radialPrimitive (a0 a1 a2 a3 a4 a5 a6 r : α) : α :=
  (a0 * a0) * r ^ (2 : ℕ) / 2
    + (a0 * a1 + a1 * a0) * r ^ (3 : ℕ) / 3
    + (a0 * a2 + a1 * a1 + a2 * a0) * r ^ (4 : ℕ) / 4
    + (a0 * a3 + a1 * a2 + a2 * a1 + a3 * a0) * r ^ (5 : ℕ) / 5
    + (a0 * a4 + a1 * a3 + a2 * a2 + a3 * a1 + a4 * a0) * r ^ (6 : ℕ) / 6
    + (a0 * a5 + a1 * a4 + a2 * a3 + a3 * a2 + a4 * a1 + a5 * a0) * r ^ (7 : ℕ) / 7
    + (a0 * a6 + a1 * a5 + a2 * a4 + a3 * a3 + a4 * a2 + a5 * a1 + a6 * a0) * r ^ (8 : ℕ) / 8
    + (a1 * a6 + a2 * a5 + a3 * a4 + a4 * a3 + a5 * a2 + a6 * a1) * r ^ (9 : ℕ) / 9
    + (a2 * a6 + a3 * a5 + a4 * a4 + a5 * a3 + a6 * a2) * r ^ (10 : ℕ) / 10
    + (a3 * a6 + a4 * a5 + a5 * a4 + a6 * a3) * r ^ (11 : ℕ) / 11
    + (a4 * a6 + a5 * a5 + a6 * a4) * r ^ (12 : ℕ) / 12
    + (a5 * a6 + a6 * a5) * r ^ (13 : ℕ) / 13
    + (a6 * a6) * r ^ (14 : ℕ) / 14

/-- The function `zernikeAnnularEval`. -/
def zernikeAnnularEval (m : CMath α)
    (arrayZk arrayX arrayY : PyArray α) (e : α) : Except CwfsError (List α) := do
  let infoZk ← getNpArrayInfo arrayZk
  let infoX ← getNpArrayInfo arrayX
  let infoY ← getNpArrayInfo arrayY
  let k := zernikeAnnularEvalConst m e
  pointLoop infoX infoY (fun x_c y_c => do
    let Z ← coeffView infoZk 28
    pure (zernikeAnnularEvalPoint m k Z x_c y_c))

/-- The function `zernikeAnnularJacobian`. `fresh` is the content of the newly allocated
result, which is returned untouched when `atype` is neither `"1st"` nor `"2nd"`. -/
def zernikeAnnularJacobian (m : CMath α) (fresh : ℕ → α)
    (arrayZk arrayX arrayY : PyArray α) (e : α) (atype : String) :
    Except CwfsError (List α) := do
  let infoZk ← getNpArrayInfo arrayZk
  let infoX ← getNpArrayInfo arrayX
  let infoY ← getNpArrayInfo arrayY
  let k := zernikeAnnularJacobianConst m e
  if atype = "1st" then
    pointLoop infoX infoY (fun x_c y_c => do
      let Z ← coeffView infoZk 22
      pure (zernikeAnnularJacobian_1st k Z x_c y_c))
  else if atype = "2nd" then
    pointLoop infoX infoY (fun x_c y_c => do
      let Z ← coeffView infoZk 22
      pure (zernikeAnnularJacobian_2nd k Z x_c y_c))
  else
    pure ((List.range infoX.size).map fresh)

/-- The function `zernikeAnnularGrad`. `fresh` is the content of the newly allocated result,
which is returned untouched when `axis` is none of the five recognised tokens. -/
def zernikeAnnularGrad (m : CMath α) (fresh : ℕ → α)
    (arrayZk arrayX arrayY : PyArray α) (e : α) (axis : String) :
    Except CwfsError (List α) := do
  let infoZk ← getNpArrayInfo arrayZk
  let infoX ← getNpArrayInfo arrayX
  let infoY ← getNpArrayInfo arrayY
  let k := zernikeAnnularGradConst m e
  if axis = "dx" then
    pointLoop infoX infoY (fun x_c y_c => do
      let Z ← coeffView infoZk 22
      pure (zernikeAnnularGrad_dx k Z x_c y_c))
  else if axis = "dy" then
    pointLoop infoX infoY (fun x_c y_c => do
      let Z ← coeffView infoZk 22
      pure (zernikeAnnularGrad_dy k Z x_c y_c))
  else if axis = "dx2" then
    pointLoop infoX infoY (fun x_c y_c => do
      let Z ← coeffView infoZk 22
      pure (zernikeAnnularGrad_dx2 k Z x_c y_c))
  else if axis = "dy2" then
    pointLoop infoX infoY (fun x_c y_c => do
      let Z ← coeffView infoZk 22
      pure (zernikeAnnularGrad_dy2 k Z x_c y_c))
  else if axis = "dxy" then
    pointLoop infoX infoY (fun x_c y_c => do
      let Z ← coeffView infoZk 22
      pure (zernikeAnnularGrad_dxy k Z x_c y_c))
  else
    pure ((List.range infoX.size).map fresh)

/-- The function `poly10_2D`. -/
def poly10_2D (arrayC arrayX arrayY : PyArray α) :
    Except CwfsError (List α) := do
  let infoC ← getNpArrayInfo arrayC
  let infoX ← getNpArrayInfo arrayX
  let infoY ← getNpArrayInfo arrayY
  pointLoop infoX infoY (fun x_c y_c => do
    let c ← coeffView infoC 66
    pure (poly10_2DPoint c x_c y_c))

/-- The function `poly10Grad`. `fresh` is the content of the newly allocated result, which is
returned untouched when `axis` is neither `"dx"` nor `"dy"`. The `"dx"` branch reads the
coefficients up to index 64, the `"dy"` branch up to index 65. -/
def poly10Grad (fresh : ℕ → α)
    (arrayC arrayX arrayY : PyArray α) (axis : String) : Except CwfsError (List α) := do
  let infoC ← getNpArrayInfo arrayC
  let infoX ← getNpArrayInfo arrayX
  let infoY ← getNpArrayInfo arrayY
  if axis = "dx" then
    pointLoop infoX infoY (fun x_c y_c => do
      let c ← coeffView infoC 65
      pure (poly10Grad_dx c x_c y_c))
  else if axis = "dy" then
    pointLoop infoX infoY (fun x_c y_c => do
      let c ← coeffView infoC 66
      pure (poly10Grad_dy c x_c y_c))
  else
    pure ((List.range infoX.size).map fresh)

/-- The coefficient vector that is `1` at index `k` and `0` elsewhere. -/
def unitCoeff {α : Type} [Zero α] [One α] (k : ℕ) : ℕ → α :=
  fun i => if i = k then 1 else 0


/-- An operation `op` on two sample buffers is a pointwise map with per-point function `f`:
on buffers of equal length `N` it returns `N` values and the value of index `i` is
`f x[i] y[i]`; two calls whose samples agree at index `i` return the same value at index
`i`, whatever the other samples are; and the samples of a concatenation give the
concatenation of the values. -/
def IsPointwiseMap {α : Type} (op : List α → List α → Except CwfsError (List α))
    (f : α → α → α) : Prop :=
  (∀ xs ys : List α, xs.length = ys.length →
    ∃ out, op xs ys = .ok out ∧ out.length = xs.length
      ∧ ∀ (i : ℕ) (x y : α), xs[i]? = some x → ys[i]? = some y → out[i]? = some (f x y))
  ∧ (∀ (xs ys xs' ys' : List α) (i : ℕ), xs.length = ys.length → xs'.length = ys'.length →
    xs[i]? = xs'[i]? → ys[i]? = ys'[i]? →
    ∃ out out', op xs ys = .ok out ∧ op xs' ys' = .ok out' ∧ out[i]? = out'[i]?)
  ∧ (∀ xs ys xs' ys' : List α, xs.length = ys.length → xs'.length = ys'.length →
    ∃ out out', op xs ys = .ok out ∧ op xs' ys' = .ok out'
      ∧ op (xs ++ xs') (ys ++ ys') = .ok (out ++ out'))

/-- The call `r` returns an array of `n` values: it throws no exception and reads no buffer
out of bounds. -/
def ReturnsArray {α : Type} (r : Except CwfsError (List α)) (n : ℕ) : Prop :=
  ∃ out, r = .ok out ∧ out.length = n

/-- The radial order `n` and the azimuthal frequency `m` of the classical Zernike polynomial
of Noll index `j`, for `j = 1..28`. -/
def nollOrder (j : ℕ) : ℕ × ℕ :=
  if j = 1 then (0, 0)
  else if j = 2 then (1, 1)
  else if j = 3 then (1, 1)
  else if j = 4 then (2, 0)
  else if j = 5 then (2, 2)
  else if j = 6 then (2, 2)
  else if j = 7 then (3, 1)
  else if j = 8 then (3, 1)
  else if j = 9 then (3, 3)
  else if j = 10 then (3, 3)
  else if j = 11 then (4, 0)
  else if j = 12 then (4, 2)
  else if j = 13 then (4, 2)
  else if j = 14 then (4, 4)
  else if j = 15 then (4, 4)
  else if j = 16 then (5, 1)
  else if j = 17 then (5, 1)
  else if j = 18 then (5, 3)
  else if j = 19 then (5, 3)
  else if j = 20 then (5, 5)
  else if j = 21 then (5, 5)
  else if j = 22 then (6, 0)
  else if j = 23 then (6, 2)
  else if j = 24 then (6, 2)
  else if j = 25 then (6, 4)
  else if j = 26 then (6, 4)
  else if j = 27 then (6, 6)
  else if j = 28 then (6, 6)
  else (0, 0)

/-- The classical radial polynomial
`R_n^m(r) = sum over s = 0..(n-m)/2 of (-1)^s (n-s)! / (s! ((n+m)/2-s)! ((n-m)/2-s)!) r^(n-2s)`. -/
def nollRadial (n m : ℕ) (r : α) : α :=
  ((List.range ((n - m) / 2 + 1)).map (fun s =>
    (-1) ^ s * ((n - s).factorial : α)
      / ((s.factorial : α) * (((n + m) / 2 - s).factorial : α)
        * (((n - m) / 2 - s).factorial : α)) * r ^ (n - 2 * s))).sum

/-- The classical Zernike polynomial of Noll index `j` at polar coordinates `(r, t)`:
`sqrt (n + 1) * R_n^m(r) * a_j(t)` with `a_j = 1` if `m = 0`, `sqrt 2 * cos (m t)` if `m > 0`
and `j` is even, `sqrt 2 * sin (m t)` if `m > 0` and `j` is odd.  It is written from the
classical formula, to be compared with `zernikeAnnularEvalPoint` at `e = 0`. -/
def nollZernike (cm : CMath α) (j : ℕ) (r t : α) : α :=
  let n := (nollOrder j).1
  let m := (nollOrder j).2
  let a := if m = 0 then 1
    else if j % 2 = 0 then cm.sqrt 2 * cm.cos ((m : α) * t)
    else cm.sqrt 2 * cm.sin ((m : α) * t)
  cm.sqrt ((n : α) + 1) * nollRadial n m r * a

/-! ### Checked coefficient reads

The loop bodies above take the coefficient pointer as a function `ℕ → α` and are written over
an arbitrary arithmetic `α`.  To follow every read `Z[k]`, `c[k]` of a body, the body is run
over `Checked α`: a value of `α`, or the mark `oob` left by a read outside the buffer.  Every
operation of the arithmetic and every function of `<cmath>` hands the mark on, so the result
of a body is a value exactly when no read of a coefficient that enters it left the buffer. -/

/-- A value, or the mark of a read outside a buffer. -/
inductive Checked (α : Type) where
  /-- An ordinary value. -/
  | val (a : α)
  /-- The result of a read outside a buffer, and of every computation that uses one. -/
  | oob

/-- A function of one argument on checked values. -/
def Checked.map {α : Type} (f : α → α) : Checked α → Checked α
  | .val a => .val (f a)
  | .oob => .oob

/-- A function of two arguments on checked values. -/
def Checked.map2 {α : Type} (f : α → α → α) : Checked α → Checked α → Checked α
  | .val a, .val b => .val (f a b)
  | _, _ => .oob

instance Checked.instAdd {α : Type} [Add α] : Add (Checked α) := ⟨Checked.map2 (· + ·)⟩
instance Checked.instSub {α : Type} [Sub α] : Sub (Checked α) := ⟨Checked.map2 (· - ·)⟩
instance Checked.instMul {α : Type} [Mul α] : Mul (Checked α) := ⟨Checked.map2 (· * ·)⟩
instance Checked.instDiv {α : Type} [Div α] : Div (Checked α) := ⟨Checked.map2 (· / ·)⟩
instance Checked.instNeg {α : Type} [Neg α] : Neg (Checked α) := ⟨Checked.map (- ·)⟩
instance Checked.instZero {α : Type} [Zero α] : Zero (Checked α) := ⟨.val 0⟩
instance Checked.instOne {α : Type} [One α] : One (Checked α) := ⟨.val 1⟩
instance Checked.instNatCast {α : Type} [NatCast α] : NatCast (Checked α) :=
  ⟨fun n => .val (n : α)⟩
instance Checked.instPow {α : Type} [Pow α ℕ] : Pow (Checked α) ℕ :=
  ⟨fun x n => Checked.map (· ^ n) x⟩

/-- The functions of `<cmath>` on checked values. -/
def checkedMath {α : Type} (m : CMath α) : CMath (Checked α) where
  sqrt := Checked.map m.sqrt
  sin := Checked.map m.sin
  cos := Checked.map m.cos
  atan2 := Checked.map2 m.atan2

/-- The checked read `buf[k]` of a coefficient buffer: the entry if `k` is inside the buffer,
the mark `oob` otherwise. -/
def checkedRead {α : Type} (buf : List α) (k : ℕ) : Checked α :=
  match buf[k]? with
  | some v => .val v
  | none => .oob

/-! ### The arithmetic of `double`

The formulas above are written over an arbitrary arithmetic, so they can also be run in a
model of IEEE 754 binary64, the type `double` of the source.  `Dbl` is such a model:

* a finite number is kept as the rational it stands for; the other values are `+inf`, `-inf`
  and `NaN`;
* every operation computes the exact result and rounds it once, to the nearest number with a
  53-bit significand, ties to even, with gradual underflow (the spacing never goes below
  `2^-1074`); a rounded result of magnitude `2^1024` or more is an infinity;
* `inf - inf`, `0 * inf`, `0 / 0` and `inf / inf` are `NaN`, a `NaN` operand gives `NaN`, a
  non-zero finite number divided by zero is an infinity;
* `pow` with a natural number as exponent is the exact power rounded once, and `sqrt` is the
  correctly rounded square root.

Not modelled: the sign of zero (every zero is `+0`, which matters only for the sign of a
quotient by zero), and `sin`, `cos`, `atan2`, which are parameters of `dblMath`. -/

/-- A value of the type `double`: a finite number, an infinity with its sign (`true` for
the negative one), or `NaN`. -/
inductive Dbl where
  /-- A finite number, given by the rational it stands for. -/
  | fin (q : ℚ)
  /-- An infinity; `neg` tells the negative one. -/
  | inf (neg : Bool)
  /-- Not a number. -/
  | nan
  deriving DecidableEq

/-- The number of binary digits of `n` (`0` for `n = 0`); `fuel` bounds the number of steps and
`fuel = n` is always enough. -/
def Dbl.bitLength : ℕ → ℕ → ℕ
  | 0, _ => 0
  | fuel + 1, n =>
    if n = 0 then 0
    else if 2 ^ 64 ≤ n then Dbl.bitLength fuel (n / 2 ^ 64) + 64
    else Dbl.bitLength fuel (n / 2) + 1

/-- The integer `k` with `2^k ≤ n / d < 2^(k+1)`, for positive `n` and `d`. -/
def Dbl.ilog2 (n d : ℕ) : ℤ :=
  let k : ℤ := (Dbl.bitLength n n : ℤ) - (Dbl.bitLength d d : ℤ)
  if d * 2 ^ k.toNat ≤ n * 2 ^ (-k).toNat then k else k - 1

/-- The integer nearest to `n / d`, the even one of the two when `n / d` lies half way. -/
def Dbl.roundRatio (n d : ℕ) : ℕ :=
  let f := n / d
  let r := n % d
  if 2 * r < d then f else if d < 2 * r then f + 1 else if f % 2 = 0 then f else f + 1

/-- The value `± m * 2^u` as a `double`: an infinity when its magnitude is `2^1024` or
more. -/
def Dbl.pack (neg : Bool) (m : ℕ) (u : ℤ) : Dbl :=
  if 2 ^ 1024 ≤ m * 2 ^ u.toNat then .inf neg
  else .fin ((if neg then -1 else 1) * mkRat (m * 2 ^ u.toNat) (2 ^ (-u).toNat))

/-- Rounding of an exact result to binary64: to the nearest multiple of `2^u`, ties to even,
where `2^u` is the spacing of the numbers of binary64 around `q` (`u = k - 52` for
`2^k ≤ |q| < 2^(k+1)`, and never below `-1074`). -/
def Dbl.round (q : ℚ) : Dbl :=
  if q = 0 then .fin 0
  else
    let n := q.num.natAbs
    let d := q.den
    let u : ℤ := max (Dbl.ilog2 n d - 52) (-1074)
    Dbl.pack (decide (q < 0)) (Dbl.roundRatio (n * 2 ^ (-u).toNat) (d * 2 ^ u.toNat)) u

/-- The integer nearest to the square root of `n / d`. -/
def Dbl.roundSqrtRatio (n d : ℕ) : ℕ :=
  let s := Nat.sqrt (n / d)
  if 4 * n < (2 * s + 1) ^ 2 * d then s
  else if (2 * s + 1) ^ 2 * d < 4 * n then s + 1
  else if s % 2 = 0 then s else s + 1

/-- Addition of `double`. -/
def Dbl.add : Dbl → Dbl → Dbl
  | .fin p, .fin q => Dbl.round (p + q)
  | .fin _, .inf b => .inf b
  | .inf a, .fin _ => .inf a
  | .inf a, .inf b => if a = b then .inf a else .nan
  | _, _ => .nan

/-- Negation of `double`. -/
def Dbl.neg : Dbl → Dbl
  | .fin q => .fin (-q)
  | .inf a => .inf (!a)
  | .nan => .nan

/-- Subtraction of `double`. -/
def Dbl.sub (x y : Dbl) : Dbl := Dbl.add x (Dbl.neg y)

/-- Multiplication of `double`; `0 * inf` is `NaN`. -/
def Dbl.mul : Dbl → Dbl → Dbl
  | .fin p, .fin q => Dbl.round (p * q)
  | .fin p, .inf b => if p = 0 then .nan else .inf (decide (p < 0) != b)
  | .inf a, .fin q => if q = 0 then .nan else .inf (a != decide (q < 0))
  | .inf a, .inf b => .inf (a != b)
  | _, _ => .nan

/-- Division of `double`; `0 / 0` and `inf / inf` are `NaN`, a non-zero number divided by
zero is an infinity. -/
def Dbl.div : Dbl → Dbl → Dbl
  | .fin p, .fin q =>
    if q = 0 then (if p = 0 then .nan else .inf (decide (p < 0))) else Dbl.round (p / q)
  | .fin _, .inf _ => .fin 0
  | .inf a, .fin q => .inf (a != decide (q < 0))
  | _, _ => .nan

/-- The function `sqrt` of `<cmath>`: correctly rounded, `NaN` for a negative argument. -/
def Dbl.sqrt : Dbl → Dbl
  | .fin q =>
    if q < 0 then .nan
    else if q = 0 then .fin 0
    else
      let n := q.num.natAbs
      let d := q.den
      let u : ℤ := Int.fdiv (Dbl.ilog2 n d) 2 - 52
      Dbl.pack false (Dbl.roundSqrtRatio (n * 4 ^ (-u).toNat) (d * 4 ^ u.toNat)) u
  | .inf a => if a then .nan else .inf false
  | .nan => .nan

/-- The function `pow` of `<cmath>` for an exponent that is a natural number. -/
def Dbl.pow (x : Dbl) (n : ℕ) : Dbl :=
  if n = 0 then .fin 1
  else match x with
    | .fin q => Dbl.round (q ^ n)
    | .inf a => .inf (a && decide (n % 2 = 1))
    | .nan => .nan

instance Dbl.instAdd : Add Dbl := ⟨Dbl.add⟩
instance Dbl.instSub : Sub Dbl := ⟨Dbl.sub⟩
instance Dbl.instMul : Mul Dbl := ⟨Dbl.mul⟩
instance Dbl.instDiv : Div Dbl := ⟨Dbl.div⟩
instance Dbl.instNeg : Neg Dbl := ⟨Dbl.neg⟩
instance Dbl.instZero : Zero Dbl := ⟨.fin 0⟩
instance Dbl.instOne : One Dbl := ⟨.fin 1⟩
instance Dbl.instNatCast : NatCast Dbl := ⟨fun n => Dbl.round n⟩
instance Dbl.instPow : Pow Dbl ℕ := ⟨Dbl.pow⟩

/-- The functions of `<cmath>` in binary64. The square root is the one of the model; the
trigonometric functions are parameters. -/
def dblMath (sin cos : Dbl → Dbl) (atan2 : Dbl → Dbl → Dbl) : CMath Dbl where
  sqrt := Dbl.sqrt
  sin := sin
  cos := cos
  atan2 := atan2

/-- Equality of two results of a call can be decided when equality of the errors and of the
values can. -/
instance decEqExcept {ε β : Type} [DecidableEq ε] [DecidableEq β] : DecidableEq (Except ε β)
  | .ok a, .ok b =>
    if h : a = b then isTrue (by rw [h]) else isFalse (fun h2 => h (by cases h2; rfl))
  | .error a, .error b =>
    if h : a = b then isTrue (by rw [h]) else isFalse (fun h2 => h (by cases h2; rfl))
  | .ok _, .error _ => isFalse (fun h => by cases h)
  | .error _, .ok _ => isFalse (fun h => by cases h)
/-! ## Auxiliary facts: derivatives of polynomial expressions, polar coordinates -/

/-! Derivative rules restated for real functions `ℝ → ℝ`, in the shape the term-by-term
differentiation of a polynomial expression applies them. -/

theorem hd_id (x : ℝ) : HasDerivAt (fun t : ℝ => t) 1 x := hasDerivAt_id' x
theorem hd_const (c x : ℝ) : HasDerivAt (fun _ : ℝ => c) 0 x := hasDerivAt_const x c
theorem hd_add {f g : ℝ → ℝ} {f' g' x : ℝ} (hf : HasDerivAt f f' x) (hg : HasDerivAt g g' x) :
    HasDerivAt (fun t => f t + g t) (f' + g') x := hf.add hg
theorem hd_sub {f g : ℝ → ℝ} {f' g' x : ℝ} (hf : HasDerivAt f f' x) (hg : HasDerivAt g g' x) :
    HasDerivAt (fun t => f t - g t) (f' - g') x := hf.sub hg
theorem hd_mul {f g : ℝ → ℝ} {f' g' x : ℝ} (hf : HasDerivAt f f' x) (hg : HasDerivAt g g' x) :
    HasDerivAt (fun t => f t * g t) (f' * g x + f x * g') x := hf.mul hg
theorem hd_neg {f : ℝ → ℝ} {f' x : ℝ} (hf : HasDerivAt f f' x) :
    HasDerivAt (fun t => -f t) (-f') x := hf.neg
theorem hd_div_const {f : ℝ → ℝ} {f' x : ℝ} (hf : HasDerivAt f f' x) (d : ℝ) :
    HasDerivAt (fun t => f t / d) (f' / d) x := hf.div_const d
theorem hd_pow {f : ℝ → ℝ} {f' x : ℝ} (hf : HasDerivAt f f' x) (n : ℕ) :
    HasDerivAt (fun t => f t ^ n) ((n : ℝ) * f x ^ (n - 1) * f') x := hf.pow n

/-- Polar coordinates of the source: with `r = sqrt (x^2 + y^2)` and `t = atan2 y x`,
`r cos t = x`, `r sin t = y` and `r * r = x^2 + y^2` (also at the origin). -/
theorem polar_facts (x y : ℝ) :
    realMath.sqrt (x ^ 2 + y ^ 2) * realMath.cos (realMath.atan2 y x) = x
    ∧ realMath.sqrt (x ^ 2 + y ^ 2) * realMath.sin (realMath.atan2 y x) = y
    ∧ realMath.sqrt (x ^ 2 + y ^ 2) * realMath.sqrt (x ^ 2 + y ^ 2) = x ^ 2 + y ^ 2 := by
  have habs : Complex.abs ⟨x, y⟩ = Real.sqrt (x ^ 2 + y ^ 2) := by
    rw [Complex.abs_apply, Complex.normSq_mk]
    congr 1
    ring
  have hnn : 0 ≤ x ^ 2 + y ^ 2 := by positivity
  simp only [realMath]
  refine ⟨?_, ?_, Real.mul_self_sqrt hnn⟩
  · by_cases hz : (⟨x, y⟩ : ℂ) = 0
    · have hx : x = 0 := by simpa using congrArg Complex.re hz
      have hy : y = 0 := by simpa using congrArg Complex.im hz
      subst hx hy
      simp
    · rw [Complex.cos_arg hz, habs]
      have hr : Real.sqrt (x ^ 2 + y ^ 2) ≠ 0 := by
        rw [← habs]
        exact (map_ne_zero Complex.abs).2 hz
      field_simp
  · rw [Complex.sin_arg, habs]
    by_cases hr : Real.sqrt (x ^ 2 + y ^ 2) = 0
    · have h0 : x ^ 2 + y ^ 2 = 0 := (Real.sqrt_eq_zero hnn).1 hr
      have hy : y = 0 := by nlinarith [sq_nonneg x, sq_nonneg y]
      simp [hr, hy]
    · field_simp

/-- Multiple-angle formulas in homogeneous form, for the harmonics `2 t .. 6 t`. -/
theorem harmonics (t : ℝ) :
    Real.sin (2 * t) = 2 * Real.sin t * Real.cos t
    ∧ Real.cos (2 * t) = Real.cos t ^ 2 - Real.sin t ^ 2
    ∧ Real.sin (3 * t) = 3 * Real.cos t ^ 2 * Real.sin t - Real.sin t ^ 3
    ∧ Real.cos (3 * t) = Real.cos t ^ 3 - 3 * Real.cos t * Real.sin t ^ 2
    ∧ Real.sin (4 * t) = 4 * Real.cos t ^ 3 * Real.sin t - 4 * Real.cos t * Real.sin t ^ 3
    ∧ Real.cos (4 * t) = Real.cos t ^ 4 - 6 * Real.cos t ^ 2 * Real.sin t ^ 2 + Real.sin t ^ 4
    ∧ Real.sin (5 * t) = 5 * Real.cos t ^ 4 * Real.sin t - 10 * Real.cos t ^ 2 * Real.sin t ^ 3
        + Real.sin t ^ 5
    ∧ Real.cos (5 * t) = Real.cos t ^ 5 - 10 * Real.cos t ^ 3 * Real.sin t ^ 2
        + 5 * Real.cos t * Real.sin t ^ 4
    ∧ Real.sin (6 * t) = 6 * Real.cos t ^ 5 * Real.sin t - 20 * Real.cos t ^ 3 * Real.sin t ^ 3
        + 6 * Real.cos t * Real.sin t ^ 5
    ∧ Real.cos (6 * t) = Real.cos t ^ 6 - 15 * Real.cos t ^ 4 * Real.sin t ^ 2
        + 15 * Real.cos t ^ 2 * Real.sin t ^ 4 - Real.sin t ^ 6 := by
  have s2 : Real.sin (2 * t) = 2 * Real.sin t * Real.cos t := by
    rw [two_mul, Real.sin_add]; ring
  have c2 : Real.cos (2 * t) = Real.cos t ^ 2 - Real.sin t ^ 2 := by
    rw [two_mul, Real.cos_add]; ring
  have s3 : Real.sin (3 * t) = 3 * Real.cos t ^ 2 * Real.sin t - Real.sin t ^ 3 := by
    rw [show 3 * t = 2 * t + t by ring, Real.sin_add, s2, c2]; ring
  have c3 : Real.cos (3 * t) = Real.cos t ^ 3 - 3 * Real.cos t * Real.sin t ^ 2 := by
    rw [show 3 * t = 2 * t + t by ring, Real.cos_add, s2, c2]; ring
  have s4 : Real.sin (4 * t)
      = 4 * Real.cos t ^ 3 * Real.sin t - 4 * Real.cos t * Real.sin t ^ 3 := by
    rw [show 4 * t = 3 * t + t by ring, Real.sin_add, s3, c3]; ring
  have c4 : Real.cos (4 * t)
      = Real.cos t ^ 4 - 6 * Real.cos t ^ 2 * Real.sin t ^ 2 + Real.sin t ^ 4 := by
    rw [show 4 * t = 3 * t + t by ring, Real.cos_add, s3, c3]; ring
  have s5 : Real.sin (5 * t) = 5 * Real.cos t ^ 4 * Real.sin t
      - 10 * Real.cos t ^ 2 * Real.sin t ^ 3 + Real.sin t ^ 5 := by
    rw [show 5 * t = 4 * t + t by ring, Real.sin_add, s4, c4]; ring
  have c5 : Real.cos (5 * t) = Real.cos t ^ 5 - 10 * Real.cos t ^ 3 * Real.sin t ^ 2
      + 5 * Real.cos t * Real.sin t ^ 4 := by
    rw [show 5 * t = 4 * t + t by ring, Real.cos_add, s4, c4]; ring
  have s6 : Real.sin (6 * t) = 6 * Real.cos t ^ 5 * Real.sin t
      - 20 * Real.cos t ^ 3 * Real.sin t ^ 3 + 6 * Real.cos t * Real.sin t ^ 5 := by
    rw [show 6 * t = 5 * t + t by ring, Real.sin_add, s5, c5]; ring
  have c6 : Real.cos (6 * t) = Real.cos t ^ 6 - 15 * Real.cos t ^ 4 * Real.sin t ^ 2
      + 15 * Real.cos t ^ 2 * Real.sin t ^ 4 - Real.sin t ^ 6 := by
    rw [show 6 * t = 5 * t + t by ring, Real.cos_add, s5, c5]; ring
  exact ⟨s2, c2, s3, c3, s4, c4, s5, c5, s6, c6⟩

/-- The polar formula of the source and the Cartesian closed form agree at every point. -/
theorem zernikeAnnularEvalPoint_eq_cartesian (k : EvalConst ℝ) (Z : ℕ → ℝ) (x y : ℝ) :
    zernikeAnnularEvalPoint realMath k Z x y = zernikeAnnularCartesian k Z x y := by
  obtain ⟨hx, hy, hr⟩ := polar_facts x y
  obtain ⟨s2, c2, s3, c3, s4, c4, s5, c5, s6, c6⟩ := harmonics (realMath.atan2 y x)
  simp only [zernikeAnnularEvalPoint, zernikeAnnularCartesian]
  simp only [realMath] at hx hy hr s2 c2 s3 c3 s4 c4 s5 c5 s6 c6 ⊢
  rw [s2, c2, s3, c3, s4, c4, s5, c5, s6, c6]
  generalize Real.sin (Complex.arg ⟨x, y⟩) = s at *
  generalize Real.cos (Complex.arg ⟨x, y⟩) = c at *
  generalize Real.sqrt (x ^ 2 + y ^ 2) = r at *
  subst hx hy
  rw [← hr]
  ring

/-- The constants of `zernikeAnnularGrad` are those of `zernikeAnnularEval` of the same name. -/
theorem zernikeAnnularGradConst_eq (e : ℝ) :
    zernikeAnnularGradConst realMath e = gradConstOfEval (zernikeAnnularEvalConst realMath e) :=
  rfl

/-- The derivative in `x` of the Cartesian form of the surface, for coefficients that vanish on
the modes 22 to 27, is the `"dx"` loop body of `zernikeAnnularGrad`. -/
theorem hasDerivAt_cartesian_x (k : EvalConst ℝ) (Z : ℕ → ℝ) (x y : ℝ)
    (hZ : ∀ j, 22 ≤ j → j ≤ 27 → Z j = 0) :
    HasDerivAt (fun x' => zernikeAnnularCartesian k Z x' y)
      (zernikeAnnularGrad_dx (gradConstOfEval k) Z x y) x := by
  have z22 := hZ 22 (by norm_num) (by norm_num)
  have z23 := hZ 23 (by norm_num) (by norm_num)
  have z24 := hZ 24 (by norm_num) (by norm_num)
  have z25 := hZ 25 (by norm_num) (by norm_num)
  have z26 := hZ 26 (by norm_num) (by norm_num)
  have z27 := hZ 27 (by norm_num) (by norm_num)
  simp only [zernikeAnnularCartesian, zernikeAnnularGrad_dx, gradConstOfEval, z22, z23, z24,
    z25, z26, z27]
  apply HasDerivAt.congr_deriv
  · repeat' first
      | exact hd_id x
      | exact hd_const _ x
      | with_reducible_and_instances apply hd_pow
      | with_reducible_and_instances apply hd_div_const
      | with_reducible_and_instances apply hd_sub
      | with_reducible_and_instances apply hd_add
      | with_reducible_and_instances apply hd_neg
      | with_reducible_and_instances apply hd_mul
  · simp only [Nat.cast_ofNat]
    ring

/-- The derivative in `y` of the Cartesian form of the surface, for coefficients that vanish on
the modes 22 to 27, is the `"dy"` loop body of `zernikeAnnularGrad`. -/
theorem hasDerivAt_cartesian_y (k : EvalConst ℝ) (Z : ℕ → ℝ) (x y : ℝ)
    (hZ : ∀ j, 22 ≤ j → j ≤ 27 → Z j = 0) :
    HasDerivAt (fun y' => zernikeAnnularCartesian k Z x y')
      (zernikeAnnularGrad_dy (gradConstOfEval k) Z x y) y := by
  have z22 := hZ 22 (by norm_num) (by norm_num)
  have z23 := hZ 23 (by norm_num) (by norm_num)
  have z24 := hZ 24 (by norm_num) (by norm_num)
  have z25 := hZ 25 (by norm_num) (by norm_num)
  have z26 := hZ 26 (by norm_num) (by norm_num)
  have z27 := hZ 27 (by norm_num) (by norm_num)
  simp only [zernikeAnnularCartesian, zernikeAnnularGrad_dy, gradConstOfEval, z22, z23, z24,
    z25, z26, z27]
  apply HasDerivAt.congr_deriv
  · repeat' first
      | exact hd_id y
      | exact hd_const _ y
      | with_reducible_and_instances apply hd_pow
      | with_reducible_and_instances apply hd_div_const
      | with_reducible_and_instances apply hd_sub
      | with_reducible_and_instances apply hd_add
      | with_reducible_and_instances apply hd_neg
      | with_reducible_and_instances apply hd_mul
  · simp only [Nat.cast_ofNat]
    ring

/-! ## C1: the surface is linear in the coefficients -/

/-- The loop body of `zernikeAnnularEval` reads the coefficients of index `0..27` only. -/
theorem evalPoint_congr (k : EvalConst ℝ) (Z Z' : ℕ → ℝ) (x y : ℝ)
    (h : ∀ j, j < 28 → Z j = Z' j) :
    zernikeAnnularEvalPoint realMath k Z x y = zernikeAnnularEvalPoint realMath k Z' x y := by
  simp only [zernikeAnnularEvalPoint, h 0 (by norm_num), h 1 (by norm_num), h 2 (by norm_num),
    h 3 (by norm_num), h 4 (by norm_num), h 5 (by norm_num), h 6 (by norm_num),
    h 7 (by norm_num), h 8 (by norm_num), h 9 (by norm_num), h 10 (by norm_num),
    h 11 (by norm_num), h 12 (by norm_num), h 13 (by norm_num), h 14 (by norm_num),
    h 15 (by norm_num), h 16 (by norm_num), h 17 (by norm_num), h 18 (by norm_num),
    h 19 (by norm_num), h 20 (by norm_num), h 21 (by norm_num), h 22 (by norm_num),
    h 23 (by norm_num), h 24 (by norm_num), h 25 (by norm_num), h 26 (by norm_num),
    h 27 (by norm_num)]

theorem evalPoint_lin (k : EvalConst ℝ) (Z Z' : ℕ → ℝ) (a b x y : ℝ) :
    zernikeAnnularEvalPoint realMath k (fun j => a * Z j + b * Z' j) x y
      = a * zernikeAnnularEvalPoint realMath k Z x y
        + b * zernikeAnnularEvalPoint realMath k Z' x y := by
  simp only [zernikeAnnularEvalPoint]
  ring

theorem evalPoint_zero (k : EvalConst ℝ) (x y : ℝ) :
    zernikeAnnularEvalPoint realMath k (fun _ => 0) x y = 0 := by
  have h := evalPoint_lin k (fun _ => 0) (fun _ => 0) 0 0 x y
  simpa using h

theorem evalPoint_sum (k : EvalConst ℝ) (c : ℕ → ℝ) (U : ℕ → ℕ → ℝ) (x y : ℝ) (n : ℕ) :
    zernikeAnnularEvalPoint realMath k (fun j => ∑ i in Finset.range n, c i * U i j) x y
      = ∑ i in Finset.range n, c i * zernikeAnnularEvalPoint realMath k (U i) x y := by
  induction n with
  | zero => simpa using evalPoint_zero k x y
  | succ n ih =>
    have h := evalPoint_lin k (fun j => ∑ i in Finset.range n, c i * U i j) (U n) 1 (c n) x y
    simp only [one_mul] at h
    simp only [Finset.sum_range_succ]
    rw [h, ih]

/-- C1: the value `zernikeAnnularEval` writes for a sample is linear in the coefficient vector,
`S(a*Z + b*Z') = a*S(Z) + b*S(Z')`, and it is the sum over `k = 0..27` of `Z[k]` times the
value for the unit coefficient vector at `k`. -/
theorem zernikeAnnularEval_linear (e x y a b : ℝ) (Z Z' : ℕ → ℝ) :
    zernikeAnnularEvalPoint realMath (zernikeAnnularEvalConst realMath e)
        (fun k => a * Z k + b * Z' k) x y
      = a * zernikeAnnularEvalPoint realMath (zernikeAnnularEvalConst realMath e) Z x y
        + b * zernikeAnnularEvalPoint realMath (zernikeAnnularEvalConst realMath e) Z' x y
    ∧ zernikeAnnularEvalPoint realMath (zernikeAnnularEvalConst realMath e) Z x y
      = ∑ k in Finset.range 28, Z k *
          zernikeAnnularEvalPoint realMath (zernikeAnnularEvalConst realMath e)
            (unitCoeff k) x y := by
  refine ⟨evalPoint_lin _ Z Z' a b x y, ?_⟩
  rw [← evalPoint_sum]
  apply evalPoint_congr
  intro j hj
  simp [unitCoeff, Finset.sum_ite_eq, hj]

/-! ## C2: first derivatives of the surface -/

/-- C2 (amended): in exact real arithmetic, for `0 ≤ e < 1` and a coefficient vector whose
entries `22..27` are zero, the `"dx"` value of `zernikeAnnularGrad` is the partial derivative
with respect to `x`, and the `"dy"` value the partial derivative with respect to `y`, of the
surface of `zernikeAnnularEval` computed with the same coefficients and obscuration, at every
point. -/
theorem zernikeAnnularGrad_first_correct (e x y : ℝ) (Z : ℕ → ℝ) (he0 : 0 ≤ e) (he1 : e < 1)
    (hZ : ∀ j, 22 ≤ j → j ≤ 27 → Z j = 0) :
    HasDerivAt
        (fun x' => zernikeAnnularEvalPoint realMath (zernikeAnnularEvalConst realMath e) Z x' y)
        (zernikeAnnularGrad_dx (zernikeAnnularGradConst realMath e) Z x y) x
    ∧ HasDerivAt
        (fun y' => zernikeAnnularEvalPoint realMath (zernikeAnnularEvalConst realMath e) Z x y')
        (zernikeAnnularGrad_dy (zernikeAnnularGradConst realMath e) Z x y) y := by
  simp only [zernikeAnnularEvalPoint_eq_cartesian, zernikeAnnularGradConst_eq]
  exact ⟨hasDerivAt_cartesian_x _ Z x y hZ, hasDerivAt_cartesian_y _ Z x y hZ⟩

/-- Witness for the amended C2: mode 7, `e = 1/2`, the point `(1, 2)`. -/
theorem zernikeAnnularGrad_first_correct_witness :
    (0 : ℝ) ≤ 1 / 2 ∧ (1 / 2 : ℝ) < 1
    ∧ (∀ j, 22 ≤ j → j ≤ 27 → (unitCoeff 7 : ℕ → ℝ) j = 0)
    ∧ (HasDerivAt
        (fun x' => zernikeAnnularEvalPoint realMath (zernikeAnnularEvalConst realMath (1 / 2))
          (unitCoeff 7) x' 2)
        (zernikeAnnularGrad_dx (zernikeAnnularGradConst realMath (1 / 2)) (unitCoeff 7) 1 2) 1
      ∧ HasDerivAt
        (fun y' => zernikeAnnularEvalPoint realMath (zernikeAnnularEvalConst realMath (1 / 2))
          (unitCoeff 7) 1 y')
        (zernikeAnnularGrad_dy (zernikeAnnularGradConst realMath (1 / 2)) (unitCoeff 7) 1 2)
        2) :=
  have h : ∀ j, 22 ≤ j → j ≤ 27 → (unitCoeff 7 : ℕ → ℝ) j = 0 := by
    intro j h1 h2
    have a : j ≠ 7 := by omega
    simp [unitCoeff, a]
  ⟨by norm_num, by norm_num, h,
    zernikeAnnularGrad_first_correct (1 / 2) 1 2 (unitCoeff 7) (by norm_num) (by norm_num) h⟩

/-- C2 (counterexample): for the unit coefficient vector at mode 22 and `e = 0`, at the point
`(0, 1)` the `"dx"` value of `zernikeAnnularGrad` (which is `0`) is not the derivative in `x`
of the surface of `zernikeAnnularEval` (which is `2 sqrt 14`). -/
theorem zernikeAnnularGrad_dx_mode22_counterexample :
    ¬ HasDerivAt
        (fun x' => zernikeAnnularEvalPoint realMath (zernikeAnnularEvalConst realMath 0)
          (unitCoeff 22) x' 1)
        (zernikeAnnularGrad_dx (zernikeAnnularGradConst realMath 0) (unitCoeff 22) 0 1) 0 := by
  intro h
  have hg : zernikeAnnularGrad_dx (zernikeAnnularGradConst realMath 0) (unitCoeff 22) 0 1
      = (0 : ℝ) := by
    simp [zernikeAnnularGrad_dx, unitCoeff]
  have hf : (fun x' : ℝ => zernikeAnnularEvalPoint realMath (zernikeAnnularEvalConst realMath 0)
        (unitCoeff 22) x' 1)
      = fun x' : ℝ => Real.sqrt 14 * (15 * (x' ^ 2 + 1) ^ 2 - 20 * (x' ^ 2 + 1) + 6)
          * (2 * x') := by
    funext x'
    rw [zernikeAnnularEvalPoint_eq_cartesian]
    simp [zernikeAnnularCartesian, unitCoeff, zernikeAnnularEvalConst, realMath]
    left
    ring
  rw [hg, hf] at h
  have h1 : HasDerivAt (fun x' : ℝ => Real.sqrt 14 * (15 * (x' ^ 2 + 1) ^ 2 - 20 * (x' ^ 2 + 1)
      + 6) * (2 * x')) (2 * Real.sqrt 14) 0 := by
    apply HasDerivAt.congr_deriv
    · repeat' first
        | exact hd_id 0
        | exact hd_const _ 0
        | with_reducible_and_instances apply hd_pow
        | with_reducible_and_instances apply hd_div_const
        | with_reducible_and_instances apply hd_sub
        | with_reducible_and_instances apply hd_add
        | with_reducible_and_instances apply hd_neg
        | with_reducible_and_instances apply hd_mul
    · norm_num
      ring
  have h2 := h.unique h1
  have h3 : 0 < Real.sqrt 14 := Real.sqrt_pos.2 (by norm_num)
  linarith

/-! ## C3, C4, C5: second derivatives -/

/-- C3: the `"dx2"` value of `zernikeAnnularGrad` is the partial derivative with respect to `x`
of its `"dx"` value, for every coefficient vector, every `e` and every point. -/
theorem zernikeAnnularGrad_dx2_correct (e x y : ℝ) (Z : ℕ → ℝ) :
    HasDerivAt (fun x' => zernikeAnnularGrad_dx (zernikeAnnularGradConst realMath e) Z x' y)
      (zernikeAnnularGrad_dx2 (zernikeAnnularGradConst realMath e) Z x y) x := by
  generalize zernikeAnnularGradConst realMath e = k
  simp only [zernikeAnnularGrad_dx, zernikeAnnularGrad_dx2]
  apply HasDerivAt.congr_deriv
  · repeat' first
      | exact hd_id x
      | exact hd_const _ x
      | with_reducible_and_instances apply hd_pow
      | with_reducible_and_instances apply hd_div_const
      | with_reducible_and_instances apply hd_sub
      | with_reducible_and_instances apply hd_add
      | with_reducible_and_instances apply hd_neg
      | with_reducible_and_instances apply hd_mul
  · ring

/-- C4: the `"dxy"` value of `zernikeAnnularGrad` is the partial derivative with respect to `y`
of its `"dx"` value and the partial derivative with respect to `x` of its `"dy"` value, for
every coefficient vector, every `e` and every point. -/
theorem zernikeAnnularGrad_dxy_correct (e x y : ℝ) (Z : ℕ → ℝ) :
    HasDerivAt (fun y' => zernikeAnnularGrad_dx (zernikeAnnularGradConst realMath e) Z x y')
      (zernikeAnnularGrad_dxy (zernikeAnnularGradConst realMath e) Z x y) y
    ∧ HasDerivAt (fun x' => zernikeAnnularGrad_dy (zernikeAnnularGradConst realMath e) Z x' y)
      (zernikeAnnularGrad_dxy (zernikeAnnularGradConst realMath e) Z x y) x := by
  generalize zernikeAnnularGradConst realMath e = k
  constructor
  · simp only [zernikeAnnularGrad_dx, zernikeAnnularGrad_dxy]
    apply HasDerivAt.congr_deriv
    · repeat' first
        | exact hd_id y
        | exact hd_const _ y
        | with_reducible_and_instances apply hd_pow
        | with_reducible_and_instances apply hd_div_const
        | with_reducible_and_instances apply hd_sub
        | with_reducible_and_instances apply hd_add
        | with_reducible_and_instances apply hd_neg
        | with_reducible_and_instances apply hd_mul
    · ring
  · simp only [zernikeAnnularGrad_dy, zernikeAnnularGrad_dxy]
    apply HasDerivAt.congr_deriv
    · repeat' first
        | exact hd_id x
        | exact hd_const _ x
        | with_reducible_and_instances apply hd_pow
        | with_reducible_and_instances apply hd_div_const
        | with_reducible_and_instances apply hd_sub
        | with_reducible_and_instances apply hd_add
        | with_reducible_and_instances apply hd_neg
        | with_reducible_and_instances apply hd_mul
    · ring

/-- C5: the `"dy2"` value of `zernikeAnnularGrad` is the partial derivative with respect to `y`
of its `"dy"` value, for every coefficient vector, every `e` and every point. -/
theorem zernikeAnnularGrad_dy2_correct (e x y : ℝ) (Z : ℕ → ℝ) :
    HasDerivAt (fun y' => zernikeAnnularGrad_dy (zernikeAnnularGradConst realMath e) Z x y')
      (zernikeAnnularGrad_dy2 (zernikeAnnularGradConst realMath e) Z x y) y := by
  generalize zernikeAnnularGradConst realMath e = k
  simp only [zernikeAnnularGrad_dy, zernikeAnnularGrad_dy2]
  apply HasDerivAt.congr_deriv
  · repeat' first
      | exact hd_id y
      | exact hd_const _ y
      | with_reducible_and_instances apply hd_pow
      | with_reducible_and_instances apply hd_div_const
      | with_reducible_and_instances apply hd_sub
      | with_reducible_and_instances apply hd_add
      | with_reducible_and_instances apply hd_neg
      | with_reducible_and_instances apply hd_mul
  · ring

/-! ## C6, C7, C8: the degree-10 polynomial and its gradient -/

/-- C6: `poly10_2D` evaluates the sum over `d = 0..10`, `j = 0..d` of
`c[d*(d+1)/2 + j] * x^(d-j) * y^j`: the coefficients are graded by total degree and, within a
degree, ordered by descending power of `x`. -/
theorem poly10_2D_graded (c : ℕ → ℝ) (x y : ℝ) :
    poly10_2DPoint c x y
      = ∑ d in Finset.range 11, ∑ j in Finset.range (d + 1),
          c (d * (d + 1) / 2 + j) * x ^ (d - j) * y ^ j := by
  simp only [Finset.sum_range_succ, Finset.sum_range_zero, poly10_2DPoint]
  norm_num
  ring

/-- C7: the `"dx"` value of `poly10Grad` is the partial derivative with respect to `x` of the
value of `poly10_2D`, and equals the sum over `d = 1..10`, `j = 0..d-1` of
`(d-j) * c[d*(d+1)/2 + j] * x^(d-j-1) * y^j`. -/
theorem poly10Grad_dx_correct (c : ℕ → ℝ) (x y : ℝ) :
    HasDerivAt (fun x' => poly10_2DPoint c x' y) (poly10Grad_dx c x y) x
    ∧ poly10Grad_dx c x y
      = ∑ d in Finset.Ico 1 11, ∑ j in Finset.range d,
          ((d - j : ℕ) : ℝ) * c (d * (d + 1) / 2 + j) * x ^ (d - j - 1) * y ^ j := by
  constructor
  · simp only [poly10_2DPoint, poly10Grad_dx]
    apply HasDerivAt.congr_deriv
    · repeat' first
        | exact hd_id x
        | exact hd_const _ x
        | with_reducible_and_instances apply hd_pow
        | with_reducible_and_instances apply hd_add
        | with_reducible_and_instances apply hd_mul
    · simp only [Nat.cast_ofNat]
      ring
  · simp only [Finset.sum_Ico_eq_sum_range, Finset.sum_range_succ, Finset.sum_range_zero,
      poly10Grad_dx]
    norm_num
    ring

/-- C8: the `"dy"` value of `poly10Grad` is the partial derivative with respect to `y` of the
value of `poly10_2D`, and equals the sum over `d = 1..10`, `j = 1..d` of
`j * c[d*(d+1)/2 + j] * x^(d-j) * y^(j-1)`. -/
theorem poly10Grad_dy_correct (c : ℕ → ℝ) (x y : ℝ) :
    HasDerivAt (fun y' => poly10_2DPoint c x y') (poly10Grad_dy c x y) y
    ∧ poly10Grad_dy c x y
      = ∑ d in Finset.Ico 1 11, ∑ j in Finset.Ico 1 (d + 1),
          ((j : ℕ) : ℝ) * c (d * (d + 1) / 2 + j) * x ^ (d - j) * y ^ (j - 1) := by
  constructor
  · simp only [poly10_2DPoint, poly10Grad_dy]
    apply HasDerivAt.congr_deriv
    · repeat' first
        | exact hd_id y
        | exact hd_const _ y
        | with_reducible_and_instances apply hd_pow
        | with_reducible_and_instances apply hd_add
        | with_reducible_and_instances apply hd_mul
    · simp only [Nat.cast_ofNat]
      ring
  · simp only [Finset.sum_Ico_eq_sum_range, Finset.sum_range_succ, Finset.sum_range_zero,
      poly10Grad_dy]
    norm_num
    ring

/-! ## C9: the basis functions are normalised over the annulus -/

section Normalisation

open MeasureTheory Set

set_option maxHeartbeats 8000000

/-- Integration over the annulus in polar coordinates, for an integrand that separates into a
radial and an angular factor. -/
theorem integral_annulus_polar (e : ℝ) (he0 : 0 ≤ e) (he1 : e ≤ 1) (F : ℝ × ℝ → ℝ)
    (R T : ℝ → ℝ)
    (h : ∀ r θ, 0 < r → -Real.pi < θ → θ < Real.pi →
      F (r * Real.cos θ, r * Real.sin θ) = R r * T θ) :
    ∫ p in annulus e, F p
      = (∫ r in e..1, r * R r) * ∫ θ in (-Real.pi)..Real.pi, T θ := by
  have hmeas : MeasurableSet (annulus e) := by
    have hc : Continuous (fun p : ℝ × ℝ => p.1 ^ 2 + p.2 ^ 2) := by fun_prop
    exact (measurableSet_le measurable_const hc.measurable).inter
      (measurableSet_le hc.measurable measurable_const)
  rw [← integral_indicator hmeas, ← integral_comp_polarCoord_symm]
  have hcongr : EqOn
      (fun p : ℝ × ℝ => p.1 • (annulus e).indicator F (polarCoord.symm p))
      (fun p : ℝ × ℝ => (Icc e 1).indicator (fun r => r * R r) p.1 * T p.2)
      polarCoord.target := by
    rintro ⟨r, θ⟩ ⟨hr, hθ1, hθ2⟩
    simp only [mem_Ioi] at hr
    have hsq : (r * Real.cos θ) ^ 2 + (r * Real.sin θ) ^ 2 = r ^ 2 := by
      have := Real.cos_sq_add_sin_sq θ
      linear_combination r ^ 2 * this
    have hmem : (r * Real.cos θ, r * Real.sin θ) ∈ annulus e ↔ r ∈ Icc e 1 := by
      simp only [annulus, mem_setOf_eq, hsq, mem_Icc]
      constructor
      · rintro ⟨h1, h2⟩
        exact ⟨by nlinarith, by nlinarith⟩
      · rintro ⟨h1, h2⟩
        exact ⟨by nlinarith, by nlinarith⟩
    simp only [polarCoord_symm_apply, smul_eq_mul]
    by_cases hm : r ∈ Icc e 1
    · rw [indicator_of_mem (hmem.2 hm), indicator_of_mem hm, h r θ hr hθ1 hθ2]
      ring
    · rw [indicator_of_not_mem (fun hh => hm (hmem.1 hh)), indicator_of_not_mem hm]
      ring
  rw [setIntegral_congr_fun polarCoord.open_target.measurableSet hcongr, polarCoord_target,
    Measure.volume_eq_prod, setIntegral_prod_mul]
  congr 1
  · rw [setIntegral_indicator measurableSet_Icc, intervalIntegral.integral_of_le he1]
    apply setIntegral_congr_set
    have hsub : (Ioi (0 : ℝ) ∩ Icc e 1 : Set ℝ) =ᵐ[volume] (Icc e 1 : Set ℝ) := by
      rcases eq_or_lt_of_le he0 with h0 | h0
      · subst h0
        have : Ioi (0 : ℝ) ∩ Icc 0 1 = Ioc 0 1 := by
          ext x; simp only [mem_inter_iff, mem_Ioi, mem_Icc, mem_Ioc]; constructor
          · rintro ⟨a, _, c⟩; exact ⟨a, c⟩
          · rintro ⟨a, c⟩; exact ⟨a, a.le, c⟩
        rw [this]
        exact Ioc_ae_eq_Icc
      · have : Ioi (0 : ℝ) ∩ Icc e 1 = Icc e 1 := by
          ext x; simp only [mem_inter_iff, mem_Ioi, mem_Icc]; constructor
          · rintro ⟨_, b⟩; exact b
          · rintro ⟨a, c⟩; exact ⟨lt_of_lt_of_le h0 a, a, c⟩
        rw [this]
    exact hsub.trans Ioc_ae_eq_Icc.symm
  · rw [intervalIntegral.integral_of_le (by linarith [Real.pi_pos]),
      integral_Ioc_eq_integral_Ioo]

theorem integral_radial_poly (a0 a1 a2 a3 a4 a5 a6 lo hi : ℝ) :
    ∫ r in lo..hi,
        r * (a0 + a1 * r + a2 * r ^ 2 + a3 * r ^ 3 + a4 * r ^ 4 + a5 * r ^ 5 + a6 * r ^ 6) ^ 2
      = radialPrimitive a0 a1 a2 a3 a4 a5 a6 hi - radialPrimitive a0 a1 a2 a3 a4 a5 a6 lo := by
  have hderiv : ∀ x ∈ Set.uIcc lo hi,
      HasDerivAt (fun r => radialPrimitive a0 a1 a2 a3 a4 a5 a6 r)
        (x * (a0 + a1 * x + a2 * x ^ 2 + a3 * x ^ 3 + a4 * x ^ 4 + a5 * x ^ 5 + a6 * x ^ 6) ^ 2)
        x := by
    intro x _
    simp only [radialPrimitive]
    apply HasDerivAt.congr_deriv
    · repeat' first
        | exact hd_id x
        | exact hd_const _ x
        | with_reducible_and_instances apply hd_pow
        | with_reducible_and_instances apply hd_div_const
        | with_reducible_and_instances apply hd_add
        | with_reducible_and_instances apply hd_mul
    · push_cast
      ring
  refine intervalIntegral.integral_eq_sub_of_hasDerivAt hderiv ?_
  apply Continuous.intervalIntegrable
  fun_prop

/-- The even powers of the obscuration as powers of `e^2`. -/
theorem even_pow_obscuration (e : ℝ) :
    e ^ 4 = (e ^ 2) ^ 2 ∧ e ^ 6 = (e ^ 2) ^ 3 ∧ e ^ 8 = (e ^ 2) ^ 4 ∧ e ^ 10 = (e ^ 2) ^ 5
    ∧ e ^ 12 = (e ^ 2) ^ 6 ∧ e ^ 14 = (e ^ 2) ^ 7 := by
  refine ⟨?_, ?_, ?_, ?_, ?_, ?_⟩ <;> ring

/-- For `0 ≤ e < 1` the even powers of `e` used by the normalisation are below one. -/
theorem obscuration_pow_lt_one (e : ℝ) (he0 : 0 ≤ e) (he1 : e < 1) :
    e ^ 2 < 1 ∧ e ^ 10 < 1 ∧ e ^ 12 < 1 ∧ e ^ 14 < 1 :=
  ⟨pow_lt_one₀ he0 he1 (by norm_num), pow_lt_one₀ he0 he1 (by norm_num),
    pow_lt_one₀ he0 he1 (by norm_num), pow_lt_one₀ he0 he1 (by norm_num)⟩

/-- The radicand of `den14` is positive for `0 ≤ e < 1`. -/
theorem den14_radicand_pos (e : ℝ) (he0 : 0 ≤ e) (he1 : e < 1) :
    0 < 1 / (1 - e ^ 2) * (36 * (1 - e ^ 14) - 35 * (1 - e ^ 12) ^ 2 / (1 - e ^ 10)) := by
  obtain ⟨h2, h10, h12, h14⟩ := obscuration_pow_lt_one e he0 he1
  have hu : 0 < 1 - e ^ 2 := by linarith
  have h5 : 0 < 1 - e ^ 10 := by linarith
  have hG : 0 < 1 + 4 * e ^ 2 + 10 * e ^ 4 + 20 * e ^ 6 + 35 * e ^ 8 + 20 * e ^ 10
      + 10 * e ^ 12 + 4 * e ^ 14 + e ^ 16 := by positivity
  have hX : 1 / (1 - e ^ 2) * (36 * (1 - e ^ 14) - 35 * (1 - e ^ 12) ^ 2 / (1 - e ^ 10))
      = (1 - e ^ 2) ^ 3 * (1 + 4 * e ^ 2 + 10 * e ^ 4 + 20 * e ^ 6 + 35 * e ^ 8 + 20 * e ^ 10
          + 10 * e ^ 12 + 4 * e ^ 14 + e ^ 16) / (1 - e ^ 10) := by
    field_simp
    ring
  rw [hX]
  positivity

/-- C9: each of the 28 basis functions is normalised over the annulus: for `0 ≤ e < 1` and
`k < 28`, `1 / (π (1 - e^2))` times the integral over the annulus `e^2 ≤ x^2 + y^2 ≤ 1` of the
square of the surface of `zernikeAnnularEval` for the unit coefficient vector at `k` is `1`. -/
theorem zernikeAnnularEval_basis_normalised (e : ℝ) (he0 : 0 ≤ e) (he1 : e < 1) (k : ℕ)
    (hk : k < 28) :
    1 / (Real.pi * (1 - e ^ 2))
      * ∫ p in annulus e,
          (zernikeAnnularEvalPoint realMath (zernikeAnnularEvalConst realMath e) (unitCoeff k)
            p.1 p.2) ^ 2
      = 1 := by
  -- the loop body at the point of polar coordinates `(r, θ)`: the sum over the 28 modes of
  -- `Z[j]` times the radial and the angular factor of the mode
  have hpt : ∀ (c : EvalConst ℝ) (Z : ℕ → ℝ) (r θ : ℝ), 0 < r → -Real.pi < θ → θ ≤ Real.pi →
      zernikeAnnularEvalPoint realMath c Z (r * Real.cos θ) (r * Real.sin θ)
        = ∑ j in Finset.range 28, Z j * zernikeRadial c j r * zernikeAngular realMath j θ := by
    intro c Z r θ hr h1 h2
    have hsq : (r * Real.cos θ) ^ 2 + (r * Real.sin θ) ^ 2 = r ^ 2 := by
      have := Real.cos_sq_add_sin_sq θ
      linear_combination r ^ 2 * this
    have hsqrt : Real.sqrt (r ^ 2) = r := Real.sqrt_sq hr.le
    have harg : Complex.arg ⟨r * Real.cos θ, r * Real.sin θ⟩ = θ := by
      have hz : (⟨r * Real.cos θ, r * Real.sin θ⟩ : ℂ)
          = (r : ℂ) * (Complex.cos θ + Complex.sin θ * Complex.I) := by
        apply Complex.ext <;> simp [← Complex.ofReal_cos, ← Complex.ofReal_sin]
      rw [hz]
      exact Complex.arg_mul_cos_add_sin_mul_I hr ⟨h1, h2⟩
    simp only [Finset.sum_range_succ, Finset.sum_range_zero, zernikeRadial, zernikeAngular,
      zernikeAnnularEvalPoint, realMath, hsq, hsqrt, harg, ↓reduceIte, OfNat.ofNat_ne_zero,
      OfNat.ofNat_ne_one, Nat.reduceEqDiff, OfNat.zero_ne_ofNat, OfNat.one_ne_ofNat, one_ne_zero,
      zero_ne_one]
    ring
  have hunit : ∀ (c : EvalConst ℝ) (j : ℕ), j < 28 → ∀ r θ : ℝ, 0 < r → -Real.pi < θ →
      θ < Real.pi →
      zernikeAnnularEvalPoint realMath c (unitCoeff j) (r * Real.cos θ) (r * Real.sin θ)
        = zernikeRadial c j r * zernikeAngular realMath j θ := by
    intro c j hj r θ hr h1 h2
    rw [hpt c _ r θ hr h1 h2.le,
      Finset.sum_eq_single_of_mem j (Finset.mem_range.2 hj)]
    · simp [unitCoeff]
    · intro i _ hij
      simp [unitCoeff, hij]
  -- the integral of the squared angular factor over a full turn: `2π` for the modes without
  -- angular dependence (0, 3, 10, 21) and `π` for the others
  have hang : ∀ j : ℕ, j < 28 →
      ∫ θ in (-Real.pi)..Real.pi, (zernikeAngular realMath j θ) ^ 2
        = (if j = 0 ∨ j = 3 ∨ j = 10 ∨ j = 21 then 2 else 1) * Real.pi := by
    intro j hj
    have hsin : ∀ n : ℕ, 0 < n →
        ∫ θ in (-Real.pi)..Real.pi, Real.sin (n * θ) ^ 2 = Real.pi := by
      intro n hn
      have hc : (n : ℝ) ≠ 0 := by positivity
      rw [intervalIntegral.integral_comp_mul_left (fun x => Real.sin x ^ 2) hc, integral_sin_sq]
      have h1 : Real.sin (n * Real.pi) = 0 := Real.sin_nat_mul_pi n
      have h2 : Real.sin (n * -Real.pi) = 0 := by
        rw [mul_neg, Real.sin_neg, h1, neg_zero]
      rw [h1, h2]
      field_simp
    have hcos : ∀ n : ℕ, 0 < n →
        ∫ θ in (-Real.pi)..Real.pi, Real.cos (n * θ) ^ 2 = Real.pi := by
      intro n hn
      have hc : (n : ℝ) ≠ 0 := by positivity
      rw [intervalIntegral.integral_comp_mul_left (fun x => Real.cos x ^ 2) hc, integral_cos_sq]
      have h1 : Real.sin (n * Real.pi) = 0 := Real.sin_nat_mul_pi n
      have h2 : Real.sin (n * -Real.pi) = 0 := by
        rw [mul_neg, Real.sin_neg, h1, neg_zero]
      rw [h1, h2]
      field_simp
    have s1 := hsin 1 (by norm_num)
    have c1 := hcos 1 (by norm_num)
    have s2 := hsin 2 (by norm_num)
    have c2 := hcos 2 (by norm_num)
    have s3 := hsin 3 (by norm_num)
    have c3 := hcos 3 (by norm_num)
    have s4 := hsin 4 (by norm_num)
    have c4 := hcos 4 (by norm_num)
    have s5 := hsin 5 (by norm_num)
    have c5 := hcos 5 (by norm_num)
    have s6 := hsin 6 (by norm_num)
    have c6 := hcos 6 (by norm_num)
    simp only [Nat.cast_one, one_mul, Nat.cast_ofNat] at s1 c1 s2 c2 s3 c3 s4 c4 s5 c5 s6 c6
    have h0 : ∫ θ in (-Real.pi)..Real.pi, ((1 : ℝ)) ^ 2 = 2 * Real.pi := by
      simp
      ring
    interval_cases j
    · simp only [zernikeAngular, realMath, ↓reduceIte, OfNat.ofNat_ne_zero, OfNat.ofNat_ne_one,
        Nat.reduceEqDiff, or_self, or_false, or_true, false_or, true_or, OfNat.zero_ne_ofNat,
        one_ne_zero, zero_ne_one, OfNat.one_ne_ofNat, one_mul]
      exact h0
    · simp only [zernikeAngular, realMath, ↓reduceIte, OfNat.ofNat_ne_zero, OfNat.ofNat_ne_one,
        Nat.reduceEqDiff, or_self, or_false, or_true, false_or, true_or, OfNat.zero_ne_ofNat,
        one_ne_zero, zero_ne_one, OfNat.one_ne_ofNat, one_mul]
      exact c1
    · simp only [zernikeAngular, realMath, ↓reduceIte, OfNat.ofNat_ne_zero, OfNat.ofNat_ne_one,
        Nat.reduceEqDiff, or_self, or_false, or_true, false_or, true_or, OfNat.zero_ne_ofNat,
        one_ne_zero, zero_ne_one, OfNat.one_ne_ofNat, one_mul]
      exact s1
    · simp only [zernikeAngular, realMath, ↓reduceIte, OfNat.ofNat_ne_zero, OfNat.ofNat_ne_one,
        Nat.reduceEqDiff, or_self, or_false, or_true, false_or, true_or, OfNat.zero_ne_ofNat,
        one_ne_zero, zero_ne_one, OfNat.one_ne_ofNat, one_mul]
      exact h0
    · simp only [zernikeAngular, realMath, ↓reduceIte, OfNat.ofNat_ne_zero, OfNat.ofNat_ne_one,
        Nat.reduceEqDiff, or_self, or_false, or_true, false_or, true_or, OfNat.zero_ne_ofNat,
        one_ne_zero, zero_ne_one, OfNat.one_ne_ofNat, one_mul]
      exact s2
    · simp only [zernikeAngular, realMath, ↓reduceIte, OfNat.ofNat_ne_zero, OfNat.ofNat_ne_one,
        Nat.reduceEqDiff, or_self, or_false, or_true, false_or, true_or, OfNat.zero_ne_ofNat,
        one_ne_zero, zero_ne_one, OfNat.one_ne_ofNat, one_mul]
      exact c2
    · simp only [zernikeAngular, realMath, ↓reduceIte, OfNat.ofNat_ne_zero, OfNat.ofNat_ne_one,
        Nat.reduceEqDiff, or_self, or_false, or_true, false_or, true_or, OfNat.zero_ne_ofNat,
        one_ne_zero, zero_ne_one, OfNat.one_ne_ofNat, one_mul]
      exact s1
    · simp only [zernikeAngular, realMath, ↓reduceIte, OfNat.ofNat_ne_zero, OfNat.ofNat_ne_one,
        Nat.reduceEqDiff, or_self, or_false, or_true, false_or, true_or, OfNat.zero_ne_ofNat,
        one_ne_zero, zero_ne_one, OfNat.one_ne_ofNat, one_mul]
      exact c1
    · simp only [zernikeAngular, realMath, ↓reduceIte, OfNat.ofNat_ne_zero, OfNat.ofNat_ne_one,
        Nat.reduceEqDiff, or_self, or_false, or_true, false_or, true_or, OfNat.zero_ne_ofNat,
        one_ne_zero, zero_ne_one, OfNat.one_ne_ofNat, one_mul]
      exact s3
    · simp only [zernikeAngular, realMath, ↓reduceIte, OfNat.ofNat_ne_zero, OfNat.ofNat_ne_one,
        Nat.reduceEqDiff, or_self, or_false, or_true, false_or, true_or, OfNat.zero_ne_ofNat,
        one_ne_zero, zero_ne_one, OfNat.one_ne_ofNat, one_mul]
      exact c3
    · simp only [zernikeAngular, realMath, ↓reduceIte, OfNat.ofNat_ne_zero, OfNat.ofNat_ne_one,
        Nat.reduceEqDiff, or_self, or_false, or_true, false_or, true_or, OfNat.zero_ne_ofNat,
        one_ne_zero, zero_ne_one, OfNat.one_ne_ofNat, one_mul]
      exact h0
    · simp only [zernikeAngular, realMath, ↓reduceIte, OfNat.ofNat_ne_zero, OfNat.ofNat_ne_one,
        Nat.reduceEqDiff, or_self, or_false, or_true, false_or, true_or, OfNat.zero_ne_ofNat,
        one_ne_zero, zero_ne_one, OfNat.one_ne_ofNat, one_mul]
      exact c2
    · simp only [zernikeAngular, realMath, ↓reduceIte, OfNat.ofNat_ne_zero, OfNat.ofNat_ne_one,
        Nat.reduceEqDiff, or_self, or_false, or_true, false_or, true_or, OfNat.zero_ne_ofNat,
        one_ne_zero, zero_ne_one, OfNat.one_ne_ofNat, one_mul]
      exact s2
    · simp only [zernikeAngular, realMath, ↓reduceIte, OfNat.ofNat_ne_zero, OfNat.ofNat_ne_one,
        Nat.reduceEqDiff, or_self, or_false, or_true, false_or, true_or, OfNat.zero_ne_ofNat,
        one_ne_zero, zero_ne_one, OfNat.one_ne_ofNat, one_mul]
      exact c4
    · simp only [zernikeAngular, realMath, ↓reduceIte, OfNat.ofNat_ne_zero, OfNat.ofNat_ne_one,
        Nat.reduceEqDiff, or_self, or_false, or_true, false_or, true_or, OfNat.zero_ne_ofNat,
        one_ne_zero, zero_ne_one, OfNat.one_ne_ofNat, one_mul]
      exact s4
    · simp only [zernikeAngular, realMath, ↓reduceIte, OfNat.ofNat_ne_zero, OfNat.ofNat_ne_one,
        Nat.reduceEqDiff, or_self, or_false, or_true, false_or, true_or, OfNat.zero_ne_ofNat,
        one_ne_zero, zero_ne_one, OfNat.one_ne_ofNat, one_mul]
      exact c1
    · simp only [zernikeAngular, realMath, ↓reduceIte, OfNat.ofNat_ne_zero, OfNat.ofNat_ne_one,
        Nat.reduceEqDiff, or_self, or_false, or_true, false_or, true_or, OfNat.zero_ne_ofNat,
        one_ne_zero, zero_ne_one, OfNat.one_ne_ofNat, one_mul]
      exact s1
    · simp only [zernikeAngular, realMath, ↓reduceIte, OfNat.ofNat_ne_zero, OfNat.ofNat_ne_one,
        Nat.reduceEqDiff, or_self, or_false, or_true, false_or, true_or, OfNat.zero_ne_ofNat,
        one_ne_zero, zero_ne_one, OfNat.one_ne_ofNat, one_mul]
      exact c3
    · simp only [zernikeAngular, realMath, ↓reduceIte, OfNat.ofNat_ne_zero, OfNat.ofNat_ne_one,
        Nat.reduceEqDiff, or_self, or_false, or_true, false_or, true_or, OfNat.zero_ne_ofNat,
        one_ne_zero, zero_ne_one, OfNat.one_ne_ofNat, one_mul]
      exact s3
    · simp only [zernikeAngular, realMath, ↓reduceIte, OfNat.ofNat_ne_zero, OfNat.ofNat_ne_one,
        Nat.reduceEqDiff, or_self, or_false, or_true, false_or, true_or, OfNat.zero_ne_ofNat,
        one_ne_zero, zero_ne_one, OfNat.one_ne_ofNat, one_mul]
      exact c5
    · simp only [zernikeAngular, realMath, ↓reduceIte, OfNat.ofNat_ne_zero, OfNat.ofNat_ne_one,
        Nat.reduceEqDiff, or_self, or_false, or_true, false_or, true_or, OfNat.zero_ne_ofNat,
        one_ne_zero, zero_ne_one, OfNat.one_ne_ofNat, one_mul]
      exact s5
    · simp only [zernikeAngular, realMath, ↓reduceIte, OfNat.ofNat_ne_zero, OfNat.ofNat_ne_one,
        Nat.reduceEqDiff, or_self, or_false, or_true, false_or, true_or, OfNat.zero_ne_ofNat,
        one_ne_zero, zero_ne_one, OfNat.one_ne_ofNat, one_mul]
      exact h0
    · simp only [zernikeAngular, realMath, ↓reduceIte, OfNat.ofNat_ne_zero, OfNat.ofNat_ne_one,
        Nat.reduceEqDiff, or_self, or_false, or_true, false_or, true_or, OfNat.zero_ne_ofNat,
        one_ne_zero, zero_ne_one, OfNat.one_ne_ofNat, one_mul]
      exact s2
    · simp only [zernikeAngular, realMath, ↓reduceIte, OfNat.ofNat_ne_zero, OfNat.ofNat_ne_one,
        Nat.reduceEqDiff, or_self, or_false, or_true, false_or, true_or, OfNat.zero_ne_ofNat,
        one_ne_zero, zero_ne_one, OfNat.one_ne_ofNat, one_mul]
      exact c2
    · simp only [zernikeAngular, realMath, ↓reduceIte, OfNat.ofNat_ne_zero, OfNat.ofNat_ne_one,
        Nat.reduceEqDiff, or_self, or_false, or_true, false_or, true_or, OfNat.zero_ne_ofNat,
        one_ne_zero, zero_ne_one, OfNat.one_ne_ofNat, one_mul]
      exact s4
    · simp only [zernikeAngular, realMath, ↓reduceIte, OfNat.ofNat_ne_zero, OfNat.ofNat_ne_one,
        Nat.reduceEqDiff, or_self, or_false, or_true, false_or, true_or, OfNat.zero_ne_ofNat,
        one_ne_zero, zero_ne_one, OfNat.one_ne_ofNat, one_mul]
      exact c4
    · simp only [zernikeAngular, realMath, ↓reduceIte, OfNat.ofNat_ne_zero, OfNat.ofNat_ne_one,
        Nat.reduceEqDiff, or_self, or_false, or_true, false_or, true_or, OfNat.zero_ne_ofNat,
        one_ne_zero, zero_ne_one, OfNat.one_ne_ofNat, one_mul]
      exact s6
    · simp only [zernikeAngular, realMath, ↓reduceIte, OfNat.ofNat_ne_zero, OfNat.ofNat_ne_one,
        Nat.reduceEqDiff, or_self, or_false, or_true, false_or, true_or, OfNat.zero_ne_ofNat,
        one_ne_zero, zero_ne_one, OfNat.one_ne_ofNat, one_mul]
      exact c6
  -- the integral of `r` times the squared radial factor over `[e, 1]`: `(1 - e^2) / 2` for
  -- the modes without angular dependence and `1 - e^2` for the others
  have hrad : ∀ j : ℕ, j < 28 →
      ∫ r in e..1, r * (zernikeRadial (zernikeAnnularEvalConst realMath e) j r) ^ 2
        = (1 - e ^ 2) / (if j = 0 ∨ j = 3 ∨ j = 10 ∨ j = 21 then 2 else 1) := by
    intro j hj
    have hall :
        (∫ r in e..1, r * (zernikeRadial (zernikeAnnularEvalConst realMath e) 0 r) ^ 2
          = (1 - e ^ 2) / 2)
      ∧ ((∫ r in e..1, r * (zernikeRadial (zernikeAnnularEvalConst realMath e) 1 r) ^ 2 = 1 - e ^ 2)
        ∧ ∫ r in e..1, r * (zernikeRadial (zernikeAnnularEvalConst realMath e) 2 r) ^ 2 = 1 - e ^ 2)
      ∧ (∫ r in e..1, r * (zernikeRadial (zernikeAnnularEvalConst realMath e) 3 r) ^ 2 = (1 - e ^ 2) /
            2)
      ∧ ((∫ r in e..1, r * (zernikeRadial (zernikeAnnularEvalConst realMath e) 4 r) ^ 2 = 1 - e ^ 2)
        ∧ ∫ r in e..1, r * (zernikeRadial (zernikeAnnularEvalConst realMath e) 5 r) ^ 2 = 1 - e ^ 2)
      ∧ ((∫ r in e..1, r * (zernikeRadial (zernikeAnnularEvalConst realMath e) 6 r) ^ 2 = 1 - e ^ 2)
        ∧ ∫ r in e..1, r * (zernikeRadial (zernikeAnnularEvalConst realMath e) 7 r) ^ 2 = 1 - e ^ 2)
      ∧ ((∫ r in e..1, r * (zernikeRadial (zernikeAnnularEvalConst realMath e) 8 r) ^ 2 = 1 - e ^ 2)
        ∧ ∫ r in e..1, r * (zernikeRadial (zernikeAnnularEvalConst realMath e) 9 r) ^ 2 = 1 - e ^ 2)
      ∧ (∫ r in e..1, r * (zernikeRadial (zernikeAnnularEvalConst realMath e) 10 r) ^ 2 = (1 - e ^ 2) /
            2)
      ∧ ((∫ r in e..1, r * (zernikeRadial (zernikeAnnularEvalConst realMath e) 11 r) ^ 2 = 1 - e ^ 2)
        ∧ ∫ r in e..1, r * (zernikeRadial (zernikeAnnularEvalConst realMath e) 12 r) ^ 2 = 1 - e ^ 2)
      ∧ ((∫ r in e..1, r * (zernikeRadial (zernikeAnnularEvalConst realMath e) 13 r) ^ 2 = 1 - e ^ 2)
        ∧ ∫ r in e..1, r * (zernikeRadial (zernikeAnnularEvalConst realMath e) 14 r) ^ 2 = 1 - e ^ 2)
      ∧ ((∫ r in e..1, r * (zernikeRadial (zernikeAnnularEvalConst realMath e) 15 r) ^ 2 = 1 - e ^ 2)
        ∧ ∫ r in e..1, r * (zernikeRadial (zernikeAnnularEvalConst realMath e) 16 r) ^ 2 = 1 - e ^ 2)
      ∧ ((∫ r in e..1, r * (zernikeRadial (zernikeAnnularEvalConst realMath e) 17 r) ^ 2 = 1 - e ^ 2)
        ∧ ∫ r in e..1, r * (zernikeRadial (zernikeAnnularEvalConst realMath e) 18 r) ^ 2 = 1 - e ^ 2)
      ∧ ((∫ r in e..1, r * (zernikeRadial (zernikeAnnularEvalConst realMath e) 19 r) ^ 2 = 1 - e ^ 2)
        ∧ ∫ r in e..1, r * (zernikeRadial (zernikeAnnularEvalConst realMath e) 20 r) ^ 2 = 1 - e ^ 2)
      ∧ (∫ r in e..1, r * (zernikeRadial (zernikeAnnularEvalConst realMath e) 21 r) ^ 2 = (1 - e ^ 2) /
            2)
      ∧ ((∫ r in e..1, r * (zernikeRadial (zernikeAnnularEvalConst realMath e) 22 r) ^ 2 = 1 - e ^ 2)
        ∧ ∫ r in e..1, r * (zernikeRadial (zernikeAnnularEvalConst realMath e) 23 r) ^ 2 = 1 - e ^ 2)
      ∧ ((∫ r in e..1, r * (zernikeRadial (zernikeAnnularEvalConst realMath e) 24 r) ^ 2 = 1 - e ^ 2)
        ∧ ∫ r in e..1, r * (zernikeRadial (zernikeAnnularEvalConst realMath e) 25 r) ^ 2
            = 1 - e ^ 2)
      ∧ ((∫ r in e..1, r * (zernikeRadial (zernikeAnnularEvalConst realMath e) 26 r) ^ 2 = 1 - e ^ 2)
        ∧ ∫ r in e..1, r * (zernikeRadial (zernikeAnnularEvalConst realMath e) 27 r) ^ 2
            = 1 - e ^ 2) := by
      refine ⟨?_, ?_, ?_, ?_, ?_, ?_, ?_, ?_, ?_, ?_, ?_, ?_, ?_, ?_, ?_, ?_⟩
      · have key : ∀ r : ℝ, r * (zernikeRadial (zernikeAnnularEvalConst realMath e) 0 r) ^ 2
            = r := by
          intro r
          simp only [zernikeRadial, ↓reduceIte, one_pow, mul_one]
        simp only [key]
        rw [integral_id]
        ring
      · have hu0 : (0 : ℝ) ≤ e ^ 2 := by positivity
        have hu1 : e ^ 2 < 1 := by nlinarith
        have key : ∀ r : ℝ, r * (zernikeRadial (zernikeAnnularEvalConst realMath e) 1 r) ^ 2
            = 1 / (1 + e ^ 2) * (r * (0 + 2 * r + 0 * r ^ (2 : ℕ) + 0 * r ^ (3 : ℕ) + 0 * r ^ (4 : ℕ) +
                0 * r ^ (5 : ℕ) + 0 * r ^ (6 : ℕ)) ^ 2) := by
          intro r
          simp only [zernikeRadial, ↓reduceIte, OfNat.ofNat_ne_zero, OfNat.ofNat_ne_one,
            Nat.reduceEqDiff]
          simp (disch := positivity) only [zernikeAnnularEvalConst, realMath, div_pow, mul_pow,
            Real.sq_sqrt]
          generalize e ^ 2 = u
          ring
        have main : ∫ r in e..1, r * (zernikeRadial (zernikeAnnularEvalConst realMath e) 1 r) ^ 2 = 1 -
            e ^ 2 := by
          simp only [key]
          rw [intervalIntegral.integral_const_mul, integral_radial_poly]
          simp only [radialPrimitive, even_pow_obscuration e]
          generalize e ^ 2 = u at hu0 hu1
          have h1u : 1 - u ≠ 0 := by linarith
          have hn0 : 1 + u ≠ 0 := by positivity
          rw [div_mul_eq_mul_div, div_eq_iff hn0]
          ring
        refine ⟨main, ?_⟩
        have hsame : ∀ r : ℝ, zernikeRadial (zernikeAnnularEvalConst realMath e) 2 r = zernikeRadial
            (zernikeAnnularEvalConst realMath e) 1 r := by
          intro r
          simp only [zernikeRadial, ↓reduceIte, OfNat.ofNat_ne_zero, OfNat.ofNat_ne_one,
            Nat.reduceEqDiff]
        simp only [hsame]
        exact main
      · have hu0 : (0 : ℝ) ≤ e ^ 2 := by positivity
        have hu1 : e ^ 2 < 1 := by nlinarith
        have key : ∀ r : ℝ, r * (zernikeRadial (zernikeAnnularEvalConst realMath e) 3 r) ^ 2
            = 3 / (1 - e ^ 2) ^ (2 : ℕ) * (r * ((-1 - e ^ 2) + 0 * r + 2 * r ^ (2 : ℕ) + 0 * r ^ (3 : ℕ)
                + 0 * r ^ (4 : ℕ) + 0 * r ^ (5 : ℕ) + 0 * r ^ (6 : ℕ)) ^ 2) := by
          intro r
          simp only [zernikeRadial, ↓reduceIte, OfNat.ofNat_ne_zero, OfNat.ofNat_ne_one,
            Nat.reduceEqDiff]
          simp (disch := positivity) only [zernikeAnnularEvalConst, realMath, div_pow, mul_pow,
            Real.sq_sqrt]
          generalize e ^ 2 = u
          ring
        have main : ∫ r in e..1, r * (zernikeRadial (zernikeAnnularEvalConst realMath e) 3 r) ^ 2 = (1 -
            e ^ 2) / 2 := by
          simp only [key]
          rw [intervalIntegral.integral_const_mul, integral_radial_poly]
          simp only [radialPrimitive, even_pow_obscuration e]
          generalize e ^ 2 = u at hu0 hu1
          have h1u : 1 - u ≠ 0 := by linarith
          rw [div_mul_eq_mul_div, div_eq_iff (pow_ne_zero 2 h1u)]
          ring
        exact main
      · have hu0 : (0 : ℝ) ≤ e ^ 2 := by positivity
        have hu1 : e ^ 2 < 1 := by nlinarith
        have key : ∀ r : ℝ, r * (zernikeRadial (zernikeAnnularEvalConst realMath e) 4 r) ^ 2
            = 6 / (1 + e ^ 2 + (e ^ 2) ^ (2 : ℕ)) * (r * (0 + 0 * r + 1 * r ^ (2 : ℕ) + 0 * r ^ (3 : ℕ)
                + 0 * r ^ (4 : ℕ) + 0 * r ^ (5 : ℕ) + 0 * r ^ (6 : ℕ)) ^ 2) := by
          intro r
          simp only [zernikeRadial, ↓reduceIte, OfNat.ofNat_ne_zero, OfNat.ofNat_ne_one,
            Nat.reduceEqDiff]
          simp (disch := positivity) only [zernikeAnnularEvalConst, realMath, div_pow, mul_pow,
            Real.sq_sqrt]
          generalize e ^ 2 = u
          ring
        have main : ∫ r in e..1, r * (zernikeRadial (zernikeAnnularEvalConst realMath e) 4 r) ^ 2 = 1 -
            e ^ 2 := by
          simp only [key]
          rw [intervalIntegral.integral_const_mul, integral_radial_poly]
          simp only [radialPrimitive, even_pow_obscuration e]
          generalize e ^ 2 = u at hu0 hu1
          have h1u : 1 - u ≠ 0 := by linarith
          have hn0 : 1 + u + u ^ (2 : ℕ) ≠ 0 := by positivity
          rw [div_mul_eq_mul_div, div_eq_iff hn0]
          ring
        refine ⟨main, ?_⟩
        have hsame : ∀ r : ℝ, zernikeRadial (zernikeAnnularEvalConst realMath e) 5 r = zernikeRadial
            (zernikeAnnularEvalConst realMath e) 4 r := by
          intro r
          simp only [zernikeRadial, ↓reduceIte, OfNat.ofNat_ne_zero, OfNat.ofNat_ne_one,
            Nat.reduceEqDiff]
        simp only [hsame]
        exact main
      · have hu0 : (0 : ℝ) ≤ e ^ 2 := by positivity
        have hu1 : e ^ 2 < 1 := by nlinarith
        have key : ∀ r : ℝ, r * (zernikeRadial (zernikeAnnularEvalConst realMath e) 6 r) ^ 2
            = 8 / ((1 - e ^ 2) ^ (2 : ℕ) * (1 + e ^ 2) * (1 + 4 * e ^ 2 + (e ^ 2) ^ (2 : ℕ))) * (r * (0
                + (-2 - 2 * e ^ 2 - 2 * (e ^ 2) ^ (2 : ℕ)) * r + 0 * r ^ (2 : ℕ) + (3 + 3 * e ^ 2) * r ^
                (3 : ℕ) + 0 * r ^ (4 : ℕ) + 0 * r ^ (5 : ℕ) + 0 * r ^ (6 : ℕ)) ^ 2) := by
          intro r
          simp only [zernikeRadial, ↓reduceIte, OfNat.ofNat_ne_zero, OfNat.ofNat_ne_one,
            Nat.reduceEqDiff]
          simp (disch := positivity) only [zernikeAnnularEvalConst, realMath, div_pow, mul_pow,
            Real.sq_sqrt]
          generalize e ^ 2 = u
          ring
        have main : ∫ r in e..1, r * (zernikeRadial (zernikeAnnularEvalConst realMath e) 6 r) ^ 2 = 1 -
            e ^ 2 := by
          simp only [key]
          rw [intervalIntegral.integral_const_mul, integral_radial_poly]
          simp only [radialPrimitive, even_pow_obscuration e]
          generalize e ^ 2 = u at hu0 hu1
          have h1u : 1 - u ≠ 0 := by linarith
          have hn1 : 1 + u ≠ 0 := by positivity
          have hn2 : 1 + 4 * u + u ^ (2 : ℕ) ≠ 0 := by positivity
          rw [div_mul_eq_mul_div, div_eq_iff (mul_ne_zero (mul_ne_zero (pow_ne_zero 2 h1u) hn1) hn2)]
          ring
        refine ⟨main, ?_⟩
        have hsame : ∀ r : ℝ, zernikeRadial (zernikeAnnularEvalConst realMath e) 7 r = zernikeRadial
            (zernikeAnnularEvalConst realMath e) 6 r := by
          intro r
          simp only [zernikeRadial, ↓reduceIte, OfNat.ofNat_ne_zero, OfNat.ofNat_ne_one,
            Nat.reduceEqDiff]
        simp only [hsame]
        exact main
      · have hu0 : (0 : ℝ) ≤ e ^ 2 := by positivity
        have hu1 : e ^ 2 < 1 := by nlinarith
        have key : ∀ r : ℝ, r * (zernikeRadial (zernikeAnnularEvalConst realMath e) 8 r) ^ 2
            = 8 / (1 + e ^ 2 + (e ^ 2) ^ (2 : ℕ) + (e ^ 2) ^ (3 : ℕ)) * (r * (0 + 0 * r + 0 * r ^ (2 :
                ℕ) + 1 * r ^ (3 : ℕ) + 0 * r ^ (4 : ℕ) + 0 * r ^ (5 : ℕ) + 0 * r ^ (6 : ℕ)) ^ 2) := by
          intro r
          simp only [zernikeRadial, ↓reduceIte, OfNat.ofNat_ne_zero, OfNat.ofNat_ne_one,
            Nat.reduceEqDiff]
          simp (disch := positivity) only [zernikeAnnularEvalConst, realMath, div_pow, mul_pow,
            Real.sq_sqrt]
          generalize e ^ 2 = u
          ring
        have main : ∫ r in e..1, r * (zernikeRadial (zernikeAnnularEvalConst realMath e) 8 r) ^ 2 = 1 -
            e ^ 2 := by
          simp only [key]
          rw [intervalIntegral.integral_const_mul, integral_radial_poly]
          simp only [radialPrimitive, even_pow_obscuration e]
          generalize e ^ 2 = u at hu0 hu1
          have h1u : 1 - u ≠ 0 := by linarith
          have hn0 : 1 + u + u ^ (2 : ℕ) + u ^ (3 : ℕ) ≠ 0 := by positivity
          rw [div_mul_eq_mul_div, div_eq_iff hn0]
          ring
        refine ⟨main, ?_⟩
        have hsame : ∀ r : ℝ, zernikeRadial (zernikeAnnularEvalConst realMath e) 9 r = zernikeRadial
            (zernikeAnnularEvalConst realMath e) 8 r := by
          intro r
          simp only [zernikeRadial, ↓reduceIte, OfNat.ofNat_ne_zero, OfNat.ofNat_ne_one,
            Nat.reduceEqDiff]
        simp only [hsame]
        exact main
      · have hu0 : (0 : ℝ) ≤ e ^ 2 := by positivity
        have hu1 : e ^ 2 < 1 := by nlinarith
        have key : ∀ r : ℝ, r * (zernikeRadial (zernikeAnnularEvalConst realMath e) 10 r) ^ 2
            = 5 / ((1 - e ^ 2) ^ (2 : ℕ)) ^ (2 : ℕ) * (r * ((1 + 4 * e ^ 2 + (e ^ 2) ^ (2 : ℕ)) + 0 * r
                + (-6 - 6 * e ^ 2) * r ^ (2 : ℕ) + 0 * r ^ (3 : ℕ) + 6 * r ^ (4 : ℕ) + 0 * r ^ (5 : ℕ) +
                0 * r ^ (6 : ℕ)) ^ 2) := by
          intro r
          simp only [zernikeRadial, ↓reduceIte, OfNat.ofNat_ne_zero, OfNat.ofNat_ne_one,
            Nat.reduceEqDiff]
          simp (disch := positivity) only [zernikeAnnularEvalConst, realMath, div_pow, mul_pow,
            Real.sq_sqrt]
          generalize e ^ 2 = u
          ring
        have main : ∫ r in e..1, r * (zernikeRadial (zernikeAnnularEvalConst realMath e) 10 r) ^ 2 = (1
            - e ^ 2) / 2 := by
          simp only [key]
          rw [intervalIntegral.integral_const_mul, integral_radial_poly]
          simp only [radialPrimitive, even_pow_obscuration e]
          generalize e ^ 2 = u at hu0 hu1
          have h1u : 1 - u ≠ 0 := by linarith
          rw [div_mul_eq_mul_div, div_eq_iff (pow_ne_zero 2 (pow_ne_zero 2 h1u))]
          ring
        exact main
      · have hu0 : (0 : ℝ) ≤ e ^ 2 := by positivity
        have hu1 : e ^ 2 < 1 := by nlinarith
        have key : ∀ r : ℝ, r * (zernikeRadial (zernikeAnnularEvalConst realMath e) 11 r) ^ 2
            = 10 * ((1 - e ^ 2) ^ (4 : ℕ) * (1 + e ^ 2 + (e ^ 2) ^ (2 : ℕ)) / (1 + 4 * e ^ 2 + 10 * (e ^
                2) ^ (2 : ℕ) + 4 * (e ^ 2) ^ (3 : ℕ) + (e ^ 2) ^ (4 : ℕ))) / ((1 - e ^ 2) ^ (3 : ℕ) * (1
                + e ^ 2 + (e ^ 2) ^ (2 : ℕ))) ^ (2 : ℕ) * (r * (0 + 0 * r + (-3 - 3 * e ^ 2 - 3 * (e ^
                2) ^ (2 : ℕ) - 3 * (e ^ 2) ^ (3 : ℕ)) * r ^ (2 : ℕ) + 0 * r ^ (3 : ℕ) + (4 + 4 * e ^ 2 +
                4 * (e ^ 2) ^ (2 : ℕ)) * r ^ (4 : ℕ) + 0 * r ^ (5 : ℕ) + 0 * r ^ (6 : ℕ)) ^ 2) := by
          intro r
          simp only [zernikeRadial, ↓reduceIte, OfNat.ofNat_ne_zero, OfNat.ofNat_ne_one,
            Nat.reduceEqDiff]
          simp (disch := positivity) only [zernikeAnnularEvalConst, realMath, div_pow, mul_pow,
            Real.sq_sqrt]
          generalize e ^ 2 = u
          ring
        have main : ∫ r in e..1, r * (zernikeRadial (zernikeAnnularEvalConst realMath e) 11 r) ^ 2 = 1 -
            e ^ 2 := by
          simp only [key]
          rw [intervalIntegral.integral_const_mul, integral_radial_poly]
          simp only [radialPrimitive, even_pow_obscuration e]
          generalize e ^ 2 = u at hu0 hu1
          have h1u : 1 - u ≠ 0 := by linarith
          have hn0 : 1 + 4 * u + 10 * u ^ (2 : ℕ) + 4 * u ^ (3 : ℕ) + u ^ (4 : ℕ) ≠ 0 := by positivity
          have hn2 : 1 + u + u ^ (2 : ℕ) ≠ 0 := by positivity
          have hC : 10 * ((1 - u) ^ (4 : ℕ) * (1 + u + u ^ (2 : ℕ)) / (1 + 4 * u + 10 * u ^ (2 : ℕ) + 4
              * u ^ (3 : ℕ) + u ^ (4 : ℕ))) / ((1 - u) ^ (3 : ℕ) * (1 + u + u ^ (2 : ℕ))) ^ (2 : ℕ) =
              (10 * (1 - u) ^ (4 : ℕ) * (1 + u + u ^ (2 : ℕ))) / ((1 + 4 * u + 10 * u ^ (2 : ℕ) + 4 * u
              ^ (3 : ℕ) + u ^ (4 : ℕ)) * (1 - u) ^ (6 : ℕ) * (1 + u + u ^ (2 : ℕ)) ^ (2 : ℕ)) := by
            field_simp
            ring
          rw [hC, div_mul_eq_mul_div, div_eq_iff (mul_ne_zero (mul_ne_zero hn0 (pow_ne_zero 6 h1u)) (pow_ne_zero 2 hn2))]
          ring
        refine ⟨main, ?_⟩
        have hsame : ∀ r : ℝ, zernikeRadial (zernikeAnnularEvalConst realMath e) 12 r = zernikeRadial
            (zernikeAnnularEvalConst realMath e) 11 r := by
          intro r
          simp only [zernikeRadial, ↓reduceIte, OfNat.ofNat_ne_zero, OfNat.ofNat_ne_one,
            Nat.reduceEqDiff]
        simp only [hsame]
        exact main
      · have hu0 : (0 : ℝ) ≤ e ^ 2 := by positivity
        have hu1 : e ^ 2 < 1 := by nlinarith
        have key : ∀ r : ℝ, r * (zernikeRadial (zernikeAnnularEvalConst realMath e) 13 r) ^ 2
            = 10 / (1 + e ^ 2 + (e ^ 2) ^ (2 : ℕ) + (e ^ 2) ^ (3 : ℕ) + (e ^ 2) ^ (4 : ℕ)) * (r * (0 + 0
                * r + 0 * r ^ (2 : ℕ) + 0 * r ^ (3 : ℕ) + 1 * r ^ (4 : ℕ) + 0 * r ^ (5 : ℕ) + 0 * r ^ (6
                : ℕ)) ^ 2) := by
          intro r
          simp only [zernikeRadial, ↓reduceIte, OfNat.ofNat_ne_zero, OfNat.ofNat_ne_one,
            Nat.reduceEqDiff]
          simp (disch := positivity) only [zernikeAnnularEvalConst, realMath, div_pow, mul_pow,
            Real.sq_sqrt]
          generalize e ^ 2 = u
          ring
        have main : ∫ r in e..1, r * (zernikeRadial (zernikeAnnularEvalConst realMath e) 13 r) ^ 2 = 1 -
            e ^ 2 := by
          simp only [key]
          rw [intervalIntegral.integral_const_mul, integral_radial_poly]
          simp only [radialPrimitive, even_pow_obscuration e]
          generalize e ^ 2 = u at hu0 hu1
          have h1u : 1 - u ≠ 0 := by linarith
          have hn0 : 1 + u + u ^ (2 : ℕ) + u ^ (3 : ℕ) + u ^ (4 : ℕ) ≠ 0 := by positivity
          rw [div_mul_eq_mul_div, div_eq_iff hn0]
          ring
        refine ⟨main, ?_⟩
        have hsame : ∀ r : ℝ, zernikeRadial (zernikeAnnularEvalConst realMath e) 14 r = zernikeRadial
            (zernikeAnnularEvalConst realMath e) 13 r := by
          intro r
          simp only [zernikeRadial, ↓reduceIte, OfNat.ofNat_ne_zero, OfNat.ofNat_ne_one,
            Nat.reduceEqDiff]
        simp only [hsame]
        exact main
      · have hu0 : (0 : ℝ) ≤ e ^ 2 := by positivity
        have hu1 : e ^ 2 < 1 := by nlinarith
        have key : ∀ r : ℝ, r * (zernikeRadial (zernikeAnnularEvalConst realMath e) 15 r) ^ 2
            = 12 * ((1 - e ^ 2) ^ (2 : ℕ) * (1 + 4 * e ^ 2 + (e ^ 2) ^ (2 : ℕ)) / (1 + 9 * e ^ 2 + 9 *
                (e ^ 2) ^ (2 : ℕ) + (e ^ 2) ^ (3 : ℕ))) / ((1 - e ^ 2) ^ (3 : ℕ) * (1 + 4 * e ^ 2 + (e ^
                2) ^ (2 : ℕ))) ^ (2 : ℕ) * (r * (0 + (3 + 12 * e ^ 2 + 30 * (e ^ 2) ^ (2 : ℕ) + 12 * (e
                ^ 2) ^ (3 : ℕ) + 3 * (e ^ 2) ^ (4 : ℕ)) * r + 0 * r ^ (2 : ℕ) + (-12 - 48 * e ^ 2 - 48 *
                (e ^ 2) ^ (2 : ℕ) - 12 * (e ^ 2) ^ (3 : ℕ)) * r ^ (3 : ℕ) + 0 * r ^ (4 : ℕ) + (10 + 40 *
                e ^ 2 + 10 * (e ^ 2) ^ (2 : ℕ)) * r ^ (5 : ℕ) + 0 * r ^ (6 : ℕ)) ^ 2) := by
          intro r
          simp only [zernikeRadial, ↓reduceIte, OfNat.ofNat_ne_zero, OfNat.ofNat_ne_one,
            Nat.reduceEqDiff]
          simp (disch := positivity) only [zernikeAnnularEvalConst, realMath, div_pow, mul_pow,
            Real.sq_sqrt]
          generalize e ^ 2 = u
          ring
        have main : ∫ r in e..1, r * (zernikeRadial (zernikeAnnularEvalConst realMath e) 15 r) ^ 2 = 1 -
            e ^ 2 := by
          simp only [key]
          rw [intervalIntegral.integral_const_mul, integral_radial_poly]
          simp only [radialPrimitive, even_pow_obscuration e]
          generalize e ^ 2 = u at hu0 hu1
          have h1u : 1 - u ≠ 0 := by linarith
          have hn0 : 1 + 9 * u + 9 * u ^ (2 : ℕ) + u ^ (3 : ℕ) ≠ 0 := by positivity
          have hn2 : 1 + 4 * u + u ^ (2 : ℕ) ≠ 0 := by positivity
          have hC : 12 * ((1 - u) ^ (2 : ℕ) * (1 + 4 * u + u ^ (2 : ℕ)) / (1 + 9 * u + 9 * u ^ (2 : ℕ) +
              u ^ (3 : ℕ))) / ((1 - u) ^ (3 : ℕ) * (1 + 4 * u + u ^ (2 : ℕ))) ^ (2 : ℕ) = (12 * (1 - u)
              ^ (2 : ℕ) * (1 + 4 * u + u ^ (2 : ℕ))) / ((1 + 9 * u + 9 * u ^ (2 : ℕ) + u ^ (3 : ℕ)) * (1
              - u) ^ (6 : ℕ) * (1 + 4 * u + u ^ (2 : ℕ)) ^ (2 : ℕ)) := by
            field_simp
            ring
          rw [hC, div_mul_eq_mul_div, div_eq_iff (mul_ne_zero (mul_ne_zero hn0 (pow_ne_zero 6 h1u)) (pow_ne_zero 2 hn2))]
          ring
        refine ⟨main, ?_⟩
        have hsame : ∀ r : ℝ, zernikeRadial (zernikeAnnularEvalConst realMath e) 16 r = zernikeRadial
            (zernikeAnnularEvalConst realMath e) 15 r := by
          intro r
          simp only [zernikeRadial, ↓reduceIte, OfNat.ofNat_ne_zero, OfNat.ofNat_ne_one,
            Nat.reduceEqDiff]
        simp only [hsame]
        exact main
      · have hu0 : (0 : ℝ) ≤ e ^ 2 := by positivity
        have hu1 : e ^ 2 < 1 := by nlinarith
        have key : ∀ r : ℝ, r * (zernikeRadial (zernikeAnnularEvalConst realMath e) 17 r) ^ 2
            = 12 * ((1 - e ^ 2) ^ (6 : ℕ) * (1 + e ^ 2) * (1 + (e ^ 2) ^ (2 : ℕ)) / (1 + 4 * e ^ 2 + 10
                * (e ^ 2) ^ (2 : ℕ) + 20 * (e ^ 2) ^ (3 : ℕ) + 10 * (e ^ 2) ^ (4 : ℕ) + 4 * (e ^ 2) ^ (5
                : ℕ) + (e ^ 2) ^ (6 : ℕ))) / ((1 - e ^ 2) ^ (4 : ℕ) * (1 + e ^ 2) * (1 + (e ^ 2) ^ (2 :
                ℕ))) ^ (2 : ℕ) * (r * (0 + 0 * r + 0 * r ^ (2 : ℕ) + (-4 - 4 * e ^ 2 - 4 * (e ^ 2) ^ (2
                : ℕ) - 4 * (e ^ 2) ^ (3 : ℕ) - 4 * (e ^ 2) ^ (4 : ℕ)) * r ^ (3 : ℕ) + 0 * r ^ (4 : ℕ) +
                (5 + 5 * e ^ 2 + 5 * (e ^ 2) ^ (2 : ℕ) + 5 * (e ^ 2) ^ (3 : ℕ)) * r ^ (5 : ℕ) + 0 * r ^
                (6 : ℕ)) ^ 2) := by
          intro r
          simp only [zernikeRadial, ↓reduceIte, OfNat.ofNat_ne_zero, OfNat.ofNat_ne_one,
            Nat.reduceEqDiff]
          simp (disch := positivity) only [zernikeAnnularEvalConst, realMath, div_pow, mul_pow,
            Real.sq_sqrt]
          generalize e ^ 2 = u
          ring
        have main : ∫ r in e..1, r * (zernikeRadial (zernikeAnnularEvalConst realMath e) 17 r) ^ 2 = 1 -
            e ^ 2 := by
          simp only [key]
          rw [intervalIntegral.integral_const_mul, integral_radial_poly]
          simp only [radialPrimitive, even_pow_obscuration e]
          generalize e ^ 2 = u at hu0 hu1
          have h1u : 1 - u ≠ 0 := by linarith
          have hn0 : 1 + 4 * u + 10 * u ^ (2 : ℕ) + 20 * u ^ (3 : ℕ) + 10 * u ^ (4 : ℕ) + 4 * u ^ (5 :
              ℕ) + u ^ (6 : ℕ) ≠ 0 := by positivity
          have hn2 : 1 + u ≠ 0 := by positivity
          have hn3 : 1 + u ^ (2 : ℕ) ≠ 0 := by positivity
          have hC : 12 * ((1 - u) ^ (6 : ℕ) * (1 + u) * (1 + u ^ (2 : ℕ)) / (1 + 4 * u + 10 * u ^ (2 :
              ℕ) + 20 * u ^ (3 : ℕ) + 10 * u ^ (4 : ℕ) + 4 * u ^ (5 : ℕ) + u ^ (6 : ℕ))) / ((1 - u) ^ (4
              : ℕ) * (1 + u) * (1 + u ^ (2 : ℕ))) ^ (2 : ℕ) = (12 * (1 - u) ^ (6 : ℕ) * (1 + u) * (1 + u
              ^ (2 : ℕ))) / ((1 + 4 * u + 10 * u ^ (2 : ℕ) + 20 * u ^ (3 : ℕ) + 10 * u ^ (4 : ℕ) + 4 * u
              ^ (5 : ℕ) + u ^ (6 : ℕ)) * (1 - u) ^ (8 : ℕ) * (1 + u) ^ (2 : ℕ) * (1 + u ^ (2 : ℕ)) ^ (2
              : ℕ)) := by
            field_simp
            ring
          rw [hC, div_mul_eq_mul_div, div_eq_iff (mul_ne_zero (mul_ne_zero (mul_ne_zero hn0 (pow_ne_zero 8 h1u)) (pow_ne_zero 2 hn2)) (pow_ne_zero 2 hn3))]
          ring
        refine ⟨main, ?_⟩
        have hsame : ∀ r : ℝ, zernikeRadial (zernikeAnnularEvalConst realMath e) 18 r = zernikeRadial
            (zernikeAnnularEvalConst realMath e) 17 r := by
          intro r
          simp only [zernikeRadial, ↓reduceIte, OfNat.ofNat_ne_zero, OfNat.ofNat_ne_one,
            Nat.reduceEqDiff]
        simp only [hsame]
        exact main
      · have hu0 : (0 : ℝ) ≤ e ^ 2 := by positivity
        have hu1 : e ^ 2 < 1 := by nlinarith
        have key : ∀ r : ℝ, r * (zernikeRadial (zernikeAnnularEvalConst realMath e) 19 r) ^ 2
            = 12 / (1 + e ^ 2 + (e ^ 2) ^ (2 : ℕ) + (e ^ 2) ^ (3 : ℕ) + (e ^ 2) ^ (4 : ℕ) + (e ^ 2) ^ (5
                : ℕ)) * (r * (0 + 0 * r + 0 * r ^ (2 : ℕ) + 0 * r ^ (3 : ℕ) + 0 * r ^ (4 : ℕ) + 1 * r ^
                (5 : ℕ) + 0 * r ^ (6 : ℕ)) ^ 2) := by
          intro r
          simp only [zernikeRadial, ↓reduceIte, OfNat.ofNat_ne_zero, OfNat.ofNat_ne_one,
            Nat.reduceEqDiff]
          simp (disch := positivity) only [zernikeAnnularEvalConst, realMath, div_pow, mul_pow,
            Real.sq_sqrt]
          generalize e ^ 2 = u
          ring
        have main : ∫ r in e..1, r * (zernikeRadial (zernikeAnnularEvalConst realMath e) 19 r) ^ 2 = 1 -
            e ^ 2 := by
          simp only [key]
          rw [intervalIntegral.integral_const_mul, integral_radial_poly]
          simp only [radialPrimitive, even_pow_obscuration e]
          generalize e ^ 2 = u at hu0 hu1
          have h1u : 1 - u ≠ 0 := by linarith
          have hn0 : 1 + u + u ^ (2 : ℕ) + u ^ (3 : ℕ) + u ^ (4 : ℕ) + u ^ (5 : ℕ) ≠ 0 := by positivity
          rw [div_mul_eq_mul_div, div_eq_iff hn0]
          ring
        refine ⟨main, ?_⟩
        have hsame : ∀ r : ℝ, zernikeRadial (zernikeAnnularEvalConst realMath e) 20 r = zernikeRadial
            (zernikeAnnularEvalConst realMath e) 19 r := by
          intro r
          simp only [zernikeRadial, ↓reduceIte, OfNat.ofNat_ne_zero, OfNat.ofNat_ne_one,
            Nat.reduceEqDiff]
        simp only [hsame]
        exact main
      · have hu0 : (0 : ℝ) ≤ e ^ 2 := by positivity
        have hu1 : e ^ 2 < 1 := by nlinarith
        have key : ∀ r : ℝ, r * (zernikeRadial (zernikeAnnularEvalConst realMath e) 21 r) ^ 2
            = 7 / ((1 - e ^ 2) ^ (3 : ℕ)) ^ (2 : ℕ) * (r * ((-1 - 9 * e ^ 2 - 9 * (e ^ 2) ^ (2 : ℕ) - (e
                ^ 2) ^ (3 : ℕ)) + 0 * r + (12 + 36 * e ^ 2 + 12 * (e ^ 2) ^ (2 : ℕ)) * r ^ (2 : ℕ) + 0 *
                r ^ (3 : ℕ) + (-30 - 30 * e ^ 2) * r ^ (4 : ℕ) + 0 * r ^ (5 : ℕ) + 20 * r ^ (6 : ℕ)) ^
                2) := by
          intro r
          simp only [zernikeRadial, ↓reduceIte, OfNat.ofNat_ne_zero, OfNat.ofNat_ne_one,
            Nat.reduceEqDiff]
          simp (disch := positivity) only [zernikeAnnularEvalConst, realMath, div_pow, mul_pow,
            Real.sq_sqrt]
          generalize e ^ 2 = u
          ring
        have main : ∫ r in e..1, r * (zernikeRadial (zernikeAnnularEvalConst realMath e) 21 r) ^ 2 = (1
            - e ^ 2) / 2 := by
          simp only [key]
          rw [intervalIntegral.integral_const_mul, integral_radial_poly]
          simp only [radialPrimitive, even_pow_obscuration e]
          generalize e ^ 2 = u at hu0 hu1
          have h1u : 1 - u ≠ 0 := by linarith
          rw [div_mul_eq_mul_div, div_eq_iff (pow_ne_zero 2 (pow_ne_zero 3 h1u))]
          ring
        exact main
      · have hu0 : (0 : ℝ) ≤ e ^ 2 := by positivity
        have hu1 : e ^ 2 < 1 := by nlinarith
        have key : ∀ r : ℝ, r * (zernikeRadial (zernikeAnnularEvalConst realMath e) 22 r) ^ 2
            = 14 / (((1 - e ^ 2) ^ (2 : ℕ)) ^ (2 : ℕ) * ((1 + 4 * e ^ 2 + 10 * (e ^ 2) ^ (2 : ℕ) + 4 *
                (e ^ 2) ^ (3 : ℕ) + (e ^ 2) ^ (4 : ℕ)) * (1 + 9 * e ^ 2 + 45 * (e ^ 2) ^ (2 : ℕ) + 65 *
                (e ^ 2) ^ (3 : ℕ) + 45 * (e ^ 2) ^ (4 : ℕ) + 9 * (e ^ 2) ^ (5 : ℕ) + (e ^ 2) ^ (6 :
                ℕ)))) * (r * (0 + 0 * r + (6 * (1 + 4 * e ^ 2 + 10 * (e ^ 2) ^ (2 : ℕ) + 20 * (e ^ 2) ^
                (3 : ℕ) + 10 * (e ^ 2) ^ (4 : ℕ) + 4 * (e ^ 2) ^ (5 : ℕ) + (e ^ 2) ^ (6 : ℕ))) * r ^ (2
                : ℕ) + 0 * r ^ (3 : ℕ) + (-20 * (1 + 4 * e ^ 2 + 10 * (e ^ 2) ^ (2 : ℕ) + 10 * (e ^ 2) ^
                (3 : ℕ) + 4 * (e ^ 2) ^ (4 : ℕ) + (e ^ 2) ^ (5 : ℕ))) * r ^ (4 : ℕ) + 0 * r ^ (5 : ℕ) +
                (15 * (1 + 4 * e ^ 2 + 10 * (e ^ 2) ^ (2 : ℕ) + 4 * (e ^ 2) ^ (3 : ℕ) + (e ^ 2) ^ (4 :
                ℕ))) * r ^ (6 : ℕ)) ^ 2) := by
          intro r
          simp only [zernikeRadial, ↓reduceIte, OfNat.ofNat_ne_zero, OfNat.ofNat_ne_one,
            Nat.reduceEqDiff]
          simp (disch := positivity) only [zernikeAnnularEvalConst, realMath, div_pow, mul_pow,
            Real.sq_sqrt]
          generalize e ^ 2 = u
          ring
        have main : ∫ r in e..1, r * (zernikeRadial (zernikeAnnularEvalConst realMath e) 22 r) ^ 2 = 1 -
            e ^ 2 := by
          simp only [key]
          rw [intervalIntegral.integral_const_mul, integral_radial_poly]
          simp only [radialPrimitive, even_pow_obscuration e]
          generalize e ^ 2 = u at hu0 hu1
          have h1u : 1 - u ≠ 0 := by linarith
          have hn1 : (1 + 4 * u + 10 * u ^ (2 : ℕ) + 4 * u ^ (3 : ℕ) + u ^ (4 : ℕ)) * (1 + 9 * u + 45 *
              u ^ (2 : ℕ) + 65 * u ^ (3 : ℕ) + 45 * u ^ (4 : ℕ) + 9 * u ^ (5 : ℕ) + u ^ (6 : ℕ)) ≠ 0 :=
              by positivity
          rw [div_mul_eq_mul_div, div_eq_iff (mul_ne_zero (pow_ne_zero 2 (pow_ne_zero 2 h1u)) hn1)]
          ring
        refine ⟨main, ?_⟩
        have hsame : ∀ r : ℝ, zernikeRadial (zernikeAnnularEvalConst realMath e) 23 r = zernikeRadial
            (zernikeAnnularEvalConst realMath e) 22 r := by
          intro r
          simp only [zernikeRadial, ↓reduceIte, OfNat.ofNat_ne_zero, OfNat.ofNat_ne_one,
            Nat.reduceEqDiff]
        simp only [hsame]
        exact main
      · obtain ⟨h2, h10, h12, h14⟩ := obscuration_pow_lt_one e he0 he1
        have hn0 : (1 : ℝ) - e ^ 2 ≠ 0 := by linarith
        have hn1 : (1 : ℝ) - e ^ 10 ≠ 0 := by linarith
        have hX := den14_radicand_pos e he0 he1
        have e4 : e ^ 2 * e ^ 2 = e ^ 4 := by ring
        have e6 : e ^ 4 * e ^ 2 = e ^ 6 := by ring
        have e8 : e ^ 6 * e ^ 2 = e ^ 8 := by ring
        have e10 : e ^ 8 * e ^ 2 = e ^ 10 := by ring
        have e12 : e ^ 10 * e ^ 2 = e ^ 12 := by ring
        have e14 : e ^ 12 * e ^ 2 = e ^ 14 := by ring
        have key : ∀ r : ℝ, r * (zernikeRadial (zernikeAnnularEvalConst realMath e) 24 r) ^ 2
            = (14 / (1 / (1 - e ^ 2) * (36 * (1 - e ^ 14) - 35 * (1 - e ^ 12) ^ 2 / (1 - e ^ 10))))
              * (r * (0 + 0 * r + 0 * r ^ 2 + 0 * r ^ 3
                  + (-5 * (1 - e ^ 12) / (1 - e ^ 10)) * r ^ 4 + 0 * r ^ 5 + 6 * r ^ 6) ^ 2) := by
          intro r
          simp only [zernikeRadial, ↓reduceIte, OfNat.ofNat_ne_zero, OfNat.ofNat_ne_one,
            Nat.reduceEqDiff]
          simp only [zernikeAnnularEvalConst, realMath, div_pow, mul_pow, e4, e6, e8, e10, e12, e14,
            Real.sq_sqrt hX.le, Real.sq_sqrt (show (0 : ℝ) ≤ 14 by norm_num)]
          ring
        have hint : radialPrimitive 0 0 0 0 (-5 * (1 - e ^ 12) / (1 - e ^ 10)) 0 6 1
              - radialPrimitive 0 0 0 0 (-5 * (1 - e ^ 12) / (1 - e ^ 10)) 0 6 e
            = (1 - e ^ 2)
              * (1 / (1 - e ^ 2) * (36 * (1 - e ^ 14) - 35 * (1 - e ^ 12) ^ 2 / (1 - e ^ 10)))
              / 14 := by
          have hn2 : (1 : ℝ) - (e ^ 2) ^ 5 ≠ 0 := by
            rw [← (even_pow_obscuration e).2.2.2.1]
            exact hn1
          simp only [radialPrimitive, even_pow_obscuration e]
          generalize e ^ 2 = u at hn0 hn2
          have hv := mul_inv_cancel₀ hn0
          have hw := mul_inv_cancel₀ hn2
          linear_combination (5 / 2) * (1 - u ^ 6) ^ 2 * (1 - u ^ 5)⁻¹ * hw
            - ((36 * (1 - u ^ 7) - 35 * (1 - u ^ 6) ^ 2 * (1 - u ^ 5)⁻¹) / 14) * hv
        have main : ∫ r in e..1, r * (zernikeRadial (zernikeAnnularEvalConst realMath e) 24 r) ^ 2
            = 1 - e ^ 2 := by
          simp only [key]
          rw [intervalIntegral.integral_const_mul, integral_radial_poly, hint]
          generalize 1 / (1 - e ^ 2) * (36 * (1 - e ^ 14) - 35 * (1 - e ^ 12) ^ 2 / (1 - e ^ 10))
            = X at hX
          have hXne : X ≠ 0 := hX.ne'
          field_simp
          ring
        refine ⟨main, ?_⟩
        have hsame : ∀ r : ℝ, zernikeRadial (zernikeAnnularEvalConst realMath e) 25 r
            = zernikeRadial (zernikeAnnularEvalConst realMath e) 24 r := by
          intro r
          simp only [zernikeRadial, ↓reduceIte, OfNat.ofNat_ne_zero, OfNat.ofNat_ne_one,
            Nat.reduceEqDiff]
        simp only [hsame]
        exact main
      · obtain ⟨h2, h10, h12, h14⟩ := obscuration_pow_lt_one e he0 he1
        have hn0 : (1 : ℝ) - e ^ 14 ≠ 0 := by linarith
        have e4 : e ^ 2 * e ^ 2 = e ^ 4 := by ring
        have e6 : e ^ 4 * e ^ 2 = e ^ 6 := by ring
        have e8 : e ^ 6 * e ^ 2 = e ^ 8 := by ring
        have e10 : e ^ 8 * e ^ 2 = e ^ 10 := by ring
        have e12 : e ^ 10 * e ^ 2 = e ^ 12 := by ring
        have e14 : e ^ 12 * e ^ 2 = e ^ 14 := by ring
        have h13 : 0 ≤ (1 - e ^ 2) / (1 - e ^ 14) := div_nonneg (by linarith) (by linarith)
        have key : ∀ r : ℝ, r * (zernikeRadial (zernikeAnnularEvalConst realMath e) 26 r) ^ 2
            = (14 * ((1 - e ^ 2) / (1 - e ^ 14)))
              * (r * (0 + 0 * r + 0 * r ^ 2 + 0 * r ^ 3 + 0 * r ^ 4 + 0 * r ^ 5 + 1 * r ^ 6) ^ 2) := by
          intro r
          simp only [zernikeRadial, ↓reduceIte, OfNat.ofNat_ne_zero, OfNat.ofNat_ne_one,
            Nat.reduceEqDiff]
          simp only [zernikeAnnularEvalConst, realMath, div_pow, mul_pow, e4, e6, e8, e10, e12, e14,
            Real.sq_sqrt h13, Real.sq_sqrt (show (0 : ℝ) ≤ 14 by norm_num)]
          ring
        have main : ∫ r in e..1, r * (zernikeRadial (zernikeAnnularEvalConst realMath e) 26 r) ^ 2
            = 1 - e ^ 2 := by
          simp only [key]
          rw [intervalIntegral.integral_const_mul, integral_radial_poly]
          simp only [radialPrimitive]
          field_simp
        refine ⟨main, ?_⟩
        have hsame : ∀ r : ℝ, zernikeRadial (zernikeAnnularEvalConst realMath e) 27 r
            = zernikeRadial (zernikeAnnularEvalConst realMath e) 26 r := by
          intro r
          simp only [zernikeRadial, ↓reduceIte, OfNat.ofNat_ne_zero, OfNat.ofNat_ne_one,
            Nat.reduceEqDiff]
        simp only [hsame]
        exact main
    obtain ⟨r0, r1, r3, r4, r6, r8, r10, r11, r13, r15, r17, r19, r21, r22, r24, r26⟩ := hall
    interval_cases j
    · simp only [↓reduceIte, OfNat.ofNat_ne_zero, OfNat.ofNat_ne_one,
        Nat.reduceEqDiff, or_self, or_false, or_true, false_or, true_or, OfNat.zero_ne_ofNat,
        one_ne_zero, zero_ne_one, OfNat.one_ne_ofNat, div_one]
      exact r0
    · simp only [↓reduceIte, OfNat.ofNat_ne_zero, OfNat.ofNat_ne_one,
        Nat.reduceEqDiff, or_self, or_false, or_true, false_or, true_or, OfNat.zero_ne_ofNat,
        one_ne_zero, zero_ne_one, OfNat.one_ne_ofNat, div_one]
      exact r1.1
    · simp only [↓reduceIte, OfNat.ofNat_ne_zero, OfNat.ofNat_ne_one,
        Nat.reduceEqDiff, or_self, or_false, or_true, false_or, true_or, OfNat.zero_ne_ofNat,
        one_ne_zero, zero_ne_one, OfNat.one_ne_ofNat, div_one]
      exact r1.2
    · simp only [↓reduceIte, OfNat.ofNat_ne_zero, OfNat.ofNat_ne_one,
        Nat.reduceEqDiff, or_self, or_false, or_true, false_or, true_or, OfNat.zero_ne_ofNat,
        one_ne_zero, zero_ne_one, OfNat.one_ne_ofNat, div_one]
      exact r3
    · simp only [↓reduceIte, OfNat.ofNat_ne_zero, OfNat.ofNat_ne_one,
        Nat.reduceEqDiff, or_self, or_false, or_true, false_or, true_or, OfNat.zero_ne_ofNat,
        one_ne_zero, zero_ne_one, OfNat.one_ne_ofNat, div_one]
      exact r4.1
    · simp only [↓reduceIte, OfNat.ofNat_ne_zero, OfNat.ofNat_ne_one,
        Nat.reduceEqDiff, or_self, or_false, or_true, false_or, true_or, OfNat.zero_ne_ofNat,
        one_ne_zero, zero_ne_one, OfNat.one_ne_ofNat, div_one]
      exact r4.2
    · simp only [↓reduceIte, OfNat.ofNat_ne_zero, OfNat.ofNat_ne_one,
        Nat.reduceEqDiff, or_self, or_false, or_true, false_or, true_or, OfNat.zero_ne_ofNat,
        one_ne_zero, zero_ne_one, OfNat.one_ne_ofNat, div_one]
      exact r6.1
    · simp only [↓reduceIte, OfNat.ofNat_ne_zero, OfNat.ofNat_ne_one,
        Nat.reduceEqDiff, or_self, or_false, or_true, false_or, true_or, OfNat.zero_ne_ofNat,
        one_ne_zero, zero_ne_one, OfNat.one_ne_ofNat, div_one]
      exact r6.2
    · simp only [↓reduceIte, OfNat.ofNat_ne_zero, OfNat.ofNat_ne_one,
        Nat.reduceEqDiff, or_self, or_false, or_true, false_or, true_or, OfNat.zero_ne_ofNat,
        one_ne_zero, zero_ne_one, OfNat.one_ne_ofNat, div_one]
      exact r8.1
    · simp only [↓reduceIte, OfNat.ofNat_ne_zero, OfNat.ofNat_ne_one,
        Nat.reduceEqDiff, or_self, or_false, or_true, false_or, true_or, OfNat.zero_ne_ofNat,
        one_ne_zero, zero_ne_one, OfNat.one_ne_ofNat, div_one]
      exact r8.2
    · simp only [↓reduceIte, OfNat.ofNat_ne_zero, OfNat.ofNat_ne_one,
        Nat.reduceEqDiff, or_self, or_false, or_true, false_or, true_or, OfNat.zero_ne_ofNat,
        one_ne_zero, zero_ne_one, OfNat.one_ne_ofNat, div_one]
      exact r10
    · simp only [↓reduceIte, OfNat.ofNat_ne_zero, OfNat.ofNat_ne_one,
        Nat.reduceEqDiff, or_self, or_false, or_true, false_or, true_or, OfNat.zero_ne_ofNat,
        one_ne_zero, zero_ne_one, OfNat.one_ne_ofNat, div_one]
      exact r11.1
    · simp only [↓reduceIte, OfNat.ofNat_ne_zero, OfNat.ofNat_ne_one,
        Nat.reduceEqDiff, or_self, or_false, or_true, false_or, true_or, OfNat.zero_ne_ofNat,
        one_ne_zero, zero_ne_one, OfNat.one_ne_ofNat, div_one]
      exact r11.2
    · simp only [↓reduceIte, OfNat.ofNat_ne_zero, OfNat.ofNat_ne_one,
        Nat.reduceEqDiff, or_self, or_false, or_true, false_or, true_or, OfNat.zero_ne_ofNat,
        one_ne_zero, zero_ne_one, OfNat.one_ne_ofNat, div_one]
      exact r13.1
    · simp only [↓reduceIte, OfNat.ofNat_ne_zero, OfNat.ofNat_ne_one,
        Nat.reduceEqDiff, or_self, or_false, or_true, false_or, true_or, OfNat.zero_ne_ofNat,
        one_ne_zero, zero_ne_one, OfNat.one_ne_ofNat, div_one]
      exact r13.2
    · simp only [↓reduceIte, OfNat.ofNat_ne_zero, OfNat.ofNat_ne_one,
        Nat.reduceEqDiff, or_self, or_false, or_true, false_or, true_or, OfNat.zero_ne_ofNat,
        one_ne_zero, zero_ne_one, OfNat.one_ne_ofNat, div_one]
      exact r15.1
    · simp only [↓reduceIte, OfNat.ofNat_ne_zero, OfNat.ofNat_ne_one,
        Nat.reduceEqDiff, or_self, or_false, or_true, false_or, true_or, OfNat.zero_ne_ofNat,
        one_ne_zero, zero_ne_one, OfNat.one_ne_ofNat, div_one]
      exact r15.2
    · simp only [↓reduceIte, OfNat.ofNat_ne_zero, OfNat.ofNat_ne_one,
        Nat.reduceEqDiff, or_self, or_false, or_true, false_or, true_or, OfNat.zero_ne_ofNat,
        one_ne_zero, zero_ne_one, OfNat.one_ne_ofNat, div_one]
      exact r17.1
    · simp only [↓reduceIte, OfNat.ofNat_ne_zero, OfNat.ofNat_ne_one,
        Nat.reduceEqDiff, or_self, or_false, or_true, false_or, true_or, OfNat.zero_ne_ofNat,
        one_ne_zero, zero_ne_one, OfNat.one_ne_ofNat, div_one]
      exact r17.2
    · simp only [↓reduceIte, OfNat.ofNat_ne_zero, OfNat.ofNat_ne_one,
        Nat.reduceEqDiff, or_self, or_false, or_true, false_or, true_or, OfNat.zero_ne_ofNat,
        one_ne_zero, zero_ne_one, OfNat.one_ne_ofNat, div_one]
      exact r19.1
    · simp only [↓reduceIte, OfNat.ofNat_ne_zero, OfNat.ofNat_ne_one,
        Nat.reduceEqDiff, or_self, or_false, or_true, false_or, true_or, OfNat.zero_ne_ofNat,
        one_ne_zero, zero_ne_one, OfNat.one_ne_ofNat, div_one]
      exact r19.2
    · simp only [↓reduceIte, OfNat.ofNat_ne_zero, OfNat.ofNat_ne_one,
        Nat.reduceEqDiff, or_self, or_false, or_true, false_or, true_or, OfNat.zero_ne_ofNat,
        one_ne_zero, zero_ne_one, OfNat.one_ne_ofNat, div_one]
      exact r21
    · simp only [↓reduceIte, OfNat.ofNat_ne_zero, OfNat.ofNat_ne_one,
        Nat.reduceEqDiff, or_self, or_false, or_true, false_or, true_or, OfNat.zero_ne_ofNat,
        one_ne_zero, zero_ne_one, OfNat.one_ne_ofNat, div_one]
      exact r22.1
    · simp only [↓reduceIte, OfNat.ofNat_ne_zero, OfNat.ofNat_ne_one,
        Nat.reduceEqDiff, or_self, or_false, or_true, false_or, true_or, OfNat.zero_ne_ofNat,
        one_ne_zero, zero_ne_one, OfNat.one_ne_ofNat, div_one]
      exact r22.2
    · simp only [↓reduceIte, OfNat.ofNat_ne_zero, OfNat.ofNat_ne_one,
        Nat.reduceEqDiff, or_self, or_false, or_true, false_or, true_or, OfNat.zero_ne_ofNat,
        one_ne_zero, zero_ne_one, OfNat.one_ne_ofNat, div_one]
      exact r24.1
    · simp only [↓reduceIte, OfNat.ofNat_ne_zero, OfNat.ofNat_ne_one,
        Nat.reduceEqDiff, or_self, or_false, or_true, false_or, true_or, OfNat.zero_ne_ofNat,
        one_ne_zero, zero_ne_one, OfNat.one_ne_ofNat, div_one]
      exact r24.2
    · simp only [↓reduceIte, OfNat.ofNat_ne_zero, OfNat.ofNat_ne_one,
        Nat.reduceEqDiff, or_self, or_false, or_true, false_or, true_or, OfNat.zero_ne_ofNat,
        one_ne_zero, zero_ne_one, OfNat.one_ne_ofNat, div_one]
      exact r26.1
    · simp only [↓reduceIte, OfNat.ofNat_ne_zero, OfNat.ofNat_ne_one,
        Nat.reduceEqDiff, or_self, or_false, or_true, false_or, true_or, OfNat.zero_ne_ofNat,
        one_ne_zero, zero_ne_one, OfNat.one_ne_ofNat, div_one]
      exact r26.2
  have hpolar := integral_annulus_polar e he0 he1.le
    (fun p => (zernikeAnnularEvalPoint realMath (zernikeAnnularEvalConst realMath e)
      (unitCoeff k) p.1 p.2) ^ 2)
    (fun r => (zernikeRadial (zernikeAnnularEvalConst realMath e) k r) ^ 2)
    (fun θ => (zernikeAngular realMath k θ) ^ 2)
    (by
      intro r θ hr h1 h2
      simp only []
      rw [hunit _ k hk r θ hr h1 h2, mul_pow])
  rw [hpolar, hrad k hk, hang k hk]
  have hu : (1 : ℝ) - e ^ 2 ≠ 0 := by nlinarith
  have hpi : Real.pi ≠ 0 := Real.pi_ne_zero
  split_ifs <;> field_simp <;> ring

/-- Witness for C9: mode 6 at obscuration `1/2`. -/
theorem zernikeAnnularEval_basis_normalised_witness :
    (0 : ℝ) ≤ 1 / 2 ∧ (1 / 2 : ℝ) < 1 ∧ 6 < 28
    ∧ 1 / (Real.pi * (1 - (1 / 2 : ℝ) ^ 2))
      * ∫ p in annulus (1 / 2),
          (zernikeAnnularEvalPoint realMath (zernikeAnnularEvalConst realMath (1 / 2))
            (unitCoeff 6) p.1 p.2) ^ 2
      = 1 :=
  ⟨by norm_num, by norm_num, by norm_num,
    zernikeAnnularEval_basis_normalised (1 / 2) (by norm_num) (by norm_num) 6 (by norm_num)⟩

end Normalisation

/-! ## C10: high modes in the first-order Jacobian term -/

/-- The `"1st"` loop body of `zernikeAnnularJacobian` depends on the coefficients of index
`0..18` and `21` only. -/
theorem jacobian_1st_congr (k : JacobianConst ℝ) (x y : ℝ) (Z Z' : ℕ → ℝ)
    (h : ∀ j, j ≤ 18 → Z j = Z' j) (h21 : Z 21 = Z' 21) :
    zernikeAnnularJacobian_1st k Z x y = zernikeAnnularJacobian_1st k Z' x y := by
  simp only [zernikeAnnularJacobian_1st, h 0 (by norm_num), h 1 (by norm_num),
    h 2 (by norm_num), h 3 (by norm_num), h 4 (by norm_num), h 5 (by norm_num),
    h 6 (by norm_num), h 7 (by norm_num), h 8 (by norm_num), h 9 (by norm_num),
    h 10 (by norm_num), h 11 (by norm_num), h 12 (by norm_num), h 13 (by norm_num),
    h 14 (by norm_num), h 15 (by norm_num), h 16 (by norm_num), h 17 (by norm_num),
    h 18 (by norm_num), h21]
  ring

theorem jacobian_1st_zero (k : JacobianConst ℝ) (x y : ℝ) :
    zernikeAnnularJacobian_1st k (fun _ => 0) x y = 0 := by
  simp [zernikeAnnularJacobian_1st]

/-- C10 (amended): in exact real arithmetic and for `e^2 ≠ 1`, for `atype == "1st"` the modes
19, 20 and 22 to 27 contribute zero to `zernikeAnnularJacobian`: coefficient vectors that agree
on the entries `0..18` and `21` give equal values, and the value for the unit vector at any
`k ≥ 19` other than `21` is zero at every point.  Mode 21 contributes: the value for the unit
vector at 21 is `√7 * 48 * (e^4 - 10 e^2 r^2 + 3 e^2 + 15 r^4 - 10 r^2 + 1) / (1 - e^2)^3` with
`r^2 = x^2 + y^2`, and the value for `Z` is the value for `Z` with the entry 21 set to zero
plus `Z[21]` times this. -/
theorem zernikeAnnularJacobian_1st_high_modes (e x y : ℝ) (Z Z' : ℕ → ℝ) (he : e ^ 2 ≠ 1)
    (h : ∀ j, j ≤ 18 → Z j = Z' j) (h21 : Z 21 = Z' 21) :
    zernikeAnnularJacobian_1st (zernikeAnnularJacobianConst realMath e) Z x y
      = zernikeAnnularJacobian_1st (zernikeAnnularJacobianConst realMath e) Z' x y
    ∧ (∀ k, 19 ≤ k → k ≠ 21 →
        zernikeAnnularJacobian_1st (zernikeAnnularJacobianConst realMath e) (unitCoeff k) x y
          = 0)
    ∧ zernikeAnnularJacobian_1st (zernikeAnnularJacobianConst realMath e) (unitCoeff 21) x y
      = Real.sqrt 7 * 48
        * (e ^ 4 - 10 * e ^ 2 * (x ^ 2 + y ^ 2) + 3 * e ^ 2 + 15 * (x ^ 2 + y ^ 2) ^ 2
          - 10 * (x ^ 2 + y ^ 2) + 1) / (1 - e ^ 2) ^ 3
    ∧ zernikeAnnularJacobian_1st (zernikeAnnularJacobianConst realMath e) Z x y
      = zernikeAnnularJacobian_1st (zernikeAnnularJacobianConst realMath e)
          (fun j => if j = 21 then 0 else Z j) x y
        + Z 21 * (Real.sqrt 7 * 48
          * (e ^ 4 - 10 * e ^ 2 * (x ^ 2 + y ^ 2) + 3 * e ^ 2 + 15 * (x ^ 2 + y ^ 2) ^ 2
            - 10 * (x ^ 2 + y ^ 2) + 1) / (1 - e ^ 2) ^ 3) := by
  have h7 : (zernikeAnnularJacobianConst realMath e).sqrt_7 = Real.sqrt 7 := rfl
  have hd : (zernikeAnnularJacobianConst realMath e).den7 = (1 - e ^ 2) ^ 3 := rfl
  have h2 : (zernikeAnnularJacobianConst realMath e).e2 = e ^ 2 := rfl
  have h4 : (zernikeAnnularJacobianConst realMath e).e4 = e ^ 2 * e ^ 2 := rfl
  -- the value for the unit vector at 21, in terms of the constants of the source
  have hunit : ∀ c : JacobianConst ℝ,
      zernikeAnnularJacobian_1st c (unitCoeff 21) x y
        = c.sqrt_7 * 48
          * (c.e4 - 10 * c.e2 * x ^ 2 - 10 * c.e2 * y ^ 2 + 3 * c.e2 + 15 * (x ^ 2) ^ 2
            + 30 * x ^ 2 * y ^ 2 - 10 * x ^ 2 + 15 * (y ^ 2) ^ 2 - 10 * y ^ 2 + 1) / c.den7 := by
    intro c
    simp only [zernikeAnnularJacobian_1st, unitCoeff, ↓reduceIte, OfNat.ofNat_ne_zero,
      OfNat.ofNat_ne_one, Nat.reduceEqDiff, OfNat.zero_ne_ofNat, OfNat.one_ne_ofNat,
      one_ne_zero, zero_ne_one]
    ring
  -- the body is linear in the entry 21
  have hsplit : ∀ c : JacobianConst ℝ,
      zernikeAnnularJacobian_1st c Z x y
        = zernikeAnnularJacobian_1st c (fun j => if j = 21 then 0 else Z j) x y
          + Z 21 * zernikeAnnularJacobian_1st c (unitCoeff 21) x y := by
    intro c
    simp only [zernikeAnnularJacobian_1st, unitCoeff, ↓reduceIte, OfNat.ofNat_ne_zero,
      OfNat.ofNat_ne_one, Nat.reduceEqDiff, OfNat.zero_ne_ofNat, OfNat.one_ne_ofNat,
      one_ne_zero, zero_ne_one]
    ring
  have hval : zernikeAnnularJacobian_1st (zernikeAnnularJacobianConst realMath e)
      (unitCoeff 21) x y
      = Real.sqrt 7 * 48
        * (e ^ 4 - 10 * e ^ 2 * (x ^ 2 + y ^ 2) + 3 * e ^ 2 + 15 * (x ^ 2 + y ^ 2) ^ 2
          - 10 * (x ^ 2 + y ^ 2) + 1) / (1 - e ^ 2) ^ 3 := by
    rw [hunit, h7, hd, h2, h4]
    ring
  refine ⟨jacobian_1st_congr _ x y Z Z' h h21, ?_, hval, ?_⟩
  · intro k hk hk21
    rw [jacobian_1st_congr _ x y (unitCoeff k) (fun _ => 0) ?_ ?_, jacobian_1st_zero]
    · intro j hj
      have : j ≠ k := by omega
      simp [unitCoeff, this]
    · have : 21 ≠ k := fun h => hk21 h.symm
      simp [unitCoeff, this]
  · rw [hsplit, hval]

/-- Witness for the amended C10: the unit vectors at 20 and 27,
`e = 0`, the point `(1, 2)`. -/
theorem zernikeAnnularJacobian_1st_high_modes_witness :
    (0 : ℝ) ^ 2 ≠ 1
    ∧ (∀ j, j ≤ 18 → (unitCoeff 20 : ℕ → ℝ) j = (unitCoeff 27 : ℕ → ℝ) j)
    ∧ (unitCoeff 20 : ℕ → ℝ) 21 = (unitCoeff 27 : ℕ → ℝ) 21
    ∧ (zernikeAnnularJacobian_1st (zernikeAnnularJacobianConst realMath 0) (unitCoeff 20) 1 2
      = zernikeAnnularJacobian_1st (zernikeAnnularJacobianConst realMath 0) (unitCoeff 27) 1 2
    ∧ (∀ k, 19 ≤ k → k ≠ 21 →
        zernikeAnnularJacobian_1st (zernikeAnnularJacobianConst realMath 0) (unitCoeff k) 1 2
          = 0)
    ∧ zernikeAnnularJacobian_1st (zernikeAnnularJacobianConst realMath 0) (unitCoeff 21) 1 2
      = Real.sqrt 7 * 48
        * ((0 : ℝ) ^ 4 - 10 * 0 ^ 2 * (1 ^ 2 + 2 ^ 2) + 3 * 0 ^ 2 + 15 * (1 ^ 2 + 2 ^ 2) ^ 2
          - 10 * (1 ^ 2 + 2 ^ 2) + 1) / (1 - 0 ^ 2) ^ 3
    ∧ zernikeAnnularJacobian_1st (zernikeAnnularJacobianConst realMath 0) (unitCoeff 20) 1 2
      = zernikeAnnularJacobian_1st (zernikeAnnularJacobianConst realMath 0)
          (fun j => if j = 21 then 0 else (unitCoeff 20 : ℕ → ℝ) j) 1 2
        + (unitCoeff 20 : ℕ → ℝ) 21 * (Real.sqrt 7 * 48
          * ((0 : ℝ) ^ 4 - 10 * 0 ^ 2 * (1 ^ 2 + 2 ^ 2) + 3 * 0 ^ 2 + 15 * (1 ^ 2 + 2 ^ 2) ^ 2
            - 10 * (1 ^ 2 + 2 ^ 2) + 1) / (1 - 0 ^ 2) ^ 3)) :=
  have h1 : ∀ j, j ≤ 18 → (unitCoeff 20 : ℕ → ℝ) j = (unitCoeff 27 : ℕ → ℝ) j := by
    intro j hj
    have a : j ≠ 20 := by omega
    have b : j ≠ 27 := by omega
    simp [unitCoeff, a, b]
  have h2 : (unitCoeff 20 : ℕ → ℝ) 21 = (unitCoeff 27 : ℕ → ℝ) 21 := by simp [unitCoeff]
  ⟨by norm_num, h1, h2,
    zernikeAnnularJacobian_1st_high_modes 0 1 2 (unitCoeff 20) (unitCoeff 27) (by norm_num)
      h1 h2⟩

/-- C10 (counterexample): for `atype == "1st"`, `e = 0` and the origin, the unit vector at mode
21 gives `48 sqrt 7`, which is not zero, whereas the zero vector (which agrees with it on the
entries `0..18`) gives `0`. -/
theorem zernikeAnnularJacobian_1st_mode21_counterexample :
    zernikeAnnularJacobian_1st (zernikeAnnularJacobianConst realMath 0) (unitCoeff 21) 0 0
      = 48 * Real.sqrt 7
    ∧ zernikeAnnularJacobian_1st (zernikeAnnularJacobianConst realMath 0) (fun _ => 0) 0 0 = 0
    ∧ (∀ j, j ≤ 18 → (unitCoeff 21 : ℕ → ℝ) j = 0)
    ∧ 48 * Real.sqrt 7 ≠ 0 := by
  refine ⟨?_, jacobian_1st_zero _ 0 0, ?_, ?_⟩
  · simp [zernikeAnnularJacobian_1st, zernikeAnnularJacobianConst, unitCoeff, realMath]
    ring
  · intro j hj
    have a : j ≠ 21 := by omega
    simp [unitCoeff, a]
  · have h3 : 0 < Real.sqrt 7 := Real.sqrt_pos.2 (by norm_num)
    positivity

/-! ## C11, C12, C13: the Jacobian terms as functions of the coefficients -/

/-- The `"2nd"` loop body of `zernikeAnnularJacobian` is linear in the squares of the
coefficients of index `0..21` and reads no other coefficient. -/
theorem jacobian_2nd_lin (k : JacobianConst ℝ) (x y a b : ℝ) (W Z Z' : ℕ → ℝ)
    (h : ∀ j, j ≤ 21 → W j ^ 2 = a * Z j ^ 2 + b * Z' j ^ 2) :
    zernikeAnnularJacobian_2nd k W x y
      = a * zernikeAnnularJacobian_2nd k Z x y + b * zernikeAnnularJacobian_2nd k Z' x y := by
  simp only [zernikeAnnularJacobian_2nd, h 0 (by norm_num), h 1 (by norm_num),
    h 2 (by norm_num), h 3 (by norm_num), h 4 (by norm_num), h 5 (by norm_num),
    h 6 (by norm_num), h 7 (by norm_num), h 8 (by norm_num), h 9 (by norm_num),
    h 10 (by norm_num), h 11 (by norm_num), h 12 (by norm_num), h 13 (by norm_num),
    h 14 (by norm_num), h 15 (by norm_num), h 16 (by norm_num), h 17 (by norm_num),
    h 18 (by norm_num), h 19 (by norm_num), h 20 (by norm_num), h 21 (by norm_num)]
  ring

/-- Coefficient vectors whose entries of index `0..21` have equal squares give the same
`"2nd"` value. -/
theorem jacobian_2nd_congr (k : JacobianConst ℝ) (x y : ℝ) (W Z : ℕ → ℝ)
    (h : ∀ j, j ≤ 21 → W j ^ 2 = Z j ^ 2) :
    zernikeAnnularJacobian_2nd k W x y = zernikeAnnularJacobian_2nd k Z x y := by
  have h1 := jacobian_2nd_lin k x y 1 0 W Z Z (fun j hj => by rw [h j hj]; ring)
  simpa using h1

/-- A coefficient vector whose entries of index `0..21` are zero gives the `"2nd"` value 0. -/
theorem jacobian_2nd_zero (k : JacobianConst ℝ) (x y : ℝ) (W : ℕ → ℝ)
    (h : ∀ j, j ≤ 21 → W j = 0) :
    zernikeAnnularJacobian_2nd k W x y = 0 := by
  have h1 := jacobian_2nd_lin k x y 0 0 W W W (fun j hj => by rw [h j hj]; ring)
  simpa using h1

/-- The `"2nd"` value of the coefficient vector cut off after the first `n` entries is the
sum of the squared entries times the values for the unit vectors. -/
theorem jacobian_2nd_sum (k : JacobianConst ℝ) (x y : ℝ) (Z : ℕ → ℝ) (n : ℕ) :
    zernikeAnnularJacobian_2nd k (fun j => if j < n then Z j else 0) x y
      = ∑ i in Finset.range n, Z i ^ 2 * zernikeAnnularJacobian_2nd k (unitCoeff i) x y := by
  induction n with
  | zero => simpa using jacobian_2nd_zero k x y (fun _ => 0) (fun _ _ => rfl)
  | succ n ih =>
    rw [Finset.sum_range_succ, ← ih]
    have h := jacobian_2nd_lin k x y 1 (Z n ^ 2) (fun j => if j < n + 1 then Z j else 0)
      (fun j => if j < n then Z j else 0) (unitCoeff n) ?_
    · simpa using h
    · intro j _
      rcases Nat.lt_trichotomy j n with hlt | heq | hgt
      · have h1 : j < n + 1 := by omega
        have h2 : j ≠ n := by omega
        simp [unitCoeff, hlt, h1, h2]
      · subst heq
        simp [unitCoeff]
      · have h1 : ¬ j < n + 1 := by omega
        have h2 : ¬ j < n := by omega
        have h3 : j ≠ n := by omega
        simp [unitCoeff, h1, h2, h3]

/-- C11: the value `zernikeAnnularJacobian` writes for a sample when `atype == "2nd"` is
the sum over `k = 0..27` of `Z[k]^2` times the value for the unit coefficient vector at `k`
(no cross terms), and it does not change when the sign of a single coefficient is flipped. -/
theorem zernikeAnnularJacobian_2nd_quadratic (e x y : ℝ) (Z : ℕ → ℝ) :
    zernikeAnnularJacobian_2nd (zernikeAnnularJacobianConst realMath e) Z x y
      = ∑ k in Finset.range 28, Z k ^ 2 *
          zernikeAnnularJacobian_2nd (zernikeAnnularJacobianConst realMath e) (unitCoeff k) x y
    ∧ ∀ k, zernikeAnnularJacobian_2nd (zernikeAnnularJacobianConst realMath e)
          (Function.update Z k (-(Z k))) x y
        = zernikeAnnularJacobian_2nd (zernikeAnnularJacobianConst realMath e) Z x y := by
  constructor
  · rw [← jacobian_2nd_sum]
    apply jacobian_2nd_congr
    intro j hj
    have h1 : j < 28 := by omega
    simp [h1]
  · intro k
    apply jacobian_2nd_congr
    intro j _
    by_cases h : j = k
    · subst h
      simp
    · simp [Function.update, h]

/-- The `"2nd"` value at `e = 0` and the point `(1, 0)`, as a polynomial in the
coefficients. -/
theorem jacobian_2nd_at_one_zero (Z : ℕ → ℝ) :
    zernikeAnnularJacobian_2nd (zernikeAnnularJacobianConst realMath 0) Z 1 0
      = 48 * Z 3 ^ 2 - 24 * Z 4 ^ 2 - 24 * Z 5 ^ 2 - 288 * Z 6 ^ 2 + 864 * Z 7 ^ 2
        - 288 * Z 8 ^ 2 - 288 * Z 9 ^ 2 + 3600 * Z 10 ^ 2 + 2520 * Z 11 ^ 2 - 3240 * Z 12 ^ 2
        - 1440 * Z 13 ^ 2 - 1440 * Z 14 ^ 2 + 24576 * Z 15 ^ 2 - 3072 * Z 16 ^ 2
        + 3648 * Z 17 ^ 2 - 15552 * Z 18 ^ 2 - 4800 * Z 19 ^ 2 - 4800 * Z 20 ^ 2
        + 44352 * Z 21 ^ 2 := by
  simp only [zernikeAnnularJacobian_2nd, zernikeAnnularJacobianConst]
  norm_num
  ring

/-- C12 (amended): in exact real arithmetic, for `atype == "2nd"`, `zernikeAnnularJacobian`
covers the modes up to 21 only. For each `k ≥ 22` the value for the unit coefficient vector at
`k` is zero for every `e` with `0 ≤ e < 1` and every point, and coefficient vectors that agree
on the entries `0..21` give equal values; for each `k` in `3..21` the value for the unit
vector at `k` is non-zero at `e = 0` and the point `(1, 0)`. -/
theorem zernikeAnnularJacobian_2nd_high_modes (e x y : ℝ) (k : ℕ) (he0 : 0 ≤ e) (he1 : e < 1)
    (hk : 22 ≤ k) :
    zernikeAnnularJacobian_2nd (zernikeAnnularJacobianConst realMath e) (unitCoeff k) x y = 0
    ∧ (∀ Z Z' : ℕ → ℝ, (∀ j, j ≤ 21 → Z j = Z' j) →
        zernikeAnnularJacobian_2nd (zernikeAnnularJacobianConst realMath e) Z x y
          = zernikeAnnularJacobian_2nd (zernikeAnnularJacobianConst realMath e) Z' x y)
    ∧ ∀ j, 3 ≤ j → j ≤ 21 →
        zernikeAnnularJacobian_2nd (zernikeAnnularJacobianConst realMath 0) (unitCoeff j) 1 0
          ≠ 0 := by
  refine ⟨?_, ?_, ?_⟩
  · apply jacobian_2nd_zero
    intro j hj
    have : j ≠ k := by omega
    simp [unitCoeff, this]
  · intro Z Z' h
    exact jacobian_2nd_congr _ x y Z Z' (fun j hj => by rw [h j hj])
  · intro j h3 h21
    rw [jacobian_2nd_at_one_zero]
    interval_cases j <;> simp [unitCoeff]

/-- Witness for the amended C12: mode 27, `e = 1/2`, the point `(1, 2)`. -/
theorem zernikeAnnularJacobian_2nd_high_modes_witness :
    (0 : ℝ) ≤ 1 / 2 ∧ (1 / 2 : ℝ) < 1 ∧ 22 ≤ 27
    ∧ zernikeAnnularJacobian_2nd (zernikeAnnularJacobianConst realMath (1 / 2)) (unitCoeff 27)
        1 2 = 0
    ∧ (∀ Z Z' : ℕ → ℝ, (∀ j, j ≤ 21 → Z j = Z' j) →
        zernikeAnnularJacobian_2nd (zernikeAnnularJacobianConst realMath (1 / 2)) Z 1 2
          = zernikeAnnularJacobian_2nd (zernikeAnnularJacobianConst realMath (1 / 2)) Z' 1 2)
    ∧ ∀ j, 3 ≤ j → j ≤ 21 →
        zernikeAnnularJacobian_2nd (zernikeAnnularJacobianConst realMath 0) (unitCoeff j) 1 0
          ≠ 0 :=
  ⟨by norm_num, by norm_num, by norm_num,
    zernikeAnnularJacobian_2nd_high_modes (1 / 2) 1 2 27 (by norm_num) (by norm_num)
      (by norm_num)⟩

/-- C12 (counterexample): for `atype == "2nd"` there is no obscuration `e` in `[0, 1)` and no
point at which the value for the unit coefficient vector at mode 22 is non-zero. -/
theorem zernikeAnnularJacobian_2nd_mode22_counterexample :
    ¬ ∃ e x y : ℝ, 0 ≤ e ∧ e < 1 ∧
      zernikeAnnularJacobian_2nd (zernikeAnnularJacobianConst realMath e) (unitCoeff 22) x y
        ≠ 0 := by
  rintro ⟨e, x, y, _, _, h⟩
  apply h
  apply jacobian_2nd_zero
  intro j hj
  have : j ≠ 22 := by omega
  simp [unitCoeff, this]

/-- C13: the value `zernikeAnnularJacobian` writes for a sample when `atype == "1st"` is
linear in the coefficient vector: `First(a*Z + b*Z') = a*First(Z) + b*First(Z')`. -/
theorem zernikeAnnularJacobian_1st_linear (e x y a b : ℝ) (Z Z' : ℕ → ℝ) :
    zernikeAnnularJacobian_1st (zernikeAnnularJacobianConst realMath e)
        (fun k => a * Z k + b * Z' k) x y
      = a * zernikeAnnularJacobian_1st (zernikeAnnularJacobianConst realMath e) Z x y
        + b * zernikeAnnularJacobian_1st (zernikeAnnularJacobianConst realMath e) Z' x y := by
  generalize zernikeAnnularJacobianConst realMath e = k
  simp only [zernikeAnnularJacobian_1st]
  ring

/-! ## The array-level functions: the sample loop -/

/-- A monadic map in `Except` whose function succeeds on every element is the plain map. -/
theorem mapM_except_ok {ι β ε : Type} (F : ι → Except ε β) (g : ι → β) :
    ∀ l : List ι, (∀ i ∈ l, F i = .ok (g i)) → l.mapM F = .ok (l.map g) := by
  intro l
  induction l with
  | nil => intro _; rfl
  | cons a l ih =>
    intro h
    rw [List.mapM_cons, h a (List.mem_cons_self a l),
      ih (fun i hi => h i (List.mem_cons_of_mem a hi))]
    rfl

/-- A monadic map in `Except` whose function fails on some element, and fails with the error
`err` only, fails with `err`. -/
theorem mapM_except_error {ι β ε : Type} (F : ι → Except ε β) (err : ε) :
    ∀ l : List ι, (∀ i ∈ l, (∃ v, F i = .ok v) ∨ F i = .error err) →
      (∃ i ∈ l, F i = .error err) → l.mapM F = .error err := by
  intro l
  induction l with
  | nil => rintro _ ⟨i, hi, _⟩; cases hi
  | cons a l ih =>
    intro h hex
    rw [List.mapM_cons]
    rcases h a (List.mem_cons_self a l) with ⟨v, hv⟩ | he
    · have hex' : ∃ i ∈ l, F i = .error err := by
        obtain ⟨i, hi, hie⟩ := hex
        rcases List.mem_cons.1 hi with rfl | hil
        · rw [hv] at hie; cases hie
        · exact ⟨i, hil, hie⟩
      rw [hv, ih (fun i hi => h i (List.mem_cons_of_mem a hi)) hex']
      rfl
    · rw [he]
      rfl

/-- The read `buf[ii]` inside the buffer. -/
theorem readBuf_ok {α : Type} (xs : List α) (n i : ℕ) (v : α) (h : xs[i]? = some v) :
    readBuf ⟨n, xs⟩ i = .ok v := by
  simp [readBuf, h]

/-- The read `buf[ii]` outside the buffer. -/
theorem readBuf_error {α : Type} (xs : List α) (n i : ℕ) (h : xs.length ≤ i) :
    readBuf ⟨n, xs⟩ i = .error .outOfBounds := by
  simp [readBuf, List.getElem?_eq_none h]

/-- The sample loop over `x` and a buffer `y` that is at least as long: one value per entry
of `x`, the value of index `i` computed from `x[i]` and `y[i]`. -/
theorem pointLoop_ok {α : Type} [Inhabited α] (f : α → α → α) (xs ys : List α)
    (hle : xs.length ≤ ys.length) :
    pointLoop ⟨xs.length, xs⟩ ⟨ys.length, ys⟩ (fun x_c y_c => .ok (f x_c y_c))
      = .ok (List.zipWith f xs ys) := by
  unfold pointLoop
  rw [mapM_except_ok _ (fun i => f (xs.getD i default) (ys.getD i default))]
  · congr 1
    apply List.ext_getElem?
    intro i
    by_cases hi : i < xs.length
    · have hi' : i < ys.length := by omega
      simp [List.getElem?_zipWith, List.getElem?_range, hi, hi', List.getElem?_eq_getElem]
    · have h1 : xs.length ≤ i := by omega
      simp [List.getElem?_zipWith, List.getElem?_eq_none, h1]
  · intro i hi
    have hi1 : i < xs.length := List.mem_range.1 hi
    have hi2 : i < ys.length := by omega
    rw [readBuf_ok xs _ i xs[i] (List.getElem?_eq_getElem hi1),
      readBuf_ok ys _ i ys[i] (List.getElem?_eq_getElem hi2)]
    simp [List.getD_eq_getElem?_getD, List.getElem?_eq_getElem, hi1, hi2]
    rfl

/-- The sample loop over `x` and a shorter buffer `y` reads `y` beyond its end. -/
theorem pointLoop_error {α : Type} (f : α → α → α) (xs ys : List α)
    (hlt : ys.length < xs.length) :
    pointLoop ⟨xs.length, xs⟩ ⟨ys.length, ys⟩ (fun x_c y_c => .ok (f x_c y_c))
      = .error .outOfBounds := by
  unfold pointLoop
  apply mapM_except_error
  · intro i hi
    have hi1 : i < xs.length := List.mem_range.1 hi
    rw [readBuf_ok xs _ i xs[i] (List.getElem?_eq_getElem hi1)]
    by_cases hi2 : i < ys.length
    · left
      rw [readBuf_ok ys _ i ys[i] (List.getElem?_eq_getElem hi2)]
      exact ⟨_, rfl⟩
    · right
      rw [readBuf_error ys _ i (by omega)]
      rfl
  · refine ⟨ys.length, List.mem_range.2 hlt, ?_⟩
    rw [readBuf_ok xs _ ys.length xs[ys.length] (List.getElem?_eq_getElem hlt),
      readBuf_error ys _ ys.length le_rfl]
    rfl

/-- A monadic map in `Except` whose function never fails with `err` does not fail with
`err`. -/
theorem mapM_except_ne {ι β ε : Type} (F : ι → Except ε β) (err : ε) :
    ∀ l : List ι, (∀ i ∈ l, F i ≠ .error err) → l.mapM F ≠ .error err := by
  intro l
  induction l with
  | nil => intro _ h; cases h
  | cons a l ih =>
    intro h
    have ha := h a (List.mem_cons_self a l)
    have hl := ih (fun i hi => h i (List.mem_cons_of_mem a hi))
    rw [List.mapM_cons]
    cases hFa : F a with
    | error e =>
      rw [hFa] at ha
      intro hc
      apply ha
      simpa [bind, Except.bind] using hc
    | ok v =>
      cases hm : l.mapM F with
      | error e =>
        rw [hm] at hl
        intro hc
        apply hl
        simpa [bind, Except.bind] using hc
      | ok vs =>
        intro hc
        simp [bind, Except.bind, pure, Except.pure] at hc

/-- The sample loop with a body that reads coefficients never throws the exception of
`getNpArrayInfo`. -/
theorem pointLoop_ne_runtimeError {α : Type} [Zero α] (info infoX infoY : ArrayNpInfo α)
    (cnt : ℕ) (g : (ℕ → α) → α → α → α) (msg : String) :
    pointLoop infoX infoY (fun x_c y_c => do
        let Z ← coeffView info cnt
        pure (g Z x_c y_c))
      ≠ .error (.runtimeError msg) := by
  unfold pointLoop
  apply mapM_except_ne
  intro i _
  cases h1 : infoX.buf[i]? <;> cases h2 : infoY.buf[i]? <;> by_cases h3 : cnt ≤ info.size <;>
    simp [readBuf, coeffView, h1, h2, h3, bind, Except.bind, pure, Except.pure]

/-- The function `getNpArrayInfo` on a one-dimensional array. -/
theorem getNpArrayInfo_ok {α : Type} (a : PyArray α) (h : a.ndim = 1) :
    getNpArrayInfo a = .ok ⟨a.data.length, a.data⟩ := by
  simp [getNpArrayInfo, h]

/-- The function `getNpArrayInfo` on an array that is not one-dimensional. -/
theorem getNpArrayInfo_error {α : Type} (a : PyArray α) (h : a.ndim ≠ 1) :
    getNpArrayInfo a = .error (.runtimeError "Number of dimensions must be one.") := by
  simp [getNpArrayInfo, h]

/-- The coefficient pointer of a buffer that holds the entries the loop body reads. -/
theorem coeffView_ok {α : Type} [Zero α] (zs : List α) (cnt : ℕ) (h : cnt ≤ zs.length) :
    coeffView ⟨zs.length, zs⟩ cnt = .ok (fun k => zs.getD k 0) := by
  simp [coeffView, h]

/-- The sample loop with a body that reads `cnt` coefficients from a buffer that holds them. -/
theorem coeffLoop_ok (g : (ℕ → ℝ) → ℝ → ℝ → ℝ) (zs xs ys : List ℝ) (cnt : ℕ)
    (hc : cnt ≤ zs.length) (hle : xs.length ≤ ys.length) :
    pointLoop ⟨xs.length, xs⟩ ⟨ys.length, ys⟩ (fun x_c y_c => do
        let Z ← coeffView ⟨zs.length, zs⟩ cnt
        pure (g Z x_c y_c))
      = .ok (List.zipWith (g (fun k => zs.getD k 0)) xs ys) := by
  simp only [bind, Except.bind, coeffView_ok _ _ hc, pure, Except.pure]
  exact pointLoop_ok _ _ _ hle

/-- The sample loop with a body that reads `cnt` coefficients, over a buffer `y` shorter than
`x`: the loop reads `y` beyond its end. -/
theorem coeffLoop_error (g : (ℕ → ℝ) → ℝ → ℝ → ℝ) (zs xs ys : List ℝ) (cnt : ℕ)
    (hc : cnt ≤ zs.length) (hlt : ys.length < xs.length) :
    pointLoop ⟨xs.length, xs⟩ ⟨ys.length, ys⟩ (fun x_c y_c => do
        let Z ← coeffView ⟨zs.length, zs⟩ cnt
        pure (g Z x_c y_c))
      = .error .outOfBounds := by
  simp only [bind, Except.bind, coeffView_ok _ _ hc, pure, Except.pure]
  exact pointLoop_error _ _ _ hlt

/-- The three calls of `getNpArrayInfo` that open every operation throw when one of the
arrays is not one-dimensional, whatever follows them. -/
theorem shape_check_error {α β : Type} (a b c : PyArray α)
    (h : a.ndim ≠ 1 ∨ b.ndim ≠ 1 ∨ c.ndim ≠ 1)
    (k : ArrayNpInfo α → ArrayNpInfo α → ArrayNpInfo α → Except CwfsError β) :
    (do let ia ← getNpArrayInfo a
        let ib ← getNpArrayInfo b
        let ic ← getNpArrayInfo c
        k ia ib ic)
      = .error (.runtimeError "Number of dimensions must be one.") := by
  by_cases ha : a.ndim = 1
  · by_cases hb : b.ndim = 1
    · have hc : c.ndim ≠ 1 := by tauto
      rw [getNpArrayInfo_ok _ ha, getNpArrayInfo_ok _ hb, getNpArrayInfo_error _ hc]
      rfl
    · rw [getNpArrayInfo_ok _ ha, getNpArrayInfo_error _ hb]
      rfl
  · rw [getNpArrayInfo_error _ ha]
    rfl

/-- The three calls of `getNpArrayInfo` that open every operation succeed on one-dimensional
arrays. -/
theorem shape_check_ok {α β : Type} (a b c : PyArray α)
    (ha : a.ndim = 1) (hb : b.ndim = 1) (hc : c.ndim = 1)
    (k : ArrayNpInfo α → ArrayNpInfo α → ArrayNpInfo α → Except CwfsError β) :
    (do let ia ← getNpArrayInfo a
        let ib ← getNpArrayInfo b
        let ic ← getNpArrayInfo c
        k ia ib ic)
      = k ⟨a.data.length, a.data⟩ ⟨b.data.length, b.data⟩ ⟨c.data.length, c.data⟩ := by
  rw [getNpArrayInfo_ok _ ha, getNpArrayInfo_ok _ hb, getNpArrayInfo_ok _ hc]
  rfl

/-- The array-level `zernikeAnnularEval` on one-dimensional arrays, with at least 28
coefficients and `y` at least as long as `x`. -/
theorem zernikeAnnularEval_ok (arrayZk arrayX arrayY : PyArray ℝ) (e : ℝ)
    (hZ : arrayZk.ndim = 1) (hX : arrayX.ndim = 1) (hY : arrayY.ndim = 1)
    (hc : 28 ≤ arrayZk.data.length) (hle : arrayX.data.length ≤ arrayY.data.length) :
    zernikeAnnularEval realMath arrayZk arrayX arrayY e
      = .ok (List.zipWith (zernikeAnnularEvalPoint realMath (zernikeAnnularEvalConst realMath e)
          (fun k => arrayZk.data.getD k 0)) arrayX.data arrayY.data) := by
  unfold zernikeAnnularEval
  rw [getNpArrayInfo_ok _ hZ, getNpArrayInfo_ok _ hX, getNpArrayInfo_ok _ hY]
  exact coeffLoop_ok _ _ _ _ 28 hc hle

/-- The array-level `zernikeAnnularJacobian` for a recognised `atype`. -/
theorem zernikeAnnularJacobian_ok (fresh : ℕ → ℝ) (arrayZk arrayX arrayY : PyArray ℝ) (e : ℝ)
    (hZ : arrayZk.ndim = 1) (hX : arrayX.ndim = 1) (hY : arrayY.ndim = 1)
    (hc : 22 ≤ arrayZk.data.length) (hle : arrayX.data.length ≤ arrayY.data.length) :
    zernikeAnnularJacobian realMath fresh arrayZk arrayX arrayY e "1st"
      = .ok (List.zipWith (zernikeAnnularJacobian_1st (zernikeAnnularJacobianConst realMath e)
          (fun k => arrayZk.data.getD k 0)) arrayX.data arrayY.data)
    ∧ zernikeAnnularJacobian realMath fresh arrayZk arrayX arrayY e "2nd"
      = .ok (List.zipWith (zernikeAnnularJacobian_2nd (zernikeAnnularJacobianConst realMath e)
          (fun k => arrayZk.data.getD k 0)) arrayX.data arrayY.data) := by
  unfold zernikeAnnularJacobian
  rw [getNpArrayInfo_ok _ hZ, getNpArrayInfo_ok _ hX, getNpArrayInfo_ok _ hY]
  exact ⟨coeffLoop_ok _ _ _ _ 22 hc hle, coeffLoop_ok _ _ _ _ 22 hc hle⟩

/-- The array-level `zernikeAnnularGrad` for a recognised `axis`. -/
theorem zernikeAnnularGrad_ok (fresh : ℕ → ℝ) (arrayZk arrayX arrayY : PyArray ℝ) (e : ℝ)
    (hZ : arrayZk.ndim = 1) (hX : arrayX.ndim = 1) (hY : arrayY.ndim = 1)
    (hc : 22 ≤ arrayZk.data.length) (hle : arrayX.data.length ≤ arrayY.data.length) :
    zernikeAnnularGrad realMath fresh arrayZk arrayX arrayY e "dx"
      = .ok (List.zipWith (zernikeAnnularGrad_dx (zernikeAnnularGradConst realMath e)
          (fun k => arrayZk.data.getD k 0)) arrayX.data arrayY.data)
    ∧ zernikeAnnularGrad realMath fresh arrayZk arrayX arrayY e "dy"
      = .ok (List.zipWith (zernikeAnnularGrad_dy (zernikeAnnularGradConst realMath e)
          (fun k => arrayZk.data.getD k 0)) arrayX.data arrayY.data)
    ∧ zernikeAnnularGrad realMath fresh arrayZk arrayX arrayY e "dx2"
      = .ok (List.zipWith (zernikeAnnularGrad_dx2 (zernikeAnnularGradConst realMath e)
          (fun k => arrayZk.data.getD k 0)) arrayX.data arrayY.data)
    ∧ zernikeAnnularGrad realMath fresh arrayZk arrayX arrayY e "dy2"
      = .ok (List.zipWith (zernikeAnnularGrad_dy2 (zernikeAnnularGradConst realMath e)
          (fun k => arrayZk.data.getD k 0)) arrayX.data arrayY.data)
    ∧ zernikeAnnularGrad realMath fresh arrayZk arrayX arrayY e "dxy"
      = .ok (List.zipWith (zernikeAnnularGrad_dxy (zernikeAnnularGradConst realMath e)
          (fun k => arrayZk.data.getD k 0)) arrayX.data arrayY.data) := by
  unfold zernikeAnnularGrad
  rw [getNpArrayInfo_ok _ hZ, getNpArrayInfo_ok _ hX, getNpArrayInfo_ok _ hY]
  exact ⟨coeffLoop_ok _ _ _ _ 22 hc hle, coeffLoop_ok _ _ _ _ 22 hc hle,
    coeffLoop_ok _ _ _ _ 22 hc hle, coeffLoop_ok _ _ _ _ 22 hc hle,
    coeffLoop_ok _ _ _ _ 22 hc hle⟩

/-- The array-level `poly10_2D` on one-dimensional arrays, with at least 66 coefficients and
`y` at least as long as `x`. -/
theorem poly10_2D_ok (arrayC arrayX arrayY : PyArray ℝ)
    (hC : arrayC.ndim = 1) (hX : arrayX.ndim = 1) (hY : arrayY.ndim = 1)
    (hc : 66 ≤ arrayC.data.length) (hle : arrayX.data.length ≤ arrayY.data.length) :
    poly10_2D arrayC arrayX arrayY
      = .ok (List.zipWith (poly10_2DPoint (fun k => arrayC.data.getD k 0))
          arrayX.data arrayY.data) := by
  unfold poly10_2D
  rw [getNpArrayInfo_ok _ hC, getNpArrayInfo_ok _ hX, getNpArrayInfo_ok _ hY]
  exact coeffLoop_ok _ _ _ _ 66 hc hle

/-- The array-level `poly10Grad` for a recognised `axis`. -/
theorem poly10Grad_ok (fresh : ℕ → ℝ) (arrayC arrayX arrayY : PyArray ℝ)
    (hC : arrayC.ndim = 1) (hX : arrayX.ndim = 1) (hY : arrayY.ndim = 1)
    (hc : 66 ≤ arrayC.data.length) (hle : arrayX.data.length ≤ arrayY.data.length) :
    poly10Grad fresh arrayC arrayX arrayY "dx"
      = .ok (List.zipWith (poly10Grad_dx (fun k => arrayC.data.getD k 0))
          arrayX.data arrayY.data)
    ∧ poly10Grad fresh arrayC arrayX arrayY "dy"
      = .ok (List.zipWith (poly10Grad_dy (fun k => arrayC.data.getD k 0))
          arrayX.data arrayY.data) := by
  unfold poly10Grad
  rw [getNpArrayInfo_ok _ hC, getNpArrayInfo_ok _ hX, getNpArrayInfo_ok _ hY]
  exact ⟨coeffLoop_ok _ _ _ _ 65 (by omega) hle, coeffLoop_ok _ _ _ _ 66 hc hle⟩

/-- An operation that returns the values of a fixed function of `x[i]` and `y[i]` is a
pointwise map. -/
theorem isPointwiseMap_of_zipWith {α : Type}
    (op : List α → List α → Except CwfsError (List α)) (f : α → α → α)
    (h : ∀ xs ys : List α, xs.length = ys.length → op xs ys = .ok (List.zipWith f xs ys)) :
    IsPointwiseMap op f := by
  refine ⟨?_, ?_, ?_⟩
  · intro xs ys hl
    refine ⟨_, h xs ys hl, by simp [hl], ?_⟩
    intro i x y hx hy
    simp [List.getElem?_zipWith, hx, hy]
  · intro xs ys xs' ys' i hl hl' hx hy
    refine ⟨_, _, h _ _ hl, h _ _ hl', ?_⟩
    simp only [List.getElem?_zipWith, hx, hy]
  · intro xs ys xs' ys' hl hl'
    refine ⟨_, _, h _ _ hl, h _ _ hl', ?_⟩
    rw [h _ _ (by simp [hl, hl']), List.zipWith_append _ _ _ _ _ hl]

/-! ## C14: the surface reads the first 28 coefficients only -/

/-- C14: `zernikeAnnularEval` reads only the first 28 coefficients: coefficient sequences of
length at least 28 (possibly of different lengths) that agree on the indices `0..27` give the
same result, for all `x`, `y` and `e`. -/
theorem zernikeAnnularEval_reads_first_28 (zs zs' : List ℝ) (arrayX arrayY : PyArray ℝ)
    (e : ℝ) (h28 : 28 ≤ zs.length) (h28' : 28 ≤ zs'.length)
    (hagree : ∀ i, i < 28 → zs[i]? = zs'[i]?) :
    zernikeAnnularEval realMath ⟨1, zs⟩ arrayX arrayY e
      = zernikeAnnularEval realMath ⟨1, zs'⟩ arrayX arrayY e := by
  unfold zernikeAnnularEval
  rw [getNpArrayInfo_ok ⟨1, zs⟩ rfl, getNpArrayInfo_ok ⟨1, zs'⟩ rfl]
  have hf : zernikeAnnularEvalPoint realMath (zernikeAnnularEvalConst realMath e)
        (fun k => zs.getD k 0)
      = zernikeAnnularEvalPoint realMath (zernikeAnnularEvalConst realMath e)
        (fun k => zs'.getD k 0) := by
    funext x_c y_c
    apply evalPoint_congr
    intro j hj
    simp [List.getD_eq_getElem?_getD, hagree j hj]
  simp only [bind, Except.bind, coeffView_ok _ _ h28, coeffView_ok _ _ h28', pure, Except.pure,
    hf]

/-- Witness for C14: 28 zeros, and 28 zeros followed by the entry 5. -/
theorem zernikeAnnularEval_reads_first_28_witness :
    zernikeAnnularEval realMath ⟨1, List.replicate 28 0⟩ ⟨1, [1, 2]⟩ ⟨1, [3, 4]⟩ (1 / 2)
      = zernikeAnnularEval realMath ⟨1, List.replicate 28 0 ++ [5]⟩ ⟨1, [1, 2]⟩ ⟨1, [3, 4]⟩
          (1 / 2) :=
  zernikeAnnularEval_reads_first_28 (List.replicate 28 0) (List.replicate 28 0 ++ [5])
    ⟨1, [1, 2]⟩ ⟨1, [3, 4]⟩ (1 / 2) (by simp) (by simp)
    (fun i hi => by rw [List.getElem?_append_left (by simpa using hi)])

/-! ## C15: every operation is a pointwise map over the samples -/

/-- C15: each of the five operations, with a recognised token, one-dimensional arrays and
valid coefficients (28 for the Zernike operations, 66 for the polynomial ones), is a pointwise
map over the samples: on `x` and `y` of equal length `N` it returns `N` values, the value of
index `i` is the value of the loop body at `x[i]` and `y[i]` (so it does not depend on the
other samples), and a concatenation of sample lists gives the concatenation of the results. -/
theorem operations_pointwise (fresh : ℕ → ℝ) (arrayZk arrayC : PyArray ℝ) (e : ℝ)
    (hZ : arrayZk.ndim = 1) (hC : arrayC.ndim = 1)
    (hZn : 28 ≤ arrayZk.data.length) (hCn : 66 ≤ arrayC.data.length) :
    IsPointwiseMap
        (fun xs ys => zernikeAnnularEval realMath arrayZk ⟨1, xs⟩ ⟨1, ys⟩ e)
        (zernikeAnnularEvalPoint realMath (zernikeAnnularEvalConst realMath e)
          (fun k => arrayZk.data.getD k 0))
    ∧ IsPointwiseMap
        (fun xs ys => zernikeAnnularJacobian realMath fresh arrayZk ⟨1, xs⟩ ⟨1, ys⟩ e "1st")
        (zernikeAnnularJacobian_1st (zernikeAnnularJacobianConst realMath e)
          (fun k => arrayZk.data.getD k 0))
    ∧ IsPointwiseMap
        (fun xs ys => zernikeAnnularJacobian realMath fresh arrayZk ⟨1, xs⟩ ⟨1, ys⟩ e "2nd")
        (zernikeAnnularJacobian_2nd (zernikeAnnularJacobianConst realMath e)
          (fun k => arrayZk.data.getD k 0))
    ∧ IsPointwiseMap
        (fun xs ys => zernikeAnnularGrad realMath fresh arrayZk ⟨1, xs⟩ ⟨1, ys⟩ e "dx")
        (zernikeAnnularGrad_dx (zernikeAnnularGradConst realMath e)
          (fun k => arrayZk.data.getD k 0))
    ∧ IsPointwiseMap
        (fun xs ys => zernikeAnnularGrad realMath fresh arrayZk ⟨1, xs⟩ ⟨1, ys⟩ e "dy")
        (zernikeAnnularGrad_dy (zernikeAnnularGradConst realMath e)
          (fun k => arrayZk.data.getD k 0))
    ∧ IsPointwiseMap
        (fun xs ys => zernikeAnnularGrad realMath fresh arrayZk ⟨1, xs⟩ ⟨1, ys⟩ e "dx2")
        (zernikeAnnularGrad_dx2 (zernikeAnnularGradConst realMath e)
          (fun k => arrayZk.data.getD k 0))
    ∧ IsPointwiseMap
        (fun xs ys => zernikeAnnularGrad realMath fresh arrayZk ⟨1, xs⟩ ⟨1, ys⟩ e "dy2")
        (zernikeAnnularGrad_dy2 (zernikeAnnularGradConst realMath e)
          (fun k => arrayZk.data.getD k 0))
    ∧ IsPointwiseMap
        (fun xs ys => zernikeAnnularGrad realMath fresh arrayZk ⟨1, xs⟩ ⟨1, ys⟩ e "dxy")
        (zernikeAnnularGrad_dxy (zernikeAnnularGradConst realMath e)
          (fun k => arrayZk.data.getD k 0))
    ∧ IsPointwiseMap
        (fun xs ys => poly10_2D arrayC ⟨1, xs⟩ ⟨1, ys⟩)
        (poly10_2DPoint (fun k => arrayC.data.getD k 0))
    ∧ IsPointwiseMap
        (fun xs ys => poly10Grad fresh arrayC ⟨1, xs⟩ ⟨1, ys⟩ "dx")
        (poly10Grad_dx (fun k => arrayC.data.getD k 0))
    ∧ IsPointwiseMap
        (fun xs ys => poly10Grad fresh arrayC ⟨1, xs⟩ ⟨1, ys⟩ "dy")
        (poly10Grad_dy (fun k => arrayC.data.getD k 0)) := by
  refine ⟨?_, ?_, ?_, ?_, ?_, ?_, ?_, ?_, ?_, ?_, ?_⟩ <;> apply isPointwiseMap_of_zipWith <;>
    intro xs ys hl
  · exact zernikeAnnularEval_ok arrayZk ⟨1, xs⟩ ⟨1, ys⟩ e hZ rfl rfl hZn hl.le
  · exact (zernikeAnnularJacobian_ok fresh arrayZk ⟨1, xs⟩ ⟨1, ys⟩ e hZ rfl rfl (by omega)
      hl.le).1
  · exact (zernikeAnnularJacobian_ok fresh arrayZk ⟨1, xs⟩ ⟨1, ys⟩ e hZ rfl rfl (by omega)
      hl.le).2
  · exact (zernikeAnnularGrad_ok fresh arrayZk ⟨1, xs⟩ ⟨1, ys⟩ e hZ rfl rfl (by omega)
      hl.le).1
  · exact (zernikeAnnularGrad_ok fresh arrayZk ⟨1, xs⟩ ⟨1, ys⟩ e hZ rfl rfl (by omega)
      hl.le).2.1
  · exact (zernikeAnnularGrad_ok fresh arrayZk ⟨1, xs⟩ ⟨1, ys⟩ e hZ rfl rfl (by omega)
      hl.le).2.2.1
  · exact (zernikeAnnularGrad_ok fresh arrayZk ⟨1, xs⟩ ⟨1, ys⟩ e hZ rfl rfl (by omega)
      hl.le).2.2.2.1
  · exact (zernikeAnnularGrad_ok fresh arrayZk ⟨1, xs⟩ ⟨1, ys⟩ e hZ rfl rfl (by omega)
      hl.le).2.2.2.2
  · exact poly10_2D_ok arrayC ⟨1, xs⟩ ⟨1, ys⟩ hC rfl rfl hCn hl.le
  · exact (poly10Grad_ok fresh arrayC ⟨1, xs⟩ ⟨1, ys⟩ hC rfl rfl hCn hl.le).1
  · exact (poly10Grad_ok fresh arrayC ⟨1, xs⟩ ⟨1, ys⟩ hC rfl rfl hCn hl.le).2

/-- Witness for C15: 28 and 66 coefficients equal to one, `e = 1/2`. -/
theorem operations_pointwise_witness :
    IsPointwiseMap
        (fun xs ys => zernikeAnnularEval realMath ⟨1, List.replicate 28 1⟩ ⟨1, xs⟩ ⟨1, ys⟩ (1 / 2))
        (zernikeAnnularEvalPoint realMath (zernikeAnnularEvalConst realMath (1 / 2))
          (fun k => (List.replicate 28 (1 : ℝ)).getD k 0))
    ∧ IsPointwiseMap
        (fun xs ys => zernikeAnnularJacobian realMath (fun _ => 0) ⟨1, List.replicate 28 1⟩
          ⟨1, xs⟩ ⟨1, ys⟩ (1 / 2) "1st")
        (zernikeAnnularJacobian_1st (zernikeAnnularJacobianConst realMath (1 / 2))
          (fun k => (List.replicate 28 (1 : ℝ)).getD k 0))
    ∧ IsPointwiseMap
        (fun xs ys => zernikeAnnularJacobian realMath (fun _ => 0) ⟨1, List.replicate 28 1⟩
          ⟨1, xs⟩ ⟨1, ys⟩ (1 / 2) "2nd")
        (zernikeAnnularJacobian_2nd (zernikeAnnularJacobianConst realMath (1 / 2))
          (fun k => (List.replicate 28 (1 : ℝ)).getD k 0))
    ∧ IsPointwiseMap
        (fun xs ys => zernikeAnnularGrad realMath (fun _ => 0) ⟨1, List.replicate 28 1⟩
          ⟨1, xs⟩ ⟨1, ys⟩ (1 / 2) "dx")
        (zernikeAnnularGrad_dx (zernikeAnnularGradConst realMath (1 / 2))
          (fun k => (List.replicate 28 (1 : ℝ)).getD k 0))
    ∧ IsPointwiseMap
        (fun xs ys => zernikeAnnularGrad realMath (fun _ => 0) ⟨1, List.replicate 28 1⟩
          ⟨1, xs⟩ ⟨1, ys⟩ (1 / 2) "dy")
        (zernikeAnnularGrad_dy (zernikeAnnularGradConst realMath (1 / 2))
          (fun k => (List.replicate 28 (1 : ℝ)).getD k 0))
    ∧ IsPointwiseMap
        (fun xs ys => zernikeAnnularGrad realMath (fun _ => 0) ⟨1, List.replicate 28 1⟩
          ⟨1, xs⟩ ⟨1, ys⟩ (1 / 2) "dx2")
        (zernikeAnnularGrad_dx2 (zernikeAnnularGradConst realMath (1 / 2))
          (fun k => (List.replicate 28 (1 : ℝ)).getD k 0))
    ∧ IsPointwiseMap
        (fun xs ys => zernikeAnnularGrad realMath (fun _ => 0) ⟨1, List.replicate 28 1⟩
          ⟨1, xs⟩ ⟨1, ys⟩ (1 / 2) "dy2")
        (zernikeAnnularGrad_dy2 (zernikeAnnularGradConst realMath (1 / 2))
          (fun k => (List.replicate 28 (1 : ℝ)).getD k 0))
    ∧ IsPointwiseMap
        (fun xs ys => zernikeAnnularGrad realMath (fun _ => 0) ⟨1, List.replicate 28 1⟩
          ⟨1, xs⟩ ⟨1, ys⟩ (1 / 2) "dxy")
        (zernikeAnnularGrad_dxy (zernikeAnnularGradConst realMath (1 / 2))
          (fun k => (List.replicate 28 (1 : ℝ)).getD k 0))
    ∧ IsPointwiseMap
        (fun xs ys => poly10_2D ⟨1, List.replicate 66 1⟩ ⟨1, xs⟩ ⟨1, ys⟩)
        (poly10_2DPoint (fun k => (List.replicate 66 (1 : ℝ)).getD k 0))
    ∧ IsPointwiseMap
        (fun xs ys => poly10Grad (fun _ => 0) ⟨1, List.replicate 66 1⟩ ⟨1, xs⟩ ⟨1, ys⟩ "dx")
        (poly10Grad_dx (fun k => (List.replicate 66 (1 : ℝ)).getD k 0))
    ∧ IsPointwiseMap
        (fun xs ys => poly10Grad (fun _ => 0) ⟨1, List.replicate 66 1⟩ ⟨1, xs⟩ ⟨1, ys⟩ "dy")
        (poly10Grad_dy (fun k => (List.replicate 66 (1 : ℝ)).getD k 0)) :=
  operations_pointwise (fun _ => 0) ⟨1, List.replicate 28 1⟩ ⟨1, List.replicate 66 1⟩ (1 / 2)
    rfl rfl (by simp) (by simp)

/-! ## C16: the check of the number of dimensions -/

/-- C16: each of the five operations throws the `std::runtime_error` of `getNpArrayInfo`,
and returns no array, whenever one of its array arguments (coefficients, `x` or `y`) is not
one-dimensional; when all three arrays are one-dimensional no operation throws a
`std::runtime_error`. -/
theorem operations_shape_error (fresh : ℕ → ℝ) (arrayC arrayX arrayY : PyArray ℝ) (e : ℝ)
    (tok : String) :
    ((arrayC.ndim ≠ 1 ∨ arrayX.ndim ≠ 1 ∨ arrayY.ndim ≠ 1) →
      zernikeAnnularEval realMath arrayC arrayX arrayY e
        = .error (.runtimeError "Number of dimensions must be one.")
      ∧ zernikeAnnularJacobian realMath fresh arrayC arrayX arrayY e tok
        = .error (.runtimeError "Number of dimensions must be one.")
      ∧ zernikeAnnularGrad realMath fresh arrayC arrayX arrayY e tok
        = .error (.runtimeError "Number of dimensions must be one.")
      ∧ poly10_2D arrayC arrayX arrayY
        = .error (.runtimeError "Number of dimensions must be one.")
      ∧ poly10Grad fresh arrayC arrayX arrayY tok
        = .error (.runtimeError "Number of dimensions must be one."))
    ∧ ((arrayC.ndim = 1 ∧ arrayX.ndim = 1 ∧ arrayY.ndim = 1) → ∀ msg : String,
      zernikeAnnularEval realMath arrayC arrayX arrayY e ≠ .error (.runtimeError msg)
      ∧ zernikeAnnularJacobian realMath fresh arrayC arrayX arrayY e tok
        ≠ .error (.runtimeError msg)
      ∧ zernikeAnnularGrad realMath fresh arrayC arrayX arrayY e tok
        ≠ .error (.runtimeError msg)
      ∧ poly10_2D arrayC arrayX arrayY ≠ .error (.runtimeError msg)
      ∧ poly10Grad fresh arrayC arrayX arrayY tok ≠ .error (.runtimeError msg)) := by
  constructor
  · intro h
    exact ⟨shape_check_error _ _ _ h _, shape_check_error _ _ _ h _,
      shape_check_error _ _ _ h _, shape_check_error _ _ _ h _, shape_check_error _ _ _ h _⟩
  · rintro ⟨hC, hX, hY⟩ msg
    have hfresh : ∀ n : ℕ, (pure ((List.range n).map fresh) : Except CwfsError (List ℝ))
        ≠ .error (.runtimeError msg) := by
      intro n h
      cases h
    refine ⟨?_, ?_, ?_, ?_, ?_⟩
    · unfold zernikeAnnularEval
      rw [shape_check_ok _ _ _ hC hX hY]
      exact pointLoop_ne_runtimeError _ _ _ _ _ _
    · unfold zernikeAnnularJacobian
      rw [shape_check_ok _ _ _ hC hX hY]
      dsimp only
      split_ifs
      · exact pointLoop_ne_runtimeError _ _ _ _ _ _
      · exact pointLoop_ne_runtimeError _ _ _ _ _ _
      · exact hfresh _
    · unfold zernikeAnnularGrad
      rw [shape_check_ok _ _ _ hC hX hY]
      dsimp only
      split_ifs
      · exact pointLoop_ne_runtimeError _ _ _ _ _ _
      · exact pointLoop_ne_runtimeError _ _ _ _ _ _
      · exact pointLoop_ne_runtimeError _ _ _ _ _ _
      · exact pointLoop_ne_runtimeError _ _ _ _ _ _
      · exact pointLoop_ne_runtimeError _ _ _ _ _ _
      · exact hfresh _
    · unfold poly10_2D
      rw [shape_check_ok _ _ _ hC hX hY]
      exact pointLoop_ne_runtimeError _ _ _ _ _ _
    · unfold poly10Grad
      rw [shape_check_ok _ _ _ hC hX hY]
      dsimp only
      split_ifs
      · exact pointLoop_ne_runtimeError _ _ _ _ _ _
      · exact pointLoop_ne_runtimeError _ _ _ _ _ _
      · exact hfresh _

/-! ## C17: `x` and `y` of different lengths -/

/-- C17 (amended): `zernikeAnnularEval` does not compare the lengths of `x` and `y`; the loop
runs over the entries of `x`. With one-dimensional arrays and at least 28 coefficients, when
`x` is no longer than `y` the call succeeds and returns one value per entry of `x`, computed
from `x[i]` and `y[i]` (the further entries of `y` are not read); when `x` is longer than `y`
the loop reads `y` beyond its end. No `std::runtime_error` is thrown in either case. -/
theorem zernikeAnnularEval_length_mismatch (arrayZk arrayX arrayY : PyArray ℝ) (e : ℝ)
    (hZ : arrayZk.ndim = 1) (hX : arrayX.ndim = 1) (hY : arrayY.ndim = 1)
    (hc : 28 ≤ arrayZk.data.length) :
    (arrayX.data.length ≤ arrayY.data.length →
      zernikeAnnularEval realMath arrayZk arrayX arrayY e
        = .ok (List.zipWith
            (zernikeAnnularEvalPoint realMath (zernikeAnnularEvalConst realMath e)
              (fun k => arrayZk.data.getD k 0))
            arrayX.data arrayY.data))
    ∧ (arrayY.data.length < arrayX.data.length →
      zernikeAnnularEval realMath arrayZk arrayX arrayY e = .error .outOfBounds) := by
  constructor
  · intro hle
    exact zernikeAnnularEval_ok arrayZk arrayX arrayY e hZ hX hY hc hle
  · intro hlt
    unfold zernikeAnnularEval
    rw [shape_check_ok _ _ _ hZ hX hY]
    exact coeffLoop_error _ _ _ _ 28 hc hlt

/-- Witness for the amended C17: 28 coefficients equal to one and `e = 1/2`, with
`x = [1, 2]`, `y = [1, 2, 3]` and with `x = [1, 2, 3]`, `y = [1, 2]`. -/
theorem zernikeAnnularEval_length_mismatch_witness :
    zernikeAnnularEval realMath ⟨1, List.replicate 28 1⟩ ⟨1, [1, 2]⟩ ⟨1, [1, 2, 3]⟩ (1 / 2)
      = .ok (List.zipWith
          (zernikeAnnularEvalPoint realMath (zernikeAnnularEvalConst realMath (1 / 2))
            (fun k => (List.replicate 28 (1 : ℝ)).getD k 0))
          [1, 2] [1, 2, 3])
    ∧ zernikeAnnularEval realMath ⟨1, List.replicate 28 1⟩ ⟨1, [1, 2, 3]⟩ ⟨1, [1, 2]⟩ (1 / 2)
      = .error .outOfBounds :=
  ⟨(zernikeAnnularEval_length_mismatch ⟨1, List.replicate 28 1⟩ ⟨1, [1, 2]⟩ ⟨1, [1, 2, 3]⟩
      (1 / 2) rfl rfl rfl (by simp)).1 (by simp),
    (zernikeAnnularEval_length_mismatch ⟨1, List.replicate 28 1⟩ ⟨1, [1, 2, 3]⟩ ⟨1, [1, 2]⟩
      (1 / 2) rfl rfl rfl (by simp)).2 (by simp)⟩

/-- C17 (counterexample): with 28 zero coefficients, `x = [1, 2]`, `y = [1, 2, 3]` and `e = 0`
the call does not fail: it returns the two values `[0, 0]`. -/
theorem zernikeAnnularEval_shorter_x_counterexample :
    zernikeAnnularEval realMath ⟨1, List.replicate 28 0⟩ ⟨1, [1, 2]⟩ ⟨1, [1, 2, 3]⟩ 0
      = .ok [0, 0] := by
  rw [zernikeAnnularEval_ok _ _ _ _ rfl rfl rfl (by simp) (by simp)]
  have hz : (fun k => (List.replicate 28 (0 : ℝ)).getD k 0) = fun _ => 0 := by
    funext k
    rw [List.getD_eq_getElem?_getD, List.getElem?_replicate]
    split <;> rfl
  simp only [hz, List.zipWith_cons_cons, List.zipWith_nil_left, evalPoint_zero]

/-! ## C18, C19: unrecognised tokens -/

/-- C18 (amended): `zernikeAnnularGrad` with an `axis` other than `"dx"`, `"dy"`, `"dx2"`,
`"dy2"`, `"dxy"`, and `poly10Grad` with an `axis` other than `"dx"`, `"dy"`, raise no error
on one-dimensional arrays: they return the newly allocated array of `x.size` entries without
writing to it (`fresh` is its content), whatever the coefficients and the samples are. -/
theorem grad_unrecognised_axis (fresh : ℕ → ℝ) (arrayZk arrayC arrayX arrayY : PyArray ℝ)
    (e : ℝ) (axis : String)
    (hZ : arrayZk.ndim = 1) (hC : arrayC.ndim = 1) (hX : arrayX.ndim = 1)
    (hY : arrayY.ndim = 1) :
    ((axis ≠ "dx" ∧ axis ≠ "dy" ∧ axis ≠ "dx2" ∧ axis ≠ "dy2" ∧ axis ≠ "dxy") →
      zernikeAnnularGrad realMath fresh arrayZk arrayX arrayY e axis
        = .ok ((List.range arrayX.data.length).map fresh))
    ∧ ((axis ≠ "dx" ∧ axis ≠ "dy") →
      poly10Grad fresh arrayC arrayX arrayY axis
        = .ok ((List.range arrayX.data.length).map fresh)) := by
  constructor
  · rintro ⟨h1, h2, h3, h4, h5⟩
    unfold zernikeAnnularGrad
    rw [shape_check_ok _ _ _ hZ hX hY]
    simp only [h1, h2, h3, h4, h5, if_false]
    rfl
  · rintro ⟨h1, h2⟩
    unfold poly10Grad
    rw [shape_check_ok _ _ _ hC hX hY]
    simp only [h1, h2, if_false]
    rfl

/-- Witness for the amended C18: the axis `"dz"`, 28 and 66 coefficients equal to one,
`x = [1, 2]`, `y = [3, 4]`, `e = 1/2`, and a result buffer that holds `7` everywhere. -/
theorem grad_unrecognised_axis_witness :
    zernikeAnnularGrad realMath (fun _ => 7) ⟨1, List.replicate 28 1⟩ ⟨1, [1, 2]⟩ ⟨1, [3, 4]⟩
        (1 / 2) "dz"
      = .ok ((List.range 2).map (fun _ => 7))
    ∧ poly10Grad (fun _ => (7 : ℝ)) ⟨1, List.replicate 66 1⟩ ⟨1, [1, 2]⟩ ⟨1, [3, 4]⟩ "dz"
      = .ok ((List.range 2).map (fun _ => 7)) :=
  ⟨(grad_unrecognised_axis (fun _ => 7) ⟨1, List.replicate 28 1⟩ ⟨1, List.replicate 66 1⟩
      ⟨1, [1, 2]⟩ ⟨1, [3, 4]⟩ (1 / 2) "dz" rfl rfl rfl rfl).1 (by decide),
    (grad_unrecognised_axis (fun _ => 7) ⟨1, List.replicate 28 1⟩ ⟨1, List.replicate 66 1⟩
      ⟨1, [1, 2]⟩ ⟨1, [3, 4]⟩ (1 / 2) "dz" rfl rfl rfl rfl).2 (by decide)⟩

/-- C18 (counterexample): with the axis `"dz"`, valid coefficients, `x = [1, 2]`,
`y = [3, 4]` and a result buffer that holds `7` everywhere, `zernikeAnnularGrad` and
`poly10Grad` do not fail: both return the array `[7, 7]`. -/
theorem grad_axis_dz_counterexample :
    zernikeAnnularGrad realMath (fun _ => 7) ⟨1, List.replicate 28 1⟩ ⟨1, [1, 2]⟩ ⟨1, [3, 4]⟩
        0 "dz" = .ok [7, 7]
    ∧ poly10Grad (fun _ => (7 : ℝ)) ⟨1, List.replicate 66 1⟩ ⟨1, [1, 2]⟩ ⟨1, [3, 4]⟩ "dz"
      = .ok [7, 7] :=
  ⟨rfl, rfl⟩

/-- C19 (amended): `zernikeAnnularJacobian` with an `atype` other than `"1st"` and `"2nd"`
raises no error on one-dimensional arrays: it returns the newly allocated array of `x.size`
entries without writing to it (`fresh` is its content), whatever the coefficients and the
samples are. -/
theorem jacobian_unrecognised_atype (fresh : ℕ → ℝ) (arrayZk arrayX arrayY : PyArray ℝ)
    (e : ℝ) (atype : String)
    (hZ : arrayZk.ndim = 1) (hX : arrayX.ndim = 1) (hY : arrayY.ndim = 1)
    (h1 : atype ≠ "1st") (h2 : atype ≠ "2nd") :
    zernikeAnnularJacobian realMath fresh arrayZk arrayX arrayY e atype
      = .ok ((List.range arrayX.data.length).map fresh) := by
  unfold zernikeAnnularJacobian
  rw [shape_check_ok _ _ _ hZ hX hY]
  simp only [h1, h2, if_false]
  rfl

/-- Witness for the amended C19: the order `"3rd"`, 28 coefficients equal to one,
`x = [1, 2]`, `y = [3, 4]`, `e = 1/2`, and a result buffer that holds `7` everywhere. -/
theorem jacobian_unrecognised_atype_witness :
    zernikeAnnularJacobian realMath (fun _ => 7) ⟨1, List.replicate 28 1⟩ ⟨1, [1, 2]⟩
        ⟨1, [3, 4]⟩ (1 / 2) "3rd"
      = .ok ((List.range 2).map (fun _ => 7)) :=
  jacobian_unrecognised_atype (fun _ => 7) ⟨1, List.replicate 28 1⟩ ⟨1, [1, 2]⟩ ⟨1, [3, 4]⟩
    (1 / 2) "3rd" rfl rfl rfl (by decide) (by decide)

/-- C19 (counterexample): with the order `"3rd"`, 28 coefficients equal to one,
`x = [1, 2]`, `y = [3, 4]`, `e = 0` and a result buffer that holds `7` everywhere,
`zernikeAnnularJacobian` does not fail: it returns the array `[7, 7]`. -/
theorem jacobian_atype_3rd_counterexample :
    zernikeAnnularJacobian realMath (fun _ => 7) ⟨1, List.replicate 28 1⟩ ⟨1, [1, 2]⟩
        ⟨1, [3, 4]⟩ 0 "3rd" = .ok [7, 7] :=
  rfl

/-! ## C20: a concrete evaluation -/

/-- C20: with all coefficients zero except `Z[3] = 1`, `e = 0`, `x = [0.5]` and `y = [0]`,
`zernikeAnnularEval` returns the single value `sqrt 3 * (2 * 0.25 - 1) / 1 = -(sqrt 3) / 2`. -/
theorem zernikeAnnularEval_scenario_A :
    zernikeAnnularEval realMath
        ⟨1, [0, 0, 0, 1, 0, 0, 0, 0, 0, 0, 0, 0, 0, 0, 0, 0, 0, 0, 0, 0, 0, 0, 0, 0, 0, 0, 0, 0]⟩
        ⟨1, [1 / 2]⟩ ⟨1, [0]⟩ 0
      = .ok [Real.sqrt 3 * (2 * (1 / 4) - 1) / 1]
    ∧ Real.sqrt 3 * (2 * (1 / 4) - 1) / 1 = -(Real.sqrt 3) / 2 := by
  constructor
  · rw [zernikeAnnularEval_ok _ _ _ _ rfl rfl rfl (by simp) (by simp)]
    have hz : ∀ j, j < 28 →
        (fun k => ([0, 0, 0, 1, 0, 0, 0, 0, 0, 0, 0, 0, 0, 0, 0, 0, 0, 0, 0, 0, 0, 0, 0, 0, 0,
          0, 0, 0] : List ℝ).getD k 0) j = unitCoeff 3 j := by
      intro j hj
      interval_cases j <;> simp [unitCoeff]
    simp only [List.zipWith_cons_cons, List.zipWith_nil_left]
    rw [evalPoint_congr _ _ _ _ _ hz]
    congr 2
    simp [zernikeAnnularEvalPoint, zernikeAnnularEvalConst, unitCoeff, realMath]
    norm_num
  · ring

/-! ## C21: a concrete polynomial -/

/-- The five loop bodies of `zernikeAnnularGrad` read the coefficients of index `0..21`
only. -/
theorem grad_congr (k : GradConst ℝ) (x y : ℝ) (Z Z' : ℕ → ℝ)
    (h : ∀ j, j ≤ 21 → Z j = Z' j) :
    zernikeAnnularGrad_dx k Z x y = zernikeAnnularGrad_dx k Z' x y
    ∧ zernikeAnnularGrad_dy k Z x y = zernikeAnnularGrad_dy k Z' x y
    ∧ zernikeAnnularGrad_dx2 k Z x y = zernikeAnnularGrad_dx2 k Z' x y
    ∧ zernikeAnnularGrad_dy2 k Z x y = zernikeAnnularGrad_dy2 k Z' x y
    ∧ zernikeAnnularGrad_dxy k Z x y = zernikeAnnularGrad_dxy k Z' x y := by
  have h0 := h 0 (by norm_num)
  have h1 := h 1 (by norm_num)
  have h2 := h 2 (by norm_num)
  have h3 := h 3 (by norm_num)
  have h4 := h 4 (by norm_num)
  have h5 := h 5 (by norm_num)
  have h6 := h 6 (by norm_num)
  have h7 := h 7 (by norm_num)
  have h8 := h 8 (by norm_num)
  have h9 := h 9 (by norm_num)
  have h10 := h 10 (by norm_num)
  have h11 := h 11 (by norm_num)
  have h12 := h 12 (by norm_num)
  have h13 := h 13 (by norm_num)
  have h14 := h 14 (by norm_num)
  have h15 := h 15 (by norm_num)
  have h16 := h 16 (by norm_num)
  have h17 := h 17 (by norm_num)
  have h18 := h 18 (by norm_num)
  have h19 := h 19 (by norm_num)
  have h20 := h 20 (by norm_num)
  have h21 := h 21 (by norm_num)
  refine ⟨?_, ?_, ?_, ?_, ?_⟩
  · simp only [zernikeAnnularGrad_dx, h0, h1, h2, h3, h4, h5, h6, h7, h8, h9, h10, h11, h12,
      h13, h14, h15, h16, h17, h18, h19, h20, h21]
  · simp only [zernikeAnnularGrad_dy, h0, h1, h2, h3, h4, h5, h6, h7, h8, h9, h10, h11, h12,
      h13, h14, h15, h16, h17, h18, h19, h20, h21]
  · simp only [zernikeAnnularGrad_dx2, h0, h1, h2, h3, h4, h5, h6, h7, h8, h9, h10, h11, h12,
      h13, h14, h15, h16, h17, h18, h19, h20, h21]
  · simp only [zernikeAnnularGrad_dy2, h0, h1, h2, h3, h4, h5, h6, h7, h8, h9, h10, h11, h12,
      h13, h14, h15, h16, h17, h18, h19, h20, h21]
  · simp only [zernikeAnnularGrad_dxy, h0, h1, h2, h3, h4, h5, h6, h7, h8, h9, h10, h11, h12,
      h13, h14, h15, h16, h17, h18, h19, h20, h21]

/-- The three loop bodies of the polynomial operations read the coefficients of index `0..65`
only (`0..64` for `"dx"`). -/
theorem poly10_congr (x y : ℝ) (c c' : ℕ → ℝ) (h : ∀ j, j < 66 → c j = c' j) :
    poly10_2DPoint c x y = poly10_2DPoint c' x y
    ∧ poly10Grad_dx c x y = poly10Grad_dx c' x y
    ∧ poly10Grad_dy c x y = poly10Grad_dy c' x y := by
  refine ⟨?_, ?_, ?_⟩ <;>
    simp only [poly10_2DPoint, poly10Grad_dx, poly10Grad_dy,
      h 0 (by norm_num), h 1 (by norm_num), h 2 (by norm_num), h 3 (by norm_num),
      h 4 (by norm_num), h 5 (by norm_num), h 6 (by norm_num), h 7 (by norm_num),
      h 8 (by norm_num), h 9 (by norm_num), h 10 (by norm_num), h 11 (by norm_num),
      h 12 (by norm_num), h 13 (by norm_num), h 14 (by norm_num), h 15 (by norm_num),
      h 16 (by norm_num), h 17 (by norm_num), h 18 (by norm_num), h 19 (by norm_num),
      h 20 (by norm_num), h 21 (by norm_num), h 22 (by norm_num), h 23 (by norm_num),
      h 24 (by norm_num), h 25 (by norm_num), h 26 (by norm_num), h 27 (by norm_num),
      h 28 (by norm_num), h 29 (by norm_num), h 30 (by norm_num), h 31 (by norm_num),
      h 32 (by norm_num), h 33 (by norm_num), h 34 (by norm_num), h 35 (by norm_num),
      h 36 (by norm_num), h 37 (by norm_num), h 38 (by norm_num), h 39 (by norm_num),
      h 40 (by norm_num), h 41 (by norm_num), h 42 (by norm_num), h 43 (by norm_num),
      h 44 (by norm_num), h 45 (by norm_num), h 46 (by norm_num), h 47 (by norm_num),
      h 48 (by norm_num), h 49 (by norm_num), h 50 (by norm_num), h 51 (by norm_num),
      h 52 (by norm_num), h 53 (by norm_num), h 54 (by norm_num), h 55 (by norm_num),
      h 56 (by norm_num), h 57 (by norm_num), h 58 (by norm_num), h 59 (by norm_num),
      h 60 (by norm_num), h 61 (by norm_num), h 62 (by norm_num), h 63 (by norm_num),
      h 64 (by norm_num), h 65 (by norm_num)]

/-! The arithmetic of checked values: on values it is the arithmetic of `α`, and the mark
`oob` is handed on. -/

section CheckedArithmetic

variable {α : Type}

theorem Checked.val_add [Add α] (a b : α) : Checked.val a + Checked.val b = .val (a + b) := rfl

theorem Checked.val_sub [Sub α] (a b : α) : Checked.val a - Checked.val b = .val (a - b) := rfl

theorem Checked.val_mul [Mul α] (a b : α) : Checked.val a * Checked.val b = .val (a * b) := rfl

theorem Checked.val_div [Div α] (a b : α) : Checked.val a / Checked.val b = .val (a / b) := rfl

theorem Checked.val_neg [Neg α] (a : α) : -Checked.val a = .val (-a) := rfl

theorem Checked.val_pow [Pow α ℕ] (a : α) (n : ℕ) : Checked.val a ^ n = .val (a ^ n) := rfl

theorem Checked.val_zero [Zero α] : (0 : Checked α) = .val 0 := rfl

theorem Checked.val_one [One α] : (1 : Checked α) = .val 1 := rfl

theorem Checked.val_ofNat [NatCast α] (n : ℕ) [n.AtLeastTwo] :
    (OfNat.ofNat n : Checked α) = .val (OfNat.ofNat n) := rfl

theorem Checked.map_val (f : α → α) (a : α) : Checked.map f (.val a) = .val (f a) := rfl

theorem Checked.map2_val (f : α → α → α) (a b : α) :
    Checked.map2 f (.val a) (.val b) = .val (f a b) := rfl

theorem Checked.add_oob [Add α] (a : Checked α) : a + .oob = .oob := by cases a <;> rfl

theorem Checked.oob_add [Add α] (a : Checked α) : .oob + a = .oob := by cases a <;> rfl

theorem Checked.sub_oob [Sub α] (a : Checked α) : a - .oob = .oob := by cases a <;> rfl

theorem Checked.oob_sub [Sub α] (a : Checked α) : .oob - a = .oob := by cases a <;> rfl

theorem Checked.mul_oob [Mul α] (a : Checked α) : a * .oob = .oob := by cases a <;> rfl

theorem Checked.oob_mul [Mul α] (a : Checked α) : .oob * a = .oob := by cases a <;> rfl

theorem Checked.div_oob [Div α] (a : Checked α) : a / .oob = .oob := by cases a <;> rfl

theorem Checked.oob_div [Div α] (a : Checked α) : .oob / a = .oob := by cases a <;> rfl

theorem Checked.oob_pow [Pow α ℕ] (n : ℕ) : (.oob : Checked α) ^ n = .oob := rfl

theorem Checked.oob_neg [Neg α] : -(.oob : Checked α) = .oob := rfl

/-- A checked read inside the buffer gives the entry. -/
theorem checkedRead_val [Zero α] (buf : List α) (k : ℕ) (h : k < buf.length) :
    checkedRead buf k = .val (buf.getD k 0) := by
  simp [checkedRead, List.getD, List.getElem?_eq_getElem h]

end CheckedArithmetic

/-- C24: under the preconditions (one-dimensional arrays, at least 28 coefficients for the
Zernike operations and 66 for the polynomial ones, `y` at least as long as `x`, a recognised
token) no read leaves its buffer.

* Every operation returns an array, with one value per entry of `x`, and never the
  out-of-bounds error: the samples `x[ii]`, `y[ii]` are read for `ii < x.size` only.
* Every coefficient read of a loop body is inside the buffer: run with checked reads
  (`checkedRead`, in the arithmetic `Checked ℝ` where a read outside the buffer leaves the mark
  `oob`), each of the eleven bodies returns a value, the one the operation computes.
* The bounds are the indices the bodies read: with a buffer that is shorter than 28
  (`zernikeAnnularEval`), 22 (`zernikeAnnularJacobian`, `zernikeAnnularGrad`), 66 (`poly10_2D`,
  `poly10Grad` with `"dy"`) or 65 (`poly10Grad` with `"dx"`) entries the checked run of the body
  is `oob`, so the highest index read is 27, 21, 65 and 64. -/
theorem operations_in_bounds (fresh : ℕ → ℝ) (arrayZk arrayC arrayX arrayY : PyArray ℝ)
    (e : ℝ) (hZ : arrayZk.ndim = 1) (hC : arrayC.ndim = 1) (hX : arrayX.ndim = 1)
    (hY : arrayY.ndim = 1) (hZn : 28 ≤ arrayZk.data.length) (hCn : 66 ≤ arrayC.data.length)
    (hle : arrayX.data.length ≤ arrayY.data.length) :
    (ReturnsArray
          (zernikeAnnularEval realMath arrayZk arrayX arrayY e) arrayX.data.length
      ∧ ReturnsArray
          (zernikeAnnularJacobian realMath fresh arrayZk arrayX arrayY e "1st") arrayX.data.length
      ∧ ReturnsArray
          (zernikeAnnularJacobian realMath fresh arrayZk arrayX arrayY e "2nd") arrayX.data.length
      ∧ ReturnsArray
          (zernikeAnnularGrad realMath fresh arrayZk arrayX arrayY e "dx") arrayX.data.length
      ∧ ReturnsArray
          (zernikeAnnularGrad realMath fresh arrayZk arrayX arrayY e "dy") arrayX.data.length
      ∧ ReturnsArray
          (zernikeAnnularGrad realMath fresh arrayZk arrayX arrayY e "dx2") arrayX.data.length
      ∧ ReturnsArray
          (zernikeAnnularGrad realMath fresh arrayZk arrayX arrayY e "dy2") arrayX.data.length
      ∧ ReturnsArray
          (zernikeAnnularGrad realMath fresh arrayZk arrayX arrayY e "dxy") arrayX.data.length
      ∧ ReturnsArray
          (poly10_2D arrayC arrayX arrayY) arrayX.data.length
      ∧ ReturnsArray
          (poly10Grad fresh arrayC arrayX arrayY "dx") arrayX.data.length
      ∧ ReturnsArray
          (poly10Grad fresh arrayC arrayX arrayY "dy") arrayX.data.length)
    ∧ (∀ x y : ℝ,
        zernikeAnnularEvalPoint (checkedMath realMath) (zernikeAnnularEvalConst (checkedMath
          realMath) (.val e)) (checkedRead arrayZk.data) (.val x) (.val y)
          = .val (zernikeAnnularEvalPoint realMath (zernikeAnnularEvalConst realMath e) (fun k =>
            arrayZk.data.getD k 0) x y)
        ∧ zernikeAnnularJacobian_1st (zernikeAnnularJacobianConst (checkedMath realMath) (.val e))
          (checkedRead arrayZk.data) (.val x) (.val y)
          = .val (zernikeAnnularJacobian_1st (zernikeAnnularJacobianConst realMath e) (fun k =>
            arrayZk.data.getD k 0) x y)
        ∧ zernikeAnnularJacobian_2nd (zernikeAnnularJacobianConst (checkedMath realMath) (.val e))
          (checkedRead arrayZk.data) (.val x) (.val y)
          = .val (zernikeAnnularJacobian_2nd (zernikeAnnularJacobianConst realMath e) (fun k =>
            arrayZk.data.getD k 0) x y)
        ∧ zernikeAnnularGrad_dx (zernikeAnnularGradConst (checkedMath realMath) (.val e))
          (checkedRead arrayZk.data) (.val x) (.val y)
          = .val (zernikeAnnularGrad_dx (zernikeAnnularGradConst realMath e) (fun k =>
            arrayZk.data.getD k 0) x y)
        ∧ zernikeAnnularGrad_dy (zernikeAnnularGradConst (checkedMath realMath) (.val e))
          (checkedRead arrayZk.data) (.val x) (.val y)
          = .val (zernikeAnnularGrad_dy (zernikeAnnularGradConst realMath e) (fun k =>
            arrayZk.data.getD k 0) x y)
        ∧ zernikeAnnularGrad_dx2 (zernikeAnnularGradConst (checkedMath realMath) (.val e))
          (checkedRead arrayZk.data) (.val x) (.val y)
          = .val (zernikeAnnularGrad_dx2 (zernikeAnnularGradConst realMath e) (fun k =>
            arrayZk.data.getD k 0) x y)
        ∧ zernikeAnnularGrad_dy2 (zernikeAnnularGradConst (checkedMath realMath) (.val e))
          (checkedRead arrayZk.data) (.val x) (.val y)
          = .val (zernikeAnnularGrad_dy2 (zernikeAnnularGradConst realMath e) (fun k =>
            arrayZk.data.getD k 0) x y)
        ∧ zernikeAnnularGrad_dxy (zernikeAnnularGradConst (checkedMath realMath) (.val e))
          (checkedRead arrayZk.data) (.val x) (.val y)
          = .val (zernikeAnnularGrad_dxy (zernikeAnnularGradConst realMath e) (fun k =>
            arrayZk.data.getD k 0) x y)
        ∧ poly10_2DPoint (checkedRead arrayC.data) (.val x) (.val y)
          = .val (poly10_2DPoint (fun k => arrayC.data.getD k 0) x y)
        ∧ poly10Grad_dx (checkedRead arrayC.data) (.val x) (.val y)
          = .val (poly10Grad_dx (fun k => arrayC.data.getD k 0) x y)
        ∧ poly10Grad_dy (checkedRead arrayC.data) (.val x) (.val y)
          = .val (poly10Grad_dy (fun k => arrayC.data.getD k 0) x y))
    ∧ ∀ (buf : List ℝ) (e x y : ℝ),
        (buf.length < 28 → zernikeAnnularEvalPoint (checkedMath realMath) (zernikeAnnularEvalConst
          (checkedMath realMath) (.val e)) (checkedRead buf) (.val x) (.val y) = .oob)
        ∧ (buf.length < 22 → zernikeAnnularJacobian_1st (zernikeAnnularJacobianConst (checkedMath
          realMath) (.val e)) (checkedRead buf) (.val x) (.val y) = .oob)
        ∧ (buf.length < 22 → zernikeAnnularJacobian_2nd (zernikeAnnularJacobianConst (checkedMath
          realMath) (.val e)) (checkedRead buf) (.val x) (.val y) = .oob)
        ∧ (buf.length < 22 → zernikeAnnularGrad_dx (zernikeAnnularGradConst (checkedMath realMath)
          (.val e)) (checkedRead buf) (.val x) (.val y) = .oob)
        ∧ (buf.length < 22 → zernikeAnnularGrad_dy (zernikeAnnularGradConst (checkedMath realMath)
          (.val e)) (checkedRead buf) (.val x) (.val y) = .oob)
        ∧ (buf.length < 22 → zernikeAnnularGrad_dx2 (zernikeAnnularGradConst (checkedMath realMath)
          (.val e)) (checkedRead buf) (.val x) (.val y) = .oob)
        ∧ (buf.length < 22 → zernikeAnnularGrad_dy2 (zernikeAnnularGradConst (checkedMath realMath)
          (.val e)) (checkedRead buf) (.val x) (.val y) = .oob)
        ∧ (buf.length < 22 → zernikeAnnularGrad_dxy (zernikeAnnularGradConst (checkedMath realMath)
          (.val e)) (checkedRead buf) (.val x) (.val y) = .oob)
        ∧ (buf.length < 66 → poly10_2DPoint (checkedRead buf) (.val x) (.val y) = .oob)
        ∧ (buf.length < 65 → poly10Grad_dx (checkedRead buf) (.val x) (.val y) = .oob)
        ∧ (buf.length < 66 → poly10Grad_dy (checkedRead buf) (.val x) (.val y) = .oob) := by
  have hlen : ∀ f : ℝ → ℝ → ℝ,
      (List.zipWith f arrayX.data arrayY.data).length = arrayX.data.length := by
    intro f
    simp [hle]
  have rZ : ∀ k, k < 28 → checkedRead arrayZk.data k = .val (arrayZk.data.getD k 0) :=
    fun k hk => checkedRead_val arrayZk.data k (by omega)
  have rC : ∀ k, k < 66 → checkedRead arrayC.data k = .val (arrayC.data.getD k 0) :=
    fun k hk => checkedRead_val arrayC.data k (by omega)
  refine ⟨⟨?_, ?_, ?_, ?_, ?_, ?_, ?_, ?_, ?_, ?_, ?_⟩, ?_, ?_⟩
  · exact ⟨_, zernikeAnnularEval_ok arrayZk arrayX arrayY e hZ hX hY hZn hle, hlen _⟩
  · exact ⟨_, (zernikeAnnularJacobian_ok fresh arrayZk arrayX arrayY e hZ hX hY (by omega)
      hle).1, hlen _⟩
  · exact ⟨_, (zernikeAnnularJacobian_ok fresh arrayZk arrayX arrayY e hZ hX hY (by omega)
      hle).2, hlen _⟩
  · exact ⟨_, (zernikeAnnularGrad_ok fresh arrayZk arrayX arrayY e hZ hX hY (by omega)
      hle).1, hlen _⟩
  · exact ⟨_, (zernikeAnnularGrad_ok fresh arrayZk arrayX arrayY e hZ hX hY (by omega)
      hle).2.1, hlen _⟩
  · exact ⟨_, (zernikeAnnularGrad_ok fresh arrayZk arrayX arrayY e hZ hX hY (by omega)
      hle).2.2.1, hlen _⟩
  · exact ⟨_, (zernikeAnnularGrad_ok fresh arrayZk arrayX arrayY e hZ hX hY (by omega)
      hle).2.2.2.1, hlen _⟩
  · exact ⟨_, (zernikeAnnularGrad_ok fresh arrayZk arrayX arrayY e hZ hX hY (by omega)
      hle).2.2.2.2, hlen _⟩
  · exact ⟨_, poly10_2D_ok arrayC arrayX arrayY hC hX hY hCn hle, hlen _⟩
  · exact ⟨_, (poly10Grad_ok fresh arrayC arrayX arrayY hC hX hY hCn hle).1, hlen _⟩
  · exact ⟨_, (poly10Grad_ok fresh arrayC arrayX arrayY hC hX hY hCn hle).2, hlen _⟩
  · intro x y
    refine ⟨?_, ?_, ?_, ?_, ?_, ?_, ?_, ?_, ?_, ?_, ?_⟩
    · simp only [zernikeAnnularEvalPoint, zernikeAnnularEvalConst, checkedMath, rZ, Nat.reduceLT, Nat.lt_add_one, Nat.ofNat_pos, Checked.val_add,
      Checked.val_sub, Checked.val_mul, Checked.val_div, Checked.val_neg, Checked.val_pow,
      Checked.val_zero, Checked.val_one, Checked.val_ofNat, Checked.map_val, Checked.map2_val]
    · simp only [zernikeAnnularJacobian_1st, zernikeAnnularJacobianConst, checkedMath, rZ, Nat.reduceLT, Nat.lt_add_one, Nat.ofNat_pos, Checked.val_add,
      Checked.val_sub, Checked.val_mul, Checked.val_div, Checked.val_neg, Checked.val_pow,
      Checked.val_zero, Checked.val_one, Checked.val_ofNat, Checked.map_val, Checked.map2_val]
    · simp only [zernikeAnnularJacobian_2nd, zernikeAnnularJacobianConst, checkedMath, rZ, Nat.reduceLT, Nat.lt_add_one, Nat.ofNat_pos, Checked.val_add,
      Checked.val_sub, Checked.val_mul, Checked.val_div, Checked.val_neg, Checked.val_pow,
      Checked.val_zero, Checked.val_one, Checked.val_ofNat, Checked.map_val, Checked.map2_val]
    · simp only [zernikeAnnularGrad_dx, zernikeAnnularGradConst, checkedMath, rZ, Nat.reduceLT, Nat.lt_add_one, Nat.ofNat_pos, Checked.val_add,
      Checked.val_sub, Checked.val_mul, Checked.val_div, Checked.val_neg, Checked.val_pow,
      Checked.val_zero, Checked.val_one, Checked.val_ofNat, Checked.map_val, Checked.map2_val]
    · simp only [zernikeAnnularGrad_dy, zernikeAnnularGradConst, checkedMath, rZ, Nat.reduceLT, Nat.lt_add_one, Nat.ofNat_pos, Checked.val_add,
      Checked.val_sub, Checked.val_mul, Checked.val_div, Checked.val_neg, Checked.val_pow,
      Checked.val_zero, Checked.val_one, Checked.val_ofNat, Checked.map_val, Checked.map2_val]
    · simp only [zernikeAnnularGrad_dx2, zernikeAnnularGradConst, checkedMath, rZ, Nat.reduceLT, Nat.lt_add_one, Nat.ofNat_pos, Checked.val_add,
      Checked.val_sub, Checked.val_mul, Checked.val_div, Checked.val_neg, Checked.val_pow,
      Checked.val_zero, Checked.val_one, Checked.val_ofNat, Checked.map_val, Checked.map2_val]
    · simp only [zernikeAnnularGrad_dy2, zernikeAnnularGradConst, checkedMath, rZ, Nat.reduceLT, Nat.lt_add_one, Nat.ofNat_pos, Checked.val_add,
      Checked.val_sub, Checked.val_mul, Checked.val_div, Checked.val_neg, Checked.val_pow,
      Checked.val_zero, Checked.val_one, Checked.val_ofNat, Checked.map_val, Checked.map2_val]
    · simp only [zernikeAnnularGrad_dxy, zernikeAnnularGradConst, checkedMath, rZ, Nat.reduceLT, Nat.lt_add_one, Nat.ofNat_pos, Checked.val_add,
      Checked.val_sub, Checked.val_mul, Checked.val_div, Checked.val_neg, Checked.val_pow,
      Checked.val_zero, Checked.val_one, Checked.val_ofNat, Checked.map_val, Checked.map2_val]
    · simp only [poly10_2DPoint, rC, Nat.reduceLT, Nat.lt_add_one, Nat.ofNat_pos, Checked.val_add,
      Checked.val_sub, Checked.val_mul, Checked.val_div, Checked.val_neg, Checked.val_pow,
      Checked.val_zero, Checked.val_one, Checked.val_ofNat, Checked.map_val, Checked.map2_val]
    · simp only [poly10Grad_dx, rC, Nat.reduceLT, Nat.lt_add_one, Nat.ofNat_pos, Checked.val_add,
      Checked.val_sub, Checked.val_mul, Checked.val_div, Checked.val_neg, Checked.val_pow,
      Checked.val_zero, Checked.val_one, Checked.val_ofNat, Checked.map_val, Checked.map2_val]
    · simp only [poly10Grad_dy, rC, Nat.reduceLT, Nat.lt_add_one, Nat.ofNat_pos, Checked.val_add,
      Checked.val_sub, Checked.val_mul, Checked.val_div, Checked.val_neg, Checked.val_pow,
      Checked.val_zero, Checked.val_one, Checked.val_ofNat, Checked.map_val, Checked.map2_val]
  · intro buf e x y
    have hoob : ∀ k, buf.length ≤ k → checkedRead buf k = (.oob : Checked ℝ) := by
      intro k hk
      simp [checkedRead, List.getElem?_eq_none hk]
    refine ⟨?_, ?_, ?_, ?_, ?_, ?_, ?_, ?_, ?_, ?_, ?_⟩
    · intro h
      simp only [zernikeAnnularEvalPoint, hoob 27 (by omega), Checked.add_oob, Checked.oob_add, Checked.sub_oob, Checked.oob_sub,
        Checked.mul_oob, Checked.oob_mul, Checked.div_oob, Checked.oob_div, Checked.oob_pow,
        Checked.oob_neg]
    · intro h
      simp only [zernikeAnnularJacobian_1st, hoob 21 (by omega), Checked.add_oob, Checked.oob_add, Checked.sub_oob, Checked.oob_sub,
        Checked.mul_oob, Checked.oob_mul, Checked.div_oob, Checked.oob_div, Checked.oob_pow,
        Checked.oob_neg]
    · intro h
      simp only [zernikeAnnularJacobian_2nd, hoob 21 (by omega), Checked.add_oob, Checked.oob_add, Checked.sub_oob, Checked.oob_sub,
        Checked.mul_oob, Checked.oob_mul, Checked.div_oob, Checked.oob_div, Checked.oob_pow,
        Checked.oob_neg]
    · intro h
      simp only [zernikeAnnularGrad_dx, hoob 21 (by omega), Checked.add_oob, Checked.oob_add, Checked.sub_oob, Checked.oob_sub,
        Checked.mul_oob, Checked.oob_mul, Checked.div_oob, Checked.oob_div, Checked.oob_pow,
        Checked.oob_neg]
    · intro h
      simp only [zernikeAnnularGrad_dy, hoob 21 (by omega), Checked.add_oob, Checked.oob_add, Checked.sub_oob, Checked.oob_sub,
        Checked.mul_oob, Checked.oob_mul, Checked.div_oob, Checked.oob_div, Checked.oob_pow,
        Checked.oob_neg]
    · intro h
      simp only [zernikeAnnularGrad_dx2, hoob 21 (by omega), Checked.add_oob, Checked.oob_add, Checked.sub_oob, Checked.oob_sub,
        Checked.mul_oob, Checked.oob_mul, Checked.div_oob, Checked.oob_div, Checked.oob_pow,
        Checked.oob_neg]
    · intro h
      simp only [zernikeAnnularGrad_dy2, hoob 21 (by omega), Checked.add_oob, Checked.oob_add, Checked.sub_oob, Checked.oob_sub,
        Checked.mul_oob, Checked.oob_mul, Checked.div_oob, Checked.oob_div, Checked.oob_pow,
        Checked.oob_neg]
    · intro h
      simp only [zernikeAnnularGrad_dxy, hoob 21 (by omega), Checked.add_oob, Checked.oob_add, Checked.sub_oob, Checked.oob_sub,
        Checked.mul_oob, Checked.oob_mul, Checked.div_oob, Checked.oob_div, Checked.oob_pow,
        Checked.oob_neg]
    · intro h
      simp only [poly10_2DPoint, hoob 65 (by omega), Checked.add_oob, Checked.oob_add, Checked.sub_oob, Checked.oob_sub,
        Checked.mul_oob, Checked.oob_mul, Checked.div_oob, Checked.oob_div, Checked.oob_pow,
        Checked.oob_neg]
    · intro h
      simp only [poly10Grad_dx, hoob 64 (by omega), Checked.add_oob, Checked.oob_add, Checked.sub_oob, Checked.oob_sub,
        Checked.mul_oob, Checked.oob_mul, Checked.div_oob, Checked.oob_div, Checked.oob_pow,
        Checked.oob_neg]
    · intro h
      simp only [poly10Grad_dy, hoob 65 (by omega), Checked.add_oob, Checked.oob_add, Checked.sub_oob, Checked.oob_sub,
        Checked.mul_oob, Checked.oob_mul, Checked.div_oob, Checked.oob_div, Checked.oob_pow,
        Checked.oob_neg]

/-- Witness for C24: coefficients equal to one, `x = [1, 2]`, `y = [1, 2, 3]`, `e = 1/2`. -/
theorem operations_in_bounds_witness :
    (ReturnsArray
          (zernikeAnnularEval realMath ⟨1, List.replicate 28 1⟩ ⟨1, [1, 2]⟩ ⟨1, [1, 2, 3]⟩ (1 / 2))
            2
      ∧ ReturnsArray
          (zernikeAnnularJacobian realMath (fun _ => 0) ⟨1, List.replicate 28 1⟩ ⟨1, [1, 2]⟩ ⟨1,
            [1, 2, 3]⟩ (1 / 2) "1st") 2
      ∧ ReturnsArray
          (zernikeAnnularJacobian realMath (fun _ => 0) ⟨1, List.replicate 28 1⟩ ⟨1, [1, 2]⟩ ⟨1,
            [1, 2, 3]⟩ (1 / 2) "2nd") 2
      ∧ ReturnsArray
          (zernikeAnnularGrad realMath (fun _ => 0) ⟨1, List.replicate 28 1⟩ ⟨1, [1, 2]⟩ ⟨1, [1, 2,
            3]⟩ (1 / 2) "dx") 2
      ∧ ReturnsArray
          (zernikeAnnularGrad realMath (fun _ => 0) ⟨1, List.replicate 28 1⟩ ⟨1, [1, 2]⟩ ⟨1, [1, 2,
            3]⟩ (1 / 2) "dy") 2
      ∧ ReturnsArray
          (zernikeAnnularGrad realMath (fun _ => 0) ⟨1, List.replicate 28 1⟩ ⟨1, [1, 2]⟩ ⟨1, [1, 2,
            3]⟩ (1 / 2) "dx2") 2
      ∧ ReturnsArray
          (zernikeAnnularGrad realMath (fun _ => 0) ⟨1, List.replicate 28 1⟩ ⟨1, [1, 2]⟩ ⟨1, [1, 2,
            3]⟩ (1 / 2) "dy2") 2
      ∧ ReturnsArray
          (zernikeAnnularGrad realMath (fun _ => 0) ⟨1, List.replicate 28 1⟩ ⟨1, [1, 2]⟩ ⟨1, [1, 2,
            3]⟩ (1 / 2) "dxy") 2
      ∧ ReturnsArray
          (poly10_2D ⟨1, List.replicate 66 (1 : ℝ)⟩ ⟨1, [1, 2]⟩ ⟨1, [1, 2, 3]⟩) 2
      ∧ ReturnsArray
          (poly10Grad (fun _ => 0) ⟨1, List.replicate 66 (1 : ℝ)⟩ ⟨1, [1, 2]⟩ ⟨1, [1, 2, 3]⟩ "dx")
            2
      ∧ ReturnsArray
          (poly10Grad (fun _ => 0) ⟨1, List.replicate 66 (1 : ℝ)⟩ ⟨1, [1, 2]⟩ ⟨1, [1, 2, 3]⟩ "dy")
            2)
    ∧ (∀ x y : ℝ,
        zernikeAnnularEvalPoint (checkedMath realMath) (zernikeAnnularEvalConst (checkedMath
          realMath) (.val (1 / 2))) (checkedRead (List.replicate 28 (1 : ℝ))) (.val x) (.val y)
          = .val (zernikeAnnularEvalPoint realMath (zernikeAnnularEvalConst realMath (1 / 2)) (fun
            k => (List.replicate 28 (1 : ℝ)).getD k 0) x y)
        ∧ zernikeAnnularJacobian_1st (zernikeAnnularJacobianConst (checkedMath realMath) (.val (1 /
          2))) (checkedRead (List.replicate 28 (1 : ℝ))) (.val x) (.val y)
          = .val (zernikeAnnularJacobian_1st (zernikeAnnularJacobianConst realMath (1 / 2)) (fun k
            => (List.replicate 28 (1 : ℝ)).getD k 0) x y)
        ∧ zernikeAnnularJacobian_2nd (zernikeAnnularJacobianConst (checkedMath realMath) (.val (1 /
          2))) (checkedRead (List.replicate 28 (1 : ℝ))) (.val x) (.val y)
          = .val (zernikeAnnularJacobian_2nd (zernikeAnnularJacobianConst realMath (1 / 2)) (fun k
            => (List.replicate 28 (1 : ℝ)).getD k 0) x y)
        ∧ zernikeAnnularGrad_dx (zernikeAnnularGradConst (checkedMath realMath) (.val (1 / 2)))
          (checkedRead (List.replicate 28 (1 : ℝ))) (.val x) (.val y)
          = .val (zernikeAnnularGrad_dx (zernikeAnnularGradConst realMath (1 / 2)) (fun k =>
            (List.replicate 28 (1 : ℝ)).getD k 0) x y)
        ∧ zernikeAnnularGrad_dy (zernikeAnnularGradConst (checkedMath realMath) (.val (1 / 2)))
          (checkedRead (List.replicate 28 (1 : ℝ))) (.val x) (.val y)
          = .val (zernikeAnnularGrad_dy (zernikeAnnularGradConst realMath (1 / 2)) (fun k =>
            (List.replicate 28 (1 : ℝ)).getD k 0) x y)
        ∧ zernikeAnnularGrad_dx2 (zernikeAnnularGradConst (checkedMath realMath) (.val (1 / 2)))
          (checkedRead (List.replicate 28 (1 : ℝ))) (.val x) (.val y)
          = .val (zernikeAnnularGrad_dx2 (zernikeAnnularGradConst realMath (1 / 2)) (fun k =>
            (List.replicate 28 (1 : ℝ)).getD k 0) x y)
        ∧ zernikeAnnularGrad_dy2 (zernikeAnnularGradConst (checkedMath realMath) (.val (1 / 2)))
          (checkedRead (List.replicate 28 (1 : ℝ))) (.val x) (.val y)
          = .val (zernikeAnnularGrad_dy2 (zernikeAnnularGradConst realMath (1 / 2)) (fun k =>
            (List.replicate 28 (1 : ℝ)).getD k 0) x y)
        ∧ zernikeAnnularGrad_dxy (zernikeAnnularGradConst (checkedMath realMath) (.val (1 / 2)))
          (checkedRead (List.replicate 28 (1 : ℝ))) (.val x) (.val y)
          = .val (zernikeAnnularGrad_dxy (zernikeAnnularGradConst realMath (1 / 2)) (fun k =>
            (List.replicate 28 (1 : ℝ)).getD k 0) x y)
        ∧ poly10_2DPoint (checkedRead (List.replicate 66 (1 : ℝ))) (.val x) (.val y)
          = .val (poly10_2DPoint (fun k => (List.replicate 66 (1 : ℝ)).getD k 0) x y)
        ∧ poly10Grad_dx (checkedRead (List.replicate 66 (1 : ℝ))) (.val x) (.val y)
          = .val (poly10Grad_dx (fun k => (List.replicate 66 (1 : ℝ)).getD k 0) x y)
        ∧ poly10Grad_dy (checkedRead (List.replicate 66 (1 : ℝ))) (.val x) (.val y)
          = .val (poly10Grad_dy (fun k => (List.replicate 66 (1 : ℝ)).getD k 0) x y))
    ∧ ∀ (buf : List ℝ) (e x y : ℝ),
        (buf.length < 28 → zernikeAnnularEvalPoint (checkedMath realMath) (zernikeAnnularEvalConst
          (checkedMath realMath) (.val e)) (checkedRead buf) (.val x) (.val y) = .oob)
        ∧ (buf.length < 22 → zernikeAnnularJacobian_1st (zernikeAnnularJacobianConst (checkedMath
          realMath) (.val e)) (checkedRead buf) (.val x) (.val y) = .oob)
        ∧ (buf.length < 22 → zernikeAnnularJacobian_2nd (zernikeAnnularJacobianConst (checkedMath
          realMath) (.val e)) (checkedRead buf) (.val x) (.val y) = .oob)
        ∧ (buf.length < 22 → zernikeAnnularGrad_dx (zernikeAnnularGradConst (checkedMath realMath)
          (.val e)) (checkedRead buf) (.val x) (.val y) = .oob)
        ∧ (buf.length < 22 → zernikeAnnularGrad_dy (zernikeAnnularGradConst (checkedMath realMath)
          (.val e)) (checkedRead buf) (.val x) (.val y) = .oob)
        ∧ (buf.length < 22 → zernikeAnnularGrad_dx2 (zernikeAnnularGradConst (checkedMath realMath)
          (.val e)) (checkedRead buf) (.val x) (.val y) = .oob)
        ∧ (buf.length < 22 → zernikeAnnularGrad_dy2 (zernikeAnnularGradConst (checkedMath realMath)
          (.val e)) (checkedRead buf) (.val x) (.val y) = .oob)
        ∧ (buf.length < 22 → zernikeAnnularGrad_dxy (zernikeAnnularGradConst (checkedMath realMath)
          (.val e)) (checkedRead buf) (.val x) (.val y) = .oob)
        ∧ (buf.length < 66 → poly10_2DPoint (checkedRead buf) (.val x) (.val y) = .oob)
        ∧ (buf.length < 65 → poly10Grad_dx (checkedRead buf) (.val x) (.val y) = .oob)
        ∧ (buf.length < 66 → poly10Grad_dy (checkedRead buf) (.val x) (.val y) = .oob) :=
  operations_in_bounds (fun _ => 0) ⟨1, List.replicate 28 1⟩ ⟨1, List.replicate 66 1⟩
    ⟨1, [1, 2]⟩ ⟨1, [1, 2, 3]⟩ (1 / 2) rfl rfl rfl rfl (by simp) (by simp) (by simp)

/-! ## C23: the normalisation denominators -/

/-- For `0 ≤ e < 1` every denominator of `zernikeAnnularEval` and every numerator that is a
square root is strictly positive. -/
theorem evalConst_pos (e : ℝ) (he0 : 0 ≤ e) (he1 : e < 1) :
    0 < (zernikeAnnularEvalConst realMath e).den1
    ∧ 0 < (zernikeAnnularEvalConst realMath e).den2
    ∧ 0 < (zernikeAnnularEvalConst realMath e).den3
    ∧ 0 < (zernikeAnnularEvalConst realMath e).den4
    ∧ 0 < (zernikeAnnularEvalConst realMath e).den5
    ∧ 0 < (zernikeAnnularEvalConst realMath e).den6
    ∧ 0 < (zernikeAnnularEvalConst realMath e).den7
    ∧ 0 < (zernikeAnnularEvalConst realMath e).den8
    ∧ 0 < (zernikeAnnularEvalConst realMath e).den9
    ∧ 0 < (zernikeAnnularEvalConst realMath e).den10
    ∧ 0 < (zernikeAnnularEvalConst realMath e).den11
    ∧ 0 < (zernikeAnnularEvalConst realMath e).den12
    ∧ 0 < (zernikeAnnularEvalConst realMath e).den13
    ∧ 0 < (zernikeAnnularEvalConst realMath e).den14
    ∧ 0 < (zernikeAnnularEvalConst realMath e).num7
    ∧ 0 < (zernikeAnnularEvalConst realMath e).num9E
    ∧ 0 < (zernikeAnnularEvalConst realMath e).num10E
    ∧ 0 < (zernikeAnnularEvalConst realMath e).num13 := by
  have hu0 : 0 ≤ e ^ 2 := by positivity
  have hu1 : e ^ 2 < 1 := pow_lt_one₀ he0 he1 (by norm_num)
  have h14 := den14_radicand_pos e he0 he1
  have e14 : 1 / (1 - e ^ 2) * (36 * (1 - e ^ 14) - 35 * (1 - e ^ 12) ^ 2 / (1 - e ^ 10))
      = 1 / (1 - e ^ 2) * (36 * (1 - e ^ 2 * e ^ 2 * e ^ 2 * e ^ 2 * e ^ 2 * e ^ 2 * e ^ 2)
        - 35 * (1 - e ^ 2 * e ^ 2 * e ^ 2 * e ^ 2 * e ^ 2 * e ^ 2) ^ 2
          / (1 - e ^ 2 * e ^ 2 * e ^ 2 * e ^ 2 * e ^ 2)) := by
    ring
  rw [e14] at h14
  simp only [zernikeAnnularEvalConst, realMath]
  generalize e ^ 2 = u at *
  have hd : 0 < 1 - u := by linarith
  have hd5 : 0 < 1 - u * u * u * u * u := by
    have : 1 - u * u * u * u * u = (1 - u) * (1 + u + u ^ 2 + u ^ 3 + u ^ 4) := by ring
    rw [this]
    positivity
  have hd7 : 0 < 1 - u * u * u * u * u * u * u := by
    have : 1 - u * u * u * u * u * u * u
        = (1 - u) * (1 + u + u ^ 2 + u ^ 3 + u ^ 4 + u ^ 5 + u ^ 6) := by ring
    rw [this]
    positivity
  refine ⟨?_, hd, ?_, ?_, ?_, ?_, ?_, ?_, ?_, ?_, ?_, ?_, ?_, ?_, ?_, ?_, ?_, ?_⟩
  · exact Real.sqrt_pos.2 (by positivity)
  · exact Real.sqrt_pos.2 (by positivity)
  · exact Real.sqrt_pos.2 (by positivity)
  · exact Real.sqrt_pos.2 (by positivity)
  · positivity
  · positivity
  · exact Real.sqrt_pos.2 (by positivity)
  · positivity
  · positivity
  · exact Real.sqrt_pos.2 (by positivity)
  · positivity
  · exact mul_pos (by positivity) (Real.sqrt_pos.2 (by positivity))
  · exact Real.sqrt_pos.2 h14
  · exact Real.sqrt_pos.2 (by positivity)
  · exact Real.sqrt_pos.2 (by positivity)
  · exact Real.sqrt_pos.2 (by positivity)
  · exact Real.sqrt_pos.2 (by positivity)

/-- C23 (amended): in exact real arithmetic, for `0 ≤ e < 1` every normalisation denominator of `zernikeAnnularEval` (`den1` to
`den14`, and the square-root numerators) is strictly positive, the inner divisors are strictly
positive, in particular `36 (1 - e^14) - 35 (1 - e^12)^2 / (1 - e^10) > 0`, and every argument
of a square root is non-negative, so no division by zero occurs; at `e = 1` the divisor
`den2 = 1 - e^2` is zero. -/
theorem zernikeAnnularEval_denominators (e : ℝ) (he0 : 0 ≤ e) (he1 : e < 1) :
    (0 < (zernikeAnnularEvalConst realMath e).den1
      ∧ 0 < (zernikeAnnularEvalConst realMath e).den2
      ∧ 0 < (zernikeAnnularEvalConst realMath e).den3
      ∧ 0 < (zernikeAnnularEvalConst realMath e).den4
      ∧ 0 < (zernikeAnnularEvalConst realMath e).den5
      ∧ 0 < (zernikeAnnularEvalConst realMath e).den6
      ∧ 0 < (zernikeAnnularEvalConst realMath e).den7
      ∧ 0 < (zernikeAnnularEvalConst realMath e).den8
      ∧ 0 < (zernikeAnnularEvalConst realMath e).den9
      ∧ 0 < (zernikeAnnularEvalConst realMath e).den10
      ∧ 0 < (zernikeAnnularEvalConst realMath e).den11
      ∧ 0 < (zernikeAnnularEvalConst realMath e).den12
      ∧ 0 < (zernikeAnnularEvalConst realMath e).den13
      ∧ 0 < (zernikeAnnularEvalConst realMath e).den14
      ∧ 0 < (zernikeAnnularEvalConst realMath e).num7
      ∧ 0 < (zernikeAnnularEvalConst realMath e).num9E
      ∧ 0 < (zernikeAnnularEvalConst realMath e).num10E
      ∧ 0 < (zernikeAnnularEvalConst realMath e).num13)
    ∧ (0 < 1 + 4 * e ^ 2 + 10 * e ^ 4 + 4 * e ^ 6 + e ^ 8
      ∧ 0 < 1 + 9 * e ^ 2 + 9 * e ^ 4 + e ^ 6
      ∧ 0 < 1 + 4 * e ^ 2 + 10 * e ^ 4 + 20 * e ^ 6 + 10 * e ^ 8 + 4 * e ^ 10 + e ^ 12
      ∧ 0 < 1 - e ^ 10
      ∧ 0 < 1 - e ^ 14
      ∧ 0 < 36 * (1 - e ^ 14) - 35 * (1 - e ^ 12) ^ 2 / (1 - e ^ 10))
    ∧ (0 ≤ 1 + e ^ 2
      ∧ 0 ≤ 1 + e ^ 2 + e ^ 4
      ∧ 0 ≤ (1 - e ^ 2) ^ 2 * (1 + e ^ 2) * (1 + 4 * e ^ 2 + e ^ 4)
      ∧ 0 ≤ 1 + e ^ 2 + e ^ 4 + e ^ 6
      ∧ 0 ≤ (1 - e ^ 2) ^ 4 * (1 + e ^ 2 + e ^ 4)
          / (1 + 4 * e ^ 2 + 10 * e ^ 4 + 4 * e ^ 6 + e ^ 8)
      ∧ 0 ≤ 1 + e ^ 2 + e ^ 4 + e ^ 6 + e ^ 8
      ∧ 0 ≤ (1 - e ^ 2) ^ 2 * (1 + 4 * e ^ 2 + e ^ 4) / (1 + 9 * e ^ 2 + 9 * e ^ 4 + e ^ 6)
      ∧ 0 ≤ (1 - e ^ 2) ^ 6 * (1 + e ^ 2) * (1 + e ^ 4)
          / (1 + 4 * e ^ 2 + 10 * e ^ 4 + 20 * e ^ 6 + 10 * e ^ 8 + 4 * e ^ 10 + e ^ 12)
      ∧ 0 ≤ 1 + e ^ 2 + e ^ 4 + e ^ 6 + e ^ 8 + e ^ 10
      ∧ 0 ≤ (1 + 4 * e ^ 2 + 10 * e ^ 4 + 4 * e ^ 6 + e ^ 8)
          * (1 + 9 * e ^ 2 + 45 * e ^ 4 + 65 * e ^ 6 + 45 * e ^ 8 + 9 * e ^ 10 + e ^ 12)
      ∧ 0 ≤ 1 / (1 - e ^ 2) * (36 * (1 - e ^ 14) - 35 * (1 - e ^ 12) ^ 2 / (1 - e ^ 10))
      ∧ 0 ≤ (1 - e ^ 2) / (1 - e ^ 14))
    ∧ (zernikeAnnularEvalConst realMath 1).den2 = 0 := by
  obtain ⟨h2, h10, h12, h14⟩ := obscuration_pow_lt_one e he0 he1
  have hd2 : 0 < 1 - e ^ 2 := by linarith
  have hd10 : 0 < 1 - e ^ 10 := by linarith
  have hd14 : 0 < 1 - e ^ 14 := by linarith
  have hrad := den14_radicand_pos e he0 he1
  have hinner : 0 < 36 * (1 - e ^ 14) - 35 * (1 - e ^ 12) ^ 2 / (1 - e ^ 10) := by
    have h1 : 0 < 1 / (1 - e ^ 2) := by positivity
    exact (pos_iff_pos_of_mul_pos hrad).1 h1
  refine ⟨evalConst_pos e he0 he1, ⟨?_, ?_, ?_, hd10, hd14, hinner⟩,
    ⟨?_, ?_, ?_, ?_, ?_, ?_, ?_, ?_, ?_, ?_, hrad.le, ?_⟩, ?_⟩
  all_goals first
    | positivity
    | simp [zernikeAnnularEvalConst]

/-- Witness for C23: `e = 1/2`, the denominator `den14` and the inner difference it is
built from. -/
theorem zernikeAnnularEval_denominators_witness :
    0 < (zernikeAnnularEvalConst realMath (1 / 2)).den14
    ∧ 0 < 36 * (1 - (1 / 2 : ℝ) ^ 14) - 35 * (1 - (1 / 2 : ℝ) ^ 12) ^ 2 / (1 - (1 / 2) ^ 10) :=
  ⟨(zernikeAnnularEval_denominators (1 / 2) (by norm_num) (by norm_num)
      ).1.2.2.2.2.2.2.2.2.2.2.2.2.2.1,
    (zernikeAnnularEval_denominators (1 / 2) (by norm_num) (by norm_num)).2.1.2.2.2.2.2⟩

/-- C23 (counterexample): in binary64 a normalisation denominator of `zernikeAnnularEval` is
zero for an obscuration in `[0, 1)`.  For `e = 1 - 2^-53`, the largest number of binary64 below
one, the powers `e2 .. e14` round to `1 - 2^-52`, ..., `1 - 7 * 2^-52`, the difference
`36 * (1 - e14) - 35 * pow(1 - e12, 2) / (1 - e10)` is exactly `0` and `den14` is `0`, whatever
`sin`, `cos` and `atan2` are; the quotient of a non-zero number by `den14` is then an
infinity. -/
theorem zernikeAnnularEval_den14_rounding_counterexample :
    ((0 : ℚ) ≤ 1 - 1 / 2 ^ 53 ∧ (1 - 1 / 2 ^ 53 : ℚ) < 1
      ∧ Dbl.round (1 - 1 / 2 ^ 53) = Dbl.fin (1 - 1 / 2 ^ 53))
    ∧ ∀ (sin cos : Dbl → Dbl) (atan2 : Dbl → Dbl → Dbl),
        (zernikeAnnularEvalConst (dblMath sin cos atan2) (Dbl.fin (1 - 1 / 2 ^ 53))).e14
          = Dbl.fin (1 - 7 / 2 ^ 52)
        ∧ 36 * (1 - (zernikeAnnularEvalConst (dblMath sin cos atan2)
              (Dbl.fin (1 - 1 / 2 ^ 53))).e14)
            - 35 * (1 - (zernikeAnnularEvalConst (dblMath sin cos atan2)
                (Dbl.fin (1 - 1 / 2 ^ 53))).e12) ^ (2 : ℕ)
              / (1 - (zernikeAnnularEvalConst (dblMath sin cos atan2)
                (Dbl.fin (1 - 1 / 2 ^ 53))).e10)
          = Dbl.fin 0
        ∧ (zernikeAnnularEvalConst (dblMath sin cos atan2) (Dbl.fin (1 - 1 / 2 ^ 53))).den14
          = Dbl.fin 0
        ∧ (1 : Dbl)
            / (zernikeAnnularEvalConst (dblMath sin cos atan2) (Dbl.fin (1 - 1 / 2 ^ 53))).den14
          = Dbl.inf false := by
  have h : (zernikeAnnularEvalConst (dblMath id id (fun y _ => y))
        (Dbl.fin (1 - 1 / 2 ^ 53))).e14 = Dbl.fin (1 - 7 / 2 ^ 52)
      ∧ 36 * (1 - (zernikeAnnularEvalConst (dblMath id id (fun y _ => y))
            (Dbl.fin (1 - 1 / 2 ^ 53))).e14)
          - 35 * (1 - (zernikeAnnularEvalConst (dblMath id id (fun y _ => y))
              (Dbl.fin (1 - 1 / 2 ^ 53))).e12) ^ (2 : ℕ)
            / (1 - (zernikeAnnularEvalConst (dblMath id id (fun y _ => y))
              (Dbl.fin (1 - 1 / 2 ^ 53))).e10)
        = Dbl.fin 0
      ∧ (zernikeAnnularEvalConst (dblMath id id (fun y _ => y))
          (Dbl.fin (1 - 1 / 2 ^ 53))).den14 = Dbl.fin 0
      ∧ (1 : Dbl)
          / (zernikeAnnularEvalConst (dblMath id id (fun y _ => y))
            (Dbl.fin (1 - 1 / 2 ^ 53))).den14
        = Dbl.inf false := by
    decide!
  exact ⟨⟨by norm_num, by norm_num, by decide!⟩, fun _ _ _ => h⟩

/-! ## C26: the first-order Jacobian term is the Laplacian -/

/-- C26: the value `zernikeAnnularJacobian` writes for `atype == "1st"` is the sum of the
values `zernikeAnnularGrad` writes for `"dx2"` and `"dy2"`, for every coefficient vector,
every `e` and every point. -/
theorem zernikeAnnularJacobian_1st_laplacian (e x y : ℝ) (Z : ℕ → ℝ) :
    zernikeAnnularJacobian_1st (zernikeAnnularJacobianConst realMath e) Z x y
      = zernikeAnnularGrad_dx2 (zernikeAnnularGradConst realMath e) Z x y
        + zernikeAnnularGrad_dy2 (zernikeAnnularGradConst realMath e) Z x y := by
  simp only [zernikeAnnularJacobian_1st, zernikeAnnularGrad_dx2, zernikeAnnularGrad_dy2,
    zernikeAnnularJacobianConst, zernikeAnnularGradConst, realMath]
  ring

/-! ## C22: the gradient against the surface, at array level -/

/-- C22: for coefficients whose entries `22..27` are zero, `0 ≤ e < 1` and samples `x`, `y`
of equal length, `zernikeAnnularGrad` with `"dx"` (with `"dy"`) returns at every sample,
the origin included, the partial derivative with respect to `x` (to `y`) of the surface
`S`, where `S x y` is the value `zernikeAnnularEval` returns for the single sample `(x, y)`
with the same coefficients and obscuration. -/
theorem zernikeAnnularGrad_matches_surface (fresh : ℕ → ℝ) (zs xs ys : List ℝ) (e : ℝ)
    (he0 : 0 ≤ e) (he1 : e < 1) (h28 : 28 ≤ zs.length)
    (hz : ∀ j, 22 ≤ j → j ≤ 27 → zs[j]? = some 0) (hl : xs.length = ys.length) :
    ∃ S : ℝ → ℝ → ℝ,
      (∀ x y : ℝ, zernikeAnnularEval realMath ⟨1, zs⟩ ⟨1, [x]⟩ ⟨1, [y]⟩ e = .ok [S x y])
      ∧ ∃ gx gy : List ℝ,
        zernikeAnnularGrad realMath fresh ⟨1, zs⟩ ⟨1, xs⟩ ⟨1, ys⟩ e "dx" = .ok gx
        ∧ zernikeAnnularGrad realMath fresh ⟨1, zs⟩ ⟨1, xs⟩ ⟨1, ys⟩ e "dy" = .ok gy
        ∧ gx.length = xs.length ∧ gy.length = xs.length
        ∧ ∀ (i : ℕ) (x y : ℝ), xs[i]? = some x → ys[i]? = some y →
            ∃ a b : ℝ, gx[i]? = some a ∧ gy[i]? = some b
              ∧ HasDerivAt (fun x' => S x' y) a x ∧ HasDerivAt (fun y' => S x y') b y := by
  have hZ : ∀ j, 22 ≤ j → j ≤ 27 → (fun k => zs.getD k 0) j = 0 := by
    intro j h1 h2
    simp [List.getD_eq_getElem?_getD, hz j h1 h2]
  refine ⟨zernikeAnnularEvalPoint realMath (zernikeAnnularEvalConst realMath e)
    (fun k => zs.getD k 0), ?_, _, _,
    (zernikeAnnularGrad_ok fresh ⟨1, zs⟩ ⟨1, xs⟩ ⟨1, ys⟩ e rfl rfl rfl (by simp; omega)
      (by simp [hl])).1,
    (zernikeAnnularGrad_ok fresh ⟨1, zs⟩ ⟨1, xs⟩ ⟨1, ys⟩ e rfl rfl rfl (by simp; omega)
      (by simp [hl])).2.1, by simp [hl], by simp [hl], ?_⟩
  · intro x y
    rw [zernikeAnnularEval_ok _ _ _ _ rfl rfl rfl h28 (by simp)]
    rfl
  · intro i x y hx hy
    refine ⟨zernikeAnnularGrad_dx (zernikeAnnularGradConst realMath e)
        (fun k => zs.getD k 0) x y,
      zernikeAnnularGrad_dy (zernikeAnnularGradConst realMath e) (fun k => zs.getD k 0) x y,
      by simp only [List.getElem?_zipWith, hx, hy],
      by simp only [List.getElem?_zipWith, hx, hy], ?_⟩
    simp only [zernikeAnnularEvalPoint_eq_cartesian, zernikeAnnularGradConst_eq]
    exact ⟨hasDerivAt_cartesian_x _ _ x y hZ, hasDerivAt_cartesian_y _ _ x y hZ⟩

/-- Witness for C22: the coefficients are `1` on the modes `0..21` and `0` on `22..27`,
`e = 1/2`, the samples are `(0, 0)` and `(1, 2)`. -/
theorem zernikeAnnularGrad_matches_surface_witness :
    ∃ S : ℝ → ℝ → ℝ,
      (∀ x y : ℝ,
        zernikeAnnularEval realMath ⟨1, List.replicate 22 1 ++ List.replicate 6 0⟩ ⟨1, [x]⟩
          ⟨1, [y]⟩ (1 / 2) = .ok [S x y])
      ∧ ∃ gx gy : List ℝ,
        zernikeAnnularGrad realMath (fun _ => 0) ⟨1, List.replicate 22 1 ++ List.replicate 6 0⟩
            ⟨1, [0, 1]⟩ ⟨1, [0, 2]⟩ (1 / 2) "dx" = .ok gx
        ∧ zernikeAnnularGrad realMath (fun _ => 0)
            ⟨1, List.replicate 22 1 ++ List.replicate 6 0⟩ ⟨1, [0, 1]⟩ ⟨1, [0, 2]⟩ (1 / 2) "dy"
          = .ok gy
        ∧ gx.length = 2 ∧ gy.length = 2
        ∧ ∀ (i : ℕ) (x y : ℝ), ([0, 1] : List ℝ)[i]? = some x → ([0, 2] : List ℝ)[i]? = some y →
            ∃ a b : ℝ, gx[i]? = some a ∧ gy[i]? = some b
              ∧ HasDerivAt (fun x' => S x' y) a x ∧ HasDerivAt (fun y' => S x y') b y :=
  zernikeAnnularGrad_matches_surface (fun _ => 0) (List.replicate 22 1 ++ List.replicate 6 0)
    [0, 1] [0, 2] (1 / 2) (by norm_num) (by norm_num) (by simp)
    (fun j h1 h2 => by
      rw [List.getElem?_append_right (by simp; omega), List.getElem?_replicate,
        if_pos (by simp; omega)])
    rfl

/-! ## C25: orthogonality of the modes without angular factor -/

section RadialOrthogonality

open MeasureTheory

set_option maxHeartbeats 4000000

/-- C25: the basis functions without angular factor (modes 0, 3, 10, 21) are mutually
orthogonal over the annulus: for `0 ≤ e < 1` and distinct `j`, `k` among them the integral
over `r` from `e` to `1` of `R_j r * R_k r * r` is zero, where `R_k r` is the surface for the
unit coefficient vector at `k` at the point `(r, 0)`; in particular the modes 3, 10 and 21
have zero mean over the annulus. -/
theorem radial_modes_orthogonal (e : ℝ) (he0 : 0 ≤ e) (he1 : e < 1) (j k : ℕ)
    (hj : j = 0 ∨ j = 3 ∨ j = 10 ∨ j = 21) (hk : k = 0 ∨ k = 3 ∨ k = 10 ∨ k = 21)
    (hjk : j ≠ k) :
    (∫ r in e..1,
        zernikeAnnularEvalPoint realMath (zernikeAnnularEvalConst realMath e) (unitCoeff j) r 0
          * zernikeAnnularEvalPoint realMath (zernikeAnnularEvalConst realMath e) (unitCoeff k)
            r 0 * r) = 0
    ∧ ∀ m, m = 3 ∨ m = 10 ∨ m = 21 →
        1 / (Real.pi * (1 - e ^ 2)) * ∫ p in annulus e,
          zernikeAnnularEvalPoint realMath (zernikeAnnularEvalConst realMath e) (unitCoeff m)
            p.1 p.2 = 0 := by
  -- the surface of a mode without angular factor is a polynomial in `x^2 + y^2`
  have hmodes : ∀ (c : EvalConst ℝ) (x y : ℝ),
      zernikeAnnularEvalPoint realMath c (unitCoeff 0) x y = 1
      ∧ zernikeAnnularEvalPoint realMath c (unitCoeff 3) x y
        = c.sqrt_3 * (2 * (x ^ 2 + y ^ 2) - 1 - c.e2) / c.den2
      ∧ zernikeAnnularEvalPoint realMath c (unitCoeff 10) x y
        = c.sqrt_5 * (6 * (x ^ 2 + y ^ 2) ^ 2 - 6 * (x ^ 2 + y ^ 2) + 1 + c.e4
            + c.e2 * (4 - 6 * (x ^ 2 + y ^ 2))) / c.den6
      ∧ zernikeAnnularEvalPoint realMath c (unitCoeff 21) x y
        = c.sqrt_7 * (20 * (x ^ 2 + y ^ 2) ^ 3 - 30 * (x ^ 2 + y ^ 2) ^ 2
            + 12 * (x ^ 2 + y ^ 2) - 1 - c.e6 + 3 * c.e4 * (-3 + 4 * (x ^ 2 + y ^ 2))
            - 3 * c.e2 * (3 - 12 * (x ^ 2 + y ^ 2) + 10 * (x ^ 2 + y ^ 2) ^ 2))
          / c.den12 := by
    intro c x y
    simp only [zernikeAnnularEvalPoint_eq_cartesian]
    refine ⟨?_, ?_, ?_, ?_⟩ <;> simp [zernikeAnnularCartesian, unitCoeff]
  -- on the `x` axis: an even polynomial in `r`, with its coefficients
  have hcoeffs : ∀ (c : EvalConst ℝ) (r : ℝ),
      zernikeAnnularEvalPoint realMath c (unitCoeff 0) r 0
        = 1 + 0 * r ^ 2 + 0 * r ^ 4 + 0 * r ^ 6
      ∧ zernikeAnnularEvalPoint realMath c (unitCoeff 3) r 0
        = c.sqrt_3 * (-1 - c.e2) / c.den2 + c.sqrt_3 * 2 / c.den2 * r ^ 2
          + 0 * r ^ 4 + 0 * r ^ 6
      ∧ zernikeAnnularEvalPoint realMath c (unitCoeff 10) r 0
        = c.sqrt_5 * (1 + c.e4 + 4 * c.e2) / c.den6
          + c.sqrt_5 * (-6 - 6 * c.e2) / c.den6 * r ^ 2
          + c.sqrt_5 * 6 / c.den6 * r ^ 4 + 0 * r ^ 6
      ∧ zernikeAnnularEvalPoint realMath c (unitCoeff 21) r 0
        = c.sqrt_7 * (-1 - c.e6 - 9 * c.e4 - 9 * c.e2) / c.den12
          + c.sqrt_7 * (12 + 12 * c.e4 + 36 * c.e2) / c.den12 * r ^ 2
          + c.sqrt_7 * (-30 - 30 * c.e2) / c.den12 * r ^ 4
          + c.sqrt_7 * 20 / c.den12 * r ^ 6 := by
    intro c r
    obtain ⟨h0, h3, h10, h21⟩ := hmodes c r 0
    rw [h0, h3, h10, h21]
    refine ⟨?_, ?_, ?_, ?_⟩ <;> ring
  -- the integral of `r` times the product of two even polynomials of degree at most six
  have hinner : ∀ (f g : ℝ → ℝ) (a0 a2 a4 a6 b0 b2 b4 b6 lo hi : ℝ),
      (∀ r, f r = a0 + a2 * r ^ 2 + a4 * r ^ 4 + a6 * r ^ 6) →
      (∀ r, g r = b0 + b2 * r ^ 2 + b4 * r ^ 4 + b6 * r ^ 6) →
      ∫ r in lo..hi, f r * g r * r
        = 1 / 4 * ((radialPrimitive (a0 + b0) 0 (a2 + b2) 0 (a4 + b4) 0 (a6 + b6) hi
              - radialPrimitive (a0 + b0) 0 (a2 + b2) 0 (a4 + b4) 0 (a6 + b6) lo)
            - (radialPrimitive (a0 - b0) 0 (a2 - b2) 0 (a4 - b4) 0 (a6 - b6) hi
              - radialPrimitive (a0 - b0) 0 (a2 - b2) 0 (a4 - b4) 0 (a6 - b6) lo)) := by
    intro f g a0 a2 a4 a6 b0 b2 b4 b6 lo hi hf hg
    rw [← integral_radial_poly, ← integral_radial_poly, ← intervalIntegral.integral_sub,
      ← intervalIntegral.integral_const_mul]
    · congr 1
      funext r
      rw [hf, hg]
      ring
    · apply Continuous.intervalIntegrable
      fun_prop
    · apply Continuous.intervalIntegrable
      fun_prop
  -- the six radial inner products of two different modes among 0, 3, 10, 21 vanish
  have horth :
      (∫ r in e..1,
        zernikeAnnularEvalPoint realMath (zernikeAnnularEvalConst realMath e) (unitCoeff 0) r 0
          * zernikeAnnularEvalPoint realMath (zernikeAnnularEvalConst realMath e) (unitCoeff 3)
            r 0 * r) = 0
      ∧ (∫ r in e..1,
        zernikeAnnularEvalPoint realMath (zernikeAnnularEvalConst realMath e) (unitCoeff 0) r 0
          * zernikeAnnularEvalPoint realMath (zernikeAnnularEvalConst realMath e) (unitCoeff 10)
            r 0 * r) = 0
      ∧ (∫ r in e..1,
        zernikeAnnularEvalPoint realMath (zernikeAnnularEvalConst realMath e) (unitCoeff 0) r 0
          * zernikeAnnularEvalPoint realMath (zernikeAnnularEvalConst realMath e) (unitCoeff 21)
            r 0 * r) = 0
      ∧ (∫ r in e..1,
        zernikeAnnularEvalPoint realMath (zernikeAnnularEvalConst realMath e) (unitCoeff 3) r 0
          * zernikeAnnularEvalPoint realMath (zernikeAnnularEvalConst realMath e) (unitCoeff 10)
            r 0 * r) = 0
      ∧ (∫ r in e..1,
        zernikeAnnularEvalPoint realMath (zernikeAnnularEvalConst realMath e) (unitCoeff 3) r 0
          * zernikeAnnularEvalPoint realMath (zernikeAnnularEvalConst realMath e) (unitCoeff 21)
            r 0 * r) = 0
      ∧ (∫ r in e..1,
        zernikeAnnularEvalPoint realMath (zernikeAnnularEvalConst realMath e) (unitCoeff 10) r 0
          * zernikeAnnularEvalPoint realMath (zernikeAnnularEvalConst realMath e) (unitCoeff 21)
            r 0 * r) = 0 := by
    have hc := hcoeffs (zernikeAnnularEvalConst realMath e)
    have h2 : (zernikeAnnularEvalConst realMath e).e2 = e ^ 2 := rfl
    have h4 : (zernikeAnnularEvalConst realMath e).e4 = e ^ 4 := by
      simp only [zernikeAnnularEvalConst]
      ring
    have h6 : (zernikeAnnularEvalConst realMath e).e6 = e ^ 6 := by
      simp only [zernikeAnnularEvalConst]
      ring
    generalize zernikeAnnularEvalConst realMath e = c at hc h2 h4 h6 ⊢
    refine ⟨?_, ?_, ?_, ?_, ?_, ?_⟩
    · rw [hinner _ _ _ _ _ _ _ _ _ _ e 1 (fun r => (hc r).1) (fun r => (hc r).2.1)]
      simp only [radialPrimitive, h2, h4, h6]
      ring
    · rw [hinner _ _ _ _ _ _ _ _ _ _ e 1 (fun r => (hc r).1) (fun r => (hc r).2.2.1)]
      simp only [radialPrimitive, h2, h4, h6]
      ring
    · rw [hinner _ _ _ _ _ _ _ _ _ _ e 1 (fun r => (hc r).1) (fun r => (hc r).2.2.2)]
      simp only [radialPrimitive, h2, h4, h6]
      ring
    · rw [hinner _ _ _ _ _ _ _ _ _ _ e 1 (fun r => (hc r).2.1) (fun r => (hc r).2.2.1)]
      simp only [radialPrimitive, h2, h4, h6]
      ring
    · rw [hinner _ _ _ _ _ _ _ _ _ _ e 1 (fun r => (hc r).2.1) (fun r => (hc r).2.2.2)]
      simp only [radialPrimitive, h2, h4, h6]
      ring
    · rw [hinner _ _ _ _ _ _ _ _ _ _ e 1 (fun r => (hc r).2.2.1) (fun r => (hc r).2.2.2)]
      simp only [radialPrimitive, h2, h4, h6]
      ring
  obtain ⟨o03, o010, o021, o310, o321, o1021⟩ := horth
  -- the modes 3, 10, 21 have integral zero over the annulus
  have hmean : ∀ m, m = 3 ∨ m = 10 ∨ m = 21 →
      ∫ p in annulus e,
        zernikeAnnularEvalPoint realMath (zernikeAnnularEvalConst realMath e) (unitCoeff m)
          p.1 p.2 = 0 := by
    intro m hm
    have hpol : ∀ r θ : ℝ, (r * Real.cos θ) ^ 2 + (r * Real.sin θ) ^ 2 = r ^ 2 + 0 ^ 2 := by
      intro r θ
      have := Real.sin_sq_add_cos_sq θ
      linear_combination r ^ 2 * this
    have hsame : ∀ r θ : ℝ,
        zernikeAnnularEvalPoint realMath (zernikeAnnularEvalConst realMath e) (unitCoeff m)
            (r * Real.cos θ) (r * Real.sin θ)
          = zernikeAnnularEvalPoint realMath (zernikeAnnularEvalConst realMath e) (unitCoeff m)
            r 0 * 1 := by
      intro r θ
      obtain ⟨_, a3, a10, a21⟩ := hmodes (zernikeAnnularEvalConst realMath e)
        (r * Real.cos θ) (r * Real.sin θ)
      obtain ⟨_, b3, b10, b21⟩ := hmodes (zernikeAnnularEvalConst realMath e) r 0
      rcases hm with rfl | rfl | rfl
      · rw [a3, b3, hpol, mul_one]
      · rw [a10, b10, hpol, mul_one]
      · rw [a21, b21, hpol, mul_one]
    rw [integral_annulus_polar e he0 he1.le _
      (fun r => zernikeAnnularEvalPoint realMath (zernikeAnnularEvalConst realMath e)
        (unitCoeff m) r 0) (fun _ => 1) (fun r θ _ _ _ => hsame r θ)]
    have h0 : ∀ r : ℝ,
        zernikeAnnularEvalPoint realMath (zernikeAnnularEvalConst realMath e) (unitCoeff 0) r 0
          = 1 := fun r => (hmodes _ r 0).1
    have hzero : (∫ r in e..1, r * zernikeAnnularEvalPoint realMath
        (zernikeAnnularEvalConst realMath e) (unitCoeff m) r 0) = 0 := by
      have p3 := o03
      have p10 := o010
      have p21 := o021
      simp only [h0, one_mul] at p3 p10 p21
      have hswap : (fun r : ℝ => r * zernikeAnnularEvalPoint realMath
            (zernikeAnnularEvalConst realMath e) (unitCoeff m) r 0)
          = fun r : ℝ => zernikeAnnularEvalPoint realMath
            (zernikeAnnularEvalConst realMath e) (unitCoeff m) r 0 * r := by
        funext r
        ring
      rw [hswap]
      rcases hm with rfl | rfl | rfl
      · exact p3
      · exact p10
      · exact p21
    rw [hzero, zero_mul]
  have hcomm : ∀ a b : ℕ,
      (∫ r in e..1,
        zernikeAnnularEvalPoint realMath (zernikeAnnularEvalConst realMath e) (unitCoeff a) r 0
          * zernikeAnnularEvalPoint realMath (zernikeAnnularEvalConst realMath e) (unitCoeff b)
            r 0 * r)
      = ∫ r in e..1,
        zernikeAnnularEvalPoint realMath (zernikeAnnularEvalConst realMath e) (unitCoeff b) r 0
          * zernikeAnnularEvalPoint realMath (zernikeAnnularEvalConst realMath e) (unitCoeff a)
            r 0 * r := by
    intro a b
    congr 1
    funext r
    ring
  refine ⟨?_, fun m hm => by rw [hmean m hm, mul_zero]⟩
  rcases hj with rfl | rfl | rfl | rfl <;> rcases hk with rfl | rfl | rfl | rfl
  · exact absurd rfl hjk
  · exact o03
  · exact o010
  · exact o021
  · rw [hcomm]; exact o03
  · exact absurd rfl hjk
  · exact o310
  · exact o321
  · rw [hcomm]; exact o010
  · rw [hcomm]; exact o310
  · exact absurd rfl hjk
  · exact o1021
  · rw [hcomm]; exact o021
  · rw [hcomm]; exact o321
  · rw [hcomm]; exact o1021
  · exact absurd rfl hjk

/-- Witness for C25: the modes 3 and 10, `e = 1/2`. -/
theorem radial_modes_orthogonal_witness :
    (∫ r in (1 / 2 : ℝ)..1,
        zernikeAnnularEvalPoint realMath (zernikeAnnularEvalConst realMath (1 / 2))
            (unitCoeff 3) r 0
          * zernikeAnnularEvalPoint realMath (zernikeAnnularEvalConst realMath (1 / 2))
            (unitCoeff 10) r 0 * r) = 0
    ∧ ∀ m, m = 3 ∨ m = 10 ∨ m = 21 →
        1 / (Real.pi * (1 - (1 / 2 : ℝ) ^ 2)) * ∫ p in annulus (1 / 2),
          zernikeAnnularEvalPoint realMath (zernikeAnnularEvalConst realMath (1 / 2))
            (unitCoeff m) p.1 p.2 = 0 :=
  radial_modes_orthogonal (1 / 2) (by norm_num) (by norm_num) 3 10 (by norm_num)
    (by norm_num) (by norm_num)

end RadialOrthogonality

/-! ## C27, C28: the second-order Jacobian term and the Hessian determinants -/

section HessianDeterminant

set_option maxHeartbeats 16000000

/-- The Hessian determinant of the gradient evaluator for the unit coefficient vector at mode
`k` against the `"2nd"` value of `zernikeAnnularJacobian`: they are equal for every mode
except 6 and 7, where the determinant is `1 + e^2` times the `"2nd"` value. -/
theorem hessian_det_modes (e x y : ℝ) (k : ℕ) (hk : k < 28) :
    zernikeAnnularGrad_dx2 (zernikeAnnularGradConst realMath e) (unitCoeff k) x y
        * zernikeAnnularGrad_dy2 (zernikeAnnularGradConst realMath e) (unitCoeff k) x y
      - zernikeAnnularGrad_dxy (zernikeAnnularGradConst realMath e) (unitCoeff k) x y ^ 2
      = (if k = 6 ∨ k = 7 then 1 + e ^ 2 else 1)
        * zernikeAnnularJacobian_2nd (zernikeAnnularJacobianConst realMath e) (unitCoeff k)
          x y := by
  -- the constants of the `"2nd"` branch in terms of the constants of the gradient
  have hconsts :
      ((zernikeAnnularJacobianConst realMath e).e2 = (zernikeAnnularGradConst realMath e).e2
        ∧ (zernikeAnnularJacobianConst realMath e).e4
          = (zernikeAnnularGradConst realMath e).e2 ^ 2
        ∧ (zernikeAnnularJacobianConst realMath e).e6
          = (zernikeAnnularGradConst realMath e).e2 ^ 3
        ∧ (zernikeAnnularJacobianConst realMath e).e8
          = (zernikeAnnularGradConst realMath e).e2 ^ 4
        ∧ (zernikeAnnularJacobianConst realMath e).e10
          = (zernikeAnnularGradConst realMath e).e2 ^ 5
        ∧ (zernikeAnnularJacobianConst realMath e).e12
          = (zernikeAnnularGradConst realMath e).e2 ^ 6
        ∧ (zernikeAnnularJacobianConst realMath e).e14
          = (zernikeAnnularGradConst realMath e).e2 ^ 7
        ∧ (zernikeAnnularJacobianConst realMath e).e16
          = (zernikeAnnularGradConst realMath e).e2 ^ 8
        ∧ (zernikeAnnularGradConst realMath e).e4
          = (zernikeAnnularGradConst realMath e).e2 ^ 2
        ∧ (zernikeAnnularGradConst realMath e).e6
          = (zernikeAnnularGradConst realMath e).e2 ^ 3
        ∧ (zernikeAnnularGradConst realMath e).e8
          = (zernikeAnnularGradConst realMath e).e2 ^ 4)
      ∧ ((zernikeAnnularJacobianConst realMath e).den1 = (zernikeAnnularGradConst realMath e).den2
        ∧ (zernikeAnnularJacobianConst realMath e).den2_2
          = (zernikeAnnularGradConst realMath e).den3 ^ 2
        ∧ (zernikeAnnularJacobianConst realMath e).den2_3
          = (zernikeAnnularGradConst realMath e).den4 ^ 2
        ∧ (zernikeAnnularJacobianConst realMath e).den2_4
          = (zernikeAnnularGradConst realMath e).den5 ^ 2
        ∧ (zernikeAnnularJacobianConst realMath e).den2_5
          = (zernikeAnnularGradConst realMath e).den6 ^ 2
        ∧ (zernikeAnnularJacobianConst realMath e).den2_6
          = (zernikeAnnularGradConst realMath e).den7 ^ 2
        ∧ (zernikeAnnularJacobianConst realMath e).num2_6
          = (zernikeAnnularGradConst realMath e).num7 ^ 2
        ∧ (zernikeAnnularJacobianConst realMath e).den2_7
          = (zernikeAnnularGradConst realMath e).den8 ^ 2
        ∧ (zernikeAnnularJacobianConst realMath e).den2_8
          = (zernikeAnnularGradConst realMath e).den9 ^ 2
        ∧ (zernikeAnnularJacobianConst realMath e).num2_8
          = (zernikeAnnularGradConst realMath e).num9 ^ 2
        ∧ (zernikeAnnularJacobianConst realMath e).den2_9
          = (zernikeAnnularGradConst realMath e).den10 ^ 2
        ∧ (zernikeAnnularJacobianConst realMath e).num2_9
          = (zernikeAnnularGradConst realMath e).num10 ^ 2
        ∧ (zernikeAnnularJacobianConst realMath e).den2_10
          = (zernikeAnnularGradConst realMath e).den11 ^ 2
        ∧ (zernikeAnnularJacobianConst realMath e).den2_11
          = (zernikeAnnularGradConst realMath e).den12 ^ 2)
      ∧ ((zernikeAnnularGradConst realMath e).sqrt_3 ^ 2 = 3
        ∧ (zernikeAnnularGradConst realMath e).sqrt_5 ^ 2 = 5
        ∧ (zernikeAnnularGradConst realMath e).sqrt_6 ^ 2 = 6
        ∧ (zernikeAnnularGradConst realMath e).sqrt_7 ^ 2 = 7
        ∧ (zernikeAnnularGradConst realMath e).sqrt_8 ^ 2 = 8
        ∧ (zernikeAnnularGradConst realMath e).sqrt_10 ^ 2 = 10
        ∧ (zernikeAnnularGradConst realMath e).sqrt_12 ^ 2 = 12) := by
    have hu : 0 ≤ e ^ 2 := by positivity
    refine ⟨⟨rfl, ?_, ?_, ?_, ?_, ?_, ?_, ?_, ?_, ?_, ?_⟩,
      ⟨rfl, ?_, ?_, ?_, ?_, ?_, ?_, ?_, ?_, ?_, ?_, ?_, ?_, ?_⟩, ⟨?_, ?_, ?_, ?_, ?_, ?_, ?_⟩⟩
    all_goals simp only [zernikeAnnularJacobianConst, zernikeAnnularGradConst, realMath]
    all_goals first
      | exact (Real.sq_sqrt (by positivity)).symm
      | exact Real.sq_sqrt (by norm_num)
      | ring
  by_cases h22 : 22 ≤ k
  · have hz : ∀ j, j ≤ 21 → (unitCoeff k : ℕ → ℝ) j = 0 := by
      intro j hj
      have : j ≠ k := by omega
      simp [unitCoeff, this]
    obtain ⟨_, _, h1, h2, h3⟩ :=
      grad_congr (zernikeAnnularGradConst realMath e) x y _ (fun _ => 0) hz
    have z1 : zernikeAnnularGrad_dx2 (zernikeAnnularGradConst realMath e) (fun _ => 0) x y
        = 0 := by
      simp [zernikeAnnularGrad_dx2]
    have z2 : zernikeAnnularGrad_dy2 (zernikeAnnularGradConst realMath e) (fun _ => 0) x y
        = 0 := by
      simp [zernikeAnnularGrad_dy2]
    have z3 : zernikeAnnularGrad_dxy (zernikeAnnularGradConst realMath e) (fun _ => 0) x y
        = 0 := by
      simp [zernikeAnnularGrad_dxy]
    rw [h1, h2, h3, z1, z2, z3, jacobian_2nd_zero _ x y _ hz]
    ring
  · have hk21 : k ≤ 21 := by omega
    clear h22 hk
    interval_cases k
    · rw [if_neg (by norm_num), one_mul]
      clear hconsts
      generalize zernikeAnnularJacobianConst realMath e = kJ at *
      generalize zernikeAnnularGradConst realMath e = kG at *
      simp only [zernikeAnnularJacobian_2nd, zernikeAnnularGrad_dx2, zernikeAnnularGrad_dy2,
        zernikeAnnularGrad_dxy]
      simp only [unitCoeff, ↓reduceIte, OfNat.ofNat_ne_zero, OfNat.ofNat_ne_one,
        Nat.reduceEqDiff, OfNat.zero_ne_ofNat, OfNat.one_ne_ofNat, one_ne_zero, zero_ne_one]
      simp only [zero_mul, mul_zero, zero_div, add_zero, zero_add, one_mul, one_pow, ne_eq,
        OfNat.ofNat_ne_zero, not_false_eq_true, zero_pow]
      ring
    · rw [if_neg (by norm_num), one_mul]
      clear hconsts
      generalize zernikeAnnularJacobianConst realMath e = kJ at *
      generalize zernikeAnnularGradConst realMath e = kG at *
      simp only [zernikeAnnularJacobian_2nd, zernikeAnnularGrad_dx2, zernikeAnnularGrad_dy2,
        zernikeAnnularGrad_dxy]
      simp only [unitCoeff, ↓reduceIte, OfNat.ofNat_ne_zero, OfNat.ofNat_ne_one,
        Nat.reduceEqDiff, OfNat.zero_ne_ofNat, OfNat.one_ne_ofNat, one_ne_zero, zero_ne_one]
      simp only [zero_mul, mul_zero, zero_div, add_zero, zero_add, one_mul, one_pow, ne_eq,
        OfNat.ofNat_ne_zero, not_false_eq_true, zero_pow]
      ring
    · rw [if_neg (by norm_num), one_mul]
      clear hconsts
      generalize zernikeAnnularJacobianConst realMath e = kJ at *
      generalize zernikeAnnularGradConst realMath e = kG at *
      simp only [zernikeAnnularJacobian_2nd, zernikeAnnularGrad_dx2, zernikeAnnularGrad_dy2,
        zernikeAnnularGrad_dxy]
      simp only [unitCoeff, ↓reduceIte, OfNat.ofNat_ne_zero, OfNat.ofNat_ne_one,
        Nat.reduceEqDiff, OfNat.zero_ne_ofNat, OfNat.one_ne_ofNat, one_ne_zero, zero_ne_one]
      simp only [zero_mul, mul_zero, zero_div, add_zero, zero_add, one_mul, one_pow, ne_eq,
        OfNat.ofNat_ne_zero, not_false_eq_true, zero_pow]
      ring
    · rw [if_neg (by norm_num), one_mul]
      obtain ⟨⟨a2, a4, a6, a8, a10, a12, a14, a16, g4, g6, g8⟩,
        ⟨b1, b2, b3, b4, b5, b6, n6, b7, b8, n8, b9, n9, b10, b11⟩,
        ⟨s3, s5, s6, s7, s8, s10, s12⟩⟩ := hconsts
      generalize zernikeAnnularJacobianConst realMath e = kJ at *
      generalize zernikeAnnularGradConst realMath e = kG at *
      have key : zernikeAnnularGrad_dx2 kG (unitCoeff 3) x y
              * zernikeAnnularGrad_dy2 kG (unitCoeff 3) x y
            - zernikeAnnularGrad_dxy kG (unitCoeff 3) x y ^ 2
          = kG.sqrt_3 ^ 2 * (zernikeAnnularJacobian_2nd kJ (unitCoeff 3) x y / 3) := by
        simp only [zernikeAnnularJacobian_2nd, zernikeAnnularGrad_dx2, zernikeAnnularGrad_dy2,
          zernikeAnnularGrad_dxy]
        simp only [unitCoeff, ↓reduceIte, OfNat.ofNat_ne_zero, OfNat.ofNat_ne_one,
          Nat.reduceEqDiff, OfNat.zero_ne_ofNat, OfNat.one_ne_ofNat, one_ne_zero, zero_ne_one]
        simp only [zero_mul, mul_zero, zero_div, add_zero, zero_add, one_mul, one_pow, ne_eq,
          OfNat.ofNat_ne_zero, not_false_eq_true, zero_pow]
        simp only [a2, a4, a6, a8, a10, a12, a14, a16, g4, g6, g8, b1, b2, b3, b4, b5, b6, n6, b7,
          b8, n8, b9, n9, b10, b11]
        ring
      rw [key, s3]
      ring
    · rw [if_neg (by norm_num), one_mul]
      obtain ⟨⟨a2, a4, a6, a8, a10, a12, a14, a16, g4, g6, g8⟩,
        ⟨b1, b2, b3, b4, b5, b6, n6, b7, b8, n8, b9, n9, b10, b11⟩,
        ⟨s3, s5, s6, s7, s8, s10, s12⟩⟩ := hconsts
      generalize zernikeAnnularJacobianConst realMath e = kJ at *
      generalize zernikeAnnularGradConst realMath e = kG at *
      have key : zernikeAnnularGrad_dx2 kG (unitCoeff 4) x y
              * zernikeAnnularGrad_dy2 kG (unitCoeff 4) x y
            - zernikeAnnularGrad_dxy kG (unitCoeff 4) x y ^ 2
          = kG.sqrt_6 ^ 2 * (zernikeAnnularJacobian_2nd kJ (unitCoeff 4) x y / 6) := by
        simp only [zernikeAnnularJacobian_2nd, zernikeAnnularGrad_dx2, zernikeAnnularGrad_dy2,
          zernikeAnnularGrad_dxy]
        simp only [unitCoeff, ↓reduceIte, OfNat.ofNat_ne_zero, OfNat.ofNat_ne_one,
          Nat.reduceEqDiff, OfNat.zero_ne_ofNat, OfNat.one_ne_ofNat, one_ne_zero, zero_ne_one]
        simp only [zero_mul, mul_zero, zero_div, add_zero, zero_add, one_mul, one_pow, ne_eq,
          OfNat.ofNat_ne_zero, not_false_eq_true, zero_pow]
        simp only [a2, a4, a6, a8, a10, a12, a14, a16, g4, g6, g8, b1, b2, b3, b4, b5, b6, n6, b7,
          b8, n8, b9, n9, b10, b11]
        ring
      rw [key, s6]
      ring
    · rw [if_neg (by norm_num), one_mul]
      obtain ⟨⟨a2, a4, a6, a8, a10, a12, a14, a16, g4, g6, g8⟩,
        ⟨b1, b2, b3, b4, b5, b6, n6, b7, b8, n8, b9, n9, b10, b11⟩,
        ⟨s3, s5, s6, s7, s8, s10, s12⟩⟩ := hconsts
      generalize zernikeAnnularJacobianConst realMath e = kJ at *
      generalize zernikeAnnularGradConst realMath e = kG at *
      have key : zernikeAnnularGrad_dx2 kG (unitCoeff 5) x y
              * zernikeAnnularGrad_dy2 kG (unitCoeff 5) x y
            - zernikeAnnularGrad_dxy kG (unitCoeff 5) x y ^ 2
          = kG.sqrt_6 ^ 2 * (zernikeAnnularJacobian_2nd kJ (unitCoeff 5) x y / 6) := by
        simp only [zernikeAnnularJacobian_2nd, zernikeAnnularGrad_dx2, zernikeAnnularGrad_dy2,
          zernikeAnnularGrad_dxy]
        simp only [unitCoeff, ↓reduceIte, OfNat.ofNat_ne_zero, OfNat.ofNat_ne_one,
          Nat.reduceEqDiff, OfNat.zero_ne_ofNat, OfNat.one_ne_ofNat, one_ne_zero, zero_ne_one]
        simp only [zero_mul, mul_zero, zero_div, add_zero, zero_add, one_mul, one_pow, ne_eq,
          OfNat.ofNat_ne_zero, not_false_eq_true, zero_pow]
        simp only [a2, a4, a6, a8, a10, a12, a14, a16, g4, g6, g8, b1, b2, b3, b4, b5, b6, n6, b7,
          b8, n8, b9, n9, b10, b11]
        ring
      rw [key, s6]
      ring
    · rw [if_pos (by norm_num)]
      obtain ⟨⟨a2, a4, a6, a8, a10, a12, a14, a16, g4, g6, g8⟩,
        ⟨b1, b2, b3, b4, b5, b6, n6, b7, b8, n8, b9, n9, b10, b11⟩,
        ⟨s3, s5, s6, s7, s8, s10, s12⟩⟩ := hconsts
      have he : (zernikeAnnularGradConst realMath e).e2 = e ^ 2 := rfl
      generalize zernikeAnnularJacobianConst realMath e = kJ at *
      generalize zernikeAnnularGradConst realMath e = kG at *
      have key : zernikeAnnularGrad_dx2 kG (unitCoeff 6) x y
              * zernikeAnnularGrad_dy2 kG (unitCoeff 6) x y
            - zernikeAnnularGrad_dxy kG (unitCoeff 6) x y ^ 2
          = kG.sqrt_8 ^ 2
            * ((1 + kG.e2) * zernikeAnnularJacobian_2nd kJ (unitCoeff 6) x y / 8) := by
        simp only [zernikeAnnularJacobian_2nd, zernikeAnnularGrad_dx2, zernikeAnnularGrad_dy2,
          zernikeAnnularGrad_dxy]
        simp only [unitCoeff, ↓reduceIte, OfNat.ofNat_ne_zero, OfNat.ofNat_ne_one,
          Nat.reduceEqDiff, OfNat.zero_ne_ofNat, OfNat.one_ne_ofNat, one_ne_zero, zero_ne_one]
        simp only [zero_mul, mul_zero, zero_div, add_zero, zero_add, one_mul, one_pow, ne_eq,
          OfNat.ofNat_ne_zero, not_false_eq_true, zero_pow]
        simp only [a2, a4, a6, a8, a10, a12, a14, a16, g4, g6, g8, b1, b2, b3, b4, b5, b6, n6, b7,
          b8, n8, b9, n9, b10, b11]
        ring
      rw [key, s8, he]
      ring
    · rw [if_pos (by norm_num)]
      obtain ⟨⟨a2, a4, a6, a8, a10, a12, a14, a16, g4, g6, g8⟩,
        ⟨b1, b2, b3, b4, b5, b6, n6, b7, b8, n8, b9, n9, b10, b11⟩,
        ⟨s3, s5, s6, s7, s8, s10, s12⟩⟩ := hconsts
      have he : (zernikeAnnularGradConst realMath e).e2 = e ^ 2 := rfl
      generalize zernikeAnnularJacobianConst realMath e = kJ at *
      generalize zernikeAnnularGradConst realMath e = kG at *
      have key : zernikeAnnularGrad_dx2 kG (unitCoeff 7) x y
              * zernikeAnnularGrad_dy2 kG (unitCoeff 7) x y
            - zernikeAnnularGrad_dxy kG (unitCoeff 7) x y ^ 2
          = kG.sqrt_8 ^ 2
            * ((1 + kG.e2) * zernikeAnnularJacobian_2nd kJ (unitCoeff 7) x y / 8) := by
        simp only [zernikeAnnularJacobian_2nd, zernikeAnnularGrad_dx2, zernikeAnnularGrad_dy2,
          zernikeAnnularGrad_dxy]
        simp only [unitCoeff, ↓reduceIte, OfNat.ofNat_ne_zero, OfNat.ofNat_ne_one,
          Nat.reduceEqDiff, OfNat.zero_ne_ofNat, OfNat.one_ne_ofNat, one_ne_zero, zero_ne_one]
        simp only [zero_mul, mul_zero, zero_div, add_zero, zero_add, one_mul, one_pow, ne_eq,
          OfNat.ofNat_ne_zero, not_false_eq_true, zero_pow]
        simp only [a2, a4, a6, a8, a10, a12, a14, a16, g4, g6, g8, b1, b2, b3, b4, b5, b6, n6, b7,
          b8, n8, b9, n9, b10, b11]
        ring
      rw [key, s8, he]
      ring
    · rw [if_neg (by norm_num), one_mul]
      obtain ⟨⟨a2, a4, a6, a8, a10, a12, a14, a16, g4, g6, g8⟩,
        ⟨b1, b2, b3, b4, b5, b6, n6, b7, b8, n8, b9, n9, b10, b11⟩,
        ⟨s3, s5, s6, s7, s8, s10, s12⟩⟩ := hconsts
      generalize zernikeAnnularJacobianConst realMath e = kJ at *
      generalize zernikeAnnularGradConst realMath e = kG at *
      have key : zernikeAnnularGrad_dx2 kG (unitCoeff 8) x y
              * zernikeAnnularGrad_dy2 kG (unitCoeff 8) x y
            - zernikeAnnularGrad_dxy kG (unitCoeff 8) x y ^ 2
          = kG.sqrt_8 ^ 2 * (zernikeAnnularJacobian_2nd kJ (unitCoeff 8) x y / 8) := by
        simp only [zernikeAnnularJacobian_2nd, zernikeAnnularGrad_dx2, zernikeAnnularGrad_dy2,
          zernikeAnnularGrad_dxy]
        simp only [unitCoeff, ↓reduceIte, OfNat.ofNat_ne_zero, OfNat.ofNat_ne_one,
          Nat.reduceEqDiff, OfNat.zero_ne_ofNat, OfNat.one_ne_ofNat, one_ne_zero, zero_ne_one]
        simp only [zero_mul, mul_zero, zero_div, add_zero, zero_add, one_mul, one_pow, ne_eq,
          OfNat.ofNat_ne_zero, not_false_eq_true, zero_pow]
        simp only [a2, a4, a6, a8, a10, a12, a14, a16, g4, g6, g8, b1, b2, b3, b4, b5, b6, n6, b7,
          b8, n8, b9, n9, b10, b11]
        ring
      rw [key, s8]
      ring
    · rw [if_neg (by norm_num), one_mul]
      obtain ⟨⟨a2, a4, a6, a8, a10, a12, a14, a16, g4, g6, g8⟩,
        ⟨b1, b2, b3, b4, b5, b6, n6, b7, b8, n8, b9, n9, b10, b11⟩,
        ⟨s3, s5, s6, s7, s8, s10, s12⟩⟩ := hconsts
      generalize zernikeAnnularJacobianConst realMath e = kJ at *
      generalize zernikeAnnularGradConst realMath e = kG at *
      have key : zernikeAnnularGrad_dx2 kG (unitCoeff 9) x y
              * zernikeAnnularGrad_dy2 kG (unitCoeff 9) x y
            - zernikeAnnularGrad_dxy kG (unitCoeff 9) x y ^ 2
          = kG.sqrt_8 ^ 2 * (zernikeAnnularJacobian_2nd kJ (unitCoeff 9) x y / 8) := by
        simp only [zernikeAnnularJacobian_2nd, zernikeAnnularGrad_dx2, zernikeAnnularGrad_dy2,
          zernikeAnnularGrad_dxy]
        simp only [unitCoeff, ↓reduceIte, OfNat.ofNat_ne_zero, OfNat.ofNat_ne_one,
          Nat.reduceEqDiff, OfNat.zero_ne_ofNat, OfNat.one_ne_ofNat, one_ne_zero, zero_ne_one]
        simp only [zero_mul, mul_zero, zero_div, add_zero, zero_add, one_mul, one_pow, ne_eq,
          OfNat.ofNat_ne_zero, not_false_eq_true, zero_pow]
        simp only [a2, a4, a6, a8, a10, a12, a14, a16, g4, g6, g8, b1, b2, b3, b4, b5, b6, n6, b7,
          b8, n8, b9, n9, b10, b11]
        ring
      rw [key, s8]
      ring
    · rw [if_neg (by norm_num), one_mul]
      obtain ⟨⟨a2, a4, a6, a8, a10, a12, a14, a16, g4, g6, g8⟩,
        ⟨b1, b2, b3, b4, b5, b6, n6, b7, b8, n8, b9, n9, b10, b11⟩,
        ⟨s3, s5, s6, s7, s8, s10, s12⟩⟩ := hconsts
      generalize zernikeAnnularJacobianConst realMath e = kJ at *
      generalize zernikeAnnularGradConst realMath e = kG at *
      have key : zernikeAnnularGrad_dx2 kG (unitCoeff 10) x y
              * zernikeAnnularGrad_dy2 kG (unitCoeff 10) x y
            - zernikeAnnularGrad_dxy kG (unitCoeff 10) x y ^ 2
          = kG.sqrt_5 ^ 2 * (zernikeAnnularJacobian_2nd kJ (unitCoeff 10) x y / 5) := by
        simp only [zernikeAnnularJacobian_2nd, zernikeAnnularGrad_dx2, zernikeAnnularGrad_dy2,
          zernikeAnnularGrad_dxy]
        simp only [unitCoeff, ↓reduceIte, OfNat.ofNat_ne_zero, OfNat.ofNat_ne_one,
          Nat.reduceEqDiff, OfNat.zero_ne_ofNat, OfNat.one_ne_ofNat, one_ne_zero, zero_ne_one]
        simp only [zero_mul, mul_zero, zero_div, add_zero, zero_add, one_mul, one_pow, ne_eq,
          OfNat.ofNat_ne_zero, not_false_eq_true, zero_pow]
        simp only [a2, a4, a6, a8, a10, a12, a14, a16, g4, g6, g8, b1, b2, b3, b4, b5, b6, n6, b7,
          b8, n8, b9, n9, b10, b11]
        ring
      rw [key, s5]
      ring
    · rw [if_neg (by norm_num), one_mul]
      obtain ⟨⟨a2, a4, a6, a8, a10, a12, a14, a16, g4, g6, g8⟩,
        ⟨b1, b2, b3, b4, b5, b6, n6, b7, b8, n8, b9, n9, b10, b11⟩,
        ⟨s3, s5, s6, s7, s8, s10, s12⟩⟩ := hconsts
      generalize zernikeAnnularJacobianConst realMath e = kJ at *
      generalize zernikeAnnularGradConst realMath e = kG at *
      have key : zernikeAnnularGrad_dx2 kG (unitCoeff 11) x y
              * zernikeAnnularGrad_dy2 kG (unitCoeff 11) x y
            - zernikeAnnularGrad_dxy kG (unitCoeff 11) x y ^ 2
          = kG.sqrt_10 ^ 2 * (zernikeAnnularJacobian_2nd kJ (unitCoeff 11) x y / 10) := by
        simp only [zernikeAnnularJacobian_2nd, zernikeAnnularGrad_dx2, zernikeAnnularGrad_dy2,
          zernikeAnnularGrad_dxy]
        simp only [unitCoeff, ↓reduceIte, OfNat.ofNat_ne_zero, OfNat.ofNat_ne_one,
          Nat.reduceEqDiff, OfNat.zero_ne_ofNat, OfNat.one_ne_ofNat, one_ne_zero, zero_ne_one]
        simp only [zero_mul, mul_zero, zero_div, add_zero, zero_add, one_mul, one_pow, ne_eq,
          OfNat.ofNat_ne_zero, not_false_eq_true, zero_pow]
        simp only [a2, a4, a6, a8, a10, a12, a14, a16, g4, g6, g8, b1, b2, b3, b4, b5, b6, n6, b7,
          b8, n8, b9, n9, b10, b11]
        ring
      rw [key, s10]
      ring
    · rw [if_neg (by norm_num), one_mul]
      obtain ⟨⟨a2, a4, a6, a8, a10, a12, a14, a16, g4, g6, g8⟩,
        ⟨b1, b2, b3, b4, b5, b6, n6, b7, b8, n8, b9, n9, b10, b11⟩,
        ⟨s3, s5, s6, s7, s8, s10, s12⟩⟩ := hconsts
      generalize zernikeAnnularJacobianConst realMath e = kJ at *
      generalize zernikeAnnularGradConst realMath e = kG at *
      have key : zernikeAnnularGrad_dx2 kG (unitCoeff 12) x y
              * zernikeAnnularGrad_dy2 kG (unitCoeff 12) x y
            - zernikeAnnularGrad_dxy kG (unitCoeff 12) x y ^ 2
          = kG.sqrt_10 ^ 2 * (zernikeAnnularJacobian_2nd kJ (unitCoeff 12) x y / 10) := by
        simp only [zernikeAnnularJacobian_2nd, zernikeAnnularGrad_dx2, zernikeAnnularGrad_dy2,
          zernikeAnnularGrad_dxy]
        simp only [unitCoeff, ↓reduceIte, OfNat.ofNat_ne_zero, OfNat.ofNat_ne_one,
          Nat.reduceEqDiff, OfNat.zero_ne_ofNat, OfNat.one_ne_ofNat, one_ne_zero, zero_ne_one]
        simp only [zero_mul, mul_zero, zero_div, add_zero, zero_add, one_mul, one_pow, ne_eq,
          OfNat.ofNat_ne_zero, not_false_eq_true, zero_pow]
        simp only [a2, a4, a6, a8, a10, a12, a14, a16, g4, g6, g8, b1, b2, b3, b4, b5, b6, n6, b7,
          b8, n8, b9, n9, b10, b11]
        ring
      rw [key, s10]
      ring
    · rw [if_neg (by norm_num), one_mul]
      obtain ⟨⟨a2, a4, a6, a8, a10, a12, a14, a16, g4, g6, g8⟩,
        ⟨b1, b2, b3, b4, b5, b6, n6, b7, b8, n8, b9, n9, b10, b11⟩,
        ⟨s3, s5, s6, s7, s8, s10, s12⟩⟩ := hconsts
      generalize zernikeAnnularJacobianConst realMath e = kJ at *
      generalize zernikeAnnularGradConst realMath e = kG at *
      have key : zernikeAnnularGrad_dx2 kG (unitCoeff 13) x y
              * zernikeAnnularGrad_dy2 kG (unitCoeff 13) x y
            - zernikeAnnularGrad_dxy kG (unitCoeff 13) x y ^ 2
          = kG.sqrt_10 ^ 2 * (zernikeAnnularJacobian_2nd kJ (unitCoeff 13) x y / 10) := by
        simp only [zernikeAnnularJacobian_2nd, zernikeAnnularGrad_dx2, zernikeAnnularGrad_dy2,
          zernikeAnnularGrad_dxy]
        simp only [unitCoeff, ↓reduceIte, OfNat.ofNat_ne_zero, OfNat.ofNat_ne_one,
          Nat.reduceEqDiff, OfNat.zero_ne_ofNat, OfNat.one_ne_ofNat, one_ne_zero, zero_ne_one]
        simp only [zero_mul, mul_zero, zero_div, add_zero, zero_add, one_mul, one_pow, ne_eq,
          OfNat.ofNat_ne_zero, not_false_eq_true, zero_pow]
        simp only [a2, a4, a6, a8, a10, a12, a14, a16, g4, g6, g8, b1, b2, b3, b4, b5, b6, n6, b7,
          b8, n8, b9, n9, b10, b11]
        ring
      rw [key, s10]
      ring
    · rw [if_neg (by norm_num), one_mul]
      obtain ⟨⟨a2, a4, a6, a8, a10, a12, a14, a16, g4, g6, g8⟩,
        ⟨b1, b2, b3, b4, b5, b6, n6, b7, b8, n8, b9, n9, b10, b11⟩,
        ⟨s3, s5, s6, s7, s8, s10, s12⟩⟩ := hconsts
      generalize zernikeAnnularJacobianConst realMath e = kJ at *
      generalize zernikeAnnularGradConst realMath e = kG at *
      have key : zernikeAnnularGrad_dx2 kG (unitCoeff 14) x y
              * zernikeAnnularGrad_dy2 kG (unitCoeff 14) x y
            - zernikeAnnularGrad_dxy kG (unitCoeff 14) x y ^ 2
          = kG.sqrt_10 ^ 2 * (zernikeAnnularJacobian_2nd kJ (unitCoeff 14) x y / 10) := by
        simp only [zernikeAnnularJacobian_2nd, zernikeAnnularGrad_dx2, zernikeAnnularGrad_dy2,
          zernikeAnnularGrad_dxy]
        simp only [unitCoeff, ↓reduceIte, OfNat.ofNat_ne_zero, OfNat.ofNat_ne_one,
          Nat.reduceEqDiff, OfNat.zero_ne_ofNat, OfNat.one_ne_ofNat, one_ne_zero, zero_ne_one]
        simp only [zero_mul, mul_zero, zero_div, add_zero, zero_add, one_mul, one_pow, ne_eq,
          OfNat.ofNat_ne_zero, not_false_eq_true, zero_pow]
        simp only [a2, a4, a6, a8, a10, a12, a14, a16, g4, g6, g8, b1, b2, b3, b4, b5, b6, n6, b7,
          b8, n8, b9, n9, b10, b11]
        ring
      rw [key, s10]
      ring
    · rw [if_neg (by norm_num), one_mul]
      obtain ⟨⟨a2, a4, a6, a8, a10, a12, a14, a16, g4, g6, g8⟩,
        ⟨b1, b2, b3, b4, b5, b6, n6, b7, b8, n8, b9, n9, b10, b11⟩,
        ⟨s3, s5, s6, s7, s8, s10, s12⟩⟩ := hconsts
      generalize zernikeAnnularJacobianConst realMath e = kJ at *
      generalize zernikeAnnularGradConst realMath e = kG at *
      have key : zernikeAnnularGrad_dx2 kG (unitCoeff 15) x y
              * zernikeAnnularGrad_dy2 kG (unitCoeff 15) x y
            - zernikeAnnularGrad_dxy kG (unitCoeff 15) x y ^ 2
          = kG.sqrt_12 ^ 2 * (zernikeAnnularJacobian_2nd kJ (unitCoeff 15) x y / 12) := by
        simp only [zernikeAnnularJacobian_2nd, zernikeAnnularGrad_dx2, zernikeAnnularGrad_dy2,
          zernikeAnnularGrad_dxy]
        simp only [unitCoeff, ↓reduceIte, OfNat.ofNat_ne_zero, OfNat.ofNat_ne_one,
          Nat.reduceEqDiff, OfNat.zero_ne_ofNat, OfNat.one_ne_ofNat, one_ne_zero, zero_ne_one]
        simp only [zero_mul, mul_zero, zero_div, add_zero, zero_add, one_mul, one_pow, ne_eq,
          OfNat.ofNat_ne_zero, not_false_eq_true, zero_pow]
        simp only [a2, a4, a6, a8, a10, a12, a14, a16, g4, g6, g8, b1, b2, b3, b4, b5, b6, n6, b7,
          b8, n8, b9, n9, b10, b11]
        ring
      rw [key, s12]
      ring
    · rw [if_neg (by norm_num), one_mul]
      obtain ⟨⟨a2, a4, a6, a8, a10, a12, a14, a16, g4, g6, g8⟩,
        ⟨b1, b2, b3, b4, b5, b6, n6, b7, b8, n8, b9, n9, b10, b11⟩,
        ⟨s3, s5, s6, s7, s8, s10, s12⟩⟩ := hconsts
      generalize zernikeAnnularJacobianConst realMath e = kJ at *
      generalize zernikeAnnularGradConst realMath e = kG at *
      have key : zernikeAnnularGrad_dx2 kG (unitCoeff 16) x y
              * zernikeAnnularGrad_dy2 kG (unitCoeff 16) x y
            - zernikeAnnularGrad_dxy kG (unitCoeff 16) x y ^ 2
          = kG.sqrt_12 ^ 2 * (zernikeAnnularJacobian_2nd kJ (unitCoeff 16) x y / 12) := by
        simp only [zernikeAnnularJacobian_2nd, zernikeAnnularGrad_dx2, zernikeAnnularGrad_dy2,
          zernikeAnnularGrad_dxy]
        simp only [unitCoeff, ↓reduceIte, OfNat.ofNat_ne_zero, OfNat.ofNat_ne_one,
          Nat.reduceEqDiff, OfNat.zero_ne_ofNat, OfNat.one_ne_ofNat, one_ne_zero, zero_ne_one]
        simp only [zero_mul, mul_zero, zero_div, add_zero, zero_add, one_mul, one_pow, ne_eq,
          OfNat.ofNat_ne_zero, not_false_eq_true, zero_pow]
        simp only [a2, a4, a6, a8, a10, a12, a14, a16, g4, g6, g8, b1, b2, b3, b4, b5, b6, n6, b7,
          b8, n8, b9, n9, b10, b11]
        ring
      rw [key, s12]
      ring
    · rw [if_neg (by norm_num), one_mul]
      obtain ⟨⟨a2, a4, a6, a8, a10, a12, a14, a16, g4, g6, g8⟩,
        ⟨b1, b2, b3, b4, b5, b6, n6, b7, b8, n8, b9, n9, b10, b11⟩,
        ⟨s3, s5, s6, s7, s8, s10, s12⟩⟩ := hconsts
      generalize zernikeAnnularJacobianConst realMath e = kJ at *
      generalize zernikeAnnularGradConst realMath e = kG at *
      have key : zernikeAnnularGrad_dx2 kG (unitCoeff 17) x y
              * zernikeAnnularGrad_dy2 kG (unitCoeff 17) x y
            - zernikeAnnularGrad_dxy kG (unitCoeff 17) x y ^ 2
          = kG.sqrt_12 ^ 2 * (zernikeAnnularJacobian_2nd kJ (unitCoeff 17) x y / 12) := by
        simp only [zernikeAnnularJacobian_2nd, zernikeAnnularGrad_dx2, zernikeAnnularGrad_dy2,
          zernikeAnnularGrad_dxy]
        simp only [unitCoeff, ↓reduceIte, OfNat.ofNat_ne_zero, OfNat.ofNat_ne_one,
          Nat.reduceEqDiff, OfNat.zero_ne_ofNat, OfNat.one_ne_ofNat, one_ne_zero, zero_ne_one]
        simp only [zero_mul, mul_zero, zero_div, add_zero, zero_add, one_mul, one_pow, ne_eq,
          OfNat.ofNat_ne_zero, not_false_eq_true, zero_pow]
        simp only [a2, a4, a6, a8, a10, a12, a14, a16, g4, g6, g8, b1, b2, b3, b4, b5, b6, n6, b7,
          b8, n8, b9, n9, b10, b11]
        ring
      rw [key, s12]
      ring
    · rw [if_neg (by norm_num), one_mul]
      obtain ⟨⟨a2, a4, a6, a8, a10, a12, a14, a16, g4, g6, g8⟩,
        ⟨b1, b2, b3, b4, b5, b6, n6, b7, b8, n8, b9, n9, b10, b11⟩,
        ⟨s3, s5, s6, s7, s8, s10, s12⟩⟩ := hconsts
      generalize zernikeAnnularJacobianConst realMath e = kJ at *
      generalize zernikeAnnularGradConst realMath e = kG at *
      have key : zernikeAnnularGrad_dx2 kG (unitCoeff 18) x y
              * zernikeAnnularGrad_dy2 kG (unitCoeff 18) x y
            - zernikeAnnularGrad_dxy kG (unitCoeff 18) x y ^ 2
          = kG.sqrt_12 ^ 2 * (zernikeAnnularJacobian_2nd kJ (unitCoeff 18) x y / 12) := by
        simp only [zernikeAnnularJacobian_2nd, zernikeAnnularGrad_dx2, zernikeAnnularGrad_dy2,
          zernikeAnnularGrad_dxy]
        simp only [unitCoeff, ↓reduceIte, OfNat.ofNat_ne_zero, OfNat.ofNat_ne_one,
          Nat.reduceEqDiff, OfNat.zero_ne_ofNat, OfNat.one_ne_ofNat, one_ne_zero, zero_ne_one]
        simp only [zero_mul, mul_zero, zero_div, add_zero, zero_add, one_mul, one_pow, ne_eq,
          OfNat.ofNat_ne_zero, not_false_eq_true, zero_pow]
        simp only [a2, a4, a6, a8, a10, a12, a14, a16, g4, g6, g8, b1, b2, b3, b4, b5, b6, n6, b7,
          b8, n8, b9, n9, b10, b11]
        ring
      rw [key, s12]
      ring
    · rw [if_neg (by norm_num), one_mul]
      obtain ⟨⟨a2, a4, a6, a8, a10, a12, a14, a16, g4, g6, g8⟩,
        ⟨b1, b2, b3, b4, b5, b6, n6, b7, b8, n8, b9, n9, b10, b11⟩,
        ⟨s3, s5, s6, s7, s8, s10, s12⟩⟩ := hconsts
      generalize zernikeAnnularJacobianConst realMath e = kJ at *
      generalize zernikeAnnularGradConst realMath e = kG at *
      have key : zernikeAnnularGrad_dx2 kG (unitCoeff 19) x y
              * zernikeAnnularGrad_dy2 kG (unitCoeff 19) x y
            - zernikeAnnularGrad_dxy kG (unitCoeff 19) x y ^ 2
          = kG.sqrt_12 ^ 2 * (zernikeAnnularJacobian_2nd kJ (unitCoeff 19) x y / 12) := by
        simp only [zernikeAnnularJacobian_2nd, zernikeAnnularGrad_dx2, zernikeAnnularGrad_dy2,
          zernikeAnnularGrad_dxy]
        simp only [unitCoeff, ↓reduceIte, OfNat.ofNat_ne_zero, OfNat.ofNat_ne_one,
          Nat.reduceEqDiff, OfNat.zero_ne_ofNat, OfNat.one_ne_ofNat, one_ne_zero, zero_ne_one]
        simp only [zero_mul, mul_zero, zero_div, add_zero, zero_add, one_mul, one_pow, ne_eq,
          OfNat.ofNat_ne_zero, not_false_eq_true, zero_pow]
        simp only [a2, a4, a6, a8, a10, a12, a14, a16, g4, g6, g8, b1, b2, b3, b4, b5, b6, n6, b7,
          b8, n8, b9, n9, b10, b11]
        ring
      rw [key, s12]
      ring
    · rw [if_neg (by norm_num), one_mul]
      obtain ⟨⟨a2, a4, a6, a8, a10, a12, a14, a16, g4, g6, g8⟩,
        ⟨b1, b2, b3, b4, b5, b6, n6, b7, b8, n8, b9, n9, b10, b11⟩,
        ⟨s3, s5, s6, s7, s8, s10, s12⟩⟩ := hconsts
      generalize zernikeAnnularJacobianConst realMath e = kJ at *
      generalize zernikeAnnularGradConst realMath e = kG at *
      have key : zernikeAnnularGrad_dx2 kG (unitCoeff 20) x y
              * zernikeAnnularGrad_dy2 kG (unitCoeff 20) x y
            - zernikeAnnularGrad_dxy kG (unitCoeff 20) x y ^ 2
          = kG.sqrt_12 ^ 2 * (zernikeAnnularJacobian_2nd kJ (unitCoeff 20) x y / 12) := by
        simp only [zernikeAnnularJacobian_2nd, zernikeAnnularGrad_dx2, zernikeAnnularGrad_dy2,
          zernikeAnnularGrad_dxy]
        simp only [unitCoeff, ↓reduceIte, OfNat.ofNat_ne_zero, OfNat.ofNat_ne_one,
          Nat.reduceEqDiff, OfNat.zero_ne_ofNat, OfNat.one_ne_ofNat, one_ne_zero, zero_ne_one]
        simp only [zero_mul, mul_zero, zero_div, add_zero, zero_add, one_mul, one_pow, ne_eq,
          OfNat.ofNat_ne_zero, not_false_eq_true, zero_pow]
        simp only [a2, a4, a6, a8, a10, a12, a14, a16, g4, g6, g8, b1, b2, b3, b4, b5, b6, n6, b7,
          b8, n8, b9, n9, b10, b11]
        ring
      rw [key, s12]
      ring
    · rw [if_neg (by norm_num), one_mul]
      obtain ⟨⟨a2, a4, a6, a8, a10, a12, a14, a16, g4, g6, g8⟩,
        ⟨b1, b2, b3, b4, b5, b6, n6, b7, b8, n8, b9, n9, b10, b11⟩,
        ⟨s3, s5, s6, s7, s8, s10, s12⟩⟩ := hconsts
      generalize zernikeAnnularJacobianConst realMath e = kJ at *
      generalize zernikeAnnularGradConst realMath e = kG at *
      have key : zernikeAnnularGrad_dx2 kG (unitCoeff 21) x y
              * zernikeAnnularGrad_dy2 kG (unitCoeff 21) x y
            - zernikeAnnularGrad_dxy kG (unitCoeff 21) x y ^ 2
          = kG.sqrt_7 ^ 2 * (zernikeAnnularJacobian_2nd kJ (unitCoeff 21) x y / 7) := by
        simp only [zernikeAnnularJacobian_2nd, zernikeAnnularGrad_dx2, zernikeAnnularGrad_dy2,
          zernikeAnnularGrad_dxy]
        simp only [unitCoeff, ↓reduceIte, OfNat.ofNat_ne_zero, OfNat.ofNat_ne_one,
          Nat.reduceEqDiff, OfNat.zero_ne_ofNat, OfNat.one_ne_ofNat, one_ne_zero, zero_ne_one]
        simp only [zero_mul, mul_zero, zero_div, add_zero, zero_add, one_mul, one_pow, ne_eq,
          OfNat.ofNat_ne_zero, not_false_eq_true, zero_pow]
        simp only [a2, a4, a6, a8, a10, a12, a14, a16, g4, g6, g8, b1, b2, b3, b4, b5, b6, n6, b7,
          b8, n8, b9, n9, b10, b11]
        ring
      rw [key, s7]
      ring

/-- C27 (evaluation at the failing input): for the unit coefficient vector at mode 6,
`e = 1/2` and the point `(0, 1)`, `zernikeAnnularJacobian` with `atype == "2nd"` gives
`8192 / 11`, whereas the Hessian determinant `Dxx * Dyy - Dxy^2` of the values of
`zernikeAnnularGrad` is `10240 / 11`: the two differ by the factor `1 + e^2 = 5/4`. -/
theorem zernikeAnnularJacobian_2nd_mode6_divergence :
    zernikeAnnularJacobian_2nd (zernikeAnnularJacobianConst realMath (1 / 2)) (unitCoeff 6)
        0 1 = 8192 / 11
    ∧ zernikeAnnularGrad_dx2 (zernikeAnnularGradConst realMath (1 / 2)) (unitCoeff 6) 0 1
        * zernikeAnnularGrad_dy2 (zernikeAnnularGradConst realMath (1 / 2)) (unitCoeff 6) 0 1
      - zernikeAnnularGrad_dxy (zernikeAnnularGradConst realMath (1 / 2)) (unitCoeff 6) 0 1 ^ 2
      = 10240 / 11
    ∧ (8192 / 11 : ℝ) ≠ 10240 / 11 := by
  have hJ : zernikeAnnularJacobian_2nd (zernikeAnnularJacobianConst realMath (1 / 2))
      (unitCoeff 6) 0 1 = 8192 / 11 := by
    simp only [zernikeAnnularJacobian_2nd]
    simp only [unitCoeff, ↓reduceIte, OfNat.ofNat_ne_zero, OfNat.ofNat_ne_one,
      Nat.reduceEqDiff, OfNat.zero_ne_ofNat, OfNat.one_ne_ofNat, one_ne_zero, zero_ne_one]
    simp only [zernikeAnnularJacobianConst]
    norm_num
  refine ⟨hJ, ?_, by norm_num⟩
  rw [hessian_det_modes (1 / 2) 0 1 6 (by norm_num), if_pos (by norm_num), hJ]
  norm_num

/-- C28: for the unobscured pupil (`e = 0`) the value `zernikeAnnularJacobian` writes for
`atype == "2nd"` and the unit coefficient vector at any mode `k` in `0..27` is the Hessian
determinant `Dxx * Dyy - Dxy^2` of the values `zernikeAnnularGrad` writes for `"dx2"`,
`"dy2"`, `"dxy"` with the same coefficients, at every point. -/
theorem zernikeAnnularJacobian_2nd_hessian_unobscured (x y : ℝ) (k : ℕ) (hk : k < 28) :
    zernikeAnnularJacobian_2nd (zernikeAnnularJacobianConst realMath 0) (unitCoeff k) x y
      = zernikeAnnularGrad_dx2 (zernikeAnnularGradConst realMath 0) (unitCoeff k) x y
          * zernikeAnnularGrad_dy2 (zernikeAnnularGradConst realMath 0) (unitCoeff k) x y
        - zernikeAnnularGrad_dxy (zernikeAnnularGradConst realMath 0) (unitCoeff k) x y ^ 2 := by
  rw [hessian_det_modes 0 x y k hk]
  split <;> simp

/-- Witness for C28: mode 7 at the point `(1, 2)`. -/
theorem zernikeAnnularJacobian_2nd_hessian_unobscured_witness :
    zernikeAnnularJacobian_2nd (zernikeAnnularJacobianConst realMath 0) (unitCoeff 7) 1 2
      = zernikeAnnularGrad_dx2 (zernikeAnnularGradConst realMath 0) (unitCoeff 7) 1 2
          * zernikeAnnularGrad_dy2 (zernikeAnnularGradConst realMath 0) (unitCoeff 7) 1 2
        - zernikeAnnularGrad_dxy (zernikeAnnularGradConst realMath 0) (unitCoeff 7) 1 2 ^ 2 :=
  zernikeAnnularJacobian_2nd_hessian_unobscured 1 2 7 (by norm_num)

end HessianDeterminant

/-! ## C29: the classical Zernike polynomials at `e = 0` -/

section ClassicalZernike

set_option maxHeartbeats 4000000

/-- C29: at `e = 0` the value `zernikeAnnularEval` writes for a sample is the classical
Noll-ordered Zernike expansion: with `r = sqrt (x^2 + y^2)` and `t = atan2 y x` it is the sum
over `j = 1..28` of `Z[j-1]` times the classical Zernike polynomial `nollZernike j r t`. -/
theorem zernikeAnnularEval_classical_at_zero (Z : ℕ → ℝ) (x y : ℝ) :
    zernikeAnnularEvalPoint realMath (zernikeAnnularEvalConst realMath 0) Z x y
      = ∑ j in Finset.Icc 1 28, Z (j - 1)
          * nollZernike realMath j (realMath.sqrt (x ^ 2 + y ^ 2)) (realMath.atan2 y x) := by
  -- the classical radial polynomials of the orders that occur up to Noll index 28
  have hrad : ∀ r : ℝ,
      nollRadial 0 0 r = 1
      ∧ nollRadial 1 1 r = r
      ∧ nollRadial 2 0 r = 2 * r ^ 2 - 1
      ∧ nollRadial 2 2 r = r ^ 2
      ∧ nollRadial 3 1 r = 3 * r ^ 3 - 2 * r
      ∧ nollRadial 3 3 r = r ^ 3
      ∧ nollRadial 4 0 r = 6 * r ^ 4 - 6 * r ^ 2 + 1
      ∧ nollRadial 4 2 r = 4 * r ^ 4 - 3 * r ^ 2
      ∧ nollRadial 4 4 r = r ^ 4
      ∧ nollRadial 5 1 r = 10 * r ^ 5 - 12 * r ^ 3 + 3 * r
      ∧ nollRadial 5 3 r = 5 * r ^ 5 - 4 * r ^ 3
      ∧ nollRadial 5 5 r = r ^ 5
      ∧ nollRadial 6 0 r = 20 * r ^ 6 - 30 * r ^ 4 + 12 * r ^ 2 - 1
      ∧ nollRadial 6 2 r = 15 * r ^ 6 - 20 * r ^ 4 + 6 * r ^ 2
      ∧ nollRadial 6 4 r = 6 * r ^ 6 - 5 * r ^ 4
      ∧ nollRadial 6 6 r = r ^ 6 := by
    intro r
    refine ⟨?_, ?_, ?_, ?_, ?_, ?_, ?_, ?_, ?_, ?_, ?_, ?_, ?_, ?_, ?_, ?_⟩ <;>
      norm_num [nollRadial, List.range_succ, Nat.factorial] <;> ring
  -- the classical Zernike polynomials of Noll index 1 to 28, written out
  have hnoll : ∀ r t : ℝ,
      nollZernike realMath 1 r t = 1 * 1 * 1
      ∧ nollZernike realMath 2 r t = Real.sqrt 2 * r * (Real.sqrt 2 * Real.cos t)
      ∧ nollZernike realMath 3 r t = Real.sqrt 2 * r * (Real.sqrt 2 * Real.sin t)
      ∧ nollZernike realMath 4 r t = Real.sqrt 3 * (2 * r ^ 2 - 1) * 1
      ∧ nollZernike realMath 5 r t = Real.sqrt 3 * r ^ 2 * (Real.sqrt 2 * Real.sin (2 * t))
      ∧ nollZernike realMath 6 r t = Real.sqrt 3 * r ^ 2 * (Real.sqrt 2 * Real.cos (2 * t))
      ∧ nollZernike realMath 7 r t = 2 * (3 * r ^ 3 - 2 * r) * (Real.sqrt 2 * Real.sin t)
      ∧ nollZernike realMath 8 r t = 2 * (3 * r ^ 3 - 2 * r) * (Real.sqrt 2 * Real.cos t)
      ∧ nollZernike realMath 9 r t = 2 * r ^ 3 * (Real.sqrt 2 * Real.sin (3 * t))
      ∧ nollZernike realMath 10 r t = 2 * r ^ 3 * (Real.sqrt 2 * Real.cos (3 * t))
      ∧ nollZernike realMath 11 r t = Real.sqrt 5 * (6 * r ^ 4 - 6 * r ^ 2 + 1) * 1
      ∧ nollZernike realMath 12 r t = Real.sqrt 5 * (4 * r ^ 4 - 3 * r ^ 2)
          * (Real.sqrt 2 * Real.cos (2 * t))
      ∧ nollZernike realMath 13 r t = Real.sqrt 5 * (4 * r ^ 4 - 3 * r ^ 2)
          * (Real.sqrt 2 * Real.sin (2 * t))
      ∧ nollZernike realMath 14 r t = Real.sqrt 5 * r ^ 4 * (Real.sqrt 2 * Real.cos (4 * t))
      ∧ nollZernike realMath 15 r t = Real.sqrt 5 * r ^ 4 * (Real.sqrt 2 * Real.sin (4 * t))
      ∧ nollZernike realMath 16 r t = Real.sqrt 6 * (10 * r ^ 5 - 12 * r ^ 3 + 3 * r)
          * (Real.sqrt 2 * Real.cos t)
      ∧ nollZernike realMath 17 r t = Real.sqrt 6 * (10 * r ^ 5 - 12 * r ^ 3 + 3 * r)
          * (Real.sqrt 2 * Real.sin t)
      ∧ nollZernike realMath 18 r t = Real.sqrt 6 * (5 * r ^ 5 - 4 * r ^ 3)
          * (Real.sqrt 2 * Real.cos (3 * t))
      ∧ nollZernike realMath 19 r t = Real.sqrt 6 * (5 * r ^ 5 - 4 * r ^ 3)
          * (Real.sqrt 2 * Real.sin (3 * t))
      ∧ nollZernike realMath 20 r t = Real.sqrt 6 * r ^ 5 * (Real.sqrt 2 * Real.cos (5 * t))
      ∧ nollZernike realMath 21 r t = Real.sqrt 6 * r ^ 5 * (Real.sqrt 2 * Real.sin (5 * t))
      ∧ nollZernike realMath 22 r t = Real.sqrt 7 * (20 * r ^ 6 - 30 * r ^ 4 + 12 * r ^ 2 - 1) * 1
      ∧ nollZernike realMath 23 r t = Real.sqrt 7 * (15 * r ^ 6 - 20 * r ^ 4 + 6 * r ^ 2)
          * (Real.sqrt 2 * Real.sin (2 * t))
      ∧ nollZernike realMath 24 r t = Real.sqrt 7 * (15 * r ^ 6 - 20 * r ^ 4 + 6 * r ^ 2)
          * (Real.sqrt 2 * Real.cos (2 * t))
      ∧ nollZernike realMath 25 r t = Real.sqrt 7 * (6 * r ^ 6 - 5 * r ^ 4)
          * (Real.sqrt 2 * Real.sin (4 * t))
      ∧ nollZernike realMath 26 r t = Real.sqrt 7 * (6 * r ^ 6 - 5 * r ^ 4)
          * (Real.sqrt 2 * Real.cos (4 * t))
      ∧ nollZernike realMath 27 r t = Real.sqrt 7 * r ^ 6 * (Real.sqrt 2 * Real.sin (6 * t))
      ∧ nollZernike realMath 28 r t = Real.sqrt 7 * r ^ 6 * (Real.sqrt 2 * Real.cos (6 * t)) := by
    intro r t
    obtain ⟨r00, r11, r20, r22, r31, r33, r40, r42, r44, r51, r53, r55, r60, r62, r64, r66⟩
      := hrad r
    have h1 : Real.sqrt ((0 : ℝ) + 1) = 1 := by norm_num
    have h2 : Real.sqrt ((1 : ℝ) + 1) = Real.sqrt 2 := by norm_num
    have h3 : Real.sqrt ((2 : ℝ) + 1) = Real.sqrt 3 := by norm_num
    have h4 : Real.sqrt ((3 : ℝ) + 1) = 2 := by
      rw [show ((3 : ℝ) + 1) = 2 ^ 2 by norm_num, Real.sqrt_sq (by norm_num)]
    have h5 : Real.sqrt ((4 : ℝ) + 1) = Real.sqrt 5 := by norm_num
    have h6 : Real.sqrt ((5 : ℝ) + 1) = Real.sqrt 6 := by norm_num
    have h7 : Real.sqrt ((6 : ℝ) + 1) = Real.sqrt 7 := by norm_num
    refine ⟨?_, ?_, ?_, ?_, ?_, ?_, ?_, ?_, ?_, ?_, ?_, ?_, ?_, ?_, ?_, ?_, ?_, ?_, ?_, ?_, ?_, ?_,
      ?_, ?_, ?_, ?_, ?_, ?_⟩ <;>
      simp only [nollZernike, nollOrder, realMath, ↓reduceIte, OfNat.ofNat_ne_zero,
        OfNat.ofNat_ne_one, Nat.reduceEqDiff, OfNat.zero_ne_ofNat, OfNat.one_ne_ofNat,
        one_ne_zero, zero_ne_one, Nat.reduceMod, h1, h2, h3, h4, h5, h6, h7,
        r00, r11, r20, r22, r31, r33, r40, r42, r44, r51, r53, r55, r60, r62, r64, r66,
        Nat.cast_ofNat, Nat.cast_one, Nat.cast_zero, one_mul]
  -- the constants of the source for the unobscured pupil
  have hconst :
      ((zernikeAnnularEvalConst realMath 0).e2 = 0
        ∧ (zernikeAnnularEvalConst realMath 0).e4 = 0
        ∧ (zernikeAnnularEvalConst realMath 0).e6 = 0
        ∧ (zernikeAnnularEvalConst realMath 0).e8 = 0)
      ∧ ((zernikeAnnularEvalConst realMath 0).den1 = 1
        ∧ (zernikeAnnularEvalConst realMath 0).den2 = 1
        ∧ (zernikeAnnularEvalConst realMath 0).den3 = 1
        ∧ (zernikeAnnularEvalConst realMath 0).den4 = 1
        ∧ (zernikeAnnularEvalConst realMath 0).den5 = 1
        ∧ (zernikeAnnularEvalConst realMath 0).den6 = 1
        ∧ (zernikeAnnularEvalConst realMath 0).den7 = 1
        ∧ (zernikeAnnularEvalConst realMath 0).den8 = 1
        ∧ (zernikeAnnularEvalConst realMath 0).den9 = 1
        ∧ (zernikeAnnularEvalConst realMath 0).den10 = 1
        ∧ (zernikeAnnularEvalConst realMath 0).den11 = 1
        ∧ (zernikeAnnularEvalConst realMath 0).den12 = 1
        ∧ (zernikeAnnularEvalConst realMath 0).den13 = 1
        ∧ (zernikeAnnularEvalConst realMath 0).den14 = 1)
      ∧ ((zernikeAnnularEvalConst realMath 0).num7 = 1
        ∧ (zernikeAnnularEvalConst realMath 0).num9E = 1
        ∧ (zernikeAnnularEvalConst realMath 0).num10E = 1
        ∧ (zernikeAnnularEvalConst realMath 0).num11a = 15
        ∧ (zernikeAnnularEvalConst realMath 0).num11b = -20
        ∧ (zernikeAnnularEvalConst realMath 0).num11c = 6
        ∧ (zernikeAnnularEvalConst realMath 0).num12 = -5
        ∧ (zernikeAnnularEvalConst realMath 0).num13 = 1)
      ∧ ((zernikeAnnularEvalConst realMath 0).sqrt_3 = Real.sqrt 3
        ∧ (zernikeAnnularEvalConst realMath 0).sqrt_5 = Real.sqrt 5
        ∧ (zernikeAnnularEvalConst realMath 0).sqrt_6 = Real.sqrt 3 * Real.sqrt 2
        ∧ (zernikeAnnularEvalConst realMath 0).sqrt_7 = Real.sqrt 7
        ∧ (zernikeAnnularEvalConst realMath 0).sqrt_8 = 2 * Real.sqrt 2
        ∧ (zernikeAnnularEvalConst realMath 0).sqrt_10 = Real.sqrt 5 * Real.sqrt 2
        ∧ (zernikeAnnularEvalConst realMath 0).sqrt_12 = Real.sqrt 6 * Real.sqrt 2
        ∧ (zernikeAnnularEvalConst realMath 0).sqrt_14 = Real.sqrt 7 * Real.sqrt 2) := by
    have hmul : ∀ a b : ℝ, 0 ≤ a → Real.sqrt (a * b) = Real.sqrt a * Real.sqrt b :=
      fun a b ha => Real.sqrt_mul ha b
    have h4 : Real.sqrt 4 = 2 := by
      rw [show (4 : ℝ) = 2 ^ 2 by norm_num, Real.sqrt_sq (by norm_num)]
    refine ⟨⟨?_, ?_, ?_, ?_⟩, ⟨?_, ?_, ?_, ?_, ?_, ?_, ?_, ?_, ?_, ?_, ?_, ?_, ?_, ?_⟩,
      ⟨?_, ?_, ?_, ?_, ?_, ?_, ?_, ?_⟩, ⟨rfl, rfl, ?_, rfl, ?_, ?_, ?_, ?_⟩⟩
    all_goals simp only [zernikeAnnularEvalConst, realMath]
    all_goals first
      | (norm_num; done)
      | (rw [show (6 : ℝ) = 3 * 2 by norm_num]; exact hmul 3 2 (by norm_num))
      | (rw [show (8 : ℝ) = 4 * 2 by norm_num, hmul 4 2 (by norm_num), h4])
      | (rw [show (10 : ℝ) = 5 * 2 by norm_num]; exact hmul 5 2 (by norm_num))
      | (rw [show (12 : ℝ) = 6 * 2 by norm_num]; exact hmul 6 2 (by norm_num))
      | (rw [show (14 : ℝ) = 7 * 2 by norm_num]; exact hmul 7 2 (by norm_num))
  obtain ⟨⟨e2, e4, e6, e8⟩, ⟨d1, d2, d3, d4, d5, d6, d7, d8, d9, d10, d11, d12, d13, d14⟩,
    ⟨m7, m9, m10, m11a, m11b, m11c, m12, m13⟩, ⟨s3, s5, s6, s7, s8, s10, s12, s14⟩⟩
    := hconst
  obtain ⟨n1, n2, n3, n4, n5, n6, n7, n8, n9, n10, n11, n12, n13, n14,
    n15, n16, n17, n18, n19, n20, n21, n22, n23, n24, n25, n26, n27, n28⟩
    := hnoll (realMath.sqrt (x ^ 2 + y ^ 2)) (realMath.atan2 y x)
  clear hrad hnoll
  have hIcc : Finset.Icc 1 28 = Finset.Ico 1 29 := by
    ext j
    simp only [Finset.mem_Icc, Finset.mem_Ico]
    omega
  have hs2 : Real.sqrt 2 ^ 2 = 2 := Real.sq_sqrt (by norm_num)
  have hr : x ^ 2 + y ^ 2 = Real.sqrt (x ^ 2 + y ^ 2) ^ 2 :=
    (Real.sq_sqrt (by positivity)).symm
  generalize zernikeAnnularEvalConst realMath 0 = k at *
  rw [hIcc, Finset.sum_Ico_eq_sum_range]
  simp only [Finset.sum_range_succ, Finset.sum_range_zero, Nat.reduceAdd, Nat.reduceSub,
    add_zero, zero_add, n1, n2, n3, n4, n5, n6, n7, n8, n9, n10, n11, n12, n13, n14,
    n15, n16, n17, n18, n19, n20, n21, n22, n23, n24, n25, n26, n27, n28]
  simp only [zernikeAnnularEvalPoint, e2, e4, e6, e8, d1, d2, d3, d4, d5, d6, d7, d8, d9, d10,
    d11, d12, d13, d14, m7, m9, m10, m11a, m11b, m11c, m12, m13, s3, s5, s6, s7, s8, s10, s12,
    s14]
  simp only [realMath] at hr ⊢
  generalize Real.sqrt (x ^ 2 + y ^ 2) = r at hr ⊢
  generalize x ^ 2 + y ^ 2 = q at hr ⊢
  subst hr
  linear_combination (-(Z 1 * r * Real.cos (Complex.arg ⟨x, y⟩)
    + Z 2 * r * Real.sin (Complex.arg ⟨x, y⟩))) * hs2

end ClassicalZernike

/-! ## C31: the surface at the origin -/

/-- C31: at the origin only the modes without angular factor contribute to the surface.  In
exact real arithmetic `atan2 0 0 = 0`, and for every coefficient vector `Z` and every `e` the
value `zernikeAnnularEval` writes for the sample `(0, 0)` is
`Z[0] - Z[3] √3 (1 + e^2) / (1 - e^2) + Z[10] √5 (1 + 4 e^2 + e^4) / (1 - e^2)^2
- Z[21] √7 (1 + 9 e^2 + 9 e^4 + e^6) / (1 - e^2)^3`; in particular the value for the unit
coefficient vector at a mode `k` other than 0, 3, 10, 21 is zero. -/
theorem zernikeAnnularEval_at_origin (e : ℝ) (Z : ℕ → ℝ) :
    realMath.atan2 0 0 = 0
    ∧ zernikeAnnularEvalPoint realMath (zernikeAnnularEvalConst realMath e) Z 0 0
      = Z 0 - Z 3 * Real.sqrt 3 * (1 + e ^ 2) / (1 - e ^ 2)
        + Z 10 * Real.sqrt 5 * (1 + 4 * e ^ 2 + e ^ 4) / (1 - e ^ 2) ^ 2
        - Z 21 * Real.sqrt 7 * (1 + 9 * e ^ 2 + 9 * e ^ 4 + e ^ 6) / (1 - e ^ 2) ^ 3
    ∧ ∀ k : ℕ,
        zernikeAnnularEvalPoint realMath (zernikeAnnularEvalConst realMath e) (unitCoeff k) 0 0
          = if k = 0 then 1
            else if k = 3 then -(Real.sqrt 3 * (1 + e ^ 2) / (1 - e ^ 2))
            else if k = 10 then Real.sqrt 5 * (1 + 4 * e ^ 2 + e ^ 4) / (1 - e ^ 2) ^ 2
            else if k = 21 then
              -(Real.sqrt 7 * (1 + 9 * e ^ 2 + 9 * e ^ 4 + e ^ 6) / (1 - e ^ 2) ^ 3)
            else 0 := by
  -- the value at the origin in terms of the constants of the source
  have hgen : ∀ (c : EvalConst ℝ) (W : ℕ → ℝ),
      zernikeAnnularEvalPoint realMath c W 0 0
        = W 0 + W 3 * c.sqrt_3 * (-1 - c.e2) / c.den2
          + W 10 * c.sqrt_5 * (1 + c.e4 + c.e2 * 4) / c.den6
          + W 21 * c.sqrt_7 * (-1 - c.e6 + 3 * c.e4 * (-3) - 3 * c.e2 * 3) / c.den12 := by
    intro c W
    rw [zernikeAnnularEvalPoint_eq_cartesian]
    simp only [zernikeAnnularCartesian]
    ring
  -- the constants that occur, as functions of `e`
  have hc : (zernikeAnnularEvalConst realMath e).sqrt_3 = Real.sqrt 3
      ∧ (zernikeAnnularEvalConst realMath e).sqrt_5 = Real.sqrt 5
      ∧ (zernikeAnnularEvalConst realMath e).sqrt_7 = Real.sqrt 7
      ∧ (zernikeAnnularEvalConst realMath e).e2 = e ^ 2
      ∧ (zernikeAnnularEvalConst realMath e).e4 = e ^ 2 * e ^ 2
      ∧ (zernikeAnnularEvalConst realMath e).e6 = e ^ 2 * e ^ 2 * e ^ 2
      ∧ (zernikeAnnularEvalConst realMath e).den2 = 1 - e ^ 2
      ∧ (zernikeAnnularEvalConst realMath e).den6 = (1 - e ^ 2) ^ 2
      ∧ (zernikeAnnularEvalConst realMath e).den12 = (1 - e ^ 2) ^ 3 :=
    ⟨rfl, rfl, rfl, rfl, rfl, rfl, rfl, rfl, rfl⟩
  obtain ⟨c3, c5, c7, c2, c4, c6, d2, d6, d12⟩ := hc
  have hval : ∀ W : ℕ → ℝ,
      zernikeAnnularEvalPoint realMath (zernikeAnnularEvalConst realMath e) W 0 0
        = W 0 - W 3 * Real.sqrt 3 * (1 + e ^ 2) / (1 - e ^ 2)
          + W 10 * Real.sqrt 5 * (1 + 4 * e ^ 2 + e ^ 4) / (1 - e ^ 2) ^ 2
          - W 21 * Real.sqrt 7 * (1 + 9 * e ^ 2 + 9 * e ^ 4 + e ^ 6) / (1 - e ^ 2) ^ 3 := by
    intro W
    rw [hgen, c3, c5, c7, c2, c4, c6, d2, d6, d12]
    ring
  refine ⟨?_, hval Z, ?_⟩
  · simp only [realMath]
    exact Complex.arg_zero
  · intro k
    rw [hval]
    by_cases h0 : k = 0
    · subst h0
      simp [unitCoeff]
    by_cases h3 : k = 3
    · subst h3
      simp [unitCoeff]
    by_cases h10 : k = 10
    · subst h10
      simp [unitCoeff]
    by_cases h21 : k = 21
    · subst h21
      simp [unitCoeff]
    have n0 : ¬ 0 = k := fun h => h0 h.symm
    have n3 : ¬ 3 = k := fun h => h3 h.symm
    have n10 : ¬ 10 = k := fun h => h10 h.symm
    have n21 : ¬ 21 = k := fun h => h21 h.symm
    simp [unitCoeff, h0, h3, h10, h21, n0, n3, n10, n21]

/-! ## C32: the obscuration enters through its square only -/

/-- C32: the three Zernike operations depend on the obscuration through `e^2` only: for all
arrays, every `e` and every token, `zernikeAnnularEval`, `zernikeAnnularJacobian` and
`zernikeAnnularGrad` return for `-e` what they return for `e`, and so they do for `|e|`; a
negative obscuration is accepted without an error and treated as its absolute value. -/
theorem zernike_obscuration_sign (fresh : ℕ → ℝ) (arrayZk arrayX arrayY : PyArray ℝ) (e : ℝ)
    (token : String) :
    (zernikeAnnularEval realMath arrayZk arrayX arrayY (-e)
        = zernikeAnnularEval realMath arrayZk arrayX arrayY e
      ∧ zernikeAnnularJacobian realMath fresh arrayZk arrayX arrayY (-e) token
        = zernikeAnnularJacobian realMath fresh arrayZk arrayX arrayY e token
      ∧ zernikeAnnularGrad realMath fresh arrayZk arrayX arrayY (-e) token
        = zernikeAnnularGrad realMath fresh arrayZk arrayX arrayY e token)
    ∧ (zernikeAnnularEval realMath arrayZk arrayX arrayY |e|
        = zernikeAnnularEval realMath arrayZk arrayX arrayY e
      ∧ zernikeAnnularJacobian realMath fresh arrayZk arrayX arrayY |e| token
        = zernikeAnnularJacobian realMath fresh arrayZk arrayX arrayY e token
      ∧ zernikeAnnularGrad realMath fresh arrayZk arrayX arrayY |e| token
        = zernikeAnnularGrad realMath fresh arrayZk arrayX arrayY e token) := by
  -- the blocks of constants read `e` in `pow(e, 2)` only
  have hconst : ∀ a b : ℝ, a ^ 2 = b ^ 2 →
      zernikeAnnularEvalConst realMath a = zernikeAnnularEvalConst realMath b
      ∧ zernikeAnnularJacobianConst realMath a = zernikeAnnularJacobianConst realMath b
      ∧ zernikeAnnularGradConst realMath a = zernikeAnnularGradConst realMath b := by
    intro a b h
    refine ⟨?_, ?_, ?_⟩
    · simp only [zernikeAnnularEvalConst, h]
    · simp only [zernikeAnnularJacobianConst, h]
    · simp only [zernikeAnnularGradConst, h]
  obtain ⟨n1, n2, n3⟩ := hconst (-e) e (neg_sq e)
  obtain ⟨a1, a2, a3⟩ := hconst |e| e (sq_abs e)
  refine ⟨⟨?_, ?_, ?_⟩, ⟨?_, ?_, ?_⟩⟩
  · simp only [zernikeAnnularEval, n1]
  · simp only [zernikeAnnularJacobian, n2]
  · simp only [zernikeAnnularGrad, n3]
  · simp only [zernikeAnnularEval, a1]
  · simp only [zernikeAnnularJacobian, a2]
  · simp only [zernikeAnnularGrad, a3]

end MathCwfs
